import Mathlib

/-!
# Server-side TLS extension processing (ssl/statem/extensions_srvr.c)

A shallow embedding of the key-share negotiator, of the stateless
HelloRetryRequest cookie and of the parsers and constructors of the
renegotiation_info, server_name, max_fragment_length, status_request, ALPN,
use_srtp, encrypt_then_mac, extended_master_secret, early_data,
psk_key_exchange_modes, pre_shared_key, supported_groups and certificate type
extensions, followed by theorems about them.

Conventions.
* A byte string is a `List Nat`; the big-endian readers and writers treat each
  element as one octet.
* A C function `int f(SSL_CONNECTION *s, ...)` becomes a Lean function that
  returns the C return value together with the connection after the call.
* `SSLfatal` stages the alert in the connection (field `fatal`).
* Functions of the library that live outside extensions_srvr.c (policy
  predicates, key decoding, HMAC, callbacks, ticket decryption, the binder
  check, the ASN.1 decoders, the clock) are fields of `Env`, `KexEnv`,
  `PskEnv` and `OcspEnv`.
* `none` as a result stands for a call that does not return.
-/

set_option autoImplicit false

/-! ## Alerts and error reasons -/

/-- Alert descriptions used by the extension code. -/
inductive Alert where
  | SSL_AD_DECODE_ERROR
  | SSL_AD_HANDSHAKE_FAILURE
  | SSL_AD_ILLEGAL_PARAMETER
  | SSL_AD_INTERNAL_ERROR
  | SSL_AD_MISSING_EXTENSION
  | SSL_AD_UNRECOGNIZED_NAME
  | SSL_AD_UNSUPPORTED_CERTIFICATE
  deriving DecidableEq, Repr

/-- Reason codes passed to SSLfatal by the extension code. -/
inductive Reason where
  | ERR_R_CRYPTO_LIB
  | ERR_R_EC_LIB
  | ERR_R_EVP_LIB
  | ERR_R_INTERNAL_ERROR
  | ERR_R_SSL_LIB
  | SSL_R_BAD_CIPHER
  | SSL_R_BAD_ECPOINT
  | SSL_R_BAD_EXTENSION
  | SSL_R_BAD_KEY_SHARE
  | SSL_R_BAD_PROTOCOL_VERSION_NUMBER
  | SSL_R_BAD_SRTP_MKI_VALUE
  | SSL_R_BAD_SRTP_PROTECTION_PROFILE_LIST
  | SSL_R_BINDER_DOES_NOT_VERIFY
  | SSL_R_COOKIE_GEN_CALLBACK_FAILURE
  | SSL_R_COOKIE_MISMATCH
  | SSL_R_LENGTH_MISMATCH
  | SSL_R_MISSING_SUPPORTED_GROUPS_EXTENSION
  | SSL_R_NO_COOKIE_CALLBACK_SET
  | SSL_R_POST_HANDSHAKE_AUTH_ENCODING_ERR
  | SSL_R_RENEGOTIATION_ENCODING_ERR
  | SSL_R_RENEGOTIATION_MISMATCH
  | SSL_R_SSL3_EXT_INVALID_MAX_FRAGMENT_LENGTH
  | SSL_R_UNABLE_TO_FIND_ECDH_PARAMETERS
  deriving DecidableEq, Repr

/-! ## Constants -/

/-- The COOKIE_STATE_FORMAT_VERSION of extensions_srvr.c, line 16: the only
cookie format. -/
def COOKIE_STATE_FORMAT_VERSION : Nat := 1

/-! ## Constants from headers outside extensions_srvr.c -/

/-- Modelled from the spec: TLS1_3_VERSION, the wire value 0x0304 (tls1.h). -/
def TLS1_3_VERSION : Nat := 0x0304

/-- Modelled from the spec: TLS1_2_VERSION, the legacy version 0x0303 (tls1.h). -/
def TLS1_2_VERSION : Nat := 0x0303

/-- Modelled from the spec: SHA256_DIGEST_LENGTH, the 32-byte MAC length (sha.h). -/
def SHA256_DIGEST_LENGTH : Nat := 32

/-- Modelled from the spec: EVP_MAX_MD_SIZE, longest transcript hash (evp.h). -/
def EVP_MAX_MD_SIZE : Nat := 64

/-- Modelled from the spec: SSL_COOKIE_LENGTH, the size of the application
cookie buffer handed to the gen_cookie callback (ssl.h). -/
def SSL_COOKIE_LENGTH : Nat := 4096

/-- Modelled from the spec: SSL3_RANDOM_SIZE (ssl3.h). -/
def SSL3_RANDOM_SIZE : Nat := 32

/-- Modelled from the spec: SSL_MAX_SSL_SESSION_ID_LENGTH (ssl.h). -/
def SSL_MAX_SSL_SESSION_ID_LENGTH : Nat := 32

/-- Modelled from the spec: SSL3_HM_HEADER_LENGTH, message type and u24 length (ssl3.h). -/
def SSL3_HM_HEADER_LENGTH : Nat := 4

/-- Modelled from the spec: SSL3_MT_SERVER_HELLO, handshake message type 2 (ssl3.h). -/
def SSL3_MT_SERVER_HELLO : Nat := 2

/-- Modelled from the spec: IANA extension number of supported_versions (tls1.h). -/
def TLSEXT_TYPE_supported_versions : Nat := 43

/-- Modelled from the spec: IANA extension number of key_share (tls1.h). -/
def TLSEXT_TYPE_key_share : Nat := 51

/-- Modelled from the spec: IANA extension number of cookie (tls1.h). -/
def TLSEXT_TYPE_cookie : Nat := 44

/-- Modelled from the spec: the PSK-with-(EC)DHE bit of psk_kex_mode (ssl_local.h). -/
def TLSEXT_KEX_MODE_FLAG_KE_DHE : Nat := 2

/-- Modelled from the spec: the PSK-only bit of psk_kex_mode (ssl_local.h). -/
def TLSEXT_KEX_MODE_FLAG_KE : Nat := 1

/-- Modelled from the spec: the server-preference option bit (ssl.h, bit 22). -/
def SSL_OP_SERVER_PREFERENCE : Nat := 4194304

/-- Modelled from the spec: the stateless-HRR bit of s3.flags (tls1.h). -/
def TLS1_FLAGS_STATELESS : Nat := 0x0800

/-- Modelled from the spec: security operation "curve supported" (ssl.h). -/
def SSL_SECOP_CURVE_SUPPORTED : Nat := 0x20004

/-- Modelled from the spec: security operation "curve check" (ssl.h). -/
def SSL_SECOP_CURVE_CHECK : Nat := 0x20006

/-- The MAX_COOKIE_SIZE bound of extensions_srvr.c, lines 25-26. -/
def MAX_COOKIE_SIZE : Nat :=
  2 + 2 + 2 + 2 + 2 + 1 + 8 + 2 + EVP_MAX_MD_SIZE + 1 + SSL_COOKIE_LENGTH + SHA256_DIGEST_LENGTH

/-- The MAX_HRR_SIZE bound of extensions_srvr.c, lines 35-37. -/
def MAX_HRR_SIZE : Nat :=
  SSL3_HM_HEADER_LENGTH + 2 + SSL3_RANDOM_SIZE + 1 + SSL_MAX_SSL_SESSION_ID_LENGTH + 2 + 1 + 2 + 6 + 4
    + MAX_COOKIE_SIZE

/-! ## Connection state -/

/-- The peer's ephemeral key: the group whose parameters were generated and,
once decoding succeeded, the encoded public key that was installed. -/
structure EVP_PKEY where
  group_id : Nat := 0
  encoded_pub_key : Option (List Nat) := none
  deriving DecidableEq, Repr

/-- A cipher suite: its two-byte wire id and the algorithm masks of its table
entry that the extension code reads. -/
structure SSL_CIPHER where
  id : Nat := 0
  algorithm_enc : Nat := 0
  algorithm_mac : Nat := 0
  algorithm2 : Nat := 0
  deriving DecidableEq, Repr

/-- The hello_retry_request phase of a connection. -/
inductive HRR_STATE where
  | SSL_HRR_NONE
  | SSL_HRR_PENDING
  | SSL_HRR_COMPLETE
  deriving DecidableEq, Repr

/-- The part of s->s3.tmp read and written by the extension code: the chosen
cipher, the lengths of our and the peer's Finished digests of the previous
handshake, and the server's ephemeral key. -/
structure S3_TMP where
  new_cipher : Option SSL_CIPHER := none
  finish_md_len : Nat := 0
  peer_finish_md_len : Nat := 0
  pkey : Option EVP_PKEY := none
  deriving DecidableEq, Repr

/-- The part of s->s3 read and written by the extension code. The buffer
previous_client_finished holds the client's Finished of the previous
handshake in its first previous_client_finished_len bytes. alpn_proposed is
none for a NULL pointer; alpn_proposed_len is the length of the list. -/
structure S3_STATE where
  group_id : Nat := 0
  group_id_candidate : Nat := 0
  peer_tmp : Option EVP_PKEY := none
  flags : Nat := 0
  tmp : S3_TMP := {}
  previous_client_finished : List Nat := []
  previous_client_finished_len : Nat := 0
  send_connection_binding : Nat := 0
  alpn_proposed : Option (List Nat) := none
  did_kex : Nat := 0
  deriving DecidableEq, Repr

/-- The part of session->ext used by the extension code. A host name is a C
string, held as the bytes before its terminator; none is the NULL pointer. A
new session starts with max_fragment_len_mode unspecified (255). -/
structure SSL_SESSION_EXT where
  hostname : Option (List Nat) := none
  max_fragment_len_mode : Nat := 255
  tick_age_add : Nat := 0
  deriving DecidableEq, Repr

/-- The part of the SSL_SESSION read and written by the extension code. time
and timeout are OSSL_TIME values, counted in nanoseconds. -/
structure SSL_SESSION where
  kex_group : Nat := 0
  ext : SSL_SESSION_EXT := {}
  cipher : Option SSL_CIPHER := none
  ssl_version : Nat := 0
  master_key : List Nat := []
  session_id : List Nat := []
  sid_ctx : List Nat := []
  time : Nat := 0
  timeout : Nat := 0
  deriving DecidableEq, Repr

/-- A decoded OCSP responder id (OCSP_RESPID), as d2i_OCSP_RESPID returns it. -/
structure OCSP_RESPID where
  value : List Nat := []
  deriving DecidableEq, Repr

/-- A decoded stack of X.509 extensions (X509_EXTENSIONS), as
d2i_X509_EXTENSIONS returns it. -/
structure X509_EXTENSIONS where
  value : List Nat := []
  deriving DecidableEq, Repr

/-- The OCSP request state s->ext.ocsp: the responder ids and the request
extensions of the client's status_request, none for NULL. -/
structure OCSP_STATE where
  ids : Option (List OCSP_RESPID) := none
  exts : Option X509_EXTENSIONS := none
  deriving DecidableEq, Repr

/-- The part of s->ext used by the extension code. The server's own group list
and its tuple sizes are what tls1_get_supported_groups and
tls1_get_group_tuples return; peer_supportedgroups is what tls1_get_peer_groups
returns. hostname is the host name requested by the peer, a C string held as
the bytes before its terminator. status_type is a signed int. -/
structure EXT_STATE where
  psk_kex_mode : Nat := 0
  cookieok : Nat := 0
  peer_supportedgroups : List Nat := []
  supportedgroups : List Nat := []
  tuples : List Nat := []
  cookie_hmac_key : List Nat := []
  hostname : Option (List Nat) := none
  use_etm : Nat := 0
  early_data : Nat := 0
  early_data_ok : Nat := 0
  ticket_expected : Nat := 0
  tick_identity : Nat := 0
  client_cert_type_ctos : Nat := 0
  client_cert_type : Nat := 0
  server_cert_type_ctos : Nat := 0
  server_cert_type : Nat := 0
  status_type : Int := 0
  ocsp : OCSP_STATE := {}
  deriving DecidableEq, Repr

/-- The part of the SSL_METHOD that the version macros read: the method's
protocol version and the enc_flags of its ssl3_enc table. -/
structure SSL_METHOD where
  version : Nat := 0
  enc_flags : Nat := 0
  deriving DecidableEq, Repr

/-- An SRTP protection profile of the server: its name and its wire id. -/
structure SRTP_PROTECTION_PROFILE where
  name : List Nat := []
  id : Nat := 0
  deriving DecidableEq, Repr

/-- The part of the SSL_CTX behind s->session_ctx that the PSK code reaches:
the sessions of the internal session cache. -/
structure SSL_CTX where
  sessions : List SSL_SESSION := []
  deriving DecidableEq, Repr

/-- The connection (SSL_CONNECTION) as far as the modelled functions touch it.
The field fatal holds the alert and reason staged by the last SSLfatal. The
field handshake_transcript stands for the handshake digest state that
create_synthetic_message_hash replaces. srtp_profiles is what
SSL_get_srtp_profiles returns, none for NULL. client_cert_type and
server_cert_type are the configured certificate type lists, none for NULL;
their lengths are the lengths of the lists. -/
structure SSL_CONNECTION where
  version : Nat := 0
  hit : Bool := false
  options : Nat := 0
  s3 : S3_STATE := {}
  session : SSL_SESSION := {}
  ext : EXT_STATE := {}
  hello_retry_request : HRR_STATE := HRR_STATE.SSL_HRR_NONE
  tmp_session_id : List Nat := []
  handshake_transcript : List Nat := []
  fatal : Option (Alert × Reason) := none
  method : SSL_METHOD := {}
  servername_done : Nat := 0
  srtp_profiles : Option (List SRTP_PROTECTION_PROFILE) := none
  srtp_profile : Option SRTP_PROTECTION_PROFILE := none
  max_early_data : Nat := 0
  post_handshake_auth : Nat := 0
  client_cert_type : Option (List Nat) := none
  server_cert_type : Option (List Nat) := none
  sid_ctx : List Nat := []
  session_ctx : SSL_CTX := {}
  deriving DecidableEq, Repr

/-- Stage a fatal alert: SSLfatal(s, al, reason). -/
def SSLfatal (s : SSL_CONNECTION) (al : Alert) (reason : Reason) : SSL_CONNECTION :=
  { s with fatal := some (al, reason) }

/-- The collaborators of the extension code that are outside this file.
* tls_group_allowed g op: the security-level gate for group g.
* tls_valid_group g minv maxv isec: group g is enabled for the version range.
* ssl_generate_param_group g: parameters for group g can be created.
* tls13_set_encoded_pub_key g key: key decodes as a valid public key of g.
* EVP_DigestSign key data: HMAC-SHA-256, none when the crypto library fails.
* ssl_get_cipher_by_char bytes: the enabled cipher with this two-byte id.
* verify_stateless_cookie_cb / gen_stateless_cookie_cb: application callbacks.
* ssl_handshake_hash s: ssl3_digest_cached_records followed by
  ssl_handshake_hash, the transcript hash of the messages so far.
* create_synthetic_message_hash s hash hrr: the transcript restart.
* time: the value of time(NULL). -/
structure Env where
  tls_group_allowed : Nat → Nat → Bool
  tls_valid_group : Nat → Nat → Nat → Bool → Bool
  ssl_generate_param_group : Nat → Bool
  tls13_set_encoded_pub_key : Nat → List Nat → Bool
  EVP_DigestSign : List Nat → List Nat → Option (List Nat)
  ssl_get_cipher_by_char : List Nat → Option SSL_CIPHER
  verify_stateless_cookie_cb : Option (List Nat → Bool)
  gen_stateless_cookie_cb : Option (SSL_CONNECTION → Option (List Nat))
  ssl_handshake_hash : SSL_CONNECTION → Option (List Nat)
  create_synthetic_message_hash : SSL_CONNECTION → List Nat → List Nat → Option SSL_CONNECTION
  time : Nat

/-! ## PACKET: the read cursor -/

/-- A PACKET is the list of bytes that remain to be read. -/
abbrev PACKET := List Nat

/-- Modelled from the spec: PACKET_remaining of the cursor abstraction
(internal/packet.h), the number of unread bytes. -/
def PACKET_remaining (pkt : PACKET) : Nat := pkt.length

/-- Modelled from the spec: PACKET_get_1 (internal/packet.h), read one byte. -/
def PACKET_get_1 (pkt : PACKET) : Option (Nat × PACKET) :=
  match pkt with
  | b :: rest => some (b, rest)
  | [] => none

/-- Modelled from the spec: PACKET_get_net_2 (internal/packet.h), read a
big-endian 16-bit value. -/
def PACKET_get_net_2 (pkt : PACKET) : Option (Nat × PACKET) :=
  match pkt with
  | b0 :: b1 :: rest => some (b0 * 256 + b1, rest)
  | _ => none

/-- Big-endian value of a byte string. -/
def net_value (bs : List Nat) : Nat := bs.foldl (fun acc b => acc * 256 + b) 0

/-- Modelled from the spec: PACKET_get_net_8 (internal/packet.h), read a
big-endian 64-bit value. -/
def PACKET_get_net_8 (pkt : PACKET) : Option (Nat × PACKET) :=
  if pkt.length < 8 then none else some (net_value (pkt.take 8), pkt.drop 8)

/-- Modelled from the spec: PACKET_forward (internal/packet.h), skip len bytes. -/
def PACKET_forward (pkt : PACKET) (len : Nat) : Option PACKET :=
  if pkt.length < len then none else some (pkt.drop len)

/-- Modelled from the spec: PACKET_get_length_prefixed_1 (internal/packet.h),
read a 1-byte length and that many bytes as a sub-packet. -/
def PACKET_get_length_prefixed_1 (pkt : PACKET) : Option (PACKET × PACKET) :=
  match PACKET_get_1 pkt with
  | none => none
  | some (len, rest) => if rest.length < len then none else some (rest.take len, rest.drop len)

/-- Modelled from the spec: PACKET_get_length_prefixed_2 (internal/packet.h),
read a 2-byte length and that many bytes as a sub-packet. -/
def PACKET_get_length_prefixed_2 (pkt : PACKET) : Option (PACKET × PACKET) :=
  match PACKET_get_net_2 pkt with
  | none => none
  | some (len, rest) => if rest.length < len then none else some (rest.take len, rest.drop len)

/-- Modelled from the spec: PACKET_as_length_prefixed_2 (internal/packet.h),
the whole packet must be one 2-byte length-prefixed block. -/
def PACKET_as_length_prefixed_2 (pkt : PACKET) : Option PACKET :=
  match PACKET_get_net_2 pkt with
  | none => none
  | some (len, rest) => if rest.length = len then some rest else none

/-! ## Key-share negotiation (lines 620-1003) -/

/-- Modelled from the spec: check_in_list (ssl/t1_lib.c), a linear scan of the
list for the group id that returns the first matching index. With checkallow
set a match additionally needs the group to pass the security gate for
SSL_SECOP_CURVE_CHECK. An empty list gives no match. -/
def check_in_list (env : Env) (group_id : Nat) (groups : List Nat) (checkallow : Bool) :
    Option Nat :=
  let rec scan : List Nat → Nat → Option Nat
    | [], _ => none
    | group :: rest, i =>
      if group_id = group
          ∧ (checkallow = false ∨ env.tls_group_allowed group SSL_SECOP_CURVE_CHECK = true) then
        some i
      else scan rest (i + 1)
  scan groups 0

/-- The result of tls_accept_ksgroup: the C return value and the connection. -/
abbrev RET := Nat × SSL_CONNECTION

/-- Accept a key share group (lines 625-645): set group_id, group_id_candidate
and the session's kex_group, generate the group parameters, then install the
encoded public key. -/
def tls_accept_ksgroup (env : Env) (s : SSL_CONNECTION) (ksgroup : Nat)
    (encoded_pubkey : PACKET) : RET :=
  let s1 : SSL_CONNECTION :=
    { s with s3 := { s.s3 with group_id := ksgroup, group_id_candidate := ksgroup },
             session := { s.session with kex_group := ksgroup } }
  if env.ssl_generate_param_group ksgroup = false then
    (0, SSLfatal { s1 with s3 := { s1.s3 with peer_tmp := none } }
          Alert.SSL_AD_INTERNAL_ERROR Reason.SSL_R_UNABLE_TO_FIND_ECDH_PARAMETERS)
  else
    let s2 : SSL_CONNECTION :=
      { s1 with s3 := { s1.s3 with peer_tmp := some { group_id := ksgroup, encoded_pub_key := none } } }
    if env.tls13_set_encoded_pub_key ksgroup encoded_pubkey = false then
      (0, SSLfatal s2 Alert.SSL_AD_ILLEGAL_PARAMETER Reason.SSL_R_BAD_ECPOINT)
    else
      (1, { s2 with s3 := { s2.s3 with
              peer_tmp := some { group_id := ksgroup, encoded_pub_key := some encoded_pubkey } } })

/-- The three results of extract_keyshares (lines 649-653). -/
inductive KS_EXTRACTION_RESULT where
  | EXTRACTION_FAILURE
  | EXTRACTION_SUCCESS
  | EXTRACTION_SUCCESS_HRR
  deriving DecidableEq, Repr

/-- What extract_keyshares leaves behind: its result, the connection, and the
two arrays of kept group ids and encoded public keys. -/
structure KS_EXTRACTION where
  result : KS_EXTRACTION_RESULT
  s : SSL_CONNECTION
  keyshares_arr : List Nat
  encoded_pubkey_arr : List PACKET
  deriving DecidableEq, Repr

/-- The while loop of extract_keyshares (lines 678-769). Each round reads one
share, so a fuel of one more than the number of remaining bytes is never used
up; none is returned when the fuel is exhausted. Memory allocation is taken to
succeed. The trace message for a share that is out of order has no effect on
the state and is omitted. -/
def extract_keyshares_loop (env : Env) (clntgroups srvrgroups : List Nat) :
    Nat → SSL_CONNECTION → PACKET → List Nat → List PACKET → Option KS_EXTRACTION
  | 0, _, _, _, _ => none
  | fuel + 1, s, key_share_list, keyshares_arr, encoded_pubkey_arr =>
    if PACKET_remaining key_share_list > 0 then
      match PACKET_get_net_2 key_share_list with
      | none =>
        some ⟨KS_EXTRACTION_RESULT.EXTRACTION_FAILURE,
              SSLfatal s Alert.SSL_AD_DECODE_ERROR Reason.SSL_R_LENGTH_MISMATCH, [], []⟩
      | some (group_id, key_share_list1) =>
        match PACKET_get_length_prefixed_2 key_share_list1 with
        | none =>
          some ⟨KS_EXTRACTION_RESULT.EXTRACTION_FAILURE,
                SSLfatal s Alert.SSL_AD_DECODE_ERROR Reason.SSL_R_LENGTH_MISMATCH, [], []⟩
        | some (encoded_pubkey, key_share_list2) =>
          if PACKET_remaining encoded_pubkey = 0 then
            some ⟨KS_EXTRACTION_RESULT.EXTRACTION_FAILURE,
                  SSLfatal s Alert.SSL_AD_DECODE_ERROR Reason.SSL_R_LENGTH_MISMATCH, [], []⟩
          else if s.s3.group_id ≠ 0
              ∧ (group_id ≠ s.s3.group_id ∨ PACKET_remaining key_share_list2 ≠ 0) then
            some ⟨KS_EXTRACTION_RESULT.EXTRACTION_FAILURE,
                  SSLfatal s Alert.SSL_AD_ILLEGAL_PARAMETER Reason.SSL_R_BAD_KEY_SHARE, [], []⟩
          else
            match check_in_list env group_id clntgroups false with
            | none =>
              some ⟨KS_EXTRACTION_RESULT.EXTRACTION_FAILURE,
                    SSLfatal s Alert.SSL_AD_ILLEGAL_PARAMETER Reason.SSL_R_BAD_KEY_SHARE, [], []⟩
            | some _ =>
              if s.s3.group_id ≠ 0 then
                let r := tls_accept_ksgroup env s s.s3.group_id encoded_pubkey
                if r.1 = 0 then
                  some ⟨KS_EXTRACTION_RESULT.EXTRACTION_FAILURE, r.2, [], []⟩
                else
                  some ⟨KS_EXTRACTION_RESULT.EXTRACTION_SUCCESS_HRR, r.2,
                        keyshares_arr, encoded_pubkey_arr⟩
              else if (check_in_list env group_id srvrgroups true).isNone
                  ∨ env.tls_group_allowed group_id SSL_SECOP_CURVE_SUPPORTED = false
                  ∨ env.tls_valid_group group_id TLS1_3_VERSION TLS1_3_VERSION false = false then
                extract_keyshares_loop env clntgroups srvrgroups fuel s key_share_list2
                  keyshares_arr encoded_pubkey_arr
              else
                extract_keyshares_loop env clntgroups srvrgroups fuel s key_share_list2
                  (keyshares_arr ++ [group_id]) (encoded_pubkey_arr ++ [encoded_pubkey])
    else
      some ⟨KS_EXTRACTION_RESULT.EXTRACTION_SUCCESS, s, keyshares_arr, encoded_pubkey_arr⟩

/-- Parse the key_share list and memorize the suitable entries (lines 655-778).
On failure both arrays are freed, which the model shows as empty arrays. -/
def extract_keyshares (env : Env) (s : SSL_CONNECTION) (key_share_list : PACKET)
    (clntgroups srvrgroups : List Nat) : Option KS_EXTRACTION :=
  extract_keyshares_loop env clntgroups srvrgroups (PACKET_remaining key_share_list + 1)
    s key_share_list [] []

/-- The outputs of check_overlap: prio_group_idx, candidate_group_idx and
selected_group, together with the local group_idx. -/
structure OVERLAP where
  group_idx : Nat
  prio_group_idx : Nat
  candidate_group_idx : Nat
  selected_group : Nat
  deriving DecidableEq, Repr

/-- The body of the for loop of check_overlap (lines 802-822), run over the
candidate groups from index current_group on. -/
def check_overlap_loop (env : Env) (prio_groups : List Nat) :
    List Nat → Nat → OVERLAP → OVERLAP
  | [], _, st => st
  | candidate :: rest, current_group, st =>
    match check_in_list env candidate prio_groups true with
    | none => check_overlap_loop env prio_groups rest (current_group + 1) st
    | some new_group_idx =>
      if env.tls_group_allowed candidate SSL_SECOP_CURVE_SUPPORTED = false
          ∨ env.tls_valid_group candidate TLS1_3_VERSION TLS1_3_VERSION false = false then
        check_overlap_loop env prio_groups rest (current_group + 1) st
      else if new_group_idx < st.group_idx then
        check_overlap_loop env prio_groups rest (current_group + 1)
          ⟨new_group_idx, new_group_idx, current_group, prio_groups.getD new_group_idx 0⟩
      else
        check_overlap_loop env prio_groups rest (current_group + 1) st

/-- Select the first overlap of the priority list with the candidate list
(lines 788-823). The loop counter current_group is a uint16_t compared with a
size_t bound: with more than 65535 candidates the comparison never fails and
the loop does not end, which is the result none. -/
def check_overlap (env : Env) (prio_groups candidate_groups : List Nat) : Option OVERLAP :=
  if candidate_groups.length ≤ 65535 then
    some (check_overlap_loop env prio_groups candidate_groups 0 ⟨prio_groups.length, 0, 0, 0⟩)
  else none

/-- The loop over the server tuples (lines 917-990). first_group_in_tuple is
the suffix of the server group list at which the current tuple starts, and
srvrtuples holds the sizes of the tuples still to be visited. Falling out of
the loop reaches the label end with ret = 1. -/
def tuple_loop (env : Env) (clntgroups keyshares_arr : List Nat)
    (encoded_pubkey_arr : List PACKET) :
    SSL_CONNECTION → List Nat → List Nat → Option RET
  | s, _, [] => some (1, s)
  | s, first_group_in_tuple, number_of_groups_in_tuple :: srvrtuples =>
    let tuple := first_group_in_tuple.take number_of_groups_in_tuple
    if s.options &&& SSL_OP_SERVER_PREFERENCE ≠ 0 then
      match check_overlap env tuple keyshares_arr with
      | none => none
      | some o =>
        if o.selected_group > 0 then
          let r := tls_accept_ksgroup env s o.selected_group
                     (encoded_pubkey_arr.getD o.candidate_group_idx [])
          if r.1 = 0 then some (0, r.2) else some (1, r.2)
        else
          match check_overlap env tuple clntgroups with
          | none => none
          | some o2 =>
            if o2.selected_group > 0 then
              some (1, { s with s3 := { s.s3 with group_id_candidate := o2.selected_group } })
            else
              tuple_loop env clntgroups keyshares_arr encoded_pubkey_arr s
                (first_group_in_tuple.drop number_of_groups_in_tuple) srvrtuples
    else
      match check_overlap env keyshares_arr tuple with
      | none => none
      | some o =>
        if o.selected_group > 0 then
          let r := tls_accept_ksgroup env s o.selected_group
                     (encoded_pubkey_arr.getD o.prio_group_idx [])
          if r.1 = 0 then some (0, r.2) else some (1, r.2)
        else
          match check_overlap env clntgroups tuple with
          | none => none
          | some o2 =>
            if o2.selected_group > 0 then
              some (1, { s with s3 := { s.s3 with group_id_candidate := o2.selected_group } })
            else
              tuple_loop env clntgroups keyshares_arr encoded_pubkey_arr s
                (first_group_in_tuple.drop number_of_groups_in_tuple) srvrtuples

/-- Process the key_share extension of a ClientHello (lines 826-1003). -/
def tls_parse_ctos_key_share (env : Env) (s : SSL_CONNECTION) (pkt : PACKET) : Option RET :=
  let s0 : SSL_CONNECTION := { s with s3 := { s.s3 with group_id_candidate := 0 } }
  if s0.hit = true ∧ s0.ext.psk_kex_mode &&& TLSEXT_KEX_MODE_FLAG_KE_DHE = 0 then
    some (1, s0)
  else if s0.s3.peer_tmp ≠ none then
    some (0, SSLfatal s0 Alert.SSL_AD_INTERNAL_ERROR Reason.ERR_R_INTERNAL_ERROR)
  else
    match PACKET_as_length_prefixed_2 pkt with
    | none => some (0, SSLfatal s0 Alert.SSL_AD_DECODE_ERROR Reason.SSL_R_LENGTH_MISMATCH)
    | some key_share_list =>
      let srvrgroups := s0.ext.supportedgroups
      let srvrtuples := s0.ext.tuples
      let clntgroups := s0.ext.peer_supportedgroups
      if clntgroups.length = 0 then
        some (0, SSLfatal s0 Alert.SSL_AD_MISSING_EXTENSION
                   Reason.SSL_R_MISSING_SUPPORTED_GROUPS_EXTENSION)
      else if s0.s3.group_id ≠ 0 ∧ PACKET_remaining key_share_list = 0 then
        some (0, SSLfatal s0 Alert.SSL_AD_ILLEGAL_PARAMETER Reason.SSL_R_BAD_KEY_SHARE)
      else
        match extract_keyshares env s0 key_share_list clntgroups srvrgroups with
        | none => none
        | some ks =>
          if ks.result = KS_EXTRACTION_RESULT.EXTRACTION_FAILURE then some (0, ks.s)
          else if ks.result = KS_EXTRACTION_RESULT.EXTRACTION_SUCCESS_HRR then some (1, ks.s)
          else
            tuple_loop env clntgroups ks.keyshares_arr ks.encoded_pubkey_arr ks.s
              srvrgroups srvrtuples

/-! ## Wire encodings and the vocabulary of the key-share claims -/

/-- Big-endian encoding of val in len bytes, as put_value of the packet
writer lays a value out. -/
def put_value (val : Nat) : Nat → List Nat
  | 0 => []
  | len + 1 => put_value (val / 256) len ++ [val % 256]

/-- One KeyShareEntry of the key_share extension (RFC 8446, 4.2.8). -/
structure KeyShareEntry where
  group : Nat
  key_exchange : List Nat
  deriving DecidableEq, Repr

/-- Wire form of one entry: u16 group, u16 length, key_exchange bytes. -/
def KeyShareEntry.encode (e : KeyShareEntry) : List Nat :=
  put_value e.group 2 ++ put_value e.key_exchange.length 2 ++ e.key_exchange

/-- An entry that the wire format can carry and that the parser reads back:
a 16-bit group and a non-empty key of fewer than 65536 bytes. -/
def KeyShareEntry.wf (e : KeyShareEntry) : Prop :=
  e.group < 65536 ∧ 0 < e.key_exchange.length ∧ e.key_exchange.length < 65536

instance (e : KeyShareEntry) : Decidable e.wf := by
  unfold KeyShareEntry.wf; infer_instance

/-- Wire form of a list of entries, one after the other. -/
def encode_key_shares : List KeyShareEntry → List Nat
  | [] => []
  | e :: es => e.encode ++ encode_key_shares es

/-- The body of a key_share extension: the 2-byte length of the list, then the list. -/
def key_share_extension (es : List KeyShareEntry) : List Nat :=
  put_value (encode_key_shares es).length 2 ++ encode_key_shares es

/-- The policy predicates every selected group has to pass: the security gate
for CURVE_CHECK (inside check_in_list), the security gate for CURVE_SUPPORTED
and validity for TLS 1.3. -/
def passes_policy (env : Env) (g : Nat) : Bool :=
  env.tls_group_allowed g SSL_SECOP_CURVE_CHECK
    && env.tls_group_allowed g SSL_SECOP_CURVE_SUPPORTED
    && env.tls_valid_group g TLS1_3_VERSION TLS1_3_VERSION false

/-- A share the server can use: its group is one of the server's groups and
passes the policy predicates. -/
def suitable (env : Env) (srvrgroups : List Nat) (e : KeyShareEntry) : Bool :=
  decide (e.group ∈ srvrgroups) && passes_policy env e.group

/-- The server tuples as lists of groups: consecutive blocks of the server
group list with the given sizes. -/
def group_tuples : List Nat → List Nat → List (List Nat)
  | _, [] => []
  | groups, n :: sizes => groups.take n :: group_tuples (groups.drop n) sizes

/-- Some group of A is also in B and passes the policy predicates. -/
def HasOverlap (env : Env) (A B : List Nat) : Prop :=
  ∃ g ∈ A, g ∈ B ∧ passes_policy env g = true

instance (env : Env) (A B : List Nat) : Decidable (HasOverlap env A B) := by
  unfold HasOverlap; infer_instance

/-- The group g is the overlap of A with B that comes first in A: it is in both
lists, passes the policy predicates, and no other such group has a smaller
index in A. -/
def IsLowestOverlap (env : Env) (A B : List Nat) (g : Nat) : Prop :=
  g ∈ A ∧ g ∈ B ∧ passes_policy env g = true
    ∧ ∀ h ∈ A, h ∈ B → passes_policy env h = true → A.indexOf g ≤ A.indexOf h

instance (env : Env) (A B : List Nat) (g : Nat) : Decidable (IsLowestOverlap env A B g) := by
  unfold IsLowestOverlap; infer_instance

/-- The groups of the shares that extract_keyshares keeps, in the order of the
key_share list. -/
def kept_groups (env : Env) (srvrgroups : List Nat) (es : List KeyShareEntry) : List Nat :=
  (es.filter (suitable env srvrgroups)).map KeyShareEntry.group

/-- The encoded public keys of the shares that extract_keyshares keeps. -/
def kept_keys (env : Env) (srvrgroups : List Nat) (es : List KeyShareEntry) : List PACKET :=
  (es.filter (suitable env srvrgroups)).map KeyShareEntry.key_exchange

/-- The shares are listed in the order of the client's supported_groups: the
positions of their groups in that list never decrease. -/
def in_supported_groups_order (clntgroups : List Nat) (es : List KeyShareEntry) : Prop :=
  (es.map (fun e => clntgroups.indexOf e.group)).Pairwise (fun a b => a ≤ b)

instance (clntgroups : List Nat) (es : List KeyShareEntry) :
    Decidable (in_supported_groups_order clntgroups es) := by
  unfold in_supported_groups_order; infer_instance

/-! ## WPACKET: the writer -/

/-- An open (sub-)packet of the writer: the width of its length prefix and the
bytes written into it so far, closed children included. -/
structure WPACKET_SUB where
  lenbytes : Nat
  body : List Nat
  deriving DecidableEq, Repr

/-- Modelled from the spec: the writer abstraction (internal/packet.h,
crypto/packet.c) with nested length-prefixed sub-packets. subs lists the open
sub-packets, innermost first; its last element is the packet itself. maxsize
is the size limit of the underlying buffer. -/
structure WPACKET where
  subs : List WPACKET_SUB
  maxsize : Nat
  deriving DecidableEq, Repr

/-- The number of bytes in the buffer: for every open sub-packet its length
prefix and its body. -/
def WPACKET.written (pkt : WPACKET) : Nat :=
  (pkt.subs.map (fun sub => sub.lenbytes + sub.body.length)).sum

/-- The content of the buffer from its start to the write position. The
length prefix of a sub-packet that is still open has not been filled in and
reads as zero bytes. -/
def WPACKET.buffer (pkt : WPACKET) : List Nat :=
  (pkt.subs.reverse.map (fun sub => List.replicate sub.lenbytes 0 ++ sub.body)).flatten

/-- Modelled from the spec: WPACKET_init_static_len with lenbytes = 0, a writer
over a fixed buffer of len bytes. -/
def WPACKET_init_static_len (len : Nat) : Option WPACKET :=
  if len = 0 then none else some { subs := [⟨0, []⟩], maxsize := len }

/-- Modelled from the spec: WPACKET_get_total_written, which always succeeds. -/
def WPACKET_get_total_written (pkt : WPACKET) : Option Nat := some pkt.written

/-- Modelled from the spec: WPACKET_reserve_bytes, check that len more bytes
fit; nothing is written. A request for zero bytes is refused. -/
def WPACKET_reserve_bytes (pkt : WPACKET) (len : Nat) : Option WPACKET :=
  if pkt.subs = [] ∨ len = 0 then none
  else if pkt.maxsize - pkt.written < len then none
  else some pkt

/-- Modelled from the spec: WPACKET_allocate_bytes followed by the caller
storing data in the allocated bytes. -/
def WPACKET_allocate_bytes (pkt : WPACKET) (data : List Nat) : Option WPACKET :=
  match WPACKET_reserve_bytes pkt data.length with
  | none => none
  | some _ =>
    match pkt.subs with
    | [] => none
    | sub :: parents => some { pkt with subs := { sub with body := sub.body ++ data } :: parents }

/-- Modelled from the spec: WPACKET_put_bytes__, write val big-endian in size
bytes; fails when val does not fit. -/
def WPACKET_put_bytes (pkt : WPACKET) (val : Nat) (size : Nat) : Option WPACKET :=
  match WPACKET_allocate_bytes pkt (put_value val size) with
  | none => none
  | some pkt1 => if val < 256 ^ size then some pkt1 else none

/-- Modelled from the spec: WPACKET_put_bytes_u8. -/
def WPACKET_put_bytes_u8 (pkt : WPACKET) (val : Nat) : Option WPACKET := WPACKET_put_bytes pkt val 1

/-- Modelled from the spec: WPACKET_put_bytes_u16. -/
def WPACKET_put_bytes_u16 (pkt : WPACKET) (val : Nat) : Option WPACKET := WPACKET_put_bytes pkt val 2

/-- Modelled from the spec: WPACKET_put_bytes_u64. -/
def WPACKET_put_bytes_u64 (pkt : WPACKET) (val : Nat) : Option WPACKET := WPACKET_put_bytes pkt val 8

/-- Modelled from the spec: WPACKET_memcpy; copying nothing always succeeds. -/
def WPACKET_memcpy (pkt : WPACKET) (src : List Nat) : Option WPACKET :=
  if src.length = 0 then some pkt else WPACKET_allocate_bytes pkt src

/-- Modelled from the spec: WPACKET_start_sub_packet_len__, open a sub-packet
whose length prefix takes lenbytes bytes. -/
def WPACKET_start_sub_packet_len (pkt : WPACKET) (lenbytes : Nat) : Option WPACKET :=
  if pkt.subs = [] then none
  else if pkt.maxsize - pkt.written < lenbytes then none
  else some { pkt with subs := ⟨lenbytes, []⟩ :: pkt.subs }

/-- Modelled from the spec: WPACKET_start_sub_packet_u8. -/
def WPACKET_start_sub_packet_u8 (pkt : WPACKET) : Option WPACKET := WPACKET_start_sub_packet_len pkt 1

/-- Modelled from the spec: WPACKET_start_sub_packet_u16. -/
def WPACKET_start_sub_packet_u16 (pkt : WPACKET) : Option WPACKET := WPACKET_start_sub_packet_len pkt 2

/-- Modelled from the spec: WPACKET_start_sub_packet_u24. -/
def WPACKET_start_sub_packet_u24 (pkt : WPACKET) : Option WPACKET := WPACKET_start_sub_packet_len pkt 3

/-- Modelled from the spec: WPACKET_close, fill in the length prefix of the
innermost sub-packet and hand its bytes to the parent; fails for the packet
itself and when the length does not fit the prefix. -/
def WPACKET_close (pkt : WPACKET) : Option WPACKET :=
  match pkt.subs with
  | sub :: parent :: grand =>
    if sub.lenbytes > 0 ∧ ¬ sub.body.length < 256 ^ sub.lenbytes then none
    else some { pkt with subs :=
      { parent with body := parent.body ++ put_value sub.body.length sub.lenbytes ++ sub.body }
        :: grand }
  | _ => none

/-- Modelled from the spec: WPACKET_finish, close the packet itself; the
result is the finished buffer. -/
def WPACKET_finish (pkt : WPACKET) : Option (List Nat) :=
  match pkt.subs with
  | [sub] =>
    if sub.lenbytes > 0 ∧ ¬ sub.body.length < 256 ^ sub.lenbytes then none
    else some (put_value sub.body.length sub.lenbytes ++ sub.body)
  | _ => none

/-- Modelled from the spec: WPACKET_sub_memcpy__, a length-prefixed copy. -/
def WPACKET_sub_memcpy (pkt : WPACKET) (src : List Nat) (lenbytes : Nat) : Option WPACKET :=
  match WPACKET_start_sub_packet_len pkt lenbytes with
  | none => none
  | some p1 =>
  match WPACKET_memcpy p1 src with
  | none => none
  | some p2 => WPACKET_close p2

/-- Modelled from the spec: WPACKET_sub_memcpy_u8. -/
def WPACKET_sub_memcpy_u8 (pkt : WPACKET) (src : List Nat) : Option WPACKET := WPACKET_sub_memcpy pkt src 1

/-- Modelled from the spec: WPACKET_sub_memcpy_u16. -/
def WPACKET_sub_memcpy_u16 (pkt : WPACKET) (src : List Nat) : Option WPACKET := WPACKET_sub_memcpy pkt src 2

/-- Modelled from the spec: the put_cipher_by_char method of the SSL method
table (ssl/s3_lib.c), which writes the two-byte cipher-suite id. A missing
cipher cannot be written. -/
def put_cipher_by_char (c : Option SSL_CIPHER) (pkt : WPACKET) : Option WPACKET :=
  match c with
  | none => none
  | some cipher => WPACKET_put_bytes_u16 pkt cipher.id

/-- Modelled from the spec: hrrrandom, the fixed ServerHello.random of a
HelloRetryRequest (RFC 8446, 4.1.3; ssl/statem/statem_lib.c). -/
def hrrrandom : List Nat :=
  [0xcf, 0x21, 0xad, 0x74, 0xe5, 0x9a, 0x61, 0x11, 0xbe, 0x1d, 0x8c, 0x02, 0x1e, 0x65, 0xb8, 0x91,
   0xc2, 0xa2, 0x11, 0x16, 0x7a, 0xbb, 0x8c, 0x5e, 0x07, 0x9e, 0x09, 0xe2, 0xc8, 0xa8, 0x33, 0x9c]

/-- The three results of an extension constructor. -/
inductive EXT_RETURN where
  | EXT_RETURN_FAIL
  | EXT_RETURN_SENT
  | EXT_RETURN_NOT_SENT
  deriving DecidableEq, Repr

/-! ## The stateless HelloRetryRequest cookie (lines 1005-1213 and 2055-2182) -/

/-- The key_share extension of the rebuilt HelloRetryRequest (lines 1175-1184),
written only when the cookie's key_share flag is set. -/
def reconstruct_hrr_key_share (s : SSL_CONNECTION) (key_share : Nat) (pkt : WPACKET) :
    Option WPACKET :=
  if key_share ≠ 0 then
    match WPACKET_put_bytes_u16 pkt TLSEXT_TYPE_key_share with
    | none => none
    | some q1 =>
    match WPACKET_start_sub_packet_u16 q1 with
    | none => none
    | some q2 =>
    match WPACKET_put_bytes_u16 q2 s.s3.group_id with
    | none => none
    | some q3 =>
    WPACKET_close q3
  else some pkt

/-- The HelloRetryRequest that tls_parse_ctos_cookie rebuilds in its static
buffer hrr (lines 1149-1196): the message the server would have sent in reply
to the first ClientHello, with the received cookie bytes data. Every failure
in this block is reported the same way, so the block is one chain. -/
def reconstruct_hrr (s : SSL_CONNECTION) (key_share : Nat) (data : List Nat) :
    Option (List Nat) :=
  match WPACKET_init_static_len MAX_HRR_SIZE with
  | none => none
  | some p0 =>
  match WPACKET_put_bytes_u8 p0 SSL3_MT_SERVER_HELLO with
  | none => none
  | some p1 =>
  match WPACKET_start_sub_packet_u24 p1 with
  | none => none
  | some p2 =>
  match WPACKET_put_bytes_u16 p2 TLS1_2_VERSION with
  | none => none
  | some p3 =>
  match WPACKET_memcpy p3 hrrrandom with
  | none => none
  | some p4 =>
  match WPACKET_sub_memcpy_u8 p4 s.tmp_session_id with
  | none => none
  | some p5 =>
  match put_cipher_by_char s.s3.tmp.new_cipher p5 with
  | none => none
  | some p6 =>
  match WPACKET_put_bytes_u8 p6 0 with
  | none => none
  | some p7 =>
  match WPACKET_start_sub_packet_u16 p7 with
  | none => none
  | some p8 =>
  match WPACKET_put_bytes_u16 p8 TLSEXT_TYPE_supported_versions with
  | none => none
  | some p9 =>
  match WPACKET_start_sub_packet_u16 p9 with
  | none => none
  | some p10 =>
  match WPACKET_put_bytes_u16 p10 s.version with
  | none => none
  | some p11 =>
  match WPACKET_close p11 with
  | none => none
  | some p12 =>
  match reconstruct_hrr_key_share s key_share p12 with
  | none => none
  | some p13 =>
  match WPACKET_put_bytes_u16 p13 TLSEXT_TYPE_cookie with
  | none => none
  | some p14 =>
  match WPACKET_start_sub_packet_u16 p14 with
  | none => none
  | some p15 =>
  match WPACKET_sub_memcpy_u16 p15 data with
  | none => none
  | some p16 =>
  match WPACKET_close p16 with
  | none => none
  | some p17 =>
  match WPACKET_close p17 with
  | none => none
  | some p18 =>
  match WPACKET_close p18 with
  | none => none
  | some p19 =>
  match WPACKET_get_total_written p19 with
  | none => none
  | some hrrlen =>
  match WPACKET_finish p19 with
  | none => none
  | some hrr =>
  some (hrr.take hrrlen)
/-- Process the cookie extension of a ClientHello (lines 1005-1213). Creating
the digest context and the HMAC key is taken to succeed; a failing or
wrong-sized EVP_DigestSign is the internal error of lines 1056-1065. When
create_synthetic_message_hash fails it has already staged its alert, which the
model records as an internal error. -/
def tls_parse_ctos_cookie (env : Env) (s : SSL_CONNECTION) (pkt : PACKET) : RET :=
  match env.verify_stateless_cookie_cb with
  | none => (1, s)
  | some verify_stateless_cookie_cb =>
  if s.s3.flags &&& TLS1_FLAGS_STATELESS = 0 then (1, s)
  else
  match PACKET_as_length_prefixed_2 pkt with
  | none => (0, SSLfatal s Alert.SSL_AD_DECODE_ERROR Reason.SSL_R_LENGTH_MISMATCH)
  | some cookie =>
  let data := cookie
  let rawlen := PACKET_remaining cookie
  if rawlen < SHA256_DIGEST_LENGTH then
    (0, SSLfatal s Alert.SSL_AD_DECODE_ERROR Reason.SSL_R_LENGTH_MISMATCH)
  else
  match PACKET_forward cookie (rawlen - SHA256_DIGEST_LENGTH) with
  | none => (0, SSLfatal s Alert.SSL_AD_DECODE_ERROR Reason.SSL_R_LENGTH_MISMATCH)
  | some mdin =>
  match env.EVP_DigestSign s.ext.cookie_hmac_key (data.take (rawlen - SHA256_DIGEST_LENGTH)) with
  | none => (0, SSLfatal s Alert.SSL_AD_INTERNAL_ERROR Reason.ERR_R_INTERNAL_ERROR)
  | some hmac =>
  if hmac.length ≠ SHA256_DIGEST_LENGTH then
    (0, SSLfatal s Alert.SSL_AD_INTERNAL_ERROR Reason.ERR_R_INTERNAL_ERROR)
  else if hmac ≠ mdin.take SHA256_DIGEST_LENGTH then
    (0, SSLfatal s Alert.SSL_AD_ILLEGAL_PARAMETER Reason.SSL_R_COOKIE_MISMATCH)
  else
  match PACKET_get_net_2 cookie with
  | none => (0, SSLfatal s Alert.SSL_AD_DECODE_ERROR Reason.SSL_R_LENGTH_MISMATCH)
  | some (format, cookie1) =>
  if format ≠ COOKIE_STATE_FORMAT_VERSION then (1, s)
  else
  match PACKET_get_net_2 cookie1 with
  | none => (0, SSLfatal s Alert.SSL_AD_DECODE_ERROR Reason.SSL_R_LENGTH_MISMATCH)
  | some (version, cookie2) =>
  if version ≠ TLS1_3_VERSION then
    (0, SSLfatal s Alert.SSL_AD_ILLEGAL_PARAMETER Reason.SSL_R_BAD_PROTOCOL_VERSION_NUMBER)
  else
  match PACKET_get_net_2 cookie2 with
  | none => (0, SSLfatal s Alert.SSL_AD_DECODE_ERROR Reason.SSL_R_LENGTH_MISMATCH)
  | some (group_id, cookie3) =>
  let ciphdata := cookie3.take 2
  match PACKET_forward cookie3 2 with
  | none => (0, SSLfatal s Alert.SSL_AD_DECODE_ERROR Reason.SSL_R_LENGTH_MISMATCH)
  | some cookie4 =>
  if group_id ≠ s.s3.group_id ∨ s.s3.tmp.new_cipher ≠ env.ssl_get_cipher_by_char ciphdata then
    (0, SSLfatal s Alert.SSL_AD_ILLEGAL_PARAMETER Reason.SSL_R_BAD_CIPHER)
  else
  match PACKET_get_1 cookie4 with
  | none => (0, SSLfatal s Alert.SSL_AD_DECODE_ERROR Reason.SSL_R_LENGTH_MISMATCH)
  | some (key_share, cookie5) =>
  match PACKET_get_net_8 cookie5 with
  | none => (0, SSLfatal s Alert.SSL_AD_DECODE_ERROR Reason.SSL_R_LENGTH_MISMATCH)
  | some (tm, cookie6) =>
  match PACKET_get_length_prefixed_2 cookie6 with
  | none => (0, SSLfatal s Alert.SSL_AD_DECODE_ERROR Reason.SSL_R_LENGTH_MISMATCH)
  | some (chhash, cookie7) =>
  match PACKET_get_length_prefixed_1 cookie7 with
  | none => (0, SSLfatal s Alert.SSL_AD_DECODE_ERROR Reason.SSL_R_LENGTH_MISMATCH)
  | some (appcookie, cookie8) =>
  if PACKET_remaining cookie8 ≠ SHA256_DIGEST_LENGTH then
    (0, SSLfatal s Alert.SSL_AD_DECODE_ERROR Reason.SSL_R_LENGTH_MISMATCH)
  else
  let now := env.time % 2 ^ 64
  if tm > now ∨ now - tm > 600 then (1, s)
  else if verify_stateless_cookie_cb appcookie = false then
    (0, SSLfatal s Alert.SSL_AD_ILLEGAL_PARAMETER Reason.SSL_R_COOKIE_MISMATCH)
  else
  match reconstruct_hrr s key_share data with
  | none => (0, SSLfatal s Alert.SSL_AD_INTERNAL_ERROR Reason.ERR_R_INTERNAL_ERROR)
  | some hrr =>
  match env.create_synthetic_message_hash s chhash hrr with
  | none => (0, SSLfatal s Alert.SSL_AD_INTERNAL_ERROR Reason.ERR_R_INTERNAL_ERROR)
  | some s1 =>
  (1, { s1 with hello_retry_request := HRR_STATE.SSL_HRR_PENDING,
                ext := { s1.ext with cookieok := 1 } })

/-- What tls_construct_stoc_cookie leaves behind. -/
abbrev EXT_RESULT := EXT_RETURN × SSL_CONNECTION × WPACKET

/-- The first chain of writer calls of tls_construct_stoc_cookie (lines
2078-2092): the extension type, the two length-prefixed sub-packets, the fixed
fields of the cookie and the opening of the transcript-hash field. It yields
startlen and the writer. -/
def cookie_open (env : Env) (s : SSL_CONNECTION) (pkt : WPACKET) : Option (Nat × WPACKET) :=
  match WPACKET_put_bytes_u16 pkt TLSEXT_TYPE_cookie with
  | none => none
  | some a1 =>
  match WPACKET_start_sub_packet_u16 a1 with
  | none => none
  | some a2 =>
  match WPACKET_start_sub_packet_u16 a2 with
  | none => none
  | some a3 =>
  match WPACKET_get_total_written a3 with
  | none => none
  | some startlen =>
  match WPACKET_reserve_bytes a3 MAX_COOKIE_SIZE with
  | none => none
  | some a4 =>
  match WPACKET_put_bytes_u16 a4 COOKIE_STATE_FORMAT_VERSION with
  | none => none
  | some a5 =>
  match WPACKET_put_bytes_u16 a5 TLS1_3_VERSION with
  | none => none
  | some a6 =>
  match WPACKET_put_bytes_u16 a6 s.s3.group_id with
  | none => none
  | some a7 =>
  match put_cipher_by_char s.s3.tmp.new_cipher a7 with
  | none => none
  | some a8 =>
  match WPACKET_put_bytes_u8 a8 (if s.s3.peer_tmp = none then 1 else 0) with
  | none => none
  | some a9 =>
  match WPACKET_put_bytes_u64 a9 (env.time % 2 ^ 64) with
  | none => none
  | some a10 =>
  match WPACKET_start_sub_packet_u16 a10 with
  | none => none
  | some a11 =>
  match WPACKET_reserve_bytes a11 EVP_MAX_MD_SIZE with
  | none => none
  | some a12 => some (startlen, a12)

/-- The second chain (lines 2108-2112): claim the bytes of the transcript
hash, close its field and open the application-cookie field. -/
def cookie_put_hash (pkt : WPACKET) (hashval : List Nat) : Option WPACKET :=
  match WPACKET_allocate_bytes pkt hashval with
  | none => none
  | some b1 =>
  match WPACKET_close b1 with
  | none => none
  | some b2 =>
  match WPACKET_start_sub_packet_u8 b2 with
  | none => none
  | some b3 => WPACKET_reserve_bytes b3 SSL_COOKIE_LENGTH

/-- The third chain (lines 2124-2128): claim the bytes of the application
cookie, close its field, read the total written and reserve room for the
HMAC. It yields the total written and the writer. -/
def cookie_put_appcookie (pkt : WPACKET) (appcookie : List Nat) : Option (Nat × WPACKET) :=
  match WPACKET_allocate_bytes pkt appcookie with
  | none => none
  | some c1 =>
  match WPACKET_close c1 with
  | none => none
  | some c2 =>
  match WPACKET_get_total_written c2 with
  | none => none
  | some totcookielen =>
  match WPACKET_reserve_bytes c2 SHA256_DIGEST_LENGTH with
  | none => none
  | some c3 => some (totcookielen, c3)

/-- The last chain (lines 2164-2168): claim the bytes of the HMAC and close
the two sub-packets of the extension. -/
def cookie_put_hmac (pkt : WPACKET) (hmac : List Nat) : Option WPACKET :=
  match WPACKET_allocate_bytes pkt hmac with
  | none => none
  | some d1 =>
  match WPACKET_close d1 with
  | none => none
  | some d2 => WPACKET_close d2

/-- Write the cookie extension of a HelloRetryRequest (lines 2055-2182). On
failure the handshake is aborted and the packet is not used again; the model
then returns the packet as it was on entry. Creating the digest context and
the HMAC key is taken to succeed. When the transcript hash cannot be produced
the callee has already staged its alert, which the model records as an
internal error. -/
def tls_construct_stoc_cookie (env : Env) (s : SSL_CONNECTION) (pkt : WPACKET) : EXT_RESULT :=
  if s.s3.flags &&& TLS1_FLAGS_STATELESS = 0 then (EXT_RETURN.EXT_RETURN_NOT_SENT, s, pkt)
  else
  match env.gen_stateless_cookie_cb with
  | none =>
    (EXT_RETURN.EXT_RETURN_FAIL,
      SSLfatal s Alert.SSL_AD_INTERNAL_ERROR Reason.SSL_R_NO_COOKIE_CALLBACK_SET, pkt)
  | some gen_stateless_cookie_cb =>
  match cookie_open env s pkt with
  | none =>
    (EXT_RETURN.EXT_RETURN_FAIL,
      SSLfatal s Alert.SSL_AD_INTERNAL_ERROR Reason.ERR_R_INTERNAL_ERROR, pkt)
  | some (startlen, pkt1) =>
  match env.ssl_handshake_hash s with
  | none =>
    (EXT_RETURN.EXT_RETURN_FAIL,
      SSLfatal s Alert.SSL_AD_INTERNAL_ERROR Reason.ERR_R_INTERNAL_ERROR, pkt)
  | some hashval =>
  if hashval.length > EVP_MAX_MD_SIZE then
    (EXT_RETURN.EXT_RETURN_FAIL,
      SSLfatal s Alert.SSL_AD_INTERNAL_ERROR Reason.ERR_R_INTERNAL_ERROR, pkt)
  else
  match cookie_put_hash pkt1 hashval with
  | none =>
    (EXT_RETURN.EXT_RETURN_FAIL,
      SSLfatal s Alert.SSL_AD_INTERNAL_ERROR Reason.ERR_R_INTERNAL_ERROR, pkt)
  | some pkt2 =>
  match gen_stateless_cookie_cb s with
  | none =>
    (EXT_RETURN.EXT_RETURN_FAIL,
      SSLfatal s Alert.SSL_AD_INTERNAL_ERROR Reason.SSL_R_COOKIE_GEN_CALLBACK_FAILURE, pkt)
  | some appcookie =>
  match cookie_put_appcookie pkt2 appcookie with
  | none =>
    (EXT_RETURN.EXT_RETURN_FAIL,
      SSLfatal s Alert.SSL_AD_INTERNAL_ERROR Reason.ERR_R_INTERNAL_ERROR, pkt)
  | some (totwritten, pkt3) =>
  let totcookielen := totwritten - startlen
  if ¬ totcookielen ≤ MAX_COOKIE_SIZE - SHA256_DIGEST_LENGTH then
    (EXT_RETURN.EXT_RETURN_FAIL,
      SSLfatal s Alert.SSL_AD_INTERNAL_ERROR Reason.ERR_R_INTERNAL_ERROR, pkt)
  else
  let cookie := (pkt3.buffer.drop startlen).take totcookielen
  match env.EVP_DigestSign s.ext.cookie_hmac_key cookie with
  | none =>
    (EXT_RETURN.EXT_RETURN_FAIL,
      SSLfatal s Alert.SSL_AD_INTERNAL_ERROR Reason.ERR_R_INTERNAL_ERROR, pkt)
  | some hmac =>
  if ¬ totcookielen + hmac.length ≤ MAX_COOKIE_SIZE then
    (EXT_RETURN.EXT_RETURN_FAIL,
      SSLfatal s Alert.SSL_AD_INTERNAL_ERROR Reason.ERR_R_INTERNAL_ERROR, pkt)
  else
  match cookie_put_hmac pkt3 hmac with
  | none =>
    (EXT_RETURN.EXT_RETURN_FAIL,
      SSLfatal s Alert.SSL_AD_INTERNAL_ERROR Reason.ERR_R_INTERNAL_ERROR, pkt)
  | some pkt4 => (EXT_RETURN.EXT_RETURN_SENT, s, pkt4)

/-! ## The wire format of the cookie -/

/-- The authenticated part of a format-1 cookie as section 4.4 of the
specification lays it out: format version, TLS version, group, two cipher
bytes, key_share flag, 64-bit time, 2-byte length-prefixed transcript hash and
1-byte length-prefixed application cookie. -/
def cookie_plaintext (group_id : Nat) (ciph : List Nat) (key_share : Nat) (tm : Nat)
    (chhash appcookie : List Nat) : List Nat :=
  put_value COOKIE_STATE_FORMAT_VERSION 2 ++ (put_value TLS1_3_VERSION 2
    ++ (put_value group_id 2 ++ (ciph ++ (key_share :: (put_value tm 8
    ++ (put_value chhash.length 2 ++ (chhash ++ (put_value appcookie.length 1 ++ appcookie))))))))

/-- The body of a cookie extension: the 2-byte length of the cookie, then the cookie. -/
def cookie_extension (cookie : List Nat) : List Nat :=
  put_value cookie.length 2 ++ cookie

/-- The extension block of a HelloRetryRequest that carries a cookie:
supported_versions, then key_share with only the group when key_share is
nonzero, then the cookie extension. -/
def hrr_extensions (version group_id key_share : Nat) (cookie : List Nat) : List Nat :=
  (put_value TLSEXT_TYPE_supported_versions 2 ++ (put_value 2 2 ++ put_value version 2))
    ++ ((if key_share ≠ 0 then
          put_value TLSEXT_TYPE_key_share 2 ++ (put_value 2 2 ++ put_value group_id 2)
         else [])
    ++ (put_value TLSEXT_TYPE_cookie 2 ++ cookie_extension (cookie_extension cookie)))

/-- The body of a HelloRetryRequest message: legacy version, the fixed random,
the echoed session id, the cipher suite, the null compression method and the
length-prefixed extension block. -/
def hrr_body (session_id : List Nat) (cipher_id : Nat) (extensions : List Nat) : List Nat :=
  put_value TLS1_2_VERSION 2 ++ (hrrrandom ++ (put_value session_id.length 1 ++ (session_id
    ++ (put_value cipher_id 2 ++ (0 :: (put_value extensions.length 2 ++ extensions))))))

/-- A handshake message: type, 24-bit length, body. -/
def handshake_message (msg_type : Nat) (body : List Nat) : List Nat :=
  msg_type :: (put_value body.length 3 ++ body)

/-! ## renegotiation_info, server_name, max_fragment_length and ALPN
(lines 39-217, 451-489 and 1615-1636) -/

/-- Modelled from the spec: TLSEXT_NAMETYPE_host_name, the only name type of
server_name (tls1.h). -/
def TLSEXT_NAMETYPE_host_name : Nat := 0

/-- Modelled from the spec: TLSEXT_MAXLEN_host_name, the longest host name
that is stored (tls1.h). -/
def TLSEXT_MAXLEN_host_name : Nat := 255

/-- Modelled from the spec: IANA extension number of max_fragment_length (tls1.h). -/
def TLSEXT_TYPE_max_fragment_length : Nat := 1

/-- Modelled from the spec: the max_fragment_length code for 512 bytes (tls1.h). -/
def TLSEXT_max_fragment_length_512 : Nat := 1

/-- Modelled from the spec: the max_fragment_length code for 4096 bytes (tls1.h). -/
def TLSEXT_max_fragment_length_4096 : Nat := 4

/-- Modelled from the spec: the value of max_fragment_len_mode of a session
for which no mode has been negotiated (ssl_local.h). -/
def TLSEXT_max_fragment_length_UNSPECIFIED : Nat := 255

/-- Modelled from the spec: the version of the version-flexible method (ssl.h). -/
def TLS_ANY_VERSION : Nat := 0x10000

/-- Modelled from the spec: the enc_flags bit of a DTLS method (ssl_local.h). -/
def SSL_ENC_FLAG_DTLS : Nat := 0x8

/-- Modelled from the spec: the macro SSL_CONNECTION_IS_DTLS (ssl_local.h). -/
def SSL_CONNECTION_IS_DTLS (s : SSL_CONNECTION) : Bool :=
  s.method.enc_flags &&& SSL_ENC_FLAG_DTLS != 0

/-- Modelled from the spec: the macro SSL_CONNECTION_IS_TLS13 (ssl_local.h):
not DTLS, and the method's version is at least TLS 1.3 and is not the
version-flexible one. -/
def SSL_CONNECTION_IS_TLS13 (s : SSL_CONNECTION) : Bool :=
  !SSL_CONNECTION_IS_DTLS s && decide (s.method.version ≥ TLS1_3_VERSION)
    && s.method.version != TLS_ANY_VERSION

/-- Modelled from the spec: the macro SSL_IS_FIRST_HANDSHAKE (ssl_local.h): one
of the two Finished digests of a previous handshake is still missing. -/
def SSL_IS_FIRST_HANDSHAKE (s : SSL_CONNECTION) : Bool :=
  s.s3.tmp.finish_md_len == 0 || s.s3.tmp.peer_finish_md_len == 0

/-- Modelled from the spec: the macro IS_MAX_FRAGMENT_LENGTH_EXT_VALID
(ssl_local.h), a code from 512 to 4096. -/
def IS_MAX_FRAGMENT_LENGTH_EXT_VALID (value : Nat) : Bool :=
  decide (value ≥ TLSEXT_max_fragment_length_512)
    && decide (value ≤ TLSEXT_max_fragment_length_4096)

/-- Modelled from the spec: the macro USE_MAX_FRAGMENT_LENGTH_EXT (ssl_local.h). -/
def USE_MAX_FRAGMENT_LENGTH_EXT (session : SSL_SESSION) : Bool :=
  IS_MAX_FRAGMENT_LENGTH_EXT_VALID session.ext.max_fragment_len_mode

/-- Modelled from the spec: PACKET_get_bytes (internal/packet.h), read len bytes. -/
def PACKET_get_bytes (pkt : PACKET) (len : Nat) : Option (List Nat × PACKET) :=
  if pkt.length < len then none else some (pkt.take len, pkt.drop len)

/-- Modelled from the spec: PACKET_contains_zero_byte (internal/packet.h). -/
def PACKET_contains_zero_byte (pkt : PACKET) : Bool := pkt.contains 0

/-- Modelled from the spec: PACKET_strndup (internal/packet.h), the packet
copied as a C string: the copy ends before the first zero byte. -/
def PACKET_strndup (pkt : PACKET) : List Nat := pkt.takeWhile (fun b => b != 0)

/-- Modelled from the spec: strlen of a C string. -/
def strlen (str : List Nat) : Nat := (str.takeWhile (fun b => b != 0)).length

/-- Modelled from the spec: PACKET_equal (internal/packet.h): the packet has
num bytes and they are the first num bytes at ptr. -/
def PACKET_equal (pkt : PACKET) (ptr : List Nat) (num : Nat) : Bool :=
  decide (PACKET_remaining pkt = num) && pkt == ptr.take num

/-- Modelled from the spec: PACKET_memdup (internal/packet.h): a copy of the
packet, the NULL pointer for an empty packet. -/
def PACKET_memdup (pkt : PACKET) : Option (List Nat) :=
  if PACKET_remaining pkt = 0 then none else some pkt

/-- Modelled from the spec: memcmp over n bytes; only whether the result is
zero is used. -/
def memcmp (a b : List Nat) (n : Nat) : Nat := if a.take n = b.take n then 0 else 1

/-- Parse the client's renegotiation binding (lines 42-80), in a production
build (FUZZING_BUILD_MODE_UNSAFE_FOR_PRODUCTION undefined). -/
def tls_parse_ctos_renegotiate (s : SSL_CONNECTION) (pkt : PACKET) : RET :=
  match PACKET_get_1 pkt with
  | none => (0, SSLfatal s Alert.SSL_AD_DECODE_ERROR Reason.SSL_R_RENEGOTIATION_ENCODING_ERR)
  | some (ilen, pkt1) =>
  match PACKET_get_bytes pkt1 ilen with
  | none => (0, SSLfatal s Alert.SSL_AD_DECODE_ERROR Reason.SSL_R_RENEGOTIATION_ENCODING_ERR)
  | some (data, _) =>
  if ilen ≠ s.s3.previous_client_finished_len then
    (0, SSLfatal s Alert.SSL_AD_HANDSHAKE_FAILURE Reason.SSL_R_RENEGOTIATION_MISMATCH)
  else
  let ok := memcmp data s.s3.previous_client_finished s.s3.previous_client_finished_len
  if ok ≠ 0 then
    (0, SSLfatal s Alert.SSL_AD_HANDSHAKE_FAILURE Reason.SSL_R_RENEGOTIATION_MISMATCH)
  else
    (1, { s with s3 := { s.s3 with send_connection_binding := 1 } })

/-- Process the server_name extension of a ClientHello (lines 105-175). The
copy made by PACKET_strndup is taken to succeed. -/
def tls_parse_ctos_server_name (s : SSL_CONNECTION) (pkt : PACKET) : RET :=
  match PACKET_as_length_prefixed_2 pkt with
  | none => (0, SSLfatal s Alert.SSL_AD_DECODE_ERROR Reason.SSL_R_BAD_EXTENSION)
  | some sni =>
  if PACKET_remaining sni = 0 then
    (0, SSLfatal s Alert.SSL_AD_DECODE_ERROR Reason.SSL_R_BAD_EXTENSION)
  else
  match PACKET_get_1 sni with
  | none => (0, SSLfatal s Alert.SSL_AD_DECODE_ERROR Reason.SSL_R_BAD_EXTENSION)
  | some (servname_type, sni1) =>
  if servname_type ≠ TLSEXT_NAMETYPE_host_name then
    (0, SSLfatal s Alert.SSL_AD_DECODE_ERROR Reason.SSL_R_BAD_EXTENSION)
  else
  match PACKET_as_length_prefixed_2 sni1 with
  | none => (0, SSLfatal s Alert.SSL_AD_DECODE_ERROR Reason.SSL_R_BAD_EXTENSION)
  | some hostname =>
  if s.hit = false ∨ SSL_CONNECTION_IS_TLS13 s = true then
    if PACKET_remaining hostname > TLSEXT_MAXLEN_host_name then
      (0, SSLfatal s Alert.SSL_AD_UNRECOGNIZED_NAME Reason.SSL_R_BAD_EXTENSION)
    else if PACKET_contains_zero_byte hostname = true then
      (0, SSLfatal s Alert.SSL_AD_UNRECOGNIZED_NAME Reason.SSL_R_BAD_EXTENSION)
    else
      (1, { s with ext := { s.ext with hostname := some (PACKET_strndup hostname) },
                   servername_done := 1 })
  else
    match s.session.ext.hostname with
    | none => (1, { s with servername_done := 0 })
    | some session_hostname =>
      (1, { s with servername_done :=
              if PACKET_equal hostname session_hostname (strlen session_hostname) = true
              then 1 else 0 })

/-- Process the max_fragment_length extension of a ClientHello (lines 177-217). -/
def tls_parse_ctos_maxfragmentlen (s : SSL_CONNECTION) (pkt : PACKET) : RET :=
  if PACKET_remaining pkt ≠ 1 then
    (0, SSLfatal s Alert.SSL_AD_DECODE_ERROR Reason.SSL_R_BAD_EXTENSION)
  else
  match PACKET_get_1 pkt with
  | none => (0, SSLfatal s Alert.SSL_AD_DECODE_ERROR Reason.SSL_R_BAD_EXTENSION)
  | some (value, _) =>
  if IS_MAX_FRAGMENT_LENGTH_EXT_VALID value = false then
    (0, SSLfatal s Alert.SSL_AD_ILLEGAL_PARAMETER
          Reason.SSL_R_SSL3_EXT_INVALID_MAX_FRAGMENT_LENGTH)
  else if s.session.ext.max_fragment_len_mode = TLSEXT_max_fragment_length_UNSPECIFIED then
    (1, { s with session := { s.session with
            ext := { s.session.ext with max_fragment_len_mode := value } } })
  else (1, s)

/-- The do-while loop of tls_parse_ctos_alpn (lines 470-477): true when every
protocol name could be read and none was empty. Each round reads at least one
byte, so a fuel of one more than the number of remaining bytes is never used
up; none is returned when the fuel is exhausted. -/
def alpn_loop : Nat → PACKET → Option Bool
  | 0, _ => none
  | fuel + 1, protocol_list =>
    match PACKET_get_length_prefixed_1 protocol_list with
    | none => some false
    | some (protocol, protocol_list1) =>
      if PACKET_remaining protocol = 0 then some false
      else if PACKET_remaining protocol_list1 ≠ 0 then alpn_loop fuel protocol_list1
      else some true

/-- Save the ALPN extension of a ClientHello (lines 455-489). The copy made by
PACKET_memdup is taken to succeed. -/
def tls_parse_ctos_alpn (s : SSL_CONNECTION) (pkt : PACKET) : Option RET :=
  if SSL_IS_FIRST_HANDSHAKE s = false then some (1, s)
  else
  match PACKET_as_length_prefixed_2 pkt with
  | none => some (0, SSLfatal s Alert.SSL_AD_DECODE_ERROR Reason.SSL_R_BAD_EXTENSION)
  | some protocol_list =>
  if PACKET_remaining protocol_list < 2 then
    some (0, SSLfatal s Alert.SSL_AD_DECODE_ERROR Reason.SSL_R_BAD_EXTENSION)
  else
  let save_protocol_list := protocol_list
  match alpn_loop (PACKET_remaining protocol_list + 1) protocol_list with
  | none => none
  | some false => some (0, SSLfatal s Alert.SSL_AD_DECODE_ERROR Reason.SSL_R_BAD_EXTENSION)
  | some true =>
    some (1, { s with s3 := { s.s3 with alpn_proposed := PACKET_memdup save_protocol_list } })

/-- The chain of writer calls of tls_construct_stoc_maxfragmentlen (lines
1627-1630). -/
def maxfragmentlen_write (s : SSL_CONNECTION) (pkt : WPACKET) : Option WPACKET :=
  match WPACKET_put_bytes_u16 pkt TLSEXT_TYPE_max_fragment_length with
  | none => none
  | some p1 =>
  match WPACKET_start_sub_packet_u16 p1 with
  | none => none
  | some p2 =>
  match WPACKET_put_bytes_u8 p2 s.session.ext.max_fragment_len_mode with
  | none => none
  | some p3 => WPACKET_close p3

/-- Add the max_fragment_length extension to a ServerHello (lines 1616-1636).
On failure the model returns the packet as it was on entry. -/
def tls_construct_stoc_maxfragmentlen (s : SSL_CONNECTION) (pkt : WPACKET) : EXT_RESULT :=
  if USE_MAX_FRAGMENT_LENGTH_EXT s.session = false then (EXT_RETURN.EXT_RETURN_NOT_SENT, s, pkt)
  else
  match maxfragmentlen_write s pkt with
  | none =>
    (EXT_RETURN.EXT_RETURN_FAIL,
      SSLfatal s Alert.SSL_AD_INTERNAL_ERROR Reason.ERR_R_INTERNAL_ERROR, pkt)
  | some pkt1 => (EXT_RETURN.EXT_RETURN_SENT, s, pkt1)

/-! ## Wire forms of the ClientHello extensions above -/

/-- The body of a renegotiation_info extension: the 1-byte length of the
binding, then the binding. -/
def renegotiation_info (payload : List Nat) : List Nat := payload.length :: payload

/-- The client's Finished of the previous handshake: the used part of the
buffer previous_client_finished. -/
def client_finished (s : SSL_CONNECTION) : List Nat :=
  s.s3.previous_client_finished.take s.s3.previous_client_finished_len

/-- One entry of a ServerNameList: the name type, the 2-byte length of the
name, the name. -/
def server_name_entry (name_type : Nat) (name : List Nat) : List Nat :=
  name_type :: (put_value name.length 2 ++ name)

/-- The body of a server_name extension whose list is the given bytes. -/
def server_name_list (list : List Nat) : List Nat := put_value list.length 2 ++ list

/-- The body of a server_name extension with exactly one entry, of type
host_name, for the given name. -/
def server_name_extension (name : List Nat) : List Nat :=
  server_name_list (server_name_entry TLSEXT_NAMETYPE_host_name name)

/-- The ProtocolNameList of ALPN: every name behind its 1-byte length. -/
def alpn_protocol_list : List (List Nat) → List Nat
  | [] => []
  | name :: names => (name.length :: name) ++ alpn_protocol_list names

/-- The body of an ALPN extension: the 2-byte length of the list, then the list. -/
def alpn_extension (list : List Nat) : List Nat := put_value list.length 2 ++ list

/-- The body of a max_fragment_length extension in a ServerHello, behind its
type and length: one code byte. -/
def maxfragmentlen_extension (mode : Nat) : List Nat :=
  put_value TLSEXT_TYPE_max_fragment_length 2 ++ (put_value 1 2 ++ [mode])

/-- The comparison made on a resumption (lines 169-171): the session has a
host name, and the offered name has the length of that C string and its bytes. -/
def session_hostname_equal (s : SSL_CONNECTION) (name : List Nat) : Bool :=
  match s.session.ext.hostname with
  | none => false
  | some session_hostname => PACKET_equal name session_hostname (strlen session_hostname)

/-- A well-formed ALPN extension body: a 2-byte length-prefixed list that
fills the body and is the concatenation of one or more entries, each a 1-byte
length n ≥ 1 followed by n bytes. -/
def alpn_well_formed (body : List Nat) : Prop :=
  ∃ names : List (List Nat), names ≠ [] ∧ (∀ n ∈ names, n ≠ [])
    ∧ (alpn_protocol_list names).length < 65536
    ∧ body = alpn_extension (alpn_protocol_list names)

/-- The cookie's HMAC verifies: the cookie has at least the 32 bytes of a MAC
and its last 32 bytes are the HMAC-SHA-256, under the connection's cookie key,
of all the bytes before them. -/
def cookie_mac_valid (env : Env) (s : SSL_CONNECTION) (cookie : List Nat) : Prop :=
  SHA256_DIGEST_LENGTH ≤ cookie.length
    ∧ env.EVP_DigestSign s.ext.cookie_hmac_key (cookie.take (cookie.length - SHA256_DIGEST_LENGTH))
        = some (cookie.drop (cookie.length - SHA256_DIGEST_LENGTH))

/-! ## supported_versions and key_share of the server (lines 1899-2053) -/

/-- The part of TLS_GROUP_INFO read by the key_share constructor. -/
structure TLS_GROUP_INFO where
  is_kem : Bool
  deriving DecidableEq, Repr

/-- The collaborators of tls_construct_stoc_key_share that are outside this
file. A function that returns an int gives the return value and the connection
after the call; a failing callee has staged its alert in that connection.
* tls13_generate_handshake_secret s: called with no input secret.
* tls1_group_id_lookup g: the group table entry, none when g is unknown.
* ssl_generate_pkey s ckey: a fresh key for the group of ckey.
* EVP_PKEY_get1_encoded_public_key skey: the encoded public key, empty on failure.
* ssl_derive s skey ckey: key agreement and update of the crypto state.
* ssl_encapsulate s ckey: return value, connection and ciphertext.
* ssl_gensecret s: update of the crypto state from s3.tmp.pms. -/
structure KexEnv where
  tls13_generate_handshake_secret : SSL_CONNECTION → Nat × SSL_CONNECTION
  tls1_group_id_lookup : Nat → Option TLS_GROUP_INFO
  ssl_generate_pkey : SSL_CONNECTION → EVP_PKEY → Option EVP_PKEY
  EVP_PKEY_get1_encoded_public_key : EVP_PKEY → List Nat
  ssl_derive : SSL_CONNECTION → EVP_PKEY → EVP_PKEY → Nat × SSL_CONNECTION
  ssl_encapsulate : SSL_CONNECTION → EVP_PKEY → Nat × SSL_CONNECTION × List Nat
  ssl_gensecret : SSL_CONNECTION → Nat × SSL_CONNECTION

/-- The chain of writer calls of tls_construct_stoc_supported_versions (lines
1908-1911). -/
def supported_versions_write (s : SSL_CONNECTION) (pkt : WPACKET) : Option WPACKET :=
  match WPACKET_put_bytes_u16 pkt TLSEXT_TYPE_supported_versions with
  | none => none
  | some p1 =>
  match WPACKET_start_sub_packet_u16 p1 with
  | none => none
  | some p2 =>
  match WPACKET_put_bytes_u16 p2 s.version with
  | none => none
  | some p3 => WPACKET_close p3

/-- Write the supported_versions extension of a ServerHello or
HelloRetryRequest (lines 1899-1917). On failure the model returns the packet
as it was on entry. -/
def tls_construct_stoc_supported_versions (s : SSL_CONNECTION) (pkt : WPACKET) : EXT_RESULT :=
  if SSL_CONNECTION_IS_TLS13 s = false then
    (EXT_RETURN.EXT_RETURN_FAIL,
      SSLfatal s Alert.SSL_AD_INTERNAL_ERROR Reason.ERR_R_INTERNAL_ERROR, pkt)
  else
  match supported_versions_write s pkt with
  | none =>
    (EXT_RETURN.EXT_RETURN_FAIL,
      SSLfatal s Alert.SSL_AD_INTERNAL_ERROR Reason.ERR_R_INTERNAL_ERROR, pkt)
  | some pkt1 => (EXT_RETURN.EXT_RETURN_SENT, s, pkt1)

/-- The chain of writer calls for the key_share extension of a
HelloRetryRequest (lines 1934-1937): the extension type and, length-prefixed,
the group the server asks for. -/
def key_share_hrr_write (s : SSL_CONNECTION) (pkt : WPACKET) : Option WPACKET :=
  match WPACKET_put_bytes_u16 pkt TLSEXT_TYPE_key_share with
  | none => none
  | some p1 =>
  match WPACKET_start_sub_packet_u16 p1 with
  | none => none
  | some p2 =>
  match WPACKET_put_bytes_u16 p2 s.s3.group_id with
  | none => none
  | some p3 => WPACKET_close p3

/-- The first chain of writer calls for the key_share extension of a
ServerHello (lines 1964-1966); the sub-packet stays open. -/
def key_share_open (s : SSL_CONNECTION) (pkt : WPACKET) : Option WPACKET :=
  match WPACKET_put_bytes_u16 pkt TLSEXT_TYPE_key_share with
  | none => none
  | some p1 =>
  match WPACKET_start_sub_packet_u16 p1 with
  | none => none
  | some p2 => WPACKET_put_bytes_u16 p2 s.s3.group_id

/-- The second chain (lines 1993-1994 and 2032-2033): the length-prefixed key
or ciphertext, then the end of the extension. -/
def key_share_put_key (pkt : WPACKET) (key : List Nat) : Option WPACKET :=
  match WPACKET_sub_memcpy_u16 pkt key with
  | none => none
  | some p1 => WPACKET_close p1

/-- Write the key_share extension of a ServerHello or HelloRetryRequest (lines
1919-2053), built with TLS 1.3 support. On failure the model returns the
packet as it was on entry. -/
def tls_construct_stoc_key_share (kex : KexEnv) (s : SSL_CONNECTION) (pkt : WPACKET) :
    EXT_RESULT :=
  if s.hello_retry_request = HRR_STATE.SSL_HRR_PENDING then
    match s.s3.peer_tmp with
    | some _ => (EXT_RETURN.EXT_RETURN_NOT_SENT, s, pkt)
    | none =>
      match key_share_hrr_write s pkt with
      | none =>
        (EXT_RETURN.EXT_RETURN_FAIL,
          SSLfatal s Alert.SSL_AD_INTERNAL_ERROR Reason.ERR_R_INTERNAL_ERROR, pkt)
      | some pkt1 => (EXT_RETURN.EXT_RETURN_SENT, s, pkt1)
  else
  match s.s3.peer_tmp with
  | none =>
    if s.hit = false then
      (EXT_RETURN.EXT_RETURN_FAIL,
        SSLfatal s Alert.SSL_AD_INTERNAL_ERROR Reason.ERR_R_INTERNAL_ERROR, pkt)
    else
      let r := kex.tls13_generate_handshake_secret s
      if r.1 = 0 then
        (EXT_RETURN.EXT_RETURN_FAIL,
          SSLfatal r.2 Alert.SSL_AD_INTERNAL_ERROR Reason.ERR_R_INTERNAL_ERROR, pkt)
      else (EXT_RETURN.EXT_RETURN_NOT_SENT, r.2, pkt)
  | some ckey =>
  if s.hit = true ∧ s.ext.psk_kex_mode &&& TLSEXT_KEX_MODE_FLAG_KE_DHE = 0 then
    (EXT_RETURN.EXT_RETURN_NOT_SENT, s, pkt)
  else
  match key_share_open s pkt with
  | none =>
    (EXT_RETURN.EXT_RETURN_FAIL,
      SSLfatal s Alert.SSL_AD_INTERNAL_ERROR Reason.ERR_R_INTERNAL_ERROR, pkt)
  | some pkt1 =>
  match kex.tls1_group_id_lookup s.s3.group_id with
  | none =>
    (EXT_RETURN.EXT_RETURN_FAIL,
      SSLfatal s Alert.SSL_AD_INTERNAL_ERROR Reason.ERR_R_INTERNAL_ERROR, pkt)
  | some ginf =>
  if ginf.is_kem = false then
    match kex.ssl_generate_pkey s ckey with
    | none =>
      (EXT_RETURN.EXT_RETURN_FAIL,
        SSLfatal s Alert.SSL_AD_INTERNAL_ERROR Reason.ERR_R_SSL_LIB, pkt)
    | some skey =>
    let encoded_pubkey := kex.EVP_PKEY_get1_encoded_public_key skey
    if encoded_pubkey.length = 0 then
      (EXT_RETURN.EXT_RETURN_FAIL,
        SSLfatal s Alert.SSL_AD_INTERNAL_ERROR Reason.ERR_R_EC_LIB, pkt)
    else
    match key_share_put_key pkt1 encoded_pubkey with
    | none =>
      (EXT_RETURN.EXT_RETURN_FAIL,
        SSLfatal s Alert.SSL_AD_INTERNAL_ERROR Reason.ERR_R_INTERNAL_ERROR, pkt)
    | some pkt2 =>
    let s1 : SSL_CONNECTION :=
      { s with s3 := { s.s3 with tmp := { s.s3.tmp with pkey := some skey } } }
    let r := kex.ssl_derive s1 skey ckey
    if r.1 = 0 then (EXT_RETURN.EXT_RETURN_FAIL, r.2, pkt)
    else (EXT_RETURN.EXT_RETURN_SENT, { r.2 with s3 := { r.2.s3 with did_kex := 1 } }, pkt2)
  else
    let r := kex.ssl_encapsulate s ckey
    if r.1 = 0 then (EXT_RETURN.EXT_RETURN_FAIL, r.2.1, pkt)
    else if r.2.2.length = 0 then
      (EXT_RETURN.EXT_RETURN_FAIL,
        SSLfatal r.2.1 Alert.SSL_AD_INTERNAL_ERROR Reason.ERR_R_INTERNAL_ERROR, pkt)
    else
    match key_share_put_key pkt1 r.2.2 with
    | none =>
      (EXT_RETURN.EXT_RETURN_FAIL,
        SSLfatal r.2.1 Alert.SSL_AD_INTERNAL_ERROR Reason.ERR_R_INTERNAL_ERROR, pkt)
    | some pkt2 =>
    let r2 := kex.ssl_gensecret r.2.1
    if r2.1 = 0 then (EXT_RETURN.EXT_RETURN_FAIL, r2.2, pkt)
    else (EXT_RETURN.EXT_RETURN_SENT, { r2.2 with s3 := { r2.2.s3 with did_kex := 1 } }, pkt2)

/-! ## use_srtp, encrypt_then_mac, extended_master_secret, early_data,
psk_key_exchange_modes and the certificate type extensions
(lines 491-612, 1244-1276, 1853-1897, 2211-2420) -/

/-- Modelled from the spec: SSL_OP_NO_EXTENDED_MASTER_SECRET, option bit 0 (ssl.h). -/
def SSL_OP_NO_EXTENDED_MASTER_SECRET : Nat := 2 ^ 0

/-- Modelled from the spec: SSL_OP_ALLOW_NO_DHE_KEX, option bit 10 (ssl.h). -/
def SSL_OP_ALLOW_NO_DHE_KEX : Nat := 2 ^ 10

/-- Modelled from the spec: SSL_OP_NO_TICKET, option bit 14 (ssl.h). -/
def SSL_OP_NO_TICKET : Nat := 2 ^ 14

/-- Modelled from the spec: SSL_OP_NO_ENCRYPT_THEN_MAC, option bit 19 (ssl.h). -/
def SSL_OP_NO_ENCRYPT_THEN_MAC : Nat := 2 ^ 19

/-- Modelled from the spec: SSL_OP_NO_ANTI_REPLAY, option bit 24 (ssl.h). -/
def SSL_OP_NO_ANTI_REPLAY : Nat := 2 ^ 24

/-- Modelled from the spec: SSL_OP_PREFER_NO_DHE_KEX, option bit 35 (ssl.h). -/
def SSL_OP_PREFER_NO_DHE_KEX : Nat := 2 ^ 35

/-- Modelled from the spec: the s3.flags bit that records a received
extended_master_secret extension (tls1.h). -/
def TLS1_FLAGS_RECEIVED_EXTMS : Nat := 0x0200

/-- Modelled from the spec: the psk_key_exchange_modes code psk_ke (tls1.h). -/
def TLSEXT_KEX_MODE_KE : Nat := 0

/-- Modelled from the spec: the psk_key_exchange_modes code psk_dhe_ke (tls1.h). -/
def TLSEXT_KEX_MODE_KE_DHE : Nat := 1

/-- Modelled from the spec: IANA extension number of client_certificate_type (tls1.h). -/
def TLSEXT_TYPE_client_cert_type : Nat := 19

/-- Modelled from the spec: IANA extension number of encrypt_then_mac (tls1.h). -/
def TLSEXT_TYPE_encrypt_then_mac : Nat := 22

/-- Modelled from the spec: IANA extension number of extended_master_secret (tls1.h). -/
def TLSEXT_TYPE_extended_master_secret : Nat := 23

/-- Modelled from the spec: IANA extension number of pre_shared_key (tls1.h). -/
def TLSEXT_TYPE_psk : Nat := 41

/-- Modelled from the spec: IANA extension number of early_data (tls1.h). -/
def TLSEXT_TYPE_early_data : Nat := 42

/-- Modelled from the spec: the context flag of a NewSessionTicket message (ssl.h). -/
def SSL_EXT_TLS1_3_NEW_SESSION_TICKET : Nat := 0x2000

/-- Modelled from the spec: the value of ext.early_data once early data has
been accepted (ssl.h). -/
def SSL_EARLY_DATA_ACCEPTED : Nat := 2

/-- Modelled from the spec: the post_handshake_auth state "extension received"
(ssl_local.h). -/
def SSL_PHA_EXT_RECEIVED : Nat := 2

/-- Modelled from the spec: certificate type negotiation not done (ssl_local.h). -/
def OSSL_CERT_TYPE_CTOS_NONE : Nat := 0

/-- Modelled from the spec: certificate type negotiation succeeded (ssl_local.h). -/
def OSSL_CERT_TYPE_CTOS_GOOD : Nat := 1

/-- Modelled from the spec: certificate type negotiation failed (ssl_local.h). -/
def OSSL_CERT_TYPE_CTOS_ERROR : Nat := 2

/-- Modelled from the spec: the certificate type X.509 (tls1.h). -/
def TLSEXT_cert_type_x509 : Nat := 0

/-- Modelled from the spec: the MAC mask of an AEAD cipher (ssl_local.h). -/
def SSL_AEAD : Nat := 0x40

/-- Modelled from the spec: the encryption mask of RC4 (ssl_local.h). -/
def SSL_RC4 : Nat := 0x4

/-- Modelled from the spec: the encryption mask of GOST 28147-89 CNT (ssl_local.h). -/
def SSL_eGOST2814789CNT : Nat := 0x400

/-- Modelled from the spec: the encryption mask of GOST 28147-89 CNT12 (ssl_local.h). -/
def SSL_eGOST2814789CNT12 : Nat := 0x40000

/-- Modelled from the spec: the encryption mask of Magma (ssl_local.h). -/
def SSL_MAGMA : Nat := 0x400000

/-- Modelled from the spec: the encryption mask of Kuznyechik (ssl_local.h). -/
def SSL_KUZNYECHIK : Nat := 0x800000

/-- Modelled from the spec: PACKET_get_sub_packet (internal/packet.h), read
len bytes as a sub-packet. -/
def PACKET_get_sub_packet (pkt : PACKET) (len : Nat) : Option (PACKET × PACKET) :=
  if pkt.length < len then none else some (pkt.take len, pkt.drop len)

/-- Modelled from the spec: PACKET_as_length_prefixed_1 (internal/packet.h),
the whole packet must be one 1-byte length-prefixed block. -/
def PACKET_as_length_prefixed_1 (pkt : PACKET) : Option PACKET :=
  match PACKET_get_1 pkt with
  | none => none
  | some (len, rest) => if rest.length = len then some rest else none

/-- Modelled from the spec: PACKET_get_net_4 (internal/packet.h), read a
big-endian 32-bit value. -/
def PACKET_get_net_4 (pkt : PACKET) : Option (Nat × PACKET) :=
  if pkt.length < 4 then none else some (net_value (pkt.take 4), pkt.drop 4)

/-- Modelled from the spec: WPACKET_put_bytes_u32. -/
def WPACKET_put_bytes_u32 (pkt : WPACKET) (val : Nat) : Option WPACKET := WPACKET_put_bytes pkt val 4

/-- The for loop of tls_parse_ctos_use_srtp (lines 531-540), from index i on:
the first server profile of index below srtp_pref whose id is id, with its
index. -/
def srtp_match (id : Nat) :
    List SRTP_PROTECTION_PROFILE → Nat → Nat → Option (SRTP_PROTECTION_PROFILE × Nat)
  | [], _, _ => none
  | sprof :: rest, i, srtp_pref =>
    if i < srtp_pref then
      if sprof.id = id then some (sprof, i) else srtp_match id rest (i + 1) srtp_pref
    else none

/-- The while loop of tls_parse_ctos_use_srtp (lines 518-541) over the
client's profile list; the first component is 0 when a profile id could not
be read. -/
def srtp_loop (srvr : List SRTP_PROTECTION_PROFILE) : PACKET → SSL_CONNECTION → Nat → RET
  | [], s, _ => (1, s)
  | [_], s, _ =>
    (0, SSLfatal s Alert.SSL_AD_DECODE_ERROR Reason.SSL_R_BAD_SRTP_PROTECTION_PROFILE_LIST)
  | b0 :: b1 :: subpkt, s, srtp_pref =>
    match srtp_match (b0 * 256 + b1) srvr 0 srtp_pref with
    | some (sprof, i) => srtp_loop srvr subpkt { s with srtp_profile := some sprof } i
    | none => srtp_loop srvr subpkt s srtp_pref

/-- Process the use_srtp extension of a ClientHello (lines 492-557). -/
def tls_parse_ctos_use_srtp (s : SSL_CONNECTION) (pkt : PACKET) : RET :=
  match s.srtp_profiles with
  | none => (1, s)
  | some srvr =>
  match PACKET_get_net_2 pkt with
  | none =>
    (0, SSLfatal s Alert.SSL_AD_DECODE_ERROR Reason.SSL_R_BAD_SRTP_PROTECTION_PROFILE_LIST)
  | some (ct, pkt1) =>
  if ct &&& 1 ≠ 0 then
    (0, SSLfatal s Alert.SSL_AD_DECODE_ERROR Reason.SSL_R_BAD_SRTP_PROTECTION_PROFILE_LIST)
  else
  match PACKET_get_sub_packet pkt1 ct with
  | none =>
    (0, SSLfatal s Alert.SSL_AD_DECODE_ERROR Reason.SSL_R_BAD_SRTP_PROTECTION_PROFILE_LIST)
  | some (subpkt, pkt2) =>
  let r := srtp_loop srvr subpkt { s with srtp_profile := none } srvr.length
  if r.1 = 0 then r
  else
  match PACKET_get_1 pkt2 with
  | none =>
    (0, SSLfatal r.2 Alert.SSL_AD_DECODE_ERROR Reason.SSL_R_BAD_SRTP_PROTECTION_PROFILE_LIST)
  | some (mki_len, pkt3) =>
  match PACKET_forward pkt3 mki_len with
  | none => (0, SSLfatal r.2 Alert.SSL_AD_DECODE_ERROR Reason.SSL_R_BAD_SRTP_MKI_VALUE)
  | some pkt4 =>
  if PACKET_remaining pkt4 ≠ 0 then
    (0, SSLfatal r.2 Alert.SSL_AD_DECODE_ERROR Reason.SSL_R_BAD_SRTP_MKI_VALUE)
  else (1, r.2)

/-- Process the encrypt_then_mac extension of a ClientHello (lines 560-567).
The packet is not read. -/
def tls_parse_ctos_etm (s : SSL_CONNECTION) (_pkt : PACKET) : RET :=
  if s.options &&& SSL_OP_NO_ENCRYPT_THEN_MAC = 0 then
    (1, { s with ext := { s.ext with use_etm := 1 } })
  else (1, s)

/-- The while loop of tls_parse_ctos_psk_kex_modes (lines 587-593). -/
def psk_kex_modes_loop : PACKET → SSL_CONNECTION → SSL_CONNECTION
  | [], s => s
  | mode :: psk_kex_modes, s =>
    if mode = TLSEXT_KEX_MODE_KE_DHE then
      psk_kex_modes_loop psk_kex_modes
        { s with ext := { s.ext with
            psk_kex_mode := s.ext.psk_kex_mode ||| TLSEXT_KEX_MODE_FLAG_KE_DHE } }
    else if mode = TLSEXT_KEX_MODE_KE ∧ s.options &&& SSL_OP_ALLOW_NO_DHE_KEX ≠ 0 then
      psk_kex_modes_loop psk_kex_modes
        { s with ext := { s.ext with
            psk_kex_mode := s.ext.psk_kex_mode ||| TLSEXT_KEX_MODE_FLAG_KE } }
    else psk_kex_modes_loop psk_kex_modes s

/-- Process the psk_key_exchange_modes extension of a ClientHello (lines
573-612), built with TLS 1.3 support. -/
def tls_parse_ctos_psk_kex_modes (s : SSL_CONNECTION) (pkt : PACKET) : RET :=
  match PACKET_as_length_prefixed_1 pkt with
  | none => (0, SSLfatal s Alert.SSL_AD_DECODE_ERROR Reason.SSL_R_BAD_EXTENSION)
  | some psk_kex_modes =>
  if PACKET_remaining psk_kex_modes = 0 then
    (0, SSLfatal s Alert.SSL_AD_DECODE_ERROR Reason.SSL_R_BAD_EXTENSION)
  else
  let s1 := psk_kex_modes_loop psk_kex_modes s
  if s1.ext.psk_kex_mode &&& TLSEXT_KEX_MODE_FLAG_KE ≠ 0
      ∧ s1.options &&& SSL_OP_PREFER_NO_DHE_KEX ≠ 0 then
    (1, { s1 with ext := { s1.ext with psk_kex_mode := TLSEXT_KEX_MODE_FLAG_KE } })
  else (1, s1)

/-- Process the extended_master_secret extension of a ClientHello (lines
1244-1259). -/
def tls_parse_ctos_ems (s : SSL_CONNECTION) (pkt : PACKET) : RET :=
  if PACKET_remaining pkt ≠ 0 then
    (0, SSLfatal s Alert.SSL_AD_DECODE_ERROR Reason.SSL_R_BAD_EXTENSION)
  else if s.options &&& SSL_OP_NO_EXTENDED_MASTER_SECRET ≠ 0 then (1, s)
  else (1, { s with s3 := { s.s3 with flags := s.s3.flags ||| TLS1_FLAGS_RECEIVED_EXTMS } })

/-- Process the early_data extension of a ClientHello (lines 1262-1276). -/
def tls_parse_ctos_early_data (s : SSL_CONNECTION) (pkt : PACKET) : RET :=
  if PACKET_remaining pkt ≠ 0 then
    (0, SSLfatal s Alert.SSL_AD_DECODE_ERROR Reason.SSL_R_BAD_EXTENSION)
  else if s.hello_retry_request ≠ HRR_STATE.SSL_HRR_NONE then
    (0, SSLfatal s Alert.SSL_AD_ILLEGAL_PARAMETER Reason.SSL_R_BAD_EXTENSION)
  else (1, s)

/-- The two writer calls of an extension with an empty body: the type and the
length 0. -/
def empty_extension_write (pkt : WPACKET) (ext_type : Nat) : Option WPACKET :=
  match WPACKET_put_bytes_u16 pkt ext_type with
  | none => none
  | some p1 => WPACKET_put_bytes_u16 p1 0

/-- Write the encrypt_then_mac extension of a ServerHello (lines 1853-1881).
The chosen cipher is dereferenced: without one the call does not return.
On failure the model returns the packet as it was on entry. -/
def tls_construct_stoc_etm (s : SSL_CONNECTION) (pkt : WPACKET) : Option EXT_RESULT :=
  if s.ext.use_etm = 0 then some (EXT_RETURN.EXT_RETURN_NOT_SENT, s, pkt)
  else
  match s.s3.tmp.new_cipher with
  | none => none
  | some new_cipher =>
  if new_cipher.algorithm_mac = SSL_AEAD
      ∨ new_cipher.algorithm_enc = SSL_RC4
      ∨ new_cipher.algorithm_enc = SSL_eGOST2814789CNT
      ∨ new_cipher.algorithm_enc = SSL_eGOST2814789CNT12
      ∨ new_cipher.algorithm_enc = SSL_MAGMA
      ∨ new_cipher.algorithm_enc = SSL_KUZNYECHIK then
    some (EXT_RETURN.EXT_RETURN_NOT_SENT, { s with ext := { s.ext with use_etm := 0 } }, pkt)
  else
  match empty_extension_write pkt TLSEXT_TYPE_encrypt_then_mac with
  | none =>
    some (EXT_RETURN.EXT_RETURN_FAIL,
      SSLfatal s Alert.SSL_AD_INTERNAL_ERROR Reason.ERR_R_INTERNAL_ERROR, pkt)
  | some pkt1 => some (EXT_RETURN.EXT_RETURN_SENT, s, pkt1)

/-- Write the extended_master_secret extension of a ServerHello (lines
1883-1897). On failure the model returns the packet as it was on entry. -/
def tls_construct_stoc_ems (s : SSL_CONNECTION) (pkt : WPACKET) : EXT_RESULT :=
  if s.s3.flags &&& TLS1_FLAGS_RECEIVED_EXTMS = 0 then (EXT_RETURN.EXT_RETURN_NOT_SENT, s, pkt)
  else
  match empty_extension_write pkt TLSEXT_TYPE_extended_master_secret with
  | none =>
    (EXT_RETURN.EXT_RETURN_FAIL,
      SSLfatal s Alert.SSL_AD_INTERNAL_ERROR Reason.ERR_R_INTERNAL_ERROR, pkt)
  | some pkt1 => (EXT_RETURN.EXT_RETURN_SENT, s, pkt1)

/-- The writer calls of the early_data extension of a NewSessionTicket (lines
2219-2222). -/
def early_data_ticket_write (s : SSL_CONNECTION) (pkt : WPACKET) : Option WPACKET :=
  match WPACKET_put_bytes_u16 pkt TLSEXT_TYPE_early_data with
  | none => none
  | some p1 =>
  match WPACKET_start_sub_packet_u16 p1 with
  | none => none
  | some p2 =>
  match WPACKET_put_bytes_u32 p2 s.max_early_data with
  | none => none
  | some p3 => WPACKET_close p3

/-- The writer calls of the early_data extension of EncryptedExtensions (lines
2233-2235). -/
def early_data_write (pkt : WPACKET) : Option WPACKET :=
  match WPACKET_put_bytes_u16 pkt TLSEXT_TYPE_early_data with
  | none => none
  | some p1 =>
  match WPACKET_start_sub_packet_u16 p1 with
  | none => none
  | some p2 => WPACKET_close p2

/-- Write the early_data extension (lines 2211-2241). On failure the model
returns the packet as it was on entry. -/
def tls_construct_stoc_early_data (s : SSL_CONNECTION) (pkt : WPACKET) (context : Nat) :
    EXT_RESULT :=
  if context = SSL_EXT_TLS1_3_NEW_SESSION_TICKET then
    if s.max_early_data = 0 then (EXT_RETURN.EXT_RETURN_NOT_SENT, s, pkt)
    else
    match early_data_ticket_write s pkt with
    | none =>
      (EXT_RETURN.EXT_RETURN_FAIL,
        SSLfatal s Alert.SSL_AD_INTERNAL_ERROR Reason.ERR_R_INTERNAL_ERROR, pkt)
    | some pkt1 => (EXT_RETURN.EXT_RETURN_SENT, s, pkt1)
  else if s.ext.early_data ≠ SSL_EARLY_DATA_ACCEPTED then (EXT_RETURN.EXT_RETURN_NOT_SENT, s, pkt)
  else
  match early_data_write pkt with
  | none =>
    (EXT_RETURN.EXT_RETURN_FAIL,
      SSLfatal s Alert.SSL_AD_INTERNAL_ERROR Reason.ERR_R_INTERNAL_ERROR, pkt)
  | some pkt1 => (EXT_RETURN.EXT_RETURN_SENT, s, pkt1)

/-- The writer calls of tls_construct_stoc_psk (lines 2250-2253). -/
def psk_write (s : SSL_CONNECTION) (pkt : WPACKET) : Option WPACKET :=
  match WPACKET_put_bytes_u16 pkt TLSEXT_TYPE_psk with
  | none => none
  | some p1 =>
  match WPACKET_start_sub_packet_u16 p1 with
  | none => none
  | some p2 =>
  match WPACKET_put_bytes_u16 p2 s.ext.tick_identity with
  | none => none
  | some p3 => WPACKET_close p3

/-- Write the pre_shared_key extension of a ServerHello (lines 2243-2259). On
failure the model returns the packet as it was on entry. -/
def tls_construct_stoc_psk (s : SSL_CONNECTION) (pkt : WPACKET) : EXT_RESULT :=
  if s.hit = false then (EXT_RETURN.EXT_RETURN_NOT_SENT, s, pkt)
  else
  match psk_write s pkt with
  | none =>
    (EXT_RETURN.EXT_RETURN_FAIL,
      SSLfatal s Alert.SSL_AD_INTERNAL_ERROR Reason.ERR_R_INTERNAL_ERROR, pkt)
  | some pkt1 => (EXT_RETURN.EXT_RETURN_SENT, s, pkt1)

/-- Reconcile two certificate type lists (lines 2302-2315): the first element
of pref that occurs in other is chosen. The result is the return value and
the value of *chosen_cert_type after the call. -/
def reconcile_cert_type (pref other : List Nat) (chosen_cert_type : Nat) : Nat × Nat :=
  match pref with
  | [] => (OSSL_CERT_TYPE_CTOS_ERROR, chosen_cert_type)
  | p :: rest =>
    if other.contains p then (OSSL_CERT_TYPE_CTOS_GOOD, p)
    else reconcile_cert_type rest other chosen_cert_type

/-- Process the client_certificate_type extension of a ClientHello (lines
2317-2354). -/
def tls_parse_ctos_client_cert_type (sc : SSL_CONNECTION) (pkt : PACKET) : RET :=
  match sc.client_cert_type with
  | none =>
    (1, { sc with ext := { sc.ext with client_cert_type_ctos := OSSL_CERT_TYPE_CTOS_NONE,
                                       client_cert_type := TLSEXT_cert_type_x509 } })
  | some client_cert_type =>
  let sc_err : SSL_CONNECTION :=
    { sc with ext := { sc.ext with client_cert_type_ctos := OSSL_CERT_TYPE_CTOS_ERROR } }
  match PACKET_as_length_prefixed_1 pkt with
  | none => (0, SSLfatal sc_err Alert.SSL_AD_DECODE_ERROR Reason.SSL_R_BAD_EXTENSION)
  | some supported_cert_types =>
  let len := PACKET_remaining supported_cert_types
  if len = 0 then (0, SSLfatal sc_err Alert.SSL_AD_DECODE_ERROR Reason.SSL_R_BAD_EXTENSION)
  else
  match PACKET_get_bytes supported_cert_types len with
  | none => (0, SSLfatal sc_err Alert.SSL_AD_DECODE_ERROR Reason.SSL_R_BAD_EXTENSION)
  | some (data, _) =>
  let r := reconcile_cert_type data client_cert_type sc.ext.client_cert_type
  (1, { sc with ext := { sc.ext with client_cert_type_ctos := r.1, client_cert_type := r.2 } })

/-- Process the server_certificate_type extension of a ClientHello (lines
2382-2420). -/
def tls_parse_ctos_server_cert_type (sc : SSL_CONNECTION) (pkt : PACKET) : RET :=
  match sc.server_cert_type with
  | none =>
    (1, { sc with ext := { sc.ext with server_cert_type_ctos := OSSL_CERT_TYPE_CTOS_NONE,
                                       server_cert_type := TLSEXT_cert_type_x509 } })
  | some server_cert_type =>
  match PACKET_as_length_prefixed_1 pkt with
  | none => (0, SSLfatal sc Alert.SSL_AD_DECODE_ERROR Reason.SSL_R_BAD_EXTENSION)
  | some supported_cert_types =>
  let len := PACKET_remaining supported_cert_types
  if len = 0 then (0, SSLfatal sc Alert.SSL_AD_DECODE_ERROR Reason.SSL_R_BAD_EXTENSION)
  else
  match PACKET_get_bytes supported_cert_types len with
  | none => (0, SSLfatal sc Alert.SSL_AD_DECODE_ERROR Reason.SSL_R_BAD_EXTENSION)
  | some (data, _) =>
  let r := reconcile_cert_type server_cert_type data sc.ext.server_cert_type
  let sc1 : SSL_CONNECTION :=
    { sc with ext := { sc.ext with server_cert_type_ctos := r.1, server_cert_type := r.2 } }
  if sc1.ext.server_cert_type_ctos = OSSL_CERT_TYPE_CTOS_GOOD then (1, sc1)
  else (0, SSLfatal sc1 Alert.SSL_AD_UNSUPPORTED_CERTIFICATE Reason.SSL_R_BAD_EXTENSION)

/-- The writer calls of tls_construct_stoc_client_cert_type (lines 2291-2294). -/
def client_cert_type_write (sc : SSL_CONNECTION) (pkt : WPACKET) : Option WPACKET :=
  match WPACKET_put_bytes_u16 pkt TLSEXT_TYPE_client_cert_type with
  | none => none
  | some p1 =>
  match WPACKET_start_sub_packet_u16 p1 with
  | none => none
  | some p2 =>
  match WPACKET_put_bytes_u8 p2 sc.ext.client_cert_type with
  | none => none
  | some p3 => WPACKET_close p3

/-- Write the client_certificate_type extension (lines 2261-2299).
send_certificate_request is the predicate of the handshake state machine
(statem_srvr.c) that tells whether a CertificateRequest will be sent. On
failure the model returns the packet as it was on entry. -/
def tls_construct_stoc_client_cert_type (send_certificate_request : SSL_CONNECTION → Bool)
    (sc : SSL_CONNECTION) (pkt : WPACKET) : EXT_RESULT :=
  if sc.ext.client_cert_type_ctos = OSSL_CERT_TYPE_CTOS_ERROR
      ∧ (send_certificate_request sc = true ∨ sc.post_handshake_auth = SSL_PHA_EXT_RECEIVED) then
    (EXT_RETURN.EXT_RETURN_FAIL,
      SSLfatal sc Alert.SSL_AD_UNSUPPORTED_CERTIFICATE Reason.SSL_R_BAD_EXTENSION, pkt)
  else if sc.ext.client_cert_type = TLSEXT_cert_type_x509 then
    (EXT_RETURN.EXT_RETURN_NOT_SENT,
      { sc with ext := { sc.ext with client_cert_type_ctos := OSSL_CERT_TYPE_CTOS_NONE } }, pkt)
  else if (send_certificate_request sc = false ∧ sc.post_handshake_auth ≠ SSL_PHA_EXT_RECEIVED)
      ∨ sc.ext.client_cert_type_ctos ≠ OSSL_CERT_TYPE_CTOS_GOOD
      ∨ sc.client_cert_type = none then
    (EXT_RETURN.EXT_RETURN_NOT_SENT,
      { sc with ext := { sc.ext with client_cert_type_ctos := OSSL_CERT_TYPE_CTOS_NONE,
                                     client_cert_type := TLSEXT_cert_type_x509 } }, pkt)
  else
  match client_cert_type_write sc pkt with
  | none =>
    (EXT_RETURN.EXT_RETURN_FAIL,
      SSLfatal sc Alert.SSL_AD_INTERNAL_ERROR Reason.ERR_R_INTERNAL_ERROR, pkt)
  | some pkt1 => (EXT_RETURN.EXT_RETURN_SENT, sc, pkt1)

/-! ## Wire encodings of the small extensions -/

/-- Wire form of a list of SRTP protection profile ids, two bytes each. -/
def srtp_profile_ids (ids : List Nat) : List Nat := (ids.map (fun id => put_value id 2)).flatten

/-- Body of a use_srtp extension (RFC 5764, 4.1.1): the 2-byte length-prefixed
list of profile ids and the 1-byte length-prefixed MKI. -/
def use_srtp_body (ids mki : List Nat) : List Nat :=
  put_value (2 * ids.length) 2 ++ (srtp_profile_ids ids ++ (put_value mki.length 1 ++ mki))

/-- Body of a psk_key_exchange_modes extension (RFC 8446, 4.2.9): the 1-byte
length-prefixed list of modes. -/
def psk_kex_modes_body (modes : List Nat) : List Nat := put_value modes.length 1 ++ modes

/-- Body of a certificate type extension of a ClientHello (RFC 7250, 3): the
1-byte length-prefixed list of certificate types. -/
def cert_type_body (types : List Nat) : List Nat := put_value types.length 1 ++ types

/-- An extension as it appears in a handshake message: the 2-byte type and the
2-byte length-prefixed body. -/
def extension_wire (ext_type : Nat) (body : List Nat) : List Nat :=
  put_value ext_type 2 ++ (put_value body.length 2 ++ body)

/-- The alert of the staged fatal error, if any. -/
def fatal_alert (s : SSL_CONNECTION) : Option Alert := s.fatal.map Prod.fst

/-- A use_srtp body is well formed: an even-length 2-byte-prefixed list of
profile ids, then a 1-byte-length MKI that fills the rest. -/
def use_srtp_well_formed (body : List Nat) : Prop :=
  ∃ ids mki : List Nat, (∀ id ∈ ids, id < 65536) ∧ 2 * ids.length < 65536 ∧ mki.length < 256
    ∧ body = use_srtp_body ids mki

/-- The psk_kex_mode after a list of offered modes: the old value with the
DHE flag added if psk_dhe_ke is offered and the KE flag added if psk_ke is
offered and SSL_OP_ALLOW_NO_DHE_KEX is set. -/
def psk_kex_mode_offered (old options : Nat) (modes : List Nat) : Nat :=
  (old ||| (if TLSEXT_KEX_MODE_KE_DHE ∈ modes then TLSEXT_KEX_MODE_FLAG_KE_DHE else 0))
    ||| (if TLSEXT_KEX_MODE_KE ∈ modes ∧ options &&& SSL_OP_ALLOW_NO_DHE_KEX ≠ 0
          then TLSEXT_KEX_MODE_FLAG_KE else 0)

/-- The final psk_kex_mode: KE only if the KE flag is set and
SSL_OP_PREFER_NO_DHE_KEX is set. -/
def psk_kex_mode_preferred (mode options : Nat) : Nat :=
  if mode &&& TLSEXT_KEX_MODE_FLAG_KE ≠ 0 ∧ options &&& SSL_OP_PREFER_NO_DHE_KEX ≠ 0
  then TLSEXT_KEX_MODE_FLAG_KE else mode

/-- A psk_key_exchange_modes body is well formed: a 1-byte length-prefixed,
non-empty list that fills the body. -/
def psk_kex_modes_well_formed (body : List Nat) : Prop :=
  ∃ modes : List Nat, modes ≠ [] ∧ modes.length < 256 ∧ body = psk_kex_modes_body modes

/-! ## Wire encoding of pre_shared_key -/

/-- One PskIdentity (RFC 8446, 4.2.11): the 2-byte length-prefixed identity
and the 4-byte obfuscated ticket age. -/
def psk_identity_wire (e : List Nat × Nat) : List Nat :=
  put_value e.1.length 2 ++ (e.1 ++ put_value e.2 4)

/-- The identities of an OfferedPsks, one after the other. -/
def psk_identities_wire (es : List (List Nat × Nat)) : List Nat :=
  (es.map psk_identity_wire).flatten

/-- The binders of an OfferedPsks, each 1-byte length-prefixed. -/
def psk_binders_wire (binders : List (List Nat)) : List Nat :=
  (binders.map (fun b => put_value b.length 1 ++ b)).flatten

/-- Body of a pre_shared_key extension of a ClientHello: the 2-byte
length-prefixed identities block and the rest, which holds the binders. -/
def psk_body (identities rest : List Nat) : List Nat :=
  put_value identities.length 2 ++ (identities ++ rest)

/-- The binders part of the body: the 2-byte length-prefixed binders block. -/
def psk_binders_block (binders : List Nat) : List Nat := put_value binders.length 2 ++ binders

/-! ## The state that a key_share leaves -/

/-- Between two connections group_id, the kex_group cached in the session and
peer_tmp are the same. -/
def key_share_state_kept (s s1 : SSL_CONNECTION) : Prop :=
  s1.s3.group_id = s.s3.group_id ∧ s1.session.kex_group = s.session.kex_group
    ∧ s1.s3.peer_tmp = s.s3.peer_tmp

/-- The connection is as a failed tls_accept_ksgroup leaves it: group_id,
group_id_candidate and kex_group hold the accepted group g, and either the
parameters of g could not be generated and peer_tmp is NULL, or the key did
not decode and peer_tmp holds the parameters of g without a key. -/
def key_share_accept_failed (env : Env) (s1 : SSL_CONNECTION) : Prop :=
  ∃ (g : Nat) (key : List Nat),
    s1.s3.group_id = g ∧ s1.s3.group_id_candidate = g ∧ s1.session.kex_group = g
    ∧ ((env.ssl_generate_param_group g = false ∧ s1.s3.peer_tmp = none
          ∧ s1.fatal = some (Alert.SSL_AD_INTERNAL_ERROR,
                              Reason.SSL_R_UNABLE_TO_FIND_ECDH_PARAMETERS))
      ∨ (env.ssl_generate_param_group g = true ∧ env.tls13_set_encoded_pub_key g key = false
          ∧ s1.s3.peer_tmp = some { group_id := g, encoded_pub_key := none }
          ∧ s1.fatal = some (Alert.SSL_AD_ILLEGAL_PARAMETER, Reason.SSL_R_BAD_ECPOINT)))

/-! ## pre_shared_key (lines 1278-1547) -/

/-- Modelled from the spec: PSK_MAX_IDENTITY_LEN (ssl.h). -/
def PSK_MAX_IDENTITY_LEN : Nat := 256

/-- Modelled from the spec: PSK_MAX_PSK_LEN (ssl.h). -/
def PSK_MAX_PSK_LEN : Nat := 512

/-- Modelled from the spec: TLS13_MAX_RESUMPTION_PSK_LENGTH, the size of the
master_key buffer of a session (ssl.h). -/
def TLS13_MAX_RESUMPTION_PSK_LENGTH : Nat := 512

/-- Modelled from the spec: OSSL_TIME_MS, the number of OSSL_TIME ticks
(nanoseconds) in a millisecond (internal/time.h). -/
def OSSL_TIME_MS : Nat := 1000000

/-- Modelled from the spec: ossl_ms2time (internal/time.h), a multiplication in
64 bits. -/
def ossl_ms2time (ms : Nat) : Nat := ms * OSSL_TIME_MS % 2 ^ 64

/-- Modelled from the spec: ossl_time_subtract (internal/time.h), which gives
zero when the difference would be negative. -/
def ossl_time_subtract (a b : Nat) : Nat := if a < b then 0 else a - b

/-- Modelled from the spec: ossl_time_add (internal/time.h), which gives the
largest time when the sum does not fit 64 bits. -/
def ossl_time_add (a b : Nat) : Nat := if a + b < 2 ^ 64 then a + b else 2 ^ 64 - 1

/-- Modelled from the spec: ossl_time_compare (internal/time.h). -/
def ossl_time_compare (a b : Nat) : Int := if a > b then 1 else if a < b then -1 else 0

/-- Modelled from the spec: TICKET_AGE_ALLOWANCE, ten seconds (ssl_local.h). -/
def TICKET_AGE_ALLOWANCE : Nat := ossl_ms2time (10 * 1000)

/-- Modelled from the spec: a message digest (EVP_MD), reduced to what the
extension code asks of it: the algorithm, given as the number of its name, and
the value of EVP_MD_get_size. -/
structure EVP_MD where
  name : Nat
  size : Int
  deriving DecidableEq, Repr

/-- Modelled from the spec: EVP_MD_get0_name, NULL for a NULL digest. -/
def EVP_MD_get0_name (md : Option EVP_MD) : Option Nat := md.map (fun m => m.name)

/-- Modelled from the spec: EVP_MD_is_a; a NULL name matches nothing. -/
def EVP_MD_is_a (md : EVP_MD) (name : Option Nat) : Bool :=
  match name with
  | none => false
  | some n => md.name == n

/-- Modelled from the spec: the SSL_TICKET_STATUS returned by a ticket lookup
(ssl_local.h) together with the session stored through its last argument,
which is non-NULL exactly for the two success values. -/
inductive TICKET_RESULT where
  | SSL_TICKET_FATAL_ERR_MALLOC
  | SSL_TICKET_FATAL_ERR_OTHER
  | SSL_TICKET_NONE
  | SSL_TICKET_EMPTY
  | SSL_TICKET_NO_DECRYPT
  | SSL_TICKET_SUCCESS (sess : SSL_SESSION)
  | SSL_TICKET_SUCCESS_RENEW (sess : SSL_SESSION)
  deriving DecidableEq, Repr

/-- The collaborators of tls_parse_ctos_psk that are outside this file.
* psk_find_session_cb: the application callback s->psk_find_session_cb on an
  identity; none when it returns 0, otherwise the session it stored (possibly
  NULL).
* psk_server_callback: the application callback s->psk_server_callback on an
  identity string; the length it returns and the key buffer it filled.
* SSL_CIPHER_find: the cipher with a two-byte id.
* SSL_SESSION_new: a new session, none when allocation fails.
* ssl_session_dup: the copy of a session, none when allocation fails.
* tls_decrypt_ticket s ticket: the result of decrypting a stateless ticket and
  the value of s->ext.ticket_expected after the call, the one field of the
  connection that the function writes.
* ossl_time_now: the current time.
* ssl_md: the digest of an algorithm2 value, none for NULL.
* tls_psk_do_binder s md binderoffset binder sess external: the binder check
  (ssl/statem/extensions.c) over the message buffer; none when it returns 1,
  otherwise the fatal alert it staged. -/
structure PskEnv where
  psk_find_session_cb : Option (List Nat → Option (Option SSL_SESSION))
  psk_server_callback : Option (List Nat → Nat × List Nat)
  SSL_CIPHER_find : List Nat → Option SSL_CIPHER
  SSL_SESSION_new : Option SSL_SESSION
  ssl_session_dup : SSL_SESSION → Option SSL_SESSION
  tls_decrypt_ticket : SSL_CONNECTION → List Nat → TICKET_RESULT × Nat
  ossl_time_now : Nat
  ssl_md : Nat → Option EVP_MD
  tls_psk_do_binder :
    SSL_CONNECTION → EVP_MD → Nat → List Nat → SSL_SESSION → Nat → Option (Alert × Reason)

/-- Modelled from the spec: lookup_sess_in_cache (ssl/ssl_sess.c) on the
internal session cache, which is keyed by protocol version and session id. -/
def lookup_sess_in_cache (s : SSL_CONNECTION) (sess_id : List Nat) : Option SSL_SESSION :=
  s.session_ctx.sessions.find? (fun c => c.ssl_version == s.version && c.session_id == sess_id)

/-- Modelled from the spec: SSL_CTX_remove_session (ssl/ssl_sess.c): the
session is taken out of the cache; the result is 1 if it was there and 0 if
not, and the cache afterwards. -/
def SSL_CTX_remove_session (ctx : SSL_CTX) (c : SSL_SESSION) : Nat × SSL_CTX :=
  let same : SSL_SESSION → Bool :=
    fun r => r.ssl_version == c.ssl_version && r.session_id == c.session_id
  if c.session_id.length ≠ 0 ∧ ctx.sessions.any same = true then
    (1, { ctx with sessions := ctx.sessions.filter (fun r => !same r) })
  else (0, ctx)

/-- Look a ticket up as a session id in the cache (lines 1278-1304). The
result is the status with the session found and the connection afterwards. -/
def tls_get_stateful_ticket (s : SSL_CONNECTION) (tick : PACKET) :
    TICKET_RESULT × SSL_CONNECTION :=
  let s1 : SSL_CONNECTION := { s with ext := { s.ext with ticket_expected := 1 } }
  if PACKET_remaining tick = 0 then (TICKET_RESULT.SSL_TICKET_EMPTY, s1)
  else if PACKET_remaining tick = SSL_MAX_SSL_SESSION_ID_LENGTH then
    match lookup_sess_in_cache s1 tick with
    | none => (TICKET_RESULT.SSL_TICKET_NO_DECRYPT, s1)
    | some tmpsess => (TICKET_RESULT.SSL_TICKET_SUCCESS tmpsess, s1)
  else (TICKET_RESULT.SSL_TICKET_NO_DECRYPT, s1)

/-- The outcome of the callbacks for one identity: the function returns, or
the value of sess. -/
inductive PSK_LOOKUP where
  | fail (r : RET)
  | sess (x : Option SSL_SESSION)
  deriving DecidableEq, Repr

/-- The call of psk_find_session_cb (lines 1354-1359). sess is NULL before. -/
def psk_find_session (env : PskEnv) (s : SSL_CONNECTION) (identity : PACKET) : PSK_LOOKUP :=
  match env.psk_find_session_cb with
  | none => PSK_LOOKUP.sess none
  | some cb =>
    match cb identity with
    | none =>
      PSK_LOOKUP.fail (0, SSLfatal s Alert.SSL_AD_INTERNAL_ERROR Reason.SSL_R_BAD_EXTENSION)
    | some x => PSK_LOOKUP.sess x

/-- The old style callback (lines 1362-1399), reached with sess NULL. The copy
of the identity by PACKET_strndup is taken to succeed. -/
def psk_server_session (env : PskEnv) (s : SSL_CONNECTION) (identity : PACKET) : PSK_LOOKUP :=
  match env.psk_server_callback with
  | none => PSK_LOOKUP.sess none
  | some cb =>
    if PACKET_remaining identity ≤ PSK_MAX_IDENTITY_LEN then
      let pskdatalen := (cb (PACKET_strndup identity)).1
      let pskdata := (cb (PACKET_strndup identity)).2
      if pskdatalen > PSK_MAX_PSK_LEN then
        PSK_LOOKUP.fail (0, SSLfatal s Alert.SSL_AD_INTERNAL_ERROR Reason.ERR_R_INTERNAL_ERROR)
      else if pskdatalen > 0 then
        match env.SSL_CIPHER_find [0x13, 0x01] with
        | none =>
          PSK_LOOKUP.fail (0, SSLfatal s Alert.SSL_AD_INTERNAL_ERROR Reason.ERR_R_INTERNAL_ERROR)
        | some cipher =>
          match env.SSL_SESSION_new with
          | none =>
            PSK_LOOKUP.fail (0, SSLfatal s Alert.SSL_AD_INTERNAL_ERROR Reason.ERR_R_INTERNAL_ERROR)
          | some sess =>
            if pskdatalen > TLS13_MAX_RESUMPTION_PSK_LENGTH then
              PSK_LOOKUP.fail
                (0, SSLfatal s Alert.SSL_AD_INTERNAL_ERROR Reason.ERR_R_INTERNAL_ERROR)
            else
              PSK_LOOKUP.sess (some { sess with master_key := pskdata.take pskdatalen,
                                                cipher := some cipher,
                                                ssl_version := TLS1_3_VERSION })
      else PSK_LOOKUP.sess none
    else PSK_LOOKUP.sess none

/-- What the first part of the loop body (lines 1353-1487) leaves: the
function returns, the identity is passed over with continue, or sess holds a
session; ext is the loop variable of that name. -/
inductive PSK_OBTAIN where
  | ret (r : RET)
  | skip (s : SSL_CONNECTION)
  | sess (s : SSL_CONNECTION) (ext : Nat) (sess : SSL_SESSION)
  deriving DecidableEq, Repr

/-- The branch for a session from a callback (lines 1401-1423). -/
def psk_session_found (env : PskEnv) (id : Nat) (s : SSL_CONNECTION) (sess : SSL_SESSION) :
    PSK_OBTAIN :=
  match env.ssl_session_dup sess with
  | none => PSK_OBTAIN.ret (0, SSLfatal s Alert.SSL_AD_INTERNAL_ERROR Reason.ERR_R_INTERNAL_ERROR)
  | some sesstmp =>
    let sess1 : SSL_SESSION := { sesstmp with sid_ctx := s.sid_ctx }
    let s1 : SSL_CONNECTION :=
      if id = 0 then { s with ext := { s.ext with early_data_ok := 1 } } else s
    PSK_OBTAIN.sess { s1 with ext := { s1.ext with ticket_expected := 1 } } 1 sess1

/-- The replay check and the early data decision for a session from a ticket
(lines 1452-1487). -/
def psk_ticket_session (env : PskEnv) (id : Nat) (s : SSL_CONNECTION) (ext : Nat)
    (sess : SSL_SESSION) (ticket_agel : Nat) : PSK_OBTAIN :=
  if s.max_early_data > 0 ∧ s.options &&& SSL_OP_NO_ANTI_REPLAY = 0
      ∧ (SSL_CTX_remove_session s.session_ctx sess).1 = 0 then
    PSK_OBTAIN.skip s
  else
    let s1 : SSL_CONNECTION :=
      if s.max_early_data > 0 ∧ s.options &&& SSL_OP_NO_ANTI_REPLAY = 0 then
        { s with session_ctx := (SSL_CTX_remove_session s.session_ctx sess).2 }
      else s
    let age := ossl_time_subtract (ossl_ms2time ticket_agel) (ossl_ms2time sess.ext.tick_age_add)
    let t := ossl_time_subtract env.ossl_time_now sess.time
    let expire := ossl_time_add t (ossl_ms2time 1000)
    if id = 0
        ∧ ossl_time_compare sess.timeout t ≥ 0
        ∧ ossl_time_compare age expire ≤ 0
        ∧ ossl_time_compare (ossl_time_add age TICKET_AGE_ALLOWANCE) expire ≥ 0 then
      PSK_OBTAIN.sess { s1 with ext := { s1.ext with early_data_ok := 1 } } ext sess
    else PSK_OBTAIN.sess s1 ext sess

/-- The branch for an identity that is a ticket (lines 1424-1487). -/
def psk_ticket (env : PskEnv) (id : Nat) (s : SSL_CONNECTION) (ext : Nat) (identity : PACKET)
    (ticket_agel : Nat) : PSK_OBTAIN :=
  let r : TICKET_RESULT × SSL_CONNECTION :=
    if s.options &&& SSL_OP_NO_TICKET ≠ 0
        ∨ (s.max_early_data > 0 ∧ s.options &&& SSL_OP_NO_ANTI_REPLAY = 0) then
      tls_get_stateful_ticket s identity
    else
      let d := env.tls_decrypt_ticket s identity
      (d.1, { s with ext := { s.ext with ticket_expected := d.2 } })
  match r.1 with
  | TICKET_RESULT.SSL_TICKET_EMPTY =>
    PSK_OBTAIN.ret (0, SSLfatal r.2 Alert.SSL_AD_DECODE_ERROR Reason.SSL_R_BAD_EXTENSION)
  | TICKET_RESULT.SSL_TICKET_FATAL_ERR_MALLOC =>
    PSK_OBTAIN.ret (0, SSLfatal r.2 Alert.SSL_AD_INTERNAL_ERROR Reason.ERR_R_INTERNAL_ERROR)
  | TICKET_RESULT.SSL_TICKET_FATAL_ERR_OTHER =>
    PSK_OBTAIN.ret (0, SSLfatal r.2 Alert.SSL_AD_INTERNAL_ERROR Reason.ERR_R_INTERNAL_ERROR)
  | TICKET_RESULT.SSL_TICKET_NONE => PSK_OBTAIN.skip r.2
  | TICKET_RESULT.SSL_TICKET_NO_DECRYPT => PSK_OBTAIN.skip r.2
  | TICKET_RESULT.SSL_TICKET_SUCCESS sess => psk_ticket_session env id r.2 ext sess ticket_agel
  | TICKET_RESULT.SSL_TICKET_SUCCESS_RENEW sess =>
    psk_ticket_session env id r.2 ext sess ticket_agel

/-- The loop body up to the digest check (lines 1353-1487), for the identity
of index id. sess is NULL at the head of every iteration: each continue
follows an assignment of NULL or a ticket lookup that stored nothing. -/
def psk_obtain (env : PskEnv) (id : Nat) (s : SSL_CONNECTION) (ext : Nat) (identity : PACKET)
    (ticket_agel : Nat) : PSK_OBTAIN :=
  match psk_find_session env s identity with
  | PSK_LOOKUP.fail r => PSK_OBTAIN.ret r
  | PSK_LOOKUP.sess (some sess) => psk_session_found env id s sess
  | PSK_LOOKUP.sess none =>
    match psk_server_session env s identity with
    | PSK_LOOKUP.fail r => PSK_OBTAIN.ret r
    | PSK_LOOKUP.sess (some sess) => psk_session_found env id s sess
    | PSK_LOOKUP.sess none => psk_ticket env id s ext identity ticket_agel

/-- What one iteration of the identity loop leaves: the function returns, the
loop continues, or it breaks with sess and md set. -/
inductive PSK_STEP where
  | ret (r : RET)
  | skip (s : SSL_CONNECTION) (ext : Nat)
  | found (s : SSL_CONNECTION) (ext : Nat) (sess : SSL_SESSION) (md : EVP_MD)
  deriving DecidableEq, Repr

/-- The digest check of the loop body (lines 1490-1505). The cipher of the
session and the negotiated cipher are dereferenced: without one the call does
not return. -/
def psk_check_md (env : PskEnv) (s : SSL_CONNECTION) (ext : Nat) (sess : SSL_SESSION) :
    Option PSK_STEP :=
  match sess.cipher with
  | none => none
  | some cipher =>
  match env.ssl_md cipher.algorithm2 with
  | none =>
    some (PSK_STEP.ret (0, SSLfatal s Alert.SSL_AD_INTERNAL_ERROR Reason.ERR_R_INTERNAL_ERROR))
  | some md =>
  match s.s3.tmp.new_cipher with
  | none => none
  | some new_cipher =>
  if EVP_MD_is_a md (EVP_MD_get0_name (env.ssl_md new_cipher.algorithm2)) = false then
    some (PSK_STEP.skip
      { s with ext := { s.ext with early_data_ok := 0, ticket_expected := 0 } } ext)
  else some (PSK_STEP.found s ext sess md)

/-- One iteration of the identity loop (lines 1353-1506) once the identity and
its ticket age have been read. -/
def psk_identity (env : PskEnv) (id : Nat) (s : SSL_CONNECTION) (ext : Nat) (identity : PACKET)
    (ticket_agel : Nat) : Option PSK_STEP :=
  match psk_obtain env id s ext identity ticket_agel with
  | PSK_OBTAIN.ret r => some (PSK_STEP.ret r)
  | PSK_OBTAIN.skip s1 => some (PSK_STEP.skip s1 ext)
  | PSK_OBTAIN.sess s1 ext1 sess => psk_check_md env s1 ext1 sess

/-- How the identity loop ends: the function returns, the identities are used
up (sess is NULL), or the loop breaks at the identity of index id. -/
inductive PSK_EXIT where
  | ret (r : RET)
  | none_left (s : SSL_CONNECTION)
  | selected (id : Nat) (s : SSL_CONNECTION) (ext : Nat) (sess : SSL_SESSION) (md : EVP_MD)
  deriving DecidableEq, Repr

/-- The identity loop (lines 1343-1506). Every iteration reads at least six
bytes, so a fuel of the length of the identities is never used up. -/
def psk_loop (env : PskEnv) (fuel id : Nat) (identities : PACKET) (s : SSL_CONNECTION)
    (ext : Nat) : Option PSK_EXIT :=
  if PACKET_remaining identities = 0 then some (PSK_EXIT.none_left s)
  else
  match fuel with
  | 0 => none
  | fuel1 + 1 =>
  match PACKET_get_length_prefixed_2 identities with
  | none =>
    some (PSK_EXIT.ret (0, SSLfatal s Alert.SSL_AD_DECODE_ERROR Reason.SSL_R_BAD_EXTENSION))
  | some (identity, identities1) =>
  match PACKET_get_net_4 identities1 with
  | none =>
    some (PSK_EXIT.ret (0, SSLfatal s Alert.SSL_AD_DECODE_ERROR Reason.SSL_R_BAD_EXTENSION))
  | some (ticket_agel, identities2) =>
  match psk_identity env id s ext identity ticket_agel with
  | none => none
  | some (PSK_STEP.ret r) => some (PSK_EXIT.ret r)
  | some (PSK_STEP.skip s1 ext1) => psk_loop env fuel1 (id + 1) identities2 s1 ext1
  | some (PSK_STEP.found s1 ext1 sess md) => some (PSK_EXIT.selected id s1 ext1 sess md)

/-- The loop over the binders (lines 1522-1527): the binder read in the
iteration i = id, after count = id earlier ones. -/
def psk_binder_loop : Nat → PACKET → Option PACKET
  | 0, binders =>
    match PACKET_get_length_prefixed_1 binders with
    | none => none
    | some (binder, _) => some binder
  | count + 1, binders =>
    match PACKET_get_length_prefixed_1 binders with
    | none => none
    | some (_, binders1) => psk_binder_loop count binders1

/-- The binder check for the selected identity (lines 1511-1546). pkt is the
extension body after the identities and binderoffset its offset in the
message buffer. -/
def psk_binders (env : PskEnv) (s : SSL_CONNECTION) (pkt : PACKET) (binderoffset : Nat)
    (id : Nat) (ext : Nat) (sess : SSL_SESSION) (md : EVP_MD) : RET :=
  let hashsize := md.size
  if hashsize ≤ 0 then (0, s)
  else
  match PACKET_get_length_prefixed_2 pkt with
  | none => (0, SSLfatal s Alert.SSL_AD_DECODE_ERROR Reason.SSL_R_BAD_EXTENSION)
  | some (binders, _) =>
  match psk_binder_loop id binders with
  | none => (0, SSLfatal s Alert.SSL_AD_DECODE_ERROR Reason.SSL_R_BAD_EXTENSION)
  | some binder =>
  if (PACKET_remaining binder : Int) ≠ hashsize then
    (0, SSLfatal s Alert.SSL_AD_DECODE_ERROR Reason.SSL_R_BAD_EXTENSION)
  else
  match env.tls_psk_do_binder s md binderoffset binder sess ext with
  | some (al, reason) => (0, SSLfatal s al reason)
  | none => (1, { s with ext := { s.ext with tick_identity := id }, session := sess })

/-- Process the pre_shared_key extension of a ClientHello (lines 1306-1547).
pkt_offset is the offset of the extension body in the message buffer
s->init_buf, from which binderoffset is computed. The result is none when the
call does not return. -/
def tls_parse_ctos_psk (env : PskEnv) (s : SSL_CONNECTION) (pkt : PACKET) (pkt_offset : Nat) :
    Option RET :=
  if s.ext.psk_kex_mode &&& (TLSEXT_KEX_MODE_FLAG_KE ||| TLSEXT_KEX_MODE_FLAG_KE_DHE) = 0 then
    some (1, s)
  else
  match PACKET_get_length_prefixed_2 pkt with
  | none => some (0, SSLfatal s Alert.SSL_AD_DECODE_ERROR Reason.SSL_R_BAD_EXTENSION)
  | some (identities, pkt1) =>
  match psk_loop env (PACKET_remaining identities) 0 identities
      { s with ext := { s.ext with ticket_expected := 0 } } 0 with
  | none => none
  | some (PSK_EXIT.ret r) => some r
  | some (PSK_EXIT.none_left s1) => some (1, s1)
  | some (PSK_EXIT.selected id s1 ext sess md) =>
    some (psk_binders env s1 pkt1 (pkt_offset + (pkt.length - pkt1.length)) id ext sess md)

/-- The connection and the loop variable ext after a run of identities that
are all passed over with continue, from the identity of index id on; none if
one of them is not passed over. -/
def psk_after (env : PskEnv) :
    Nat → List (List Nat × Nat) → SSL_CONNECTION → Nat → Option (SSL_CONNECTION × Nat)
  | _, [], s, ext => some (s, ext)
  | id, e :: es, s, ext =>
    match psk_identity env id s ext e.1 e.2 with
    | some (PSK_STEP.skip s1 ext1) => psk_after env (id + 1) es s1 ext1
    | _ => none

/-- The connection that a part of the loop body leaves. -/
def PSK_OBTAIN.conn : PSK_OBTAIN → SSL_CONNECTION
  | PSK_OBTAIN.ret r => r.2
  | PSK_OBTAIN.skip s => s
  | PSK_OBTAIN.sess s _ _ => s

/-- The connection that an iteration of the identity loop leaves. -/
def PSK_STEP.conn : PSK_STEP → SSL_CONNECTION
  | PSK_STEP.ret r => r.2
  | PSK_STEP.skip s _ => s
  | PSK_STEP.found s _ _ _ => s

/-- The connection that the identity loop leaves. -/
def PSK_EXIT.conn : PSK_EXIT → SSL_CONNECTION
  | PSK_EXIT.ret r => r.2
  | PSK_EXIT.none_left s => s
  | PSK_EXIT.selected _ s _ _ _ => s

/-- Two connections agree on the session and on tick_identity. -/
def psk_frame (s s1 : SSL_CONNECTION) : Prop :=
  s1.session = s.session ∧ s1.ext.tick_identity = s.ext.tick_identity

/-- The age of a ticket as the client states it: the ticket age of the
identity less the age_add of the session, in nanoseconds, zero when the
difference would be negative. -/
def ticket_age (sess : SSL_SESSION) (ticket_agel : Nat) : Nat :=
  ticket_agel * 1000000 - sess.ext.tick_age_add * 1000000

/-- The age of a session as the server sees it: the time since its creation in
nanoseconds, zero when the creation time lies ahead. -/
def session_age (env : PskEnv) (sess : SSL_SESSION) : Nat := env.ossl_time_now - sess.time

/-- The window in which a ticket is admitted for early data: the session has
not timed out, and the client's age is at most one second above the server's
and at most ten seconds (TICKET_AGE_ALLOWANCE) below the server's age plus
one second. -/
def early_data_window (env : PskEnv) (sess : SSL_SESSION) (ticket_agel : Nat) : Prop :=
  session_age env sess ≤ sess.timeout
    ∧ ticket_age sess ticket_agel ≤ session_age env sess + 1000000000
    ∧ session_age env sess + 1000000000 ≤ ticket_age sess ticket_agel + 10000000000

instance (env : PskEnv) (sess : SSL_SESSION) (ticket_agel : Nat) :
    Decidable (early_data_window env sess ticket_agel) := by
  unfold early_data_window; infer_instance

/-! ## status_request (lines 331-433) -/

/-- Modelled from the spec: TLSEXT_STATUSTYPE_ocsp (tls1.h). -/
def TLSEXT_STATUSTYPE_ocsp : Int := 1

/-- Modelled from the spec: TLSEXT_STATUSTYPE_nothing (ssl_local.h), the value
for "no status request". -/
def TLSEXT_STATUSTYPE_nothing : Int := -1

/-- The collaborators of tls_parse_ctos_status_request that are outside this
file.
* d2i_OCSP_RESPID der: the responder id decoded from the front of der and the
  number of bytes the decoder consumed; none when it returns NULL.
* d2i_X509_EXTENSIONS der: the extensions decoded from the front of der and the
  number of bytes consumed; none when it returns NULL.
* sk_OCSP_RESPID_new_null: whether a new stack can be allocated.
* sk_OCSP_RESPID_push ids id: whether id can be appended to the stack ids. -/
structure OcspEnv where
  d2i_OCSP_RESPID : List Nat → Option (OCSP_RESPID × Nat)
  d2i_X509_EXTENSIONS : List Nat → Option (X509_EXTENSIONS × Nat)
  sk_OCSP_RESPID_new_null : Bool
  sk_OCSP_RESPID_push : List OCSP_RESPID → OCSP_RESPID → Bool

/-- The loop over the responder ids (lines 379-409). The result 1 stands for
leaving the loop with the list used up, the result 0 for a return of the
function. Every iteration reads at least two bytes, so a fuel of the length of
the list is never used up. Pushing on a NULL stack fails. -/
def responder_id_loop (env : OcspEnv) (fuel : Nat) (responder_id_list : PACKET)
    (s : SSL_CONNECTION) : Option RET :=
  if PACKET_remaining responder_id_list = 0 then some (1, s)
  else
  match fuel with
  | 0 => none
  | fuel1 + 1 =>
  match PACKET_get_length_prefixed_2 responder_id_list with
  | none => some (0, SSLfatal s Alert.SSL_AD_DECODE_ERROR Reason.SSL_R_BAD_EXTENSION)
  | some (responder_id, responder_id_list1) =>
  if PACKET_remaining responder_id = 0 then
    some (0, SSLfatal s Alert.SSL_AD_DECODE_ERROR Reason.SSL_R_BAD_EXTENSION)
  else
  match env.d2i_OCSP_RESPID responder_id with
  | none => some (0, SSLfatal s Alert.SSL_AD_DECODE_ERROR Reason.SSL_R_BAD_EXTENSION)
  | some (id, consumed) =>
  if consumed ≠ PACKET_remaining responder_id then
    some (0, SSLfatal s Alert.SSL_AD_DECODE_ERROR Reason.SSL_R_BAD_EXTENSION)
  else
  match s.ext.ocsp.ids with
  | none => some (0, SSLfatal s Alert.SSL_AD_INTERNAL_ERROR Reason.ERR_R_INTERNAL_ERROR)
  | some ids =>
  if env.sk_OCSP_RESPID_push ids id = false then
    some (0, SSLfatal s Alert.SSL_AD_INTERNAL_ERROR Reason.ERR_R_INTERNAL_ERROR)
  else
    responder_id_loop env fuel1 responder_id_list1
      { s with ext := { s.ext with ocsp := { s.ext.ocsp with ids := some (ids ++ [id]) } } }

/-- The request extensions at the end of the body (lines 411-428). -/
def status_request_exts (env : OcspEnv) (s : SSL_CONNECTION) (pkt : PACKET) : RET :=
  match PACKET_as_length_prefixed_2 pkt with
  | none => (0, SSLfatal s Alert.SSL_AD_DECODE_ERROR Reason.SSL_R_BAD_EXTENSION)
  | some exts =>
  if PACKET_remaining exts > 0 then
    match env.d2i_X509_EXTENSIONS exts with
    | none =>
      (0, SSLfatal { s with ext := { s.ext with ocsp := { s.ext.ocsp with exts := none } } }
            Alert.SSL_AD_DECODE_ERROR Reason.SSL_R_BAD_EXTENSION)
    | some (decoded, consumed) =>
      let s1 : SSL_CONNECTION :=
        { s with ext := { s.ext with ocsp := { s.ext.ocsp with exts := some decoded } } }
      if consumed ≠ PACKET_remaining exts then
        (0, SSLfatal s1 Alert.SSL_AD_DECODE_ERROR Reason.SSL_R_BAD_EXTENSION)
      else (1, s1)
  else (1, s)

/-- Process the status_request extension of a ClientHello (lines 332-433). x is
the certificate the extension came with, none for NULL. The byte read by
PACKET_get_1 is stored in the int status_type. The result is none when the call
does not return. -/
def tls_parse_ctos_status_request (env : OcspEnv) (s : SSL_CONNECTION) (pkt : PACKET)
    (x : Option (List Nat)) : Option RET :=
  if s.hit = true then some (1, s)
  else if x ≠ none then some (1, s)
  else
  match PACKET_get_1 pkt with
  | none => some (0, SSLfatal s Alert.SSL_AD_DECODE_ERROR Reason.SSL_R_BAD_EXTENSION)
  | some (status_type, pkt1) =>
  let s1 : SSL_CONNECTION := { s with ext := { s.ext with status_type := (status_type : Int) } }
  if s1.ext.status_type ≠ TLSEXT_STATUSTYPE_ocsp then
    some (1, { s1 with ext := { s1.ext with status_type := TLSEXT_STATUSTYPE_nothing } })
  else
  match PACKET_get_length_prefixed_2 pkt1 with
  | none => some (0, SSLfatal s1 Alert.SSL_AD_DECODE_ERROR Reason.SSL_R_BAD_EXTENSION)
  | some (responder_id_list, pkt2) =>
  if PACKET_remaining responder_id_list > 0 ∧ env.sk_OCSP_RESPID_new_null = false then
    some (0, SSLfatal { s1 with ext := { s1.ext with ocsp := { s1.ext.ocsp with ids := none } } }
               Alert.SSL_AD_INTERNAL_ERROR Reason.ERR_R_CRYPTO_LIB)
  else
  let ids : Option (List OCSP_RESPID) :=
    if PACKET_remaining responder_id_list > 0 then some [] else none
  let s2 : SSL_CONNECTION :=
    { s1 with ext := { s1.ext with ocsp := { s1.ext.ocsp with ids := ids } } }
  match responder_id_loop env (PACKET_remaining responder_id_list) responder_id_list s2 with
  | none => none
  | some r =>
  if r.1 = 0 then some r
  else some (status_request_exts env r.2 pkt2)

/-! ## supported_groups of EncryptedExtensions (lines 1663-1720) -/

/-- Modelled from the spec: TLSEXT_TYPE_supported_groups (tls1.h). -/
def TLSEXT_TYPE_supported_groups : Nat := 10

/-- How the for loop of tls_construct_stoc_supported_groups ends: with a
return of NOT_SENT, with a return of FAIL, or by running off the end of the
list with the C variable first and the writer as they then are. -/
inductive SG_LOOP where
  | not_sent
  | fail
  | done (first : Bool) (pkt : WPACKET)
  deriving DecidableEq, Repr

/-- The extension header written for the first valid group (lines 1696-1702):
the type and the two opened sub-packets. -/
def supported_groups_header (pkt : WPACKET) : Option WPACKET :=
  match WPACKET_put_bytes_u16 pkt TLSEXT_TYPE_supported_groups with
  | none => none
  | some p1 =>
  match WPACKET_start_sub_packet_u16 p1 with
  | none => none
  | some p2 => WPACKET_start_sub_packet_u16 p2

/-- The for loop over the server groups (lines 1685-1710). -/
def supported_groups_loop (env : Env) (s : SSL_CONNECTION) (version : Nat) :
    List Nat → Bool → WPACKET → SG_LOOP
  | [], first, pkt => SG_LOOP.done first pkt
  | group :: groups, first, pkt =>
    if env.tls_valid_group group version version false = true
        ∧ env.tls_group_allowed group SSL_SECOP_CURVE_SUPPORTED = true then
      if first = true then
        if s.s3.group_id = group then SG_LOOP.not_sent
        else
        match supported_groups_header pkt with
        | none => SG_LOOP.fail
        | some p3 =>
        match WPACKET_put_bytes_u16 p3 group with
        | none => SG_LOOP.fail
        | some p4 => supported_groups_loop env s version groups false p4
      else
        match WPACKET_put_bytes_u16 pkt group with
        | none => SG_LOOP.fail
        | some p4 => supported_groups_loop env s version groups false p4
    else supported_groups_loop env s version groups first pkt

/-- Write the supported_groups extension of EncryptedExtensions (lines
1663-1720). The list of tls1_get_supported_groups is s.ext.supportedgroups and
SSL_version is s.version. The two calls of WPACKET_close after the loop are
not guarded by first. On failure the model returns the packet as it was on
entry. -/
def tls_construct_stoc_supported_groups (env : Env) (s : SSL_CONNECTION) (pkt : WPACKET) :
    EXT_RESULT :=
  if s.s3.group_id = 0 then (EXT_RETURN.EXT_RETURN_NOT_SENT, s, pkt)
  else
  let groups := s.ext.supportedgroups
  if groups.length = 0 then
    (EXT_RETURN.EXT_RETURN_FAIL,
      SSLfatal s Alert.SSL_AD_INTERNAL_ERROR Reason.ERR_R_INTERNAL_ERROR, pkt)
  else
  match supported_groups_loop env s s.version groups true pkt with
  | SG_LOOP.not_sent => (EXT_RETURN.EXT_RETURN_NOT_SENT, s, pkt)
  | SG_LOOP.fail =>
    (EXT_RETURN.EXT_RETURN_FAIL,
      SSLfatal s Alert.SSL_AD_INTERNAL_ERROR Reason.ERR_R_INTERNAL_ERROR, pkt)
  | SG_LOOP.done _ p5 =>
  match WPACKET_close p5 with
  | none =>
    (EXT_RETURN.EXT_RETURN_FAIL,
      SSLfatal s Alert.SSL_AD_INTERNAL_ERROR Reason.ERR_R_INTERNAL_ERROR, pkt)
  | some p6 =>
  match WPACKET_close p6 with
  | none =>
    (EXT_RETURN.EXT_RETURN_FAIL,
      SSLfatal s Alert.SSL_AD_INTERNAL_ERROR Reason.ERR_R_INTERNAL_ERROR, pkt)
  | some p7 => (EXT_RETURN.EXT_RETURN_SENT, s, p7)

/-! ## Vocabulary of the last claims -/

/-- The overlap helper in the words of the specification, from position i of
the priority list on: for each g in A, if g is in B and passes the policy
predicates, return the index of g in A, the index of g in B, and g. -/
def overlap_helper_from (env : Env) (B : List Nat) : List Nat → Nat → Option (Nat × Nat × Nat)
  | [], _ => none
  | g :: rest, i =>
    if g ∈ B ∧ passes_policy env g = true then some (i, B.indexOf g, g)
    else overlap_helper_from env B rest (i + 1)

/-- The overlap helper of the specification on the priority list A and the
candidate list B; none when the loop ends without a return. -/
def overlap_helper (env : Env) (A B : List Nat) : Option (Nat × Nat × Nat) :=
  overlap_helper_from env B A 0

/-- The wire form of a responder id list: each id behind its 2-byte length. -/
def responder_ids_wire (ids : List (List Nat)) : List Nat :=
  (ids.map (fun id => put_value id.length 2 ++ id)).flatten

/-- The body of a status_request extension of type ocsp (RFC 6066, section 8):
the status type, the length-prefixed responder id list and the
length-prefixed request extensions. -/
def status_request_body (ids : List (List Nat)) (exts : List Nat) : List Nat :=
  1 :: (put_value (responder_ids_wire ids).length 2
    ++ (responder_ids_wire ids ++ (put_value exts.length 2 ++ exts)))

/-- The server groups that the supported_groups extension lists: those valid
for the connection's version and allowed by the security policy. -/
def sendable_groups (env : Env) (s : SSL_CONNECTION) : List Nat :=
  s.ext.supportedgroups.filter (fun g =>
    env.tls_valid_group g s.version s.version false
      && env.tls_group_allowed g SSL_SECOP_CURVE_SUPPORTED)

/-- The body of a supported_groups extension: the 2-byte length of the group
list, then two bytes for every group. -/
def supported_groups_body (groups : List Nat) : List Nat :=
  put_value (2 * groups.length) 2 ++ (groups.map (fun g => put_value g 2)).flatten

/-- The index at which the identity loop of tls_parse_ctos_psk breaks, none
when the parser does not reach the loop or the loop selects no identity. -/
def psk_selected_index (env : PskEnv) (s : SSL_CONNECTION) (pkt : PACKET) : Option Nat :=
  if s.ext.psk_kex_mode &&& (TLSEXT_KEX_MODE_FLAG_KE ||| TLSEXT_KEX_MODE_FLAG_KE_DHE) = 0 then
    none
  else
  match PACKET_get_length_prefixed_2 pkt with
  | none => none
  | some (identities, _) =>
  match psk_loop env (PACKET_remaining identities) 0 identities
      { s with ext := { s.ext with ticket_expected := 0 } } 0 with
  | some (PSK_EXIT.selected id _ _ _ _) => some id
  | _ => none

/-! ## Concrete inputs used to exercise the theorems -/

/-- A small environment: every group but 0 passes the policy predicates, every
key but a one-byte key decodes, the MAC is a 32-byte checksum of key and data,
the application cookie is 07 07 and the clock reads 1000. -/
def demo_env : Env where
  tls_group_allowed := fun _ _ => true
  tls_valid_group := fun g _ _ _ => g != 0
  ssl_generate_param_group := fun _ => true
  tls13_set_encoded_pub_key := fun _ key => key.length != 1
  EVP_DigestSign := fun key data => some (List.replicate 32 ((key.sum + data.sum) % 256))
  ssl_get_cipher_by_char := fun bs => some { id := net_value bs }
  verify_stateless_cookie_cb := some (fun c => c == [7, 7])
  gen_stateless_cookie_cb := some (fun _ => some [7, 7])
  ssl_handshake_hash := fun s => some ([0xAA, 0xBB] ++ s.handshake_transcript)
  create_synthetic_message_hash := fun s h hrr => some { s with handshake_transcript := h ++ hrr }
  time := 1000

/-- The environment of demo_env five minutes later. -/
def demo_env_later : Env := { demo_env with time := 1300 }

/-- Scenario B of the specification: the client supports x25519 and secp256r1,
the server prefers secp256r1 over x25519 within one tuple. -/
def scenario_B : SSL_CONNECTION :=
  { ext := { peer_supportedgroups := [0x001D, 0x0017], supportedgroups := [0x0017, 0x001D],
             tuples := [2] } }

/-- Scenario B with secp384r1 added to the client's supported groups. -/
def scenario_B_listed : SSL_CONNECTION :=
  { ext := { peer_supportedgroups := [0x001D, 0x0017, 0x0018],
             supportedgroups := [0x0017, 0x001D], tuples := [2] } }

/-- A server with the tuples [secp384r1] and [secp256r1, x25519] facing a
client that supports x25519 and secp256r1, under client preference. -/
def demo_conn_client_pref : SSL_CONNECTION :=
  { ext := { peer_supportedgroups := [0x001D, 0x0017],
             supportedgroups := [0x0018, 0x0017, 0x001D], tuples := [1, 2] } }

/-- The connection demo_conn_client_pref with SSL_OP_SERVER_PREFERENCE set. -/
def demo_conn_server_pref : SSL_CONNECTION :=
  { demo_conn_client_pref with options := SSL_OP_SERVER_PREFERENCE }

/-- Shares for x25519 and secp256r1, in the order of the client's supported groups. -/
def demo_shares : List KeyShareEntry := [⟨0x001D, [1, 2, 3]⟩, ⟨0x0017, [4, 5]⟩]

/-- The shares of demo_shares in the opposite order. -/
def demo_shares_reordered : List KeyShareEntry := [⟨0x0017, [4, 5]⟩, ⟨0x001D, [1, 2, 3]⟩]

/-- A connection after an HRR that asked for x25519. -/
def demo_conn_after_hrr : SSL_CONNECTION :=
  { s3 := { group_id := 0x001D }, ext := { peer_supportedgroups := [0x001D, 0x0017] } }

/-- A stateless server connection that has chosen x25519 and TLS_AES_128_GCM_SHA256. -/
def demo_conn_cookie : SSL_CONNECTION :=
  { version := 0x0304,
    s3 := { group_id := 0x001D, flags := TLS1_FLAGS_STATELESS,
            tmp := { new_cipher := some { id := 0x1301 } } },
    ext := { cookie_hmac_key := [1, 2, 3] },
    tmp_session_id := [9, 9, 9] }

/-- A writer in the middle of a ServerHello: message type written, the message
body and the extension block open. -/
def demo_writer : WPACKET :=
  { subs := [⟨2, []⟩, ⟨3, [3, 3]⟩, ⟨0, [2]⟩], maxsize := 20000 }

/-- The authenticated part of the cookie that demo_env writes for demo_conn_cookie. -/
def demo_cookie_plain : List Nat :=
  cookie_plaintext 0x001D [0x13, 0x01] 1 1000 [0xAA, 0xBB] [7, 7]

/-- The MAC of demo_env over demo_cookie_plain under the key 01 02 03. -/
def demo_cookie_mac : List Nat := List.replicate 32 ((6 + demo_cookie_plain.sum) % 256)

/-- The cookie that demo_env writes for demo_conn_cookie. -/
def demo_cookie : List Nat := demo_cookie_plain ++ demo_cookie_mac

/-- The writer demo_writer after the cookie extension has been written. -/
def demo_writer_sent : WPACKET :=
  { subs := [⟨2, put_value TLSEXT_TYPE_cookie 2 ++ cookie_extension (cookie_extension demo_cookie)⟩,
             ⟨3, [3, 3]⟩, ⟨0, [2]⟩],
    maxsize := 20000 }

/-- A connection whose previous handshake ended with the client Finished 01 02 03. -/
def demo_conn_renegotiation : SSL_CONNECTION :=
  { s3 := { previous_client_finished := [1, 2, 3] ++ List.replicate 61 0,
            previous_client_finished_len := 3 } }

/-- The host name "example.com". -/
def demo_example_com : List Nat := [0x65, 0x78, 0x61, 0x6d, 0x70, 0x6c, 0x65, 0x2e, 0x63, 0x6f, 0x6d]

/-- The twelve bytes "exa", NUL, "mple.com". -/
def demo_name_with_nul : List Nat :=
  [0x65, 0x78, 0x61, 0, 0x6d, 0x70, 0x6c, 0x65, 0x2e, 0x63, 0x6f, 0x6d]

/-- A TLS 1.2 connection that resumes a session established for "example.com". -/
def demo_conn_resumed : SSL_CONNECTION :=
  { version := TLS1_2_VERSION, hit := true, method := { version := TLS1_2_VERSION },
    session := { ext := { hostname := some demo_example_com } } }

/-- The ALPN protocol names "h2" and "http/1.1". -/
def demo_alpn_names : List (List Nat) :=
  [[0x68, 0x32], [0x68, 0x74, 0x74, 0x70, 0x2f, 0x31, 0x2e, 0x31]]

/-- A connection whose session has the max_fragment_length mode 2 (1024 bytes). -/
def demo_conn_mfl : SSL_CONNECTION :=
  { session := { ext := { max_fragment_len_mode := 2 } } }

/-- The writer demo_writer after the max_fragment_length extension with mode 2
has been written. -/
def demo_writer_mfl : WPACKET :=
  { subs := [⟨2, [0, 1, 0, 1, 2]⟩, ⟨3, [3, 3]⟩, ⟨0, [2]⟩], maxsize := 20000 }

/-- The bytes after the format version of a cookie: two bytes 09 09 and the
MAC of demo_env, under the key 01 02 03, over 00 02 09 09. -/
def demo_cookie_rest_format_2 : List Nat :=
  [9, 9] ++ List.replicate 32 ((6 + 20) % 256)

/-- The connection demo_conn_cookie on a TLS 1.3 method while its
HelloRetryRequest is being written. -/
def demo_conn_hrr : SSL_CONNECTION :=
  { demo_conn_cookie with
      method := { version := TLS1_3_VERSION },
      hello_retry_request := HRR_STATE.SSL_HRR_PENDING }

/-- Key-exchange collaborators that always fail; writing a HelloRetryRequest
does not call them. -/
def demo_kex : KexEnv where
  tls13_generate_handshake_secret := fun s => (0, s)
  tls1_group_id_lookup := fun _ => none
  ssl_generate_pkey := fun _ _ => none
  EVP_PKEY_get1_encoded_public_key := fun _ => []
  ssl_derive := fun s _ _ => (0, s)
  ssl_encapsulate := fun s _ => (0, s, [])
  ssl_gensecret := fun s => (0, s)

/-- The writer demo_writer after the supported_versions extension. -/
def demo_writer_sv : WPACKET :=
  { subs := [⟨2, put_value TLSEXT_TYPE_supported_versions 2 ++ (put_value 2 2 ++ put_value 0x0304 2)⟩,
             ⟨3, [3, 3]⟩, ⟨0, [2]⟩],
    maxsize := 20000 }

/-- The writer demo_writer_sv after the key_share extension of the HelloRetryRequest. -/
def demo_writer_ks : WPACKET :=
  { subs := [⟨2, put_value TLSEXT_TYPE_supported_versions 2 ++ (put_value 2 2 ++ put_value 0x0304 2)
                ++ (put_value TLSEXT_TYPE_key_share 2 ++ (put_value 2 2 ++ put_value 0x001D 2))⟩,
             ⟨3, [3, 3]⟩, ⟨0, [2]⟩],
    maxsize := 20000 }

/-- The writer demo_writer_ks after the cookie extension: the complete
extension block of the HelloRetryRequest. -/
def demo_writer_hrr : WPACKET :=
  { subs := [⟨2, hrr_extensions 0x0304 0x001D 1 demo_cookie⟩, ⟨3, [3, 3]⟩, ⟨0, [2]⟩],
    maxsize := 20000 }

/-! ## Sample inputs for the small extensions -/

/-- Three server SRTP profiles in preference order: ids 1, 2 and 7. -/
def demo_srtp_profiles : List SRTP_PROTECTION_PROFILE := [{ id := 1 }, { id := 2 }, { id := 7 }]

/-- A connection with the three SRTP profiles configured. -/
def demo_conn_srtp : SSL_CONNECTION := { srtp_profiles := some demo_srtp_profiles }

/-- A connection that has received extended_master_secret. -/
def demo_conn_ems : SSL_CONNECTION := { s3 := { flags := TLS1_FLAGS_RECEIVED_EXTMS } }

/-- A connection that has received encrypt_then_mac and chose a CBC cipher
with an HMAC (TLS_RSA_WITH_AES_128_CBC_SHA). -/
def demo_conn_etm : SSL_CONNECTION :=
  { s3 := { tmp := { new_cipher := some { id := 0x002F, algorithm_enc := 0x40, algorithm_mac := 0x2 } } },
    ext := { use_etm := 1 } }

/-- A connection that has accepted early data. -/
def demo_conn_early_data : SSL_CONNECTION := { ext := { early_data := SSL_EARLY_DATA_ACCEPTED } }

/-- A connection that allows and prefers PSK without DHE. -/
def demo_conn_no_dhe : SSL_CONNECTION := { options := SSL_OP_ALLOW_NO_DHE_KEX + SSL_OP_PREFER_NO_DHE_KEX }

/-- A connection with client certificate types raw public key (2) and X.509
(0) and server certificate types X.509 and raw public key configured. -/
def demo_conn_cert_type : SSL_CONNECTION :=
  { client_cert_type := some [2, 0], server_cert_type := some [0, 2] }

/-! ## Sample inputs for pre_shared_key -/

/-- A session of a ticket issued with TLS_AES_256_GCM_SHA384 (algorithm2 = 2):
created at second 0, valid for 7200 seconds. -/
def demo_sess_sha384 : SSL_SESSION :=
  { cipher := some { id := 0x1302, algorithm2 := 2 }, ssl_version := 0x0304,
    session_id := List.replicate 32 0xA1, timeout := 7200000000000 }

/-- A session of a ticket issued with TLS_AES_128_GCM_SHA256 (algorithm2 = 1):
created at second 0, valid for 7200 seconds. -/
def demo_sess_sha256 : SSL_SESSION :=
  { cipher := some { id := 0x1301, algorithm2 := 1 }, ssl_version := 0x0304,
    session_id := List.replicate 32 0xA2, timeout := 7200000000000 }

/-- Collaborators for the pre_shared_key samples. No callback is installed.
The ticket A1 A1 decrypts to the SHA-384 session and the ticket A2 A2 to the
SHA-256 session; every other ticket cannot be decrypted, which sets
ticket_expected. The clock stands at second 100. algorithm2 = 1 is SHA-256 and
algorithm2 = 2 is SHA-384. A binder verifies when each of its bytes is BB. -/
def demo_psk_env : PskEnv :=
  { psk_find_session_cb := none,
    psk_server_callback := none,
    SSL_CIPHER_find := fun _ => some { id := 0x1301, algorithm2 := 1 },
    SSL_SESSION_new := some {},
    ssl_session_dup := fun sess => some sess,
    tls_decrypt_ticket := fun s ticket =>
      if ticket = [0xA1, 0xA1] then
        (TICKET_RESULT.SSL_TICKET_SUCCESS demo_sess_sha384, s.ext.ticket_expected)
      else if ticket = [0xA2, 0xA2] then
        (TICKET_RESULT.SSL_TICKET_SUCCESS demo_sess_sha256, s.ext.ticket_expected)
      else (TICKET_RESULT.SSL_TICKET_NO_DECRYPT, 1),
    ossl_time_now := 100000000000,
    ssl_md := fun algorithm2 =>
      if algorithm2 = 1 then some { name := 1, size := 32 }
      else if algorithm2 = 2 then some { name := 2, size := 48 }
      else none,
    tls_psk_do_binder := fun _ _ _ binder _ _ =>
      if binder.all (fun b => b == 0xBB) = true then none
      else some (Alert.SSL_AD_ILLEGAL_PARAMETER, Reason.SSL_R_BINDER_DOES_NOT_VERIFY) }

/-- A TLS 1.3 connection that has negotiated TLS_AES_128_GCM_SHA256 and
accepts PSK with DHE. -/
def demo_conn_psk : SSL_CONNECTION :=
  { version := 0x0304,
    s3 := { tmp := { new_cipher := some { id := 0x1301, algorithm2 := 1 } } },
    ext := { psk_kex_mode := TLSEXT_KEX_MODE_FLAG_KE_DHE } }

/-- Two identities: the ticket of the SHA-384 session with ticket age 0 and
the ticket of the SHA-256 session with ticket age 100 seconds. -/
def demo_psk_identities : List (List Nat × Nat) := [([0xA1, 0xA1], 0), ([0xA2, 0xA2], 100000)]

/-- Two binders, of 48 and of 32 bytes, that verify. -/
def demo_psk_binders : List (List Nat) := [List.replicate 48 0xBB, List.replicate 32 0xBB]

/-- The pre_shared_key body with the two identities and the two binders. -/
def demo_psk_body : List Nat :=
  psk_body (psk_identities_wire demo_psk_identities)
    (psk_binders_block (psk_binders_wire demo_psk_binders))

/-- The connection after demo_psk_body: the SHA-256 session is installed with
tick_identity 1. -/
def demo_conn_psk_resumed : SSL_CONNECTION :=
  { version := 0x0304,
    s3 := { tmp := { new_cipher := some { id := 0x1301, algorithm2 := 1 } } },
    session := demo_sess_sha256,
    ext := { psk_kex_mode := TLSEXT_KEX_MODE_FLAG_KE_DHE, tick_identity := 1 } }

/-- A TLS 1.3 connection that has negotiated TLS_AES_128_GCM_SHA256, accepts
PSK with DHE and issues no tickets (SSL_OP_NO_TICKET): a PSK identity is
looked up as a session id in the cache, which holds the SHA-384 session. -/
def demo_conn_psk_stateful : SSL_CONNECTION :=
  { version := 0x0304,
    options := SSL_OP_NO_TICKET,
    s3 := { tmp := { new_cipher := some { id := 0x1301, algorithm2 := 1 } } },
    ext := { psk_kex_mode := TLSEXT_KEX_MODE_FLAG_KE_DHE },
    session_ctx := { sessions := [demo_sess_sha384] } }

/-- Two identities for the cache: the id of the SHA-384 session and an id that
is not in the cache. -/
def demo_psk_identities_stateful : List (List Nat × Nat) :=
  [(List.replicate 32 0xA1, 0), (List.replicate 32 0xCC, 0)]

/-! ## Sample inputs for the last claims -/

/-- A server with the tuple [secp256r1, x25519] facing a client that sent no
supported_groups extension. -/
def demo_conn_no_groups : SSL_CONNECTION :=
  { ext := { supportedgroups := [0x0017, 0x001D], tuples := [2] } }

/-- A server that only has secp384r1 facing a client that only supports
x25519. -/
def demo_conn_disjoint : SSL_CONNECTION :=
  { ext := { peer_supportedgroups := [0x001D], supportedgroups := [0x0018], tuples := [1] } }

/-- Three shares in which the client repeats x25519 with another key. -/
def demo_shares_repeated : List KeyShareEntry :=
  [⟨0x001D, [1, 2, 3]⟩, ⟨0x0017, [4, 5]⟩, ⟨0x001D, [9, 9, 9]⟩]

/-- A TLS 1.3 connection that has negotiated TLS_AES_128_GCM_SHA256, accepts
PSK with DHE and early data, with anti-replay on: a PSK identity is looked up
as a session id in the cache, which holds the SHA-384 session. -/
def demo_conn_psk_replay : SSL_CONNECTION :=
  { version := 0x0304,
    max_early_data := 16384,
    s3 := { tmp := { new_cipher := some { id := 0x1301, algorithm2 := 1 } } },
    ext := { psk_kex_mode := TLSEXT_KEX_MODE_FLAG_KE_DHE },
    session_ctx := { sessions := [demo_sess_sha384] } }

/-- The pre_shared_key body with the ticket of the SHA-256 session, stated to
be 100 seconds old, and a binder that verifies. -/
def demo_psk_body_early : List Nat :=
  psk_body (psk_identities_wire [([0xA2, 0xA2], 100000)])
    (psk_binders_block (psk_binders_wire [List.replicate 32 0xBB]))

/-- The connection after demo_psk_body_early: the SHA-256 session is installed
as identity 0 and early data is admitted. -/
def demo_conn_psk_early : SSL_CONNECTION :=
  { version := 0x0304,
    s3 := { tmp := { new_cipher := some { id := 0x1301, algorithm2 := 1 } } },
    session := demo_sess_sha256,
    ext := { psk_kex_mode := TLSEXT_KEX_MODE_FLAG_KE_DHE, early_data_ok := 1 } }

/-- Decoders for the status_request samples: every byte string decodes, as a
whole, to the value that holds it; allocation never fails. -/
def demo_ocsp_env : OcspEnv where
  d2i_OCSP_RESPID := fun der => some (⟨der⟩, der.length)
  d2i_X509_EXTENSIONS := fun der => some (⟨der⟩, der.length)
  sk_OCSP_RESPID_new_null := true
  sk_OCSP_RESPID_push := fun _ _ => true

/-- A connection that keeps, from the status_request of an earlier handshake,
one responder id and the request extensions 09. -/
def demo_conn_ocsp_prior : SSL_CONNECTION :=
  { ext := { status_type := 1, ocsp := { ids := some [⟨[7]⟩], exts := some ⟨[9]⟩ } } }

/-- The environment demo_env with a policy under which no group is valid. -/
def demo_env_no_valid_group : Env := { demo_env with tls_valid_group := fun _ _ _ _ => false }

/-- A TLS 1.3 server with the groups secp256r1 and x25519 that has accepted a
key share for x25519. -/
def demo_conn_sg : SSL_CONNECTION :=
  { version := 0x0304, s3 := { group_id := 0x001D },
    ext := { supportedgroups := [0x0017, 0x001D], tuples := [2] } }

/-- A writer at the start of the extension block of EncryptedExtensions:
message type written, the message body and the extension block open. -/
def demo_writer_ee : WPACKET :=
  { subs := [⟨2, []⟩, ⟨3, []⟩, ⟨0, [8]⟩], maxsize := 20000 }

/-- The connection demo_conn_server_pref on a resumption whose only PSK key
exchange mode is psk_ke. -/
def demo_conn_server_pref_psk_only : SSL_CONNECTION :=
  { demo_conn_server_pref with
      hit := true,
      ext := { demo_conn_server_pref.ext with psk_kex_mode := TLSEXT_KEX_MODE_FLAG_KE } }

/-- The connection demo_conn_client_pref on a resumption whose only PSK key
exchange mode is psk_ke. -/
def demo_conn_client_pref_psk_only : SSL_CONNECTION :=
  { demo_conn_client_pref with
      hit := true,
      ext := { demo_conn_client_pref.ext with psk_kex_mode := TLSEXT_KEX_MODE_FLAG_KE } }

/-- The connection demo_conn_server_pref with a peer key already stored. -/
def demo_conn_server_pref_peer_key : SSL_CONNECTION :=
  { demo_conn_server_pref with
      s3 := { demo_conn_server_pref.s3 with
                peer_tmp := some { group_id := 0x001D, encoded_pub_key := some [1, 2, 3] } } }

/-- The connection demo_conn_client_pref with a peer key already stored. -/
def demo_conn_client_pref_peer_key : SSL_CONNECTION :=
  { demo_conn_client_pref with
      s3 := { demo_conn_client_pref.s3 with
                peer_tmp := some { group_id := 0x001D, encoded_pub_key := some [1, 2, 3] } } }

/-- The connection demo_conn_after_hrr on a resumption whose only PSK key
exchange mode is psk_ke. -/
def demo_conn_after_hrr_psk_only : SSL_CONNECTION :=
  { demo_conn_after_hrr with
      hit := true,
      ext := { demo_conn_after_hrr.ext with psk_kex_mode := TLSEXT_KEX_MODE_FLAG_KE } }

/-- The connection demo_conn_after_hrr with a peer key already stored. -/
def demo_conn_after_hrr_peer_key : SSL_CONNECTION :=
  { demo_conn_after_hrr with
      s3 := { demo_conn_after_hrr.s3 with
                peer_tmp := some { group_id := 0x001D, encoded_pub_key := some [1, 2, 3] } } }

/-- The connection demo_conn_after_hrr without groups of the client. -/
def demo_conn_after_hrr_no_groups : SSL_CONNECTION :=
  { demo_conn_after_hrr with
      ext := { demo_conn_after_hrr.ext with peer_supportedgroups := [] } }

/-! ## Lemmas -/

theorem check_in_list_scan_eq (env : Env) (g : Nat) (cka : Bool) (l : List Nat) (i : Nat) :
    check_in_list.scan env g cka l i =
      if g ∈ l ∧ (cka = false ∨ env.tls_group_allowed g SSL_SECOP_CURVE_CHECK = true)
      then some (i + l.indexOf g) else none := by
  induction l generalizing i with
  | nil => simp [check_in_list.scan]
  | cons a l ih =>
    unfold check_in_list.scan
    by_cases hga : g = a
    · subst hga
      by_cases hc : (cka = false ∨ env.tls_group_allowed g SSL_SECOP_CURVE_CHECK = true)
      · simp [hc]
      · simp [hc, ih]
    · have hag : a ≠ g := fun h => hga h.symm
      simp only [hga, false_and, if_false, ih, List.mem_cons, false_or,
        List.indexOf_cons_ne _ hag]
      split <;> simp; omega

theorem check_in_list_eq (env : Env) (g : Nat) (cka : Bool) (l : List Nat) :
    check_in_list env g l cka =
      if g ∈ l ∧ (cka = false ∨ env.tls_group_allowed g SSL_SECOP_CURVE_CHECK = true)
      then some (l.indexOf g) else none := by
  unfold check_in_list
  rw [check_in_list_scan_eq]; simp

theorem getD_indexOf_of_mem (A : List Nat) (x : Nat) (h : x ∈ A) :
    A.getD (A.indexOf x) 0 = x := by
  have h1 : A.indexOf x < A.length := List.indexOf_lt_length.mpr h
  rw [List.getD_eq_getElem _ _ h1]
  exact List.getElem_indexOf h1

theorem check_overlap_loop_step (env : Env) (A : List Nat) (x : Nat) (rest : List Nat)
    (k : Nat) (st : OVERLAP) :
    check_overlap_loop env A (x :: rest) k st =
      if x ∈ A ∧ passes_policy env x = true then
        if A.indexOf x < st.group_idx then
          check_overlap_loop env A rest (k + 1) ⟨A.indexOf x, A.indexOf x, k, x⟩
        else check_overlap_loop env A rest (k + 1) st
      else check_overlap_loop env A rest (k + 1) st := by
  rw [check_overlap_loop, check_in_list_eq]
  unfold passes_policy
  by_cases hx : x ∈ A
  · cases h1 : env.tls_group_allowed x SSL_SECOP_CURVE_CHECK <;>
    cases h2 : env.tls_group_allowed x SSL_SECOP_CURVE_SUPPORTED <;>
    cases h3 : env.tls_valid_group x TLS1_3_VERSION TLS1_3_VERSION false <;>
    simp [hx, getD_indexOf_of_mem A x hx]
  · simp [hx]

theorem check_overlap_loop_spec (env : Env) (A : List Nat) (cs : List Nat) :
    ∀ (k : Nat) (st : OVERLAP),
    (check_overlap_loop env A cs k st = st
        ∧ ∀ c ∈ cs, c ∈ A → passes_policy env c = true → st.group_idx ≤ A.indexOf c)
    ∨ (∃ c ∈ cs, c ∈ A ∧ passes_policy env c = true
        ∧ check_overlap_loop env A cs k st = ⟨A.indexOf c, A.indexOf c, k + cs.indexOf c, c⟩
        ∧ A.indexOf c < st.group_idx
        ∧ ∀ d ∈ cs, d ∈ A → passes_policy env d = true → A.indexOf c ≤ A.indexOf d) := by
  induction cs with
  | nil => intro k st; left; simp [check_overlap_loop]
  | cons x rest ih =>
    intro k st
    rw [check_overlap_loop_step]
    by_cases hm : x ∈ A ∧ passes_policy env x = true
    · rw [if_pos hm]
      by_cases hlt : A.indexOf x < st.group_idx
      · rw [if_pos hlt]
        right
        rcases ih (k + 1) ⟨A.indexOf x, A.indexOf x, k, x⟩ with ⟨heq, hall⟩ | ⟨c, hc, hcA, hcP, heq, hlt2, hall⟩
        · refine ⟨x, List.mem_cons_self _ _, hm.1, hm.2, ?_, hlt, ?_⟩
          · rw [heq]; simp
          · intro d hd hdA hdP
            rcases List.mem_cons.mp hd with rfl | hd
            · exact le_refl _
            · exact hall d hd hdA hdP
        · have hne : x ≠ c := by
            intro h; subst h; simp at hlt2
          refine ⟨c, List.mem_cons_of_mem _ hc, hcA, hcP, ?_, ?_, ?_⟩
          · rw [heq, List.indexOf_cons_ne _ hne]
            simp; omega
          · simp at hlt2; omega
          · intro d hd hdA hdP
            rcases List.mem_cons.mp hd with rfl | hd
            · simp at hlt2; omega
            · exact hall d hd hdA hdP
      · rw [if_neg hlt]
        rcases ih (k + 1) st with ⟨heq, hall⟩ | ⟨c, hc, hcA, hcP, heq, hlt2, hall⟩
        · left
          refine ⟨heq, ?_⟩
          intro d hd hdA hdP
          rcases List.mem_cons.mp hd with rfl | hd
          · omega
          · exact hall d hd hdA hdP
        · right
          have hne : x ≠ c := by
            intro h; subst h; omega
          refine ⟨c, List.mem_cons_of_mem _ hc, hcA, hcP, ?_, hlt2, ?_⟩
          · rw [heq, List.indexOf_cons_ne _ hne]
            simp; omega
          · intro d hd hdA hdP
            rcases List.mem_cons.mp hd with rfl | hd
            · omega
            · exact hall d hd hdA hdP
    · rw [if_neg hm]
      rcases ih (k + 1) st with ⟨heq, hall⟩ | ⟨c, hc, hcA, hcP, heq, hlt2, hall⟩
      · left
        refine ⟨heq, ?_⟩
        intro d hd hdA hdP
        rcases List.mem_cons.mp hd with rfl | hd
        · exact absurd ⟨hdA, hdP⟩ hm
        · exact hall d hd hdA hdP
      · right
        have hne : x ≠ c := by
          intro h; subst h; exact hm ⟨hcA, hcP⟩
        refine ⟨c, List.mem_cons_of_mem _ hc, hcA, hcP, ?_, hlt2, ?_⟩
        · rw [heq, List.indexOf_cons_ne _ hne]
          simp; omega
        · intro d hd hdA hdP
          rcases List.mem_cons.mp hd with rfl | hd
          · exact absurd ⟨hdA, hdP⟩ hm
          · exact hall d hd hdA hdP

theorem isLowestOverlap_unique (env : Env) (A B : List Nat) (g h : Nat)
    (hg : IsLowestOverlap env A B g) (hh : IsLowestOverlap env A B h) : g = h := by
  obtain ⟨gA, gB, gP, gmin⟩ := hg
  obtain ⟨hA, hB, hP, hmin⟩ := hh
  have h1 := gmin h hA hB hP
  have h2 := hmin g gA gB gP
  exact (List.indexOf_inj gA hA).mp (le_antisymm h1 h2)

theorem check_overlap_of_no_overlap (env : Env) (A B : List Nat) (hB : B.length ≤ 65535)
    (hno : ¬ HasOverlap env A B) :
    check_overlap env A B = some ⟨A.length, 0, 0, 0⟩ := by
  unfold check_overlap
  rw [if_pos hB]
  rcases check_overlap_loop_spec env A B 0 ⟨A.length, 0, 0, 0⟩ with ⟨heq, _⟩ | ⟨c, hc, hcA, hcP, _⟩
  · rw [heq]
  · exact absurd ⟨c, hcA, hc, hcP⟩ hno

theorem check_overlap_of_overlap (env : Env) (A B : List Nat) (hB : B.length ≤ 65535)
    (hov : HasOverlap env A B) :
    ∃ g, IsLowestOverlap env A B g
      ∧ check_overlap env A B = some ⟨A.indexOf g, A.indexOf g, B.indexOf g, g⟩ := by
  unfold check_overlap
  rw [if_pos hB]
  rcases check_overlap_loop_spec env A B 0 ⟨A.length, 0, 0, 0⟩ with ⟨_, hall⟩ | ⟨c, hc, hcA, hcP, heq, _, hall⟩
  · obtain ⟨g, gA, gB, gP⟩ := hov
    have h1 := hall g gB gA gP
    have h2 : A.indexOf g < A.length := List.indexOf_lt_length.mpr gA
    simp at h1; omega
  · refine ⟨c, ⟨hcA, hc, hcP, fun d dA dB dP => hall d dB dA dP⟩, ?_⟩
    rw [heq]; simp

theorem check_overlap_of_lowest (env : Env) (A B : List Nat) (g : Nat) (hB : B.length ≤ 65535)
    (hg : IsLowestOverlap env A B g) :
    check_overlap env A B = some ⟨A.indexOf g, A.indexOf g, B.indexOf g, g⟩ := by
  obtain ⟨h, hh, heq⟩ := check_overlap_of_overlap env A B hB ⟨g, hg.1, hg.2.1, hg.2.2.1⟩
  rw [isLowestOverlap_unique env A B g h hg hh]
  exact heq

theorem put_value_two (v : Nat) : put_value v 2 = [v / 256 % 256, v % 256] := by
  simp [put_value]

theorem PACKET_get_net_2_put_value (v : Nat) (rest : List Nat) (hv : v < 65536) :
    PACKET_get_net_2 (put_value v 2 ++ rest) = some (v, rest) := by
  rw [put_value_two]
  simp only [List.cons_append, List.nil_append, PACKET_get_net_2]
  have : v / 256 % 256 * 256 + v % 256 = v := by omega
  rw [this]

theorem PACKET_get_length_prefixed_2_put_value (body rest : List Nat) (hb : body.length < 65536) :
    PACKET_get_length_prefixed_2 (put_value body.length 2 ++ (body ++ rest)) = some (body, rest) := by
  unfold PACKET_get_length_prefixed_2
  rw [PACKET_get_net_2_put_value _ _ hb]
  simp

theorem PACKET_as_length_prefixed_2_put_value (body : List Nat) (hb : body.length < 65536) :
    PACKET_as_length_prefixed_2 (put_value body.length 2 ++ body) = some body := by
  unfold PACKET_as_length_prefixed_2
  rw [PACKET_get_net_2_put_value _ _ hb]
  simp

theorem encode_length (e : KeyShareEntry) :
    e.encode.length = 4 + e.key_exchange.length := by
  simp [KeyShareEntry.encode, put_value_two]; omega

theorem extract_keyshares_loop_encoded (env : Env) (clnt srvr : List Nat)
    (es : List KeyShareEntry) :
    (∀ e ∈ es, e.wf) →
    ∀ (fuel : Nat) (s : SSL_CONNECTION) (ka : List Nat) (ea : List PACKET),
      s.s3.group_id = 0 → (encode_key_shares es).length < fuel →
      extract_keyshares_loop env clnt srvr fuel s (encode_key_shares es) ka ea =
        if ∀ e ∈ es, e.group ∈ clnt then
          some ⟨KS_EXTRACTION_RESULT.EXTRACTION_SUCCESS, s,
            ka ++ (es.filter (suitable env srvr)).map KeyShareEntry.group,
            ea ++ (es.filter (suitable env srvr)).map KeyShareEntry.key_exchange⟩
        else
          some ⟨KS_EXTRACTION_RESULT.EXTRACTION_FAILURE,
            SSLfatal s Alert.SSL_AD_ILLEGAL_PARAMETER Reason.SSL_R_BAD_KEY_SHARE, [], []⟩ := by
  induction es with
  | nil =>
    intro _ fuel s ka ea hs hf
    cases fuel with
    | zero => simp at hf
    | succ f => simp [encode_key_shares, extract_keyshares_loop, PACKET_remaining]
  | cons e es ih =>
    intro hwf fuel s ka ea hs hf
    have hwe : e.wf := hwf e (List.mem_cons_self _ _)
    have hwes : ∀ x ∈ es, x.wf := fun x hx => hwf x (List.mem_cons_of_mem _ hx)
    obtain ⟨hg, hk0, hk⟩ := hwe
    cases fuel with
    | zero => simp at hf
    | succ f =>
      have hlen : (encode_key_shares (e :: es)).length
          = 4 + e.key_exchange.length + (encode_key_shares es).length := by
        simp [encode_key_shares, encode_length]
      have hf2 : (encode_key_shares es).length < f := by omega
      have henc : encode_key_shares (e :: es)
          = put_value e.group 2 ++ (put_value e.key_exchange.length 2
              ++ (e.key_exchange ++ encode_key_shares es)) := by
        simp [encode_key_shares, KeyShareEntry.encode]
      rw [extract_keyshares_loop]
      have hrem : PACKET_remaining (encode_key_shares (e :: es)) > 0 := by
        unfold PACKET_remaining; omega
      rw [if_pos hrem, henc, PACKET_get_net_2_put_value _ _ hg]
      simp only []
      rw [PACKET_get_length_prefixed_2_put_value _ _ hk]
      simp only []
      have hne : ¬ PACKET_remaining e.key_exchange = 0 := by
        unfold PACKET_remaining; omega
      rw [if_neg hne]
      have hnh : ¬ (s.s3.group_id ≠ 0
          ∧ (e.group ≠ s.s3.group_id ∨ PACKET_remaining (encode_key_shares es) ≠ 0)) := by
        simp [hs]
      rw [if_neg hnh, check_in_list_eq]
      by_cases hmem : e.group ∈ clnt
      · simp only [hmem, true_or, and_self, if_true]
        have hs0 : ¬ s.s3.group_id ≠ 0 := by simp [hs]
        rw [if_neg hs0, check_in_list_eq]
        by_cases hsu : suitable env srvr e = true
        · have hcond : ¬ ((if e.group ∈ srvr ∧ (true = false
                ∨ env.tls_group_allowed e.group SSL_SECOP_CURVE_CHECK = true)
                then some (srvr.indexOf e.group) else none).isNone = true
              ∨ env.tls_group_allowed e.group SSL_SECOP_CURVE_SUPPORTED = false
              ∨ env.tls_valid_group e.group TLS1_3_VERSION TLS1_3_VERSION false = false) := by
            simp [suitable, passes_policy] at hsu
            simp [hsu]
          rw [if_neg hcond, ih hwes f s _ _ hs hf2]
          simp [hmem, List.filter_cons, hsu]
        · have hcond : ((if e.group ∈ srvr ∧ (true = false
                ∨ env.tls_group_allowed e.group SSL_SECOP_CURVE_CHECK = true)
                then some (srvr.indexOf e.group) else none).isNone = true
              ∨ env.tls_group_allowed e.group SSL_SECOP_CURVE_SUPPORTED = false
              ∨ env.tls_valid_group e.group TLS1_3_VERSION TLS1_3_VERSION false = false) := by
            simp [suitable, passes_policy] at hsu
            by_cases h1 : e.group ∈ srvr
            · by_cases h2 : env.tls_group_allowed e.group SSL_SECOP_CURVE_CHECK = true
              · by_cases h3 : env.tls_group_allowed e.group SSL_SECOP_CURVE_SUPPORTED = true
                · right; right; exact hsu h1 h2 h3
                · right; left; simpa using h3
              · left; simp [h2]
            · left; simp [h1]
          rw [if_pos hcond, ih hwes f s _ _ hs hf2]
          simp [hmem, List.filter_cons, hsu]
      · simp [hmem]

theorem hasOverlap_symm (env : Env) (A B : List Nat) :
    HasOverlap env A B ↔ HasOverlap env B A := by
  constructor <;> rintro ⟨g, h1, h2, h3⟩ <;> exact ⟨g, h2, h1, h3⟩

theorem hasOverlap_append (env : Env) (A B C : List Nat) :
    HasOverlap env A (B ++ C) ↔ HasOverlap env A B ∨ HasOverlap env A C := by
  constructor
  · rintro ⟨g, h1, h2, h3⟩
    rcases List.mem_append.mp h2 with h | h
    · exact Or.inl ⟨g, h1, h, h3⟩
    · exact Or.inr ⟨g, h1, h, h3⟩
  · rintro (⟨g, h1, h2, h3⟩ | ⟨g, h1, h2, h3⟩)
    · exact ⟨g, h1, List.mem_append_left _ h2, h3⟩
    · exact ⟨g, h1, List.mem_append_right _ h2, h3⟩

theorem tls_accept_ksgroup_ret (env : Env) (s : SSL_CONNECTION) (g : Nat) (key : PACKET) :
    (if (tls_accept_ksgroup env s g key).1 = 0 then some (0, (tls_accept_ksgroup env s g key).2)
      else some (1, (tls_accept_ksgroup env s g key).2))
      = some (tls_accept_ksgroup env s g key) := by
  unfold tls_accept_ksgroup
  cases env.ssl_generate_param_group g <;> cases env.tls13_set_encoded_pub_key g key <;> simp

theorem tls_accept_ksgroup_fields (env : Env) (s : SSL_CONNECTION) (g : Nat) (key : PACKET) :
    (tls_accept_ksgroup env s g key).2.s3.group_id = g
    ∧ (tls_accept_ksgroup env s g key).2.s3.group_id_candidate = g
    ∧ (tls_accept_ksgroup env s g key).2.session.kex_group = g := by
  unfold tls_accept_ksgroup
  cases env.ssl_generate_param_group g <;> cases env.tls13_set_encoded_pub_key g key <;>
    simp [SSLfatal]

theorem lowest_ne_zero (env : Env) (A B : List Nat) (g : Nat)
    (hz : passes_policy env 0 = false) (hg : IsLowestOverlap env A B g) : g > 0 := by
  rcases Nat.eq_zero_or_pos g with h | h
  · subst h; have := hg.2.2.1; rw [hz] at this; exact absurd this (by simp)
  · exact h

/-- One round of the tuple loop when the current tuple overlaps neither the
kept key shares nor the client's supported groups. -/
theorem tuple_loop_skip (env : Env) (clnt K : List Nat) (E : List PACKET)
    (s : SSL_CONNECTION) (first : List Nat) (n : Nat) (ns : List Nat)
    (hK : K.length ≤ 65535)
    (hC : s.options &&& SSL_OP_SERVER_PREFERENCE ≠ 0 → clnt.length ≤ 65535)
    (hT : ¬ s.options &&& SSL_OP_SERVER_PREFERENCE ≠ 0 → (first.take n).length ≤ 65535)
    (h1 : ¬ HasOverlap env (first.take n) K) (h2 : ¬ HasOverlap env (first.take n) clnt) :
    tuple_loop env clnt K E s first (n :: ns)
      = tuple_loop env clnt K E s (first.drop n) ns := by
  rw [tuple_loop]
  simp only []
  by_cases hp : s.options &&& SSL_OP_SERVER_PREFERENCE ≠ 0
  · rw [if_pos hp, check_overlap_of_no_overlap env _ _ hK h1]
    simp only [gt_iff_lt, lt_self_iff_false, if_false]
    rw [check_overlap_of_no_overlap env _ _ (hC hp) h2]
    simp
  · rw [if_neg hp,
      check_overlap_of_no_overlap env _ _ (hT hp) (fun h => h1 ((hasOverlap_symm env _ _).mp h))]
    simp only [gt_iff_lt, lt_self_iff_false, if_false]
    rw [check_overlap_of_no_overlap env _ _ (hT hp)
      (fun h => h2 ((hasOverlap_symm env _ _).mp h))]
    simp

theorem tuple_loop_server_accept (env : Env) (clnt K : List Nat) (E : List PACKET)
    (s : SSL_CONNECTION) (first : List Nat) (n : Nat) (ns : List Nat) (g : Nat)
    (hpref : s.options &&& SSL_OP_SERVER_PREFERENCE ≠ 0)
    (hK : K.length ≤ 65535) (hg0 : g > 0)
    (hg : IsLowestOverlap env (first.take n) K g) :
    tuple_loop env clnt K E s first (n :: ns)
      = some (tls_accept_ksgroup env s g (E.getD (K.indexOf g) [])) := by
  rw [tuple_loop]
  simp only []
  rw [if_pos hpref, check_overlap_of_lowest env _ _ g hK hg]
  simp only []
  rw [if_pos hg0]
  exact tls_accept_ksgroup_ret env s g _

theorem tuple_loop_server_hrr (env : Env) (clnt K : List Nat) (E : List PACKET)
    (s : SSL_CONNECTION) (first : List Nat) (n : Nat) (ns : List Nat) (g : Nat)
    (hpref : s.options &&& SSL_OP_SERVER_PREFERENCE ≠ 0)
    (hK : K.length ≤ 65535) (hC : clnt.length ≤ 65535) (hg0 : g > 0)
    (h1 : ¬ HasOverlap env (first.take n) K)
    (hg : IsLowestOverlap env (first.take n) clnt g) :
    tuple_loop env clnt K E s first (n :: ns)
      = some (1, { s with s3 := { s.s3 with group_id_candidate := g } }) := by
  rw [tuple_loop]
  simp only []
  rw [if_pos hpref, check_overlap_of_no_overlap env _ _ hK h1]
  simp only [gt_iff_lt, lt_self_iff_false, if_false]
  rw [check_overlap_of_lowest env _ _ g hC hg]
  simp only []
  rw [if_pos hg0]

theorem tuple_loop_client_accept (env : Env) (clnt K : List Nat) (E : List PACKET)
    (s : SSL_CONNECTION) (first : List Nat) (n : Nat) (ns : List Nat) (g : Nat)
    (hpref : ¬ s.options &&& SSL_OP_SERVER_PREFERENCE ≠ 0)
    (hT : (first.take n).length ≤ 65535) (hg0 : g > 0)
    (hg : IsLowestOverlap env K (first.take n) g) :
    tuple_loop env clnt K E s first (n :: ns)
      = some (tls_accept_ksgroup env s g (E.getD (K.indexOf g) [])) := by
  rw [tuple_loop]
  simp only []
  rw [if_neg hpref, check_overlap_of_lowest env _ _ g hT hg]
  simp only []
  rw [if_pos hg0]
  exact tls_accept_ksgroup_ret env s g _

theorem tuple_loop_client_hrr (env : Env) (clnt K : List Nat) (E : List PACKET)
    (s : SSL_CONNECTION) (first : List Nat) (n : Nat) (ns : List Nat) (g : Nat)
    (hpref : ¬ s.options &&& SSL_OP_SERVER_PREFERENCE ≠ 0)
    (hT : (first.take n).length ≤ 65535) (hg0 : g > 0)
    (h1 : ¬ HasOverlap env (first.take n) K)
    (hg : IsLowestOverlap env clnt (first.take n) g) :
    tuple_loop env clnt K E s first (n :: ns)
      = some (1, { s with s3 := { s.s3 with group_id_candidate := g } }) := by
  rw [tuple_loop]
  simp only []
  rw [if_neg hpref,
    check_overlap_of_no_overlap env _ _ hT (fun h => h1 ((hasOverlap_symm env _ _).mp h))]
  simp only [gt_iff_lt, lt_self_iff_false, if_false]
  rw [check_overlap_of_lowest env _ _ g hT hg]
  simp only []
  rw [if_pos hg0]

theorem group_tuples_length_le (groups : List Nat) (sizes : List Nat) :
    ∀ U ∈ group_tuples groups sizes, U.length ≤ groups.length := by
  induction sizes generalizing groups with
  | nil => intro U hU; simp [group_tuples] at hU
  | cons n ns ih =>
    intro U hU
    rw [group_tuples] at hU
    rcases List.mem_cons.mp hU with rfl | hU
    · simp
    · have := ih (groups.drop n) U hU
      simp at this; omega

/-- Skipping the tuples that overlap nothing the client offered. -/
theorem tuple_loop_skip_prefix (env : Env) (clnt K : List Nat) (E : List PACKET)
    (s : SSL_CONNECTION) (T : List Nat) (post : List (List Nat))
    (hK : K.length ≤ 65535)
    (hC : s.options &&& SSL_OP_SERVER_PREFERENCE ≠ 0 → clnt.length ≤ 65535)
    (pre : List (List Nat)) :
    ∀ (first sizes : List Nat),
      (¬ s.options &&& SSL_OP_SERVER_PREFERENCE ≠ 0 → first.length ≤ 65535) →
      group_tuples first sizes = pre ++ T :: post →
      (∀ U ∈ pre, ¬ HasOverlap env U (K ++ clnt)) →
      ∃ first1 n ns, first1.take n = T
        ∧ (¬ s.options &&& SSL_OP_SERVER_PREFERENCE ≠ 0 → first1.length ≤ 65535)
        ∧ tuple_loop env clnt K E s first sizes = tuple_loop env clnt K E s first1 (n :: ns) := by
  induction pre with
  | nil =>
    intro first sizes hfl htup _
    cases sizes with
    | nil => simp [group_tuples] at htup
    | cons n ns =>
      rw [group_tuples] at htup
      simp only [List.nil_append, List.cons.injEq] at htup
      exact ⟨first, n, ns, htup.1, hfl, rfl⟩
  | cons U pre ih =>
    intro first sizes hfl htup hpre
    cases sizes with
    | nil => simp [group_tuples] at htup
    | cons n ns =>
      rw [group_tuples] at htup
      simp only [List.cons_append, List.cons.injEq] at htup
      have hU := hpre U (List.mem_cons_self _ _)
      rw [hasOverlap_append] at hU
      have hUl : ¬ s.options &&& SSL_OP_SERVER_PREFERENCE ≠ 0 → (first.take n).length ≤ 65535 := by
        intro hp; have := hfl hp; simp; omega
      have hdl : ¬ s.options &&& SSL_OP_SERVER_PREFERENCE ≠ 0 → (first.drop n).length ≤ 65535 := by
        intro hp; have := hfl hp; simp; omega
      obtain ⟨first1, m, ms, h1, h2, h3⟩ :=
        ih (first.drop n) ns hdl htup.2 (fun V hV => hpre V (List.mem_cons_of_mem _ hV))
      refine ⟨first1, m, ms, h1, h2, ?_⟩
      rw [tuple_loop_skip env clnt K E s first n ns hK hC hUl
        (fun h => hU (Or.inl (htup.1 ▸ h))) (fun h => hU (Or.inr (htup.1 ▸ h)))]
      exact h3

theorem length_le_encode_key_shares (es : List KeyShareEntry) :
    es.length ≤ (encode_key_shares es).length := by
  induction es with
  | nil => simp
  | cons e es ih =>
    simp only [encode_key_shares, List.length_cons, List.length_append, encode_length]
    omega

theorem kept_length_le (env : Env) (srvr : List Nat) (es : List KeyShareEntry)
    (hlen : (encode_key_shares es).length < 65536) :
    ((es.filter (suitable env srvr)).map KeyShareEntry.group).length ≤ 65535 := by
  have h1 := length_le_encode_key_shares es
  have h2 := List.length_filter_le (suitable env srvr) es
  simp only [List.length_map]
  omega

/-- With group_id = 0 and a well-formed list the parser either leaves early,
rejects a share whose group the client does not support, or reaches the tuple
loop with the suitable shares. -/
theorem tls_parse_ctos_key_share_encoded (env : Env) (s : SSL_CONNECTION)
    (es : List KeyShareEntry)
    (hgid : s.s3.group_id = 0)
    (hwf : ∀ e ∈ es, e.wf) (hlen : (encode_key_shares es).length < 65536) :
    tls_parse_ctos_key_share env s (key_share_extension es)
      = if s.hit = true ∧ s.ext.psk_kex_mode &&& TLSEXT_KEX_MODE_FLAG_KE_DHE = 0 then
          some (1, { s with s3 := { s.s3 with group_id_candidate := 0 } })
        else if s.s3.peer_tmp ≠ none then
          some (0, SSLfatal { s with s3 := { s.s3 with group_id_candidate := 0 } }
            Alert.SSL_AD_INTERNAL_ERROR Reason.ERR_R_INTERNAL_ERROR)
        else if s.ext.peer_supportedgroups.length = 0 then
          some (0, SSLfatal { s with s3 := { s.s3 with group_id_candidate := 0 } }
            Alert.SSL_AD_MISSING_EXTENSION Reason.SSL_R_MISSING_SUPPORTED_GROUPS_EXTENSION)
        else if ∀ e ∈ es, e.group ∈ s.ext.peer_supportedgroups then
          tuple_loop env s.ext.peer_supportedgroups
            ((es.filter (suitable env s.ext.supportedgroups)).map KeyShareEntry.group)
            ((es.filter (suitable env s.ext.supportedgroups)).map KeyShareEntry.key_exchange)
            { s with s3 := { s.s3 with group_id_candidate := 0 } }
            s.ext.supportedgroups s.ext.tuples
        else
          some (0, SSLfatal { s with s3 := { s.s3 with group_id_candidate := 0 } }
            Alert.SSL_AD_ILLEGAL_PARAMETER Reason.SSL_R_BAD_KEY_SHARE) := by
  unfold tls_parse_ctos_key_share key_share_extension
  simp only []
  split
  · rfl
  split
  · rfl
  rw [PACKET_as_length_prefixed_2_put_value _ hlen]
  simp only []
  split
  · rfl
  rw [if_neg (by simp [hgid])]
  unfold extract_keyshares
  rw [extract_keyshares_loop_encoded env _ _ es hwf _ _ _ _ (by simp [hgid])
    (by unfold PACKET_remaining; omega)]
  by_cases hin : ∀ e ∈ es, e.group ∈ s.ext.peer_supportedgroups
  · rw [if_pos hin, if_pos hin]; simp
  · rw [if_neg hin, if_neg hin]; simp

/-- With group_id = 0 and a well-formed list whose groups the client all
supports, the parser reaches the tuple loop with the suitable shares. -/
theorem tls_parse_ctos_key_share_select (env : Env) (s : SSL_CONNECTION)
    (es : List KeyShareEntry)
    (hgid : s.s3.group_id = 0)
    (hdhe : ¬ (s.hit = true ∧ s.ext.psk_kex_mode &&& TLSEXT_KEX_MODE_FLAG_KE_DHE = 0))
    (hpeer : s.s3.peer_tmp = none)
    (hwf : ∀ e ∈ es, e.wf) (hlen : (encode_key_shares es).length < 65536)
    (hin : ∀ e ∈ es, e.group ∈ s.ext.peer_supportedgroups)
    (hclnt : s.ext.peer_supportedgroups ≠ []) :
    tls_parse_ctos_key_share env s (key_share_extension es)
      = tuple_loop env s.ext.peer_supportedgroups
          ((es.filter (suitable env s.ext.supportedgroups)).map KeyShareEntry.group)
          ((es.filter (suitable env s.ext.supportedgroups)).map KeyShareEntry.key_exchange)
          { s with s3 := { s.s3 with group_id_candidate := 0 } }
          s.ext.supportedgroups s.ext.tuples := by
  rw [tls_parse_ctos_key_share_encoded env s es hgid hwf hlen, if_neg hdhe,
    if_neg (by simp [hpeer]), if_neg (by simpa using hclnt), if_pos hin]

theorem clnt_ne_nil_of_overlap (env : Env) (srvr clnt T : List Nat) (es : List KeyShareEntry)
    (hin : ∀ e ∈ es, e.group ∈ clnt)
    (hT : HasOverlap env T ((es.filter (suitable env srvr)).map KeyShareEntry.group ++ clnt)) :
    clnt ≠ [] := by
  obtain ⟨g, _, hg, _⟩ := hT
  rcases List.mem_append.mp hg with h | h
  · obtain ⟨e, he, _⟩ := List.mem_map.mp h
    exact List.ne_nil_of_mem (hin e (List.mem_of_mem_filter he))
  · exact List.ne_nil_of_mem h

theorem isLowestOverlap_congr (env : Env) (A B1 B2 : List Nat) (g : Nat)
    (hmem : ∀ x, x ∈ B1 ↔ x ∈ B2) (hg : IsLowestOverlap env A B1 g) :
    IsLowestOverlap env A B2 g :=
  ⟨hg.1, (hmem g).mp hg.2.1, hg.2.2.1, fun h hA hB hP => hg.2.2.2 h hA ((hmem h).mpr hB) hP⟩

theorem check_overlap_selected_congr (env : Env) (A B1 B2 : List Nat)
    (hmem : ∀ x, x ∈ B1 ↔ x ∈ B2) (h1 : B1.length ≤ 65535) (h2 : B2.length ≤ 65535) :
    ∃ o1 o2, check_overlap env A B1 = some o1 ∧ check_overlap env A B2 = some o2
      ∧ o1.selected_group = o2.selected_group := by
  by_cases hov : HasOverlap env A B1
  · obtain ⟨g, hg, heq⟩ := check_overlap_of_overlap env A B1 h1 hov
    exact ⟨_, _, heq,
      check_overlap_of_lowest env A B2 g h2 (isLowestOverlap_congr env A B1 B2 g hmem hg), rfl⟩
  · have hov2 : ¬ HasOverlap env A B2 := by
      rintro ⟨g, gA, gB, gP⟩
      exact hov ⟨g, gA, (hmem g).mpr gB, gP⟩
    exact ⟨_, _, check_overlap_of_no_overlap env A B1 h1 hov,
      check_overlap_of_no_overlap env A B2 h2 hov2, rfl⟩

/-- Under server preference the tuple loop reaches the same group_id and
group_id_candidate for two lists of kept shares with the same groups. -/
theorem tuple_loop_server_congr (env : Env) (clnt K1 K2 : List Nat) (E1 E2 : List PACKET)
    (s : SSL_CONNECTION)
    (hpref : s.options &&& SSL_OP_SERVER_PREFERENCE ≠ 0)
    (hmem : ∀ x, x ∈ K1 ↔ x ∈ K2) (h1 : K1.length ≤ 65535) (h2 : K2.length ≤ 65535)
    (hC : clnt.length ≤ 65535) (sizes : List Nat) :
    ∀ first : List Nat, ∃ r1 r2,
      tuple_loop env clnt K1 E1 s first sizes = some r1
      ∧ tuple_loop env clnt K2 E2 s first sizes = some r2
      ∧ r1.2.s3.group_id = r2.2.s3.group_id
      ∧ r1.2.s3.group_id_candidate = r2.2.s3.group_id_candidate := by
  induction sizes with
  | nil => intro first; exact ⟨_, _, rfl, rfl, rfl, rfl⟩
  | cons n ns ih =>
    intro first
    obtain ⟨o1, o2, e1, e2, e3⟩ := check_overlap_selected_congr env (first.take n) K1 K2 hmem h1 h2
    rw [tuple_loop, tuple_loop]
    simp only []
    rw [if_pos hpref, if_pos hpref, e1, e2]
    simp only []
    by_cases hsel : o1.selected_group > 0
    · have hsel2 : o2.selected_group > 0 := by omega
      rw [if_pos hsel, if_pos hsel2, tls_accept_ksgroup_ret, tls_accept_ksgroup_ret]
      refine ⟨_, _, rfl, rfl, ?_, ?_⟩
      · rw [(tls_accept_ksgroup_fields env s _ _).1, (tls_accept_ksgroup_fields env s _ _).1, e3]
      · rw [(tls_accept_ksgroup_fields env s _ _).2.1,
          (tls_accept_ksgroup_fields env s _ _).2.1, e3]
    · have hsel2 : ¬ o2.selected_group > 0 := by omega
      rw [if_neg hsel, if_neg hsel2]
      have hc : check_overlap env (first.take n) clnt
          = some (check_overlap_loop env (first.take n) clnt 0 ⟨(first.take n).length, 0, 0, 0⟩) := by
        unfold check_overlap; rw [if_pos hC]
      rw [hc]
      simp only []
      split
      · exact ⟨_, _, rfl, rfl, rfl, rfl⟩
      · exact ih (first.drop n)

theorem encode_key_shares_length_perm (es1 es2 : List KeyShareEntry) (h : es1.Perm es2) :
    (encode_key_shares es1).length = (encode_key_shares es2).length := by
  induction h with
  | nil => rfl
  | cons x _ ih => simp only [encode_key_shares, List.length_append, ih]
  | swap x y l => simp only [encode_key_shares, List.length_append]; omega
  | trans _ _ ih1 ih2 => exact ih1.trans ih2

theorem PACKET_get_net_2_inv (l rest : List Nat) (v : Nat)
    (h : PACKET_get_net_2 l = some (v, rest)) (hb : ∀ b ∈ l, b < 256) :
    l = put_value v 2 ++ rest ∧ v < 65536 := by
  match l, h with
  | b0 :: b1 :: tl, h =>
    simp only [PACKET_get_net_2, Option.some.injEq, Prod.mk.injEq] at h
    obtain ⟨hv, hr⟩ := h
    have h0 : b0 < 256 := hb b0 (by simp)
    have h1 : b1 < 256 := hb b1 (by simp)
    subst hv hr
    rw [put_value_two]
    have e0 : (b0 * 256 + b1) / 256 % 256 = b0 := by omega
    have e1 : (b0 * 256 + b1) % 256 = b1 := by omega
    rw [e0, e1]
    exact ⟨rfl, by omega⟩

theorem PACKET_get_length_prefixed_2_inv (l body rest : List Nat)
    (h : PACKET_get_length_prefixed_2 l = some (body, rest)) (hb : ∀ b ∈ l, b < 256) :
    l = put_value body.length 2 ++ (body ++ rest) ∧ body.length < 65536 := by
  unfold PACKET_get_length_prefixed_2 at h
  cases hg : PACKET_get_net_2 l with
  | none => rw [hg] at h; simp at h
  | some p =>
    obtain ⟨len, tl⟩ := p
    rw [hg] at h
    simp only [] at h
    obtain ⟨h1, h2⟩ := PACKET_get_net_2_inv l tl len hg hb
    by_cases hlt : tl.length < len
    · rw [if_pos hlt] at h; simp at h
    · rw [if_neg hlt] at h
      simp only [Option.some.injEq, Prod.mk.injEq] at h
      obtain ⟨hbody, hrest⟩ := h
      have hl : body.length = len := by rw [← hbody]; simp; omega
      rw [hl, ← hbody, ← hrest, List.take_append_drop]
      exact ⟨h1, h2⟩

theorem PACKET_as_length_prefixed_2_inv (l body : List Nat)
    (h : PACKET_as_length_prefixed_2 l = some body) (hb : ∀ b ∈ l, b < 256) :
    l = put_value body.length 2 ++ body ∧ body.length < 65536 := by
  unfold PACKET_as_length_prefixed_2 at h
  cases hg : PACKET_get_net_2 l with
  | none => rw [hg] at h; simp at h
  | some p =>
    obtain ⟨len, tl⟩ := p
    rw [hg] at h
    simp only [] at h
    obtain ⟨h1, h2⟩ := PACKET_get_net_2_inv l tl len hg hb
    by_cases hlt : tl.length = len
    · rw [if_pos hlt] at h
      simp only [Option.some.injEq] at h
      subst h
      rw [hlt]
      exact ⟨h1, h2⟩
    · rw [if_neg hlt] at h; simp at h

/-- After an HRR the extraction loop decides on the first share. -/
theorem extract_keyshares_loop_hrr (env : Env) (clnt srvr : List Nat) (fuel : Nat)
    (s : SSL_CONNECTION) (ksl : PACKET) (ka : List Nat) (ea : List PACKET)
    (hgid : s.s3.group_id ≠ 0) (hne : ksl ≠ []) :
    extract_keyshares_loop env clnt srvr (fuel + 1) s ksl ka ea =
      match PACKET_get_net_2 ksl with
      | none => some ⟨KS_EXTRACTION_RESULT.EXTRACTION_FAILURE,
          SSLfatal s Alert.SSL_AD_DECODE_ERROR Reason.SSL_R_LENGTH_MISMATCH, [], []⟩
      | some (group_id, l1) =>
        match PACKET_get_length_prefixed_2 l1 with
        | none => some ⟨KS_EXTRACTION_RESULT.EXTRACTION_FAILURE,
            SSLfatal s Alert.SSL_AD_DECODE_ERROR Reason.SSL_R_LENGTH_MISMATCH, [], []⟩
        | some (key, l2) =>
          if key = [] then
            some ⟨KS_EXTRACTION_RESULT.EXTRACTION_FAILURE,
              SSLfatal s Alert.SSL_AD_DECODE_ERROR Reason.SSL_R_LENGTH_MISMATCH, [], []⟩
          else if group_id ≠ s.s3.group_id ∨ l2 ≠ [] then
            some ⟨KS_EXTRACTION_RESULT.EXTRACTION_FAILURE,
              SSLfatal s Alert.SSL_AD_ILLEGAL_PARAMETER Reason.SSL_R_BAD_KEY_SHARE, [], []⟩
          else if group_id ∉ clnt then
            some ⟨KS_EXTRACTION_RESULT.EXTRACTION_FAILURE,
              SSLfatal s Alert.SSL_AD_ILLEGAL_PARAMETER Reason.SSL_R_BAD_KEY_SHARE, [], []⟩
          else if (tls_accept_ksgroup env s s.s3.group_id key).1 = 0 then
            some ⟨KS_EXTRACTION_RESULT.EXTRACTION_FAILURE,
              (tls_accept_ksgroup env s s.s3.group_id key).2, [], []⟩
          else
            some ⟨KS_EXTRACTION_RESULT.EXTRACTION_SUCCESS_HRR,
              (tls_accept_ksgroup env s s.s3.group_id key).2, ka, ea⟩ := by
  rw [extract_keyshares_loop]
  have hrem : PACKET_remaining ksl > 0 := by
    unfold PACKET_remaining
    exact List.length_pos.mpr hne
  rw [if_pos hrem]
  cases h1 : PACKET_get_net_2 ksl with
  | none => rfl
  | some p =>
    obtain ⟨g, l1⟩ := p
    simp only []
    cases h2 : PACKET_get_length_prefixed_2 l1 with
    | none => rfl
    | some q =>
      obtain ⟨key, l2⟩ := q
      simp only [PACKET_remaining, List.length_eq_zero, check_in_list_eq]
      by_cases hk : key = []
      · simp [hk]
      · by_cases hh : g ≠ s.s3.group_id ∨ l2 ≠ []
        · simp [hk, hh, hgid]
        · by_cases hm : g ∈ clnt
          · simp [hk, hh, hgid, hm]
          · simp [hk, hh, hgid, hm]

theorem tls_accept_ksgroup_eq_of_ne_zero (env : Env) (s : SSL_CONNECTION) (g : Nat) (key : PACKET)
    (h : (tls_accept_ksgroup env s g key).1 ≠ 0) :
    (1, (tls_accept_ksgroup env s g key).2) = tls_accept_ksgroup env s g key := by
  revert h
  unfold tls_accept_ksgroup
  cases env.ssl_generate_param_group g <;> cases env.tls13_set_encoded_pub_key g key <;> simp

/-- After an HRR the parser always returns, and what it returns is decided by
the first share alone. -/
theorem tls_parse_ctos_key_share_hrr (env : Env) (s : SSL_CONNECTION) (pkt : PACKET)
    (hgid : s.s3.group_id ≠ 0)
    (hdhe : ¬ (s.hit = true ∧ s.ext.psk_kex_mode &&& TLSEXT_KEX_MODE_FLAG_KE_DHE = 0)) :
    (∃ st, tls_parse_ctos_key_share env s pkt = some (0, st))
    ∨ (∃ ksl g l1 key,
        PACKET_as_length_prefixed_2 pkt = some ksl ∧ PACKET_get_net_2 ksl = some (g, l1)
        ∧ PACKET_get_length_prefixed_2 l1 = some (key, []) ∧ key ≠ [] ∧ g = s.s3.group_id
        ∧ tls_parse_ctos_key_share env s pkt
            = some (tls_accept_ksgroup env { s with s3 := { s.s3 with group_id_candidate := 0 } }
                s.s3.group_id key)) := by
  unfold tls_parse_ctos_key_share
  simp only []
  rw [if_neg hdhe]
  split
  · exact Or.inl ⟨_, rfl⟩
  cases hp : PACKET_as_length_prefixed_2 pkt with
  | none => exact Or.inl ⟨_, rfl⟩
  | some ksl =>
    simp only []
    split
    · exact Or.inl ⟨_, rfl⟩
    by_cases hempty : ksl = []
    · rw [if_pos ⟨hgid, by simp [hempty, PACKET_remaining]⟩]
      exact Or.inl ⟨_, rfl⟩
    · rw [if_neg (by simp [PACKET_remaining, hempty])]
      unfold extract_keyshares
      rw [extract_keyshares_loop_hrr env _ _ _ _ ksl [] [] (by simpa using hgid) hempty]
      cases h1 : PACKET_get_net_2 ksl with
      | none => exact Or.inl ⟨_, rfl⟩
      | some p =>
        obtain ⟨g, l1⟩ := p
        simp only []
        cases h2 : PACKET_get_length_prefixed_2 l1 with
        | none => exact Or.inl ⟨_, rfl⟩
        | some q =>
          obtain ⟨key, l2⟩ := q
          simp only []
          by_cases hk : key = []
          · rw [if_pos hk]; left; simp
          rw [if_neg hk]
          by_cases hh : g ≠ s.s3.group_id ∨ l2 ≠ []
          · rw [if_pos hh]; left; simp
          rw [if_neg hh]
          by_cases hm : g ∉ s.ext.peer_supportedgroups
          · rw [if_pos hm]; left; simp
          rw [if_neg hm]
          by_cases hacc : (tls_accept_ksgroup env
              { s with s3 := { s.s3 with group_id_candidate := 0 } } s.s3.group_id key).1 = 0
          · rw [if_pos hacc]; left; simp
          rw [if_neg hacc]
          right
          have hg : g = s.s3.group_id := by
            by_contra hc; exact hh (Or.inl hc)
          have hl2 : l2 = [] := by
            by_contra hc; exact hh (Or.inr hc)
          subst hl2
          refine ⟨ksl, g, l1, key, rfl, h1, h2, hk, hg, ?_⟩
          simp only [reduceCtorEq, if_false, if_true]
          rw [tls_accept_ksgroup_eq_of_ne_zero env _ _ key hacc]

/-! ## The cookie parser -/

theorem put_value_length (v n : Nat) : (put_value v n).length = n := by
  induction n generalizing v with
  | zero => rfl
  | succ n ih => simp [put_value, ih]

theorem net_value_append_singleton (l : List Nat) (b : Nat) :
    net_value (l ++ [b]) = net_value l * 256 + b := by
  simp [net_value, List.foldl_append]

theorem net_value_put_value (n : Nat) : ∀ v : Nat, v < 256 ^ n → net_value (put_value v n) = v := by
  induction n with
  | zero => intro v hv; simp at hv; subst hv; rfl
  | succ n ih =>
    intro v hv
    rw [put_value, net_value_append_singleton, ih (v / 256)]
    · omega
    · rw [pow_succ] at hv
      exact Nat.div_lt_of_lt_mul (by rw [Nat.mul_comm]; exact hv)

theorem PACKET_get_net_8_put_value (v : Nat) (rest : List Nat) (hv : v < 2 ^ 64) :
    PACKET_get_net_8 (put_value v 8 ++ rest) = some (v, rest) := by
  unfold PACKET_get_net_8
  have hl : (put_value v 8).length = 8 := put_value_length v 8
  rw [if_neg (by rw [List.length_append, hl]; omega)]
  rw [List.take_left' hl, List.drop_left' hl, net_value_put_value 8 v (by norm_num; omega)]

theorem PACKET_get_length_prefixed_1_put_value (body rest : List Nat) (hb : body.length < 256) :
    PACKET_get_length_prefixed_1 (put_value body.length 1 ++ (body ++ rest)) = some (body, rest) := by
  have h1 : put_value body.length 1 = [body.length] := by
    simp [put_value]; omega
  rw [h1]
  simp [PACKET_get_length_prefixed_1, PACKET_get_1]

/-- The parser up to and including the MAC comparison, for a body that is one
length-prefixed block of at least 32 bytes whose HMAC can be computed. -/
theorem tls_parse_ctos_cookie_mac_mismatch (env : Env) (s : SSL_CONNECTION)
    (verify_cb : List Nat → Bool) (cookie mac : List Nat)
    (hcb : env.verify_stateless_cookie_cb = some verify_cb)
    (hst : s.s3.flags &&& TLS1_FLAGS_STATELESS ≠ 0)
    (h32 : 32 ≤ cookie.length) (hlen : cookie.length < 65536)
    (hmac : env.EVP_DigestSign s.ext.cookie_hmac_key (cookie.take (cookie.length - 32)) = some mac)
    (hmlen : mac.length = 32)
    (hne : cookie.drop (cookie.length - 32) ≠ mac) :
    tls_parse_ctos_cookie env s (cookie_extension cookie)
      = (0, SSLfatal s Alert.SSL_AD_ILLEGAL_PARAMETER Reason.SSL_R_COOKIE_MISMATCH) := by
  unfold tls_parse_ctos_cookie cookie_extension
  rw [hcb]
  simp only []
  rw [if_neg hst, PACKET_as_length_prefixed_2_put_value _ hlen]
  simp only [PACKET_remaining, SHA256_DIGEST_LENGTH]
  rw [if_neg (by omega)]
  have hf : PACKET_forward cookie (cookie.length - 32) = some (cookie.drop (cookie.length - 32)) := by
    unfold PACKET_forward
    rw [if_neg (by omega)]
  rw [hf]
  simp only []
  rw [hmac]
  simp only []
  rw [if_neg (by simp [hmlen])]
  have ht : (cookie.drop (cookie.length - 32)).take 32 = cookie.drop (cookie.length - 32) := by
    apply List.take_of_length_le
    simp; omega
  rw [ht, if_pos (fun h => hne h.symm)]

theorem cookie_plaintext_length (g : Nat) (ciph : List Nat) (ks tm : Nat) (h a : List Nat) :
    (cookie_plaintext g ciph ks tm h a).length = 18 + ciph.length + h.length + a.length := by
  simp [cookie_plaintext, put_value_length]; omega

/-- The parser on a MAC-valid, well-formed format-1 cookie: what is left to
decide is the group and cipher binding, the age of the cookie, the
application's verdict and the transcript restart. -/
theorem tls_parse_ctos_cookie_wellformed (env : Env) (s : SSL_CONNECTION)
    (verify_cb : List Nat → Bool) (g : Nat) (ciph : List Nat) (ks tm : Nat)
    (chhash appcookie mac : List Nat)
    (hcb : env.verify_stateless_cookie_cb = some verify_cb)
    (hst : s.s3.flags &&& TLS1_FLAGS_STATELESS ≠ 0)
    (hg : g < 65536) (hciph : ciph.length = 2) (htm : tm < 2 ^ 64)
    (hh : chhash.length < 65536) (ha : appcookie.length < 256)
    (hlen : (cookie_plaintext g ciph ks tm chhash appcookie ++ mac).length < 65536)
    (hmac : env.EVP_DigestSign s.ext.cookie_hmac_key
      (cookie_plaintext g ciph ks tm chhash appcookie) = some mac)
    (hmlen : mac.length = 32) :
    tls_parse_ctos_cookie env s
        (cookie_extension (cookie_plaintext g ciph ks tm chhash appcookie ++ mac))
      = if g ≠ s.s3.group_id ∨ s.s3.tmp.new_cipher ≠ env.ssl_get_cipher_by_char ciph then
          (0, SSLfatal s Alert.SSL_AD_ILLEGAL_PARAMETER Reason.SSL_R_BAD_CIPHER)
        else if tm > env.time % 2 ^ 64 ∨ env.time % 2 ^ 64 - tm > 600 then (1, s)
        else if verify_cb appcookie = false then
          (0, SSLfatal s Alert.SSL_AD_ILLEGAL_PARAMETER Reason.SSL_R_COOKIE_MISMATCH)
        else
          match reconstruct_hrr s ks (cookie_plaintext g ciph ks tm chhash appcookie ++ mac) with
          | none => (0, SSLfatal s Alert.SSL_AD_INTERNAL_ERROR Reason.ERR_R_INTERNAL_ERROR)
          | some hrr =>
            match env.create_synthetic_message_hash s chhash hrr with
            | none => (0, SSLfatal s Alert.SSL_AD_INTERNAL_ERROR Reason.ERR_R_INTERNAL_ERROR)
            | some s1 =>
              (1, { s1 with hello_retry_request := HRR_STATE.SSL_HRR_PENDING,
                            ext := { s1.ext with cookieok := 1 } }) := by
  unfold tls_parse_ctos_cookie cookie_extension
  rw [hcb]
  simp only []
  rw [if_neg hst, PACKET_as_length_prefixed_2_put_value _ hlen]
  simp only [PACKET_remaining, SHA256_DIGEST_LENGTH]
  have hpl := cookie_plaintext_length g ciph ks tm chhash appcookie
  have hl : (cookie_plaintext g ciph ks tm chhash appcookie ++ mac).length - 32
      = (cookie_plaintext g ciph ks tm chhash appcookie).length := by
    rw [List.length_append, hmlen]; omega
  rw [if_neg (by rw [List.length_append, hmlen]; omega), hl]
  have hf : PACKET_forward (cookie_plaintext g ciph ks tm chhash appcookie ++ mac)
      (cookie_plaintext g ciph ks tm chhash appcookie).length = some mac := by
    unfold PACKET_forward
    rw [if_neg (by rw [List.length_append]; omega), List.drop_left]
  rw [hf]
  simp only []
  rw [List.take_left, hmac]
  simp only []
  rw [if_neg (by simp [hmlen]), if_neg (by rw [List.take_of_length_le (by omega)]; simp)]
  have e0 : cookie_plaintext g ciph ks tm chhash appcookie ++ mac
      = put_value COOKIE_STATE_FORMAT_VERSION 2 ++ (put_value TLS1_3_VERSION 2
        ++ (put_value g 2 ++ (ciph ++ (ks :: (put_value tm 8
        ++ (put_value chhash.length 2 ++ (chhash ++ (put_value appcookie.length 1
        ++ (appcookie ++ mac))))))))) := by
    simp [cookie_plaintext]
  rw [e0, PACKET_get_net_2_put_value _ _ (by decide)]
  simp only [ne_eq, not_true_eq_false, if_false]
  rw [PACKET_get_net_2_put_value _ _ (by decide)]
  simp only [ne_eq, not_true_eq_false, if_false]
  rw [PACKET_get_net_2_put_value _ _ hg]
  simp only []
  have hfw : PACKET_forward (ciph ++ (ks :: (put_value tm 8
        ++ (put_value chhash.length 2 ++ (chhash ++ (put_value appcookie.length 1
        ++ (appcookie ++ mac))))))) 2
      = some (ks :: (put_value tm 8
        ++ (put_value chhash.length 2 ++ (chhash ++ (put_value appcookie.length 1
        ++ (appcookie ++ mac)))))) := by
    unfold PACKET_forward
    rw [if_neg (by rw [List.length_append]; omega), List.drop_left' hciph]
  rw [hfw, List.take_left' hciph]
  simp only []
  by_cases hbind : g ≠ s.s3.group_id ∨ s.s3.tmp.new_cipher ≠ env.ssl_get_cipher_by_char ciph
  · rw [if_pos hbind, if_pos hbind]
  · rw [if_neg hbind, if_neg hbind]
    simp only [PACKET_get_1]
    rw [PACKET_get_net_8_put_value _ _ htm]
    simp only []
    rw [PACKET_get_length_prefixed_2_put_value _ _ hh]
    simp only []
    rw [PACKET_get_length_prefixed_1_put_value _ _ ha]
    simp only []
    rw [if_neg (by simp [hmlen])]

/-! ## The writer -/

theorem WPACKET_reserve_bytes_eq (subs : List WPACKET_SUB) (M len : Nat) (p : WPACKET)
    (h : WPACKET_reserve_bytes ⟨subs, M⟩ len = some p) : p = ⟨subs, M⟩ := by
  unfold WPACKET_reserve_bytes at h
  split at h
  · simp at h
  · split at h
    · simp at h
    · simp at h; exact h.symm

theorem WPACKET_allocate_bytes_eq (sub : WPACKET_SUB) (ps : List WPACKET_SUB) (M : Nat)
    (data : List Nat) (p : WPACKET)
    (h : WPACKET_allocate_bytes ⟨sub :: ps, M⟩ data = some p) :
    p = ⟨{ sub with body := sub.body ++ data } :: ps, M⟩ ∧ data ≠ [] := by
  unfold WPACKET_allocate_bytes at h
  cases hr : WPACKET_reserve_bytes ⟨sub :: ps, M⟩ data.length with
  | none => rw [hr] at h; simp at h
  | some q =>
    rw [hr] at h
    simp only [Option.some.injEq] at h
    refine ⟨h.symm, ?_⟩
    intro hd
    subst hd
    simp [WPACKET_reserve_bytes] at hr

theorem WPACKET_put_bytes_eq (sub : WPACKET_SUB) (ps : List WPACKET_SUB) (M : Nat)
    (v n : Nat) (p : WPACKET)
    (h : WPACKET_put_bytes ⟨sub :: ps, M⟩ v n = some p) :
    p = ⟨{ sub with body := sub.body ++ put_value v n } :: ps, M⟩ ∧ v < 256 ^ n := by
  unfold WPACKET_put_bytes at h
  cases hr : WPACKET_allocate_bytes ⟨sub :: ps, M⟩ (put_value v n) with
  | none => rw [hr] at h; simp at h
  | some q =>
    rw [hr] at h
    simp only [] at h
    split at h
    · rename_i hv
      simp only [Option.some.injEq] at h
      subst h
      exact ⟨(WPACKET_allocate_bytes_eq sub ps M _ q hr).1, hv⟩
    · simp at h

theorem WPACKET_start_sub_packet_len_eq (subs : List WPACKET_SUB) (M n : Nat) (p : WPACKET)
    (h : WPACKET_start_sub_packet_len ⟨subs, M⟩ n = some p) :
    p = ⟨⟨n, []⟩ :: subs, M⟩ := by
  unfold WPACKET_start_sub_packet_len at h
  split at h
  · simp at h
  · split at h
    · simp at h
    · simp at h; exact h.symm

theorem WPACKET_close_eq (sub parent : WPACKET_SUB) (grand : List WPACKET_SUB) (M : Nat)
    (p : WPACKET) (h : WPACKET_close ⟨sub :: parent :: grand, M⟩ = some p) :
    p = ⟨{ parent with body := parent.body ++ put_value sub.body.length sub.lenbytes ++ sub.body }
          :: grand, M⟩
      ∧ (0 < sub.lenbytes → sub.body.length < 256 ^ sub.lenbytes) := by
  unfold WPACKET_close at h
  simp only [] at h
  split at h
  · simp at h
  · rename_i hc
    simp only [Option.some.injEq] at h
    refine ⟨h.symm, fun hp => ?_⟩
    by_contra hlt
    exact hc ⟨hp, hlt⟩

theorem WPACKET_get_total_written_eq (p : WPACKET) (n : Nat)
    (h : WPACKET_get_total_written p = some n) : n = p.written := by
  unfold WPACKET_get_total_written at h
  simp only [Option.some.injEq] at h
  exact h.symm

theorem cookie_put_hash_eq (sub : WPACKET_SUB) (ps : List WPACKET_SUB) (sub1 : WPACKET_SUB)
    (M : Nat) (hashval : List Nat) (p : WPACKET)
    (h : cookie_put_hash ⟨sub :: sub1 :: ps, M⟩ hashval = some p) :
    p = ⟨⟨1, []⟩ :: { sub1 with body := sub1.body ++ put_value (sub.body ++ hashval).length sub.lenbytes ++ (sub.body ++ hashval) } :: ps, M⟩
      ∧ (0 < sub.lenbytes → (sub.body ++ hashval).length < 256 ^ sub.lenbytes) := by
  unfold cookie_put_hash at h
  cases h1 : WPACKET_allocate_bytes ⟨sub :: sub1 :: ps, M⟩ hashval with
  | none => rw [h1] at h; simp at h
  | some b1 =>
    rw [h1] at h
    obtain ⟨e1, _⟩ := WPACKET_allocate_bytes_eq _ _ _ _ _ h1
    subst e1
    simp only [] at h
    cases h2 : WPACKET_close ⟨{ sub with body := sub.body ++ hashval } :: sub1 :: ps, M⟩ with
    | none => rw [h2] at h; simp at h
    | some b2 =>
      rw [h2] at h
      obtain ⟨e2, hfit⟩ := WPACKET_close_eq _ _ _ _ _ h2
      subst e2
      simp only [] at h
      cases h3 : WPACKET_start_sub_packet_u8 ⟨{ sub1 with body := sub1.body ++ put_value (sub.body ++ hashval).length sub.lenbytes ++ (sub.body ++ hashval) } :: ps, M⟩ with
      | none => rw [h3] at h; simp at h
      | some b3 =>
        rw [h3] at h
        have e3 := WPACKET_start_sub_packet_len_eq _ _ _ _ h3
        subst e3
        simp only [] at h
        exact ⟨WPACKET_reserve_bytes_eq _ _ _ _ h, hfit⟩

theorem cookie_open_eq (env : Env) (s : SSL_CONNECTION) (sub : WPACKET_SUB)
    (ps : List WPACKET_SUB) (M startlen : Nat) (p : WPACKET)
    (h : cookie_open env s ⟨sub :: ps, M⟩ = some (startlen, p)) :
    ∃ c, s.s3.tmp.new_cipher = some c ∧ c.id < 65536 ∧ s.s3.group_id < 65536
      ∧ startlen = WPACKET.written
          ⟨⟨2, []⟩ :: ⟨2, []⟩ :: { sub with body := sub.body ++ put_value TLSEXT_TYPE_cookie 2 } :: ps, M⟩
      ∧ p = ⟨⟨2, []⟩ :: ⟨2, put_value COOKIE_STATE_FORMAT_VERSION 2 ++ (put_value TLS1_3_VERSION 2 ++ (put_value s.s3.group_id 2 ++ (put_value c.id 2 ++ ((if s.s3.peer_tmp = none then 1 else 0) :: put_value (env.time % 2 ^ 64) 8))))⟩ :: ⟨2, []⟩ :: { sub with body := sub.body ++ put_value TLSEXT_TYPE_cookie 2 } :: ps, M⟩ := by
  unfold cookie_open at h
  split at h
  · simp at h
  rename_i a1 h1
  obtain ⟨e1, _⟩ := WPACKET_put_bytes_eq _ _ _ _ 2 _ h1
  subst e1
  split at h
  · simp at h
  rename_i a2 h2
  have e2 := WPACKET_start_sub_packet_len_eq _ _ 2 _ h2
  subst e2
  split at h
  · simp at h
  rename_i a3 h3
  have e3 := WPACKET_start_sub_packet_len_eq _ _ 2 _ h3
  subst e3
  split at h
  · simp at h
  rename_i sl h4
  have e4 := WPACKET_get_total_written_eq _ _ h4
  split at h
  · simp at h
  rename_i a4 h5
  have e5 := WPACKET_reserve_bytes_eq _ _ _ _ h5
  subst e5
  split at h
  · simp at h
  rename_i a5 h6
  obtain ⟨e6, _⟩ := WPACKET_put_bytes_eq _ _ _ _ 2 _ h6
  subst e6
  split at h
  · simp at h
  rename_i a6 h7
  obtain ⟨e7, _⟩ := WPACKET_put_bytes_eq _ _ _ _ 2 _ h7
  subst e7
  split at h
  · simp at h
  rename_i a7 h8
  obtain ⟨e8, hgid⟩ := WPACKET_put_bytes_eq _ _ _ _ 2 _ h8
  subst e8
  split at h
  · simp at h
  rename_i a8 h9
  cases hc : s.s3.tmp.new_cipher with
  | none => rw [hc] at h9; simp [put_cipher_by_char] at h9
  | some c =>
    rw [hc] at h9
    obtain ⟨e9, hcid⟩ := WPACKET_put_bytes_eq _ _ _ _ 2 _ h9
    subst e9
    split at h
    · simp at h
    rename_i a9 h10
    obtain ⟨e10, _⟩ := WPACKET_put_bytes_eq _ _ _ _ 1 _ h10
    subst e10
    split at h
    · simp at h
    rename_i a10 h11
    obtain ⟨e11, _⟩ := WPACKET_put_bytes_eq _ _ _ _ 8 _ h11
    subst e11
    split at h
    · simp at h
    rename_i a11 h12
    have e12 := WPACKET_start_sub_packet_len_eq _ _ 2 _ h12
    subst e12
    split at h
    · simp at h
    rename_i a12 h13
    have e13 := WPACKET_reserve_bytes_eq _ _ _ _ h13
    subst e13
    simp only [Option.some.injEq, Prod.mk.injEq] at h
    obtain ⟨hs, hp⟩ := h
    refine ⟨c, rfl, by simpa using hcid, by simpa using hgid, ?_, ?_⟩
    · rw [← hs, e4]
    · rw [← hp]
      have h1b : put_value (if s.s3.peer_tmp = none then 1 else 0) 1
          = [if s.s3.peer_tmp = none then 1 else 0] := by
        split <;> rfl
      simp [h1b]

theorem cookie_put_appcookie_eq (sub sub1 : WPACKET_SUB) (ps : List WPACKET_SUB)
    (M tot : Nat) (appcookie : List Nat) (p : WPACKET)
    (h : cookie_put_appcookie ⟨sub :: sub1 :: ps, M⟩ appcookie = some (tot, p)) :
    p = ⟨{ sub1 with body := sub1.body ++ put_value (sub.body ++ appcookie).length sub.lenbytes ++ (sub.body ++ appcookie) } :: ps, M⟩
      ∧ tot = p.written
      ∧ (0 < sub.lenbytes → (sub.body ++ appcookie).length < 256 ^ sub.lenbytes) := by
  unfold cookie_put_appcookie at h
  split at h
  · simp at h
  rename_i c1 h1
  obtain ⟨e1, _⟩ := WPACKET_allocate_bytes_eq _ _ _ _ _ h1
  subst e1
  split at h
  · simp at h
  rename_i c2 h2
  obtain ⟨e2, hfit⟩ := WPACKET_close_eq _ _ _ _ _ h2
  subst e2
  split at h
  · simp at h
  rename_i t h3
  have e3 := WPACKET_get_total_written_eq _ _ h3
  split at h
  · simp at h
  rename_i c3 h4
  have e4 := WPACKET_reserve_bytes_eq _ _ _ _ h4
  subst e4
  simp only [Option.some.injEq, Prod.mk.injEq] at h
  obtain ⟨ht, hp⟩ := h
  subst hp
  exact ⟨rfl, by rw [← ht, e3], hfit⟩

theorem cookie_put_hmac_eq (sub sub1 sub2 : WPACKET_SUB) (ps : List WPACKET_SUB)
    (M : Nat) (hmac : List Nat) (p : WPACKET)
    (h : cookie_put_hmac ⟨sub :: sub1 :: sub2 :: ps, M⟩ hmac = some p) :
    p = ⟨{ sub2 with body := sub2.body ++ put_value (sub1.body ++ put_value (sub.body ++ hmac).length sub.lenbytes ++ (sub.body ++ hmac)).length sub1.lenbytes ++ (sub1.body ++ put_value (sub.body ++ hmac).length sub.lenbytes ++ (sub.body ++ hmac)) } :: ps, M⟩ := by
  unfold cookie_put_hmac at h
  split at h
  · simp at h
  rename_i d1 h1
  obtain ⟨e1, _⟩ := WPACKET_allocate_bytes_eq _ _ _ _ _ h1
  subst e1
  split at h
  · simp at h
  rename_i d2 h2
  obtain ⟨e2, _⟩ := WPACKET_close_eq _ _ _ _ _ h2
  subst e2
  exact (WPACKET_close_eq _ _ _ _ _ h).1

theorem WPACKET_written_cons (sub : WPACKET_SUB) (ps : List WPACKET_SUB) (M : Nat) :
    WPACKET.written ⟨sub :: ps, M⟩ = sub.lenbytes + sub.body.length + WPACKET.written ⟨ps, M⟩ := by
  simp [WPACKET.written]

theorem WPACKET_buffer_cons (sub : WPACKET_SUB) (ps : List WPACKET_SUB) (M : Nat) :
    WPACKET.buffer ⟨sub :: ps, M⟩
      = WPACKET.buffer ⟨ps, M⟩ ++ (List.replicate sub.lenbytes 0 ++ sub.body) := by
  simp [WPACKET.buffer]

theorem WPACKET_buffer_length (ps : List WPACKET_SUB) (M : Nat) :
    (WPACKET.buffer ⟨ps, M⟩).length = WPACKET.written ⟨ps, M⟩ := by
  induction ps with
  | nil => simp [WPACKET.buffer, WPACKET.written]
  | cons sub ps ih =>
    rw [WPACKET_buffer_cons, WPACKET_written_cons, List.length_append, ih]
    simp; omega

/-- The bytes between the position startlen, taken when the innermost
sub-packet was empty, and the write position are the body of that sub-packet. -/
theorem WPACKET_buffer_region (n : Nat) (body : List Nat) (ps : List WPACKET_SUB) (M : Nat) :
    ((WPACKET.buffer ⟨⟨n, body⟩ :: ps, M⟩).drop (WPACKET.written ⟨⟨n, []⟩ :: ps, M⟩)).take
        (WPACKET.written ⟨⟨n, body⟩ :: ps, M⟩ - WPACKET.written ⟨⟨n, []⟩ :: ps, M⟩)
      = body := by
  rw [WPACKET_buffer_cons, WPACKET_written_cons, WPACKET_written_cons]
  simp only [List.length_nil, Nat.add_zero]
  have hl : (WPACKET.buffer ⟨ps, M⟩ ++ List.replicate n 0).length = n + WPACKET.written ⟨ps, M⟩ := by
    rw [List.length_append, WPACKET_buffer_length]; simp; omega
  rw [← List.append_assoc, List.drop_left' hl]
  apply List.take_of_length_le
  omega

/-- What a successful tls_construct_stoc_cookie has done: every collaborator
answered, every field fits, and the extension was appended to the innermost
open sub-packet of the writer. -/
theorem tls_construct_stoc_cookie_sent (env : Env) (s s1 : SSL_CONNECTION) (pkt pkt1 : WPACKET)
    (h : tls_construct_stoc_cookie env s pkt = (EXT_RETURN.EXT_RETURN_SENT, s1, pkt1)) :
    ∃ sub ps c gen_cb chhash appcookie hmac,
      pkt.subs = sub :: ps ∧ s.s3.tmp.new_cipher = some c ∧ c.id < 65536
      ∧ s.s3.group_id < 65536
      ∧ env.gen_stateless_cookie_cb = some gen_cb ∧ gen_cb s = some appcookie
      ∧ appcookie.length < 256
      ∧ env.ssl_handshake_hash s = some chhash ∧ chhash.length ≤ EVP_MAX_MD_SIZE
      ∧ env.EVP_DigestSign s.ext.cookie_hmac_key
          (cookie_plaintext s.s3.group_id (put_value c.id 2)
            (if s.s3.peer_tmp = none then 1 else 0) (env.time % 2 ^ 64) chhash appcookie)
          = some hmac
      ∧ s1 = s
      ∧ pkt1 = ⟨{ sub with body := sub.body ++ (put_value TLSEXT_TYPE_cookie 2 ++ cookie_extension (cookie_extension (cookie_plaintext s.s3.group_id (put_value c.id 2) (if s.s3.peer_tmp = none then 1 else 0) (env.time % 2 ^ 64) chhash appcookie ++ hmac))) } :: ps, pkt.maxsize⟩ := by
  obtain ⟨subs, M⟩ := pkt
  cases subs with
  | nil =>
    exfalso
    unfold tls_construct_stoc_cookie at h
    split at h
    · simp at h
    split at h
    · simp at h
    have hno : cookie_open env s ⟨[], M⟩ = none := by
      simp [cookie_open, WPACKET_put_bytes_u16, WPACKET_put_bytes, WPACKET_allocate_bytes,
        WPACKET_reserve_bytes]
    rw [hno] at h
    simp at h
  | cons sub ps =>
    unfold tls_construct_stoc_cookie at h
    split at h
    · simp at h
    split at h
    · simp at h
    rename_i gen_cb hgen
    split at h
    · simp at h
    rename_i startlen p1 hopen
    obtain ⟨c, hc, hcid, hgid, hstart, hp1⟩ := cookie_open_eq env s sub ps M startlen p1 hopen
    subst hp1
    split at h
    · simp at h
    rename_i chhash hhash
    split at h
    · simp at h
    rename_i hhlen
    split at h
    · simp at h
    rename_i p2 hput
    obtain ⟨hp2, _⟩ := cookie_put_hash_eq _ _ _ _ _ _ hput
    subst hp2
    split at h
    · simp at h
    rename_i appcookie happ
    split at h
    · simp at h
    rename_i tot p3 hput2
    obtain ⟨hp3, htot, hfit⟩ := cookie_put_appcookie_eq _ _ _ _ _ _ _ hput2
    subst hp3
    simp only [] at h
    split at h
    · simp at h
    split at h
    · simp at h
    rename_i hmac hsign
    split at h
    · simp at h
    split at h
    · simp at h
    rename_i p4 hput3
    have hp4 := cookie_put_hmac_eq _ _ _ _ _ _ _ hput3
    subst hp4
    simp only [Prod.mk.injEq, true_and] at h
    obtain ⟨hs1, hpkt1⟩ := h
    rw [htot, hstart, WPACKET_buffer_region] at hsign
    have hal : appcookie.length < 256 := by
      have := hfit (by decide)
      simpa using this
    have hplain : put_value COOKIE_STATE_FORMAT_VERSION 2 ++ (put_value TLS1_3_VERSION 2 ++ (put_value s.s3.group_id 2 ++ (put_value c.id 2 ++ ((if s.s3.peer_tmp = none then 1 else 0) :: put_value (env.time % 2 ^ 64) 8)))) ++ put_value ([] ++ chhash).length 2 ++ ([] ++ chhash) ++ put_value ([] ++ appcookie).length 1 ++ ([] ++ appcookie)
        = cookie_plaintext s.s3.group_id (put_value c.id 2)
            (if s.s3.peer_tmp = none then 1 else 0) (env.time % 2 ^ 64) chhash appcookie := by
      simp [cookie_plaintext]
    rw [hplain] at hsign
    refine ⟨sub, ps, c, gen_cb, chhash, appcookie, hmac, rfl, hc, hcid, hgid, hgen, happ, hal,
      hhash, by omega, hsign, hs1.symm, ?_⟩
    rw [← hpkt1]
    simp [cookie_plaintext, cookie_extension]

/-! ## The rebuilt HelloRetryRequest -/

theorem WPACKET_put_bytes_some (sub : WPACKET_SUB) (ps : List WPACKET_SUB) (M v n : Nat)
    (hn : 0 < n) (hv : v < 256 ^ n) (hw : WPACKET.written ⟨sub :: ps, M⟩ + n ≤ M) :
    WPACKET_put_bytes ⟨sub :: ps, M⟩ v n
      = some ⟨{ sub with body := sub.body ++ put_value v n } :: ps, M⟩ := by
  unfold WPACKET_put_bytes WPACKET_allocate_bytes WPACKET_reserve_bytes
  rw [put_value_length]
  rw [if_neg (by simp; omega), if_neg (by simp only []; omega)]
  simp [hv]

theorem WPACKET_memcpy_some (sub : WPACKET_SUB) (ps : List WPACKET_SUB) (M : Nat)
    (src : List Nat) (hw : WPACKET.written ⟨sub :: ps, M⟩ + src.length ≤ M) :
    WPACKET_memcpy ⟨sub :: ps, M⟩ src
      = some ⟨{ sub with body := sub.body ++ src } :: ps, M⟩ := by
  unfold WPACKET_memcpy
  by_cases h0 : src.length = 0
  · rw [if_pos h0]
    have : src = [] := List.length_eq_zero.mp h0
    subst this
    simp
  · rw [if_neg h0]
    unfold WPACKET_allocate_bytes WPACKET_reserve_bytes
    have hc : ¬ ((⟨sub :: ps, M⟩ : WPACKET).subs = [] ∨ src.length = 0) := by
      rintro (h | h)
      · simp at h
      · exact h0 h
    rw [if_neg hc, if_neg (by simp only []; omega)]

theorem WPACKET_start_sub_packet_len_some (sub : WPACKET_SUB) (ps : List WPACKET_SUB) (M n : Nat)
    (hw : WPACKET.written ⟨sub :: ps, M⟩ + n ≤ M) :
    WPACKET_start_sub_packet_len ⟨sub :: ps, M⟩ n = some ⟨⟨n, []⟩ :: sub :: ps, M⟩ := by
  unfold WPACKET_start_sub_packet_len
  rw [if_neg (by simp), if_neg (by simp only []; omega)]

theorem WPACKET_close_some (sub parent : WPACKET_SUB) (grand : List WPACKET_SUB) (M : Nat)
    (hfit : sub.body.length < 256 ^ sub.lenbytes) :
    WPACKET_close ⟨sub :: parent :: grand, M⟩
      = some ⟨{ parent with body := parent.body ++ put_value sub.body.length sub.lenbytes ++ sub.body } :: grand, M⟩ := by
  unfold WPACKET_close
  simp only []
  rw [if_neg (by intro h; exact h.2 hfit)]

theorem WPACKET_sub_memcpy_some (sub : WPACKET_SUB) (ps : List WPACKET_SUB) (M n : Nat)
    (src : List Nat) (hfit : src.length < 256 ^ n)
    (hw : WPACKET.written ⟨sub :: ps, M⟩ + n + src.length ≤ M) :
    WPACKET_sub_memcpy ⟨sub :: ps, M⟩ src n
      = some ⟨{ sub with body := sub.body ++ put_value src.length n ++ src } :: ps, M⟩ := by
  unfold WPACKET_sub_memcpy
  rw [WPACKET_start_sub_packet_len_some _ _ _ _ (by omega)]
  simp only []
  rw [WPACKET_memcpy_some _ _ _ _ (by rw [WPACKET_written_cons]; simp only [List.length_nil]; omega)]
  simp only []
  rw [WPACKET_close_some _ _ _ _ (by simpa using hfit)]
  simp

theorem WPACKET_finish_some (sub : WPACKET_SUB) (M : Nat)
    (hfit : sub.lenbytes = 0) :
    WPACKET_finish ⟨[sub], M⟩ = some (put_value sub.body.length sub.lenbytes ++ sub.body) := by
  unfold WPACKET_finish
  simp only []
  rw [if_neg (by intro h; omega)]

theorem hrr_extensions_length (version group_id key_share : Nat) (cookie : List Nat) :
    (hrr_extensions version group_id key_share cookie).length
      = 12 + (if key_share ≠ 0 then 6 else 0) + cookie.length := by
  unfold hrr_extensions cookie_extension
  split <;> simp [put_value_length] <;> omega

/-- With room in the buffer and fields that fit their length prefixes, the
rebuilt HelloRetryRequest is the ServerHello-shaped message with the three
extensions. -/
theorem reconstruct_hrr_eq (s : SSL_CONNECTION) (c : SSL_CIPHER) (key_share : Nat)
    (data : List Nat)
    (hc : s.s3.tmp.new_cipher = some c) (hcid : c.id < 65536)
    (hver : s.version < 65536) (hgid : s.s3.group_id < 65536)
    (hsid : s.tmp_session_id.length < 256)
    (hroom : 62 + s.tmp_session_id.length + data.length ≤ MAX_HRR_SIZE) :
    reconstruct_hrr s key_share data
      = some (handshake_message SSL3_MT_SERVER_HELLO
          (hrr_body s.tmp_session_id c.id
            (hrr_extensions s.version s.s3.group_id key_share data))) := by
  have hM : MAX_HRR_SIZE = 4300 := by decide
  rw [hM] at hroom
  unfold reconstruct_hrr
  rw [hc]
  simp only [WPACKET_init_static_len, hM, WPACKET_put_bytes_u8, WPACKET_put_bytes_u16,
    WPACKET_start_sub_packet_u24, WPACKET_start_sub_packet_u16, WPACKET_sub_memcpy_u8,
    WPACKET_sub_memcpy_u16, put_cipher_by_char]
  rw [if_neg (by decide)]
  simp only []
  rw [WPACKET_put_bytes_some _ _ _ _ _ (by decide) (by decide)
    (by simp [WPACKET.written])]
  simp only []
  rw [WPACKET_start_sub_packet_len_some _ _ _ _ (by simp [WPACKET.written, put_value_length])]
  simp only []
  rw [WPACKET_put_bytes_some _ _ _ _ _ (by decide) (by decide)
    (by simp [WPACKET.written, put_value_length])]
  simp only []
  rw [WPACKET_memcpy_some _ _ _ _
    (by simp [WPACKET.written, put_value_length, hrrrandom])]
  simp only []
  rw [WPACKET_sub_memcpy_some _ _ _ _ _ (by simpa using hsid)
    (by simp [WPACKET.written, put_value_length, hrrrandom]; omega)]
  simp only []
  rw [WPACKET_put_bytes_some _ _ _ _ _ (by decide) (by simpa using hcid)
    (by simp [WPACKET.written, put_value_length, hrrrandom]; omega)]
  simp only []
  rw [WPACKET_put_bytes_some _ _ _ _ _ (by decide) (by decide)
    (by simp [WPACKET.written, put_value_length, hrrrandom]; omega)]
  simp only []
  rw [WPACKET_start_sub_packet_len_some _ _ _ _
    (by simp [WPACKET.written, put_value_length, hrrrandom]; omega)]
  simp only []
  rw [WPACKET_put_bytes_some _ _ _ _ _ (by decide) (by decide)
    (by simp [WPACKET.written, put_value_length, hrrrandom]; omega)]
  simp only []
  rw [WPACKET_start_sub_packet_len_some _ _ _ _
    (by simp [WPACKET.written, put_value_length, hrrrandom]; omega)]
  simp only []
  rw [WPACKET_put_bytes_some _ _ _ _ _ (by decide) (by simpa using hver)
    (by simp [WPACKET.written, put_value_length, hrrrandom]; omega)]
  simp only []
  rw [WPACKET_close_some _ _ _ _ (by simp [put_value_length])]
  simp only []
  have hks : reconstruct_hrr_key_share s key_share
      ⟨[⟨2, [] ++ put_value TLSEXT_TYPE_supported_versions 2 ++ put_value ([] ++ put_value s.version 2).length 2 ++ ([] ++ put_value s.version 2)⟩, ⟨3, [] ++ put_value TLS1_2_VERSION 2 ++ hrrrandom ++ put_value s.tmp_session_id.length 1 ++ s.tmp_session_id ++ put_value c.id 2 ++ put_value 0 1⟩, ⟨0, [] ++ put_value SSL3_MT_SERVER_HELLO 1⟩], 4300⟩
      = some ⟨[⟨2, [] ++ put_value TLSEXT_TYPE_supported_versions 2 ++ put_value ([] ++ put_value s.version 2).length 2 ++ ([] ++ put_value s.version 2) ++ (if key_share ≠ 0 then put_value TLSEXT_TYPE_key_share 2 ++ (put_value 2 2 ++ put_value s.s3.group_id 2) else [])⟩, ⟨3, [] ++ put_value TLS1_2_VERSION 2 ++ hrrrandom ++ put_value s.tmp_session_id.length 1 ++ s.tmp_session_id ++ put_value c.id 2 ++ put_value 0 1⟩, ⟨0, [] ++ put_value SSL3_MT_SERVER_HELLO 1⟩], 4300⟩ := by
    unfold reconstruct_hrr_key_share
    by_cases hk : key_share ≠ 0
    · rw [if_pos hk, if_pos hk]
      simp only [WPACKET_put_bytes_u16, WPACKET_start_sub_packet_u16]
      rw [WPACKET_put_bytes_some _ _ _ _ _ (by decide) (by decide)
        (by simp [WPACKET.written, put_value_length, hrrrandom]; omega)]
      simp only []
      rw [WPACKET_start_sub_packet_len_some _ _ _ _
        (by simp [WPACKET.written, put_value_length, hrrrandom]; omega)]
      simp only []
      rw [WPACKET_put_bytes_some _ _ _ _ _ (by decide) (by simpa using hgid)
        (by simp [WPACKET.written, put_value_length, hrrrandom]; omega)]
      simp only []
      rw [WPACKET_close_some _ _ _ _ (by simp [put_value_length])]
      simp [put_value_length]
    · rw [if_neg hk, if_neg hk]
      simp
  rw [hks]
  simp only []
  unfold handshake_message hrr_body hrr_extensions cookie_extension
  have hkl : (if key_share ≠ 0 then
      put_value TLSEXT_TYPE_key_share 2 ++ (put_value 2 2 ++ put_value s.s3.group_id 2)
      else []).length ≤ 6 := by
    split <;> simp [put_value_length]
  generalize (if key_share ≠ 0 then
      put_value TLSEXT_TYPE_key_share 2 ++ (put_value 2 2 ++ put_value s.s3.group_id 2)
      else []) = ksx at hkl ⊢
  rw [WPACKET_put_bytes_some _ _ _ _ _ (by decide) (by decide)
    (by simp [WPACKET.written, put_value_length, hrrrandom]; omega)]
  simp only []
  rw [WPACKET_start_sub_packet_len_some _ _ _ _
    (by simp [WPACKET.written, put_value_length, hrrrandom]; omega)]
  simp only []
  rw [WPACKET_sub_memcpy_some _ _ _ _ _ (by norm_num; omega)
    (by simp [WPACKET.written, put_value_length, hrrrandom]; omega)]
  simp only []
  rw [WPACKET_close_some _ _ _ _ (by simp [put_value_length]; omega)]
  simp only []
  rw [WPACKET_close_some _ _ _ _ (by simp [put_value_length]; omega)]
  simp only []
  rw [WPACKET_close_some _ _ _ _ (by simp [put_value_length, hrrrandom]; omega)]
  simp only []
  rw [WPACKET_get_total_written]
  simp only []
  rw [WPACKET_finish_some _ _ rfl]
  simp only []
  rw [List.take_of_length_le (by simp [WPACKET.written, put_value_length])]
  simp [put_value, SSL3_MT_SERVER_HELLO]

/-! ## Lemmas on renegotiation_info, server_name, max_fragment_length and ALPN -/

theorem tls_parse_ctos_renegotiate_framed (s : SSL_CONNECTION) (ilen : Nat)
    (payload rest : List Nat) (h : payload.length = ilen) :
    tls_parse_ctos_renegotiate s (ilen :: (payload ++ rest))
      = if ilen ≠ s.s3.previous_client_finished_len ∨ payload ≠ client_finished s then
          (0, SSLfatal s Alert.SSL_AD_HANDSHAKE_FAILURE Reason.SSL_R_RENEGOTIATION_MISMATCH)
        else (1, { s with s3 := { s.s3 with send_connection_binding := 1 } }) := by
  subst h
  simp only [tls_parse_ctos_renegotiate, PACKET_get_1, PACKET_get_bytes, memcmp, client_finished]
  rw [if_neg (by simp)]
  simp only [List.take_left', List.drop_left']
  by_cases h1 : payload.length = s.s3.previous_client_finished_len
  · rw [if_neg (by simpa using h1)]
    rw [← h1, List.take_length]
    by_cases h2 : payload = List.take payload.length s.s3.previous_client_finished
    · rw [if_pos h2, if_neg (by simp), if_neg (by simp [← h2])]
    · rw [if_neg h2, if_pos (by simp), if_pos (by simp [h2])]
  · rw [if_pos (by simpa using h1), if_pos (Or.inl h1)]

theorem tls_parse_ctos_renegotiate_truncated (s : SSL_CONNECTION) (body : List Nat)
    (h : body = [] ∨ ∃ ilen rest, body = ilen :: rest ∧ rest.length < ilen) :
    tls_parse_ctos_renegotiate s body
      = (0, SSLfatal s Alert.SSL_AD_DECODE_ERROR Reason.SSL_R_RENEGOTIATION_ENCODING_ERR) := by
  rcases h with h | ⟨ilen, rest, h, hlt⟩
  · subst h; rfl
  · subst h
    simp only [tls_parse_ctos_renegotiate, PACKET_get_1, PACKET_get_bytes]
    rw [if_pos hlt]

/-- Every body is empty, shorter than its length byte announces, or a framed
binding followed by further bytes. -/
theorem renegotiate_body_cases (body : List Nat) :
    (body = [] ∨ ∃ ilen rest, body = ilen :: rest ∧ rest.length < ilen)
      ∨ ∃ payload rest, body = renegotiation_info payload ++ rest := by
  cases body with
  | nil => exact Or.inl (Or.inl rfl)
  | cons ilen rest =>
    by_cases h : rest.length < ilen
    · exact Or.inl (Or.inr ⟨ilen, rest, rfl, h⟩)
    · refine Or.inr ⟨rest.take ilen, rest.drop ilen, ?_⟩
      simp only [renegotiation_info, List.cons_append, List.take_append_drop]
      rw [List.length_take, Nat.min_eq_left (by omega)]

theorem client_finished_length (s : SSL_CONNECTION)
    (hbuf : s.s3.previous_client_finished_len ≤ s.s3.previous_client_finished.length) :
    (client_finished s).length = s.s3.previous_client_finished_len := by
  simp only [client_finished, List.length_take]
  omega
theorem PACKET_as_length_prefixed_2_trailing (body extra : List Nat) (hb : body.length < 65536)
    (he : extra ≠ []) :
    PACKET_as_length_prefixed_2 (put_value body.length 2 ++ (body ++ extra)) = none := by
  unfold PACKET_as_length_prefixed_2
  rw [PACKET_get_net_2_put_value _ _ hb]
  have : 0 < extra.length := List.length_pos.mpr he
  simp only [List.length_append]
  rw [if_neg (by omega)]

theorem server_name_entry_length (t : Nat) (name : List Nat) :
    (server_name_entry t name).length = 3 + name.length := by
  simp [server_name_entry, put_value_two]; omega

/-- The parser on a list that starts with one entry. -/
theorem tls_parse_ctos_server_name_entry (s : SSL_CONNECTION) (t : Nat) (name extra : List Nat)
    (hlen : (server_name_entry t name ++ extra).length < 65536) :
    tls_parse_ctos_server_name s (server_name_list (server_name_entry t name ++ extra))
      = if t ≠ TLSEXT_NAMETYPE_host_name ∨ extra ≠ [] then
          (0, SSLfatal s Alert.SSL_AD_DECODE_ERROR Reason.SSL_R_BAD_EXTENSION)
        else if s.hit = false ∨ SSL_CONNECTION_IS_TLS13 s = true then
          if name.length > TLSEXT_MAXLEN_host_name ∨ 0 ∈ name then
            (0, SSLfatal s Alert.SSL_AD_UNRECOGNIZED_NAME Reason.SSL_R_BAD_EXTENSION)
          else
            (1, { s with ext := { s.ext with hostname := some name }, servername_done := 1 })
        else
          (1, { s with servername_done := if session_hostname_equal s name = true then 1 else 0 }) := by
  have hl := server_name_entry_length t name
  rw [List.length_append, hl] at hlen
  unfold tls_parse_ctos_server_name server_name_list
  rw [PACKET_as_length_prefixed_2_put_value _ (by rw [List.length_append, hl]; omega)]
  simp only []
  rw [if_neg (by simp [PACKET_remaining, server_name_entry])]
  simp only [server_name_entry, List.cons_append, PACKET_get_1]
  by_cases ht : t = TLSEXT_NAMETYPE_host_name
  · rw [if_neg (by simpa using ht)]
    by_cases he : extra = []
    · subst he
      rw [List.append_nil, PACKET_as_length_prefixed_2_put_value _ (by omega)]
      rw [if_neg (by simp [ht])]
      simp only []
      by_cases hn : s.hit = false ∨ SSL_CONNECTION_IS_TLS13 s = true
      · rw [if_pos hn, if_pos hn]
        by_cases h255 : name.length > TLSEXT_MAXLEN_host_name
        · rw [if_pos (by simpa [PACKET_remaining] using h255), if_pos (Or.inl h255)]
        · rw [if_neg (by simpa [PACKET_remaining] using h255)]
          by_cases h0 : 0 ∈ name
          · rw [if_pos (by simpa [PACKET_contains_zero_byte] using h0), if_pos (Or.inr h0)]
          · rw [if_neg (by simpa [PACKET_contains_zero_byte] using h0), if_neg (by simp [h255, h0])]
            have : PACKET_strndup name = name := by
              unfold PACKET_strndup
              rw [List.takeWhile_eq_self_iff]
              intro b hb
              simp only [bne_iff_ne, ne_eq]
              rintro rfl
              exact h0 hb
            rw [this]
      · rw [if_neg hn, if_neg hn]
        unfold session_hostname_equal
        cases s.session.ext.hostname <;> simp
    · rw [if_pos (Or.inr he)]
      rw [List.append_assoc, PACKET_as_length_prefixed_2_trailing _ _ (by omega) he]
  · rw [if_pos (by simpa using ht), if_pos (Or.inl ht)]
theorem tls_parse_ctos_server_name_trailing (s : SSL_CONNECTION) (list extra : List Nat)
    (hlen : list.length < 65536) (he : extra ≠ []) :
    tls_parse_ctos_server_name s (server_name_list list ++ extra)
      = (0, SSLfatal s Alert.SSL_AD_DECODE_ERROR Reason.SSL_R_BAD_EXTENSION) := by
  unfold tls_parse_ctos_server_name server_name_list
  rw [List.append_assoc, PACKET_as_length_prefixed_2_trailing _ _ hlen he]

theorem tls_parse_ctos_server_name_shape (s : SSL_CONNECTION) (body : List Nat)
    (hb : ∀ b ∈ body, b < 256) (h : (tls_parse_ctos_server_name s body).1 = 1) :
    ∃ name, body = server_name_extension name ∧ name.length + 3 < 65536 := by
  unfold tls_parse_ctos_server_name at h
  cases h1 : PACKET_as_length_prefixed_2 body with
  | none => rw [h1] at h; simp at h
  | some sni =>
    rw [h1] at h
    obtain ⟨e1, l1⟩ := PACKET_as_length_prefixed_2_inv body sni h1 hb
    have hb1 : ∀ b ∈ sni, b < 256 := fun b hm => hb b (by rw [e1]; simp [hm])
    simp only [] at h
    cases sni with
    | nil => simp [PACKET_remaining] at h
    | cons t sni1 =>
      rw [if_neg (by simp [PACKET_remaining])] at h
      simp only [PACKET_get_1] at h
      by_cases ht : t = TLSEXT_NAMETYPE_host_name
      · rw [if_neg (by simpa using ht)] at h
        cases h2 : PACKET_as_length_prefixed_2 sni1 with
        | none => rw [h2] at h; simp at h
        | some hostname =>
          obtain ⟨e2, _⟩ := PACKET_as_length_prefixed_2_inv sni1 hostname h2
            (fun b hm => hb1 b (by simp [hm]))
          refine ⟨hostname, ?_, ?_⟩
          · rw [e1, e2, ht]
            rfl
          · have : (t :: sni1).length = 3 + hostname.length := by
              rw [e2]; simp [put_value_two]; omega
            omega
      · rw [if_pos (by simpa using ht)] at h
        simp at h

theorem session_hostname_equal_iff (s : SSL_CONNECTION) (name : List Nat)
    (hcstr : ∀ h, s.session.ext.hostname = some h → 0 ∉ h) :
    session_hostname_equal s name = true ↔ s.session.ext.hostname = some name := by
  unfold session_hostname_equal
  cases hh : s.session.ext.hostname with
  | none => simp
  | some h =>
    have h0 := hcstr h hh
    have hs : strlen h = h.length := by
      unfold strlen
      congr 1
      rw [List.takeWhile_eq_self_iff]
      intro b hb
      simp only [bne_iff_ne, ne_eq]
      rintro rfl
      exact h0 hb
    simp only [PACKET_equal, PACKET_remaining, hs, List.take_length, Bool.and_eq_true,
      decide_eq_true_eq, beq_iff_eq, Option.some.injEq]
    constructor
    · rintro ⟨_, h2⟩
      exact h2.symm
    · rintro rfl
      exact ⟨rfl, rfl⟩
theorem PACKET_get_length_prefixed_1_entry (name rest : List Nat) :
    PACKET_get_length_prefixed_1 (name.length :: (name ++ rest)) = some (name, rest) := by
  simp [PACKET_get_length_prefixed_1, PACKET_get_1]

theorem PACKET_get_length_prefixed_1_inv (l body rest : List Nat)
    (h : PACKET_get_length_prefixed_1 l = some (body, rest)) :
    l = body.length :: (body ++ rest) := by
  cases l with
  | nil => simp [PACKET_get_length_prefixed_1, PACKET_get_1] at h
  | cons len tl =>
    simp only [PACKET_get_length_prefixed_1, PACKET_get_1] at h
    by_cases hlt : tl.length < len
    · rw [if_pos hlt] at h; simp at h
    · rw [if_neg hlt] at h
      simp only [Option.some.injEq, Prod.mk.injEq] at h
      obtain ⟨h1, h2⟩ := h
      rw [← h1, ← h2, List.take_append_drop, List.length_take, Nat.min_eq_left (by omega)]

theorem alpn_protocol_list_length_pos (names : List (List Nat)) (hne : names ≠ []) :
    0 < (alpn_protocol_list names).length := by
  cases names with
  | nil => exact absurd rfl hne
  | cons n ns => simp [alpn_protocol_list]

/-- The loop accepts the encoding of a non-empty list of non-empty names. -/
theorem alpn_loop_encoded (names : List (List Nat)) :
    ∀ fuel, names ≠ [] → (∀ n ∈ names, n ≠ []) →
      (alpn_protocol_list names).length < fuel →
      alpn_loop fuel (alpn_protocol_list names) = some true := by
  induction names with
  | nil => intro _ h; exact absurd rfl h
  | cons n ns ih =>
    intro fuel _ hall hfuel
    cases fuel with
    | zero => omega
    | succ fuel =>
      have hn : n ≠ [] := hall n (by simp)
      simp only [alpn_protocol_list, List.cons_append] at hfuel ⊢
      simp only [alpn_loop, PACKET_get_length_prefixed_1_entry]
      rw [if_neg (by simpa [PACKET_remaining] using hn)]
      by_cases hns : ns = []
      · subst hns
        simp [alpn_protocol_list, PACKET_remaining]
      · have hpos := alpn_protocol_list_length_pos ns hns
        rw [if_pos (by simp only [PACKET_remaining]; omega)]
        apply ih fuel hns (fun m hm => hall m (by simp [hm]))
        simp only [List.length_cons, List.length_append] at hfuel
        omega

/-- What the loop accepts is the encoding of a non-empty list of non-empty names. -/
theorem alpn_loop_inv : ∀ fuel list, alpn_loop fuel list = some true →
    ∃ names, names ≠ [] ∧ (∀ n ∈ names, n ≠ []) ∧ list = alpn_protocol_list names := by
  intro fuel
  induction fuel with
  | zero => intro list h; simp [alpn_loop] at h
  | succ fuel ih =>
    intro list h
    simp only [alpn_loop] at h
    cases hg : PACKET_get_length_prefixed_1 list with
    | none => rw [hg] at h; simp at h
    | some p =>
      obtain ⟨protocol, rest⟩ := p
      rw [hg] at h
      simp only [] at h
      have hl := PACKET_get_length_prefixed_1_inv list protocol rest hg
      by_cases hp : PACKET_remaining protocol = 0
      · rw [if_pos hp] at h; simp at h
      · rw [if_neg hp] at h
        have hpne : protocol ≠ [] := by
          intro hc; apply hp; rw [hc]; rfl
        by_cases hr : PACKET_remaining rest ≠ 0
        · rw [if_pos hr] at h
          obtain ⟨names, h1, h2, h3⟩ := ih rest h
          refine ⟨protocol :: names, by simp, ?_, ?_⟩
          · intro n hn
            rcases List.mem_cons.mp hn with rfl | hm
            · exact hpne
            · exact h2 n hm
          · rw [hl, h3]; simp [alpn_protocol_list]
        · have hr0 : rest = [] := by
            have : rest.length = 0 := by simpa [PACKET_remaining] using hr
            exact List.length_eq_zero.mp this
          refine ⟨[protocol], by simp, ?_, ?_⟩
          · intro n hn
            rw [List.mem_singleton.mp hn]
            exact hpne
          · rw [hl, hr0]; simp [alpn_protocol_list]

/-- The loop ends within its fuel. -/
theorem alpn_loop_total : ∀ fuel list, list.length < fuel → alpn_loop fuel list ≠ none := by
  intro fuel
  induction fuel with
  | zero => intro list h; omega
  | succ fuel ih =>
    intro list hlt
    simp only [alpn_loop]
    cases hg : PACKET_get_length_prefixed_1 list with
    | none => simp
    | some p =>
      obtain ⟨protocol, rest⟩ := p
      simp only []
      have hl := PACKET_get_length_prefixed_1_inv list protocol rest hg
      by_cases hp : PACKET_remaining protocol = 0
      · rw [if_pos hp]; simp
      · rw [if_neg hp]
        by_cases hr : PACKET_remaining rest ≠ 0
        · rw [if_pos hr]
          apply ih
          rw [hl] at hlt
          simp only [List.length_cons, List.length_append] at hlt
          omega
        · rw [if_neg hr]; simp

theorem alpn_protocol_list_length_ge (names : List (List Nat)) (hne : names ≠ [])
    (hall : ∀ n ∈ names, n ≠ []) : 2 ≤ (alpn_protocol_list names).length := by
  cases names with
  | nil => exact absurd rfl hne
  | cons n ns =>
    have hn : 0 < n.length := List.length_pos.mpr (hall n (by simp))
    simp only [alpn_protocol_list, List.cons_append, List.length_cons, List.length_append]
    omega

theorem tls_parse_ctos_alpn_encoded (s : SSL_CONNECTION) (names : List (List Nat))
    (hfirst : SSL_IS_FIRST_HANDSHAKE s = true)
    (hne : names ≠ []) (hall : ∀ n ∈ names, n ≠ [])
    (hlen : (alpn_protocol_list names).length < 65536) :
    tls_parse_ctos_alpn s (alpn_extension (alpn_protocol_list names))
      = some (1, { s with s3 := { s.s3 with alpn_proposed := some (alpn_protocol_list names) } }) := by
  have h2 := alpn_protocol_list_length_ge names hne hall
  unfold tls_parse_ctos_alpn alpn_extension
  rw [if_neg (by simp [hfirst]), PACKET_as_length_prefixed_2_put_value _ hlen]
  simp only []
  rw [if_neg (by simp only [PACKET_remaining]; omega),
    alpn_loop_encoded names _ hne hall (by simp [PACKET_remaining])]
  simp only [PACKET_memdup, PACKET_remaining]
  rw [if_neg (by omega)]

theorem tls_parse_ctos_alpn_malformed (s : SSL_CONNECTION) (body : List Nat)
    (hb : ∀ b ∈ body, b < 256) (hfirst : SSL_IS_FIRST_HANDSHAKE s = true)
    (hwf : ¬ alpn_well_formed body) :
    tls_parse_ctos_alpn s body
      = some (0, SSLfatal s Alert.SSL_AD_DECODE_ERROR Reason.SSL_R_BAD_EXTENSION) := by
  unfold tls_parse_ctos_alpn
  rw [if_neg (by simp [hfirst])]
  cases h1 : PACKET_as_length_prefixed_2 body with
  | none => rfl
  | some list =>
    obtain ⟨e1, l1⟩ := PACKET_as_length_prefixed_2_inv body list h1 hb
    simp only []
    by_cases h2 : PACKET_remaining list < 2
    · rw [if_pos h2]
    · rw [if_neg h2]
      cases hl : alpn_loop (PACKET_remaining list + 1) list with
      | none => exact absurd hl (alpn_loop_total _ _ (by simp [PACKET_remaining]))
      | some b =>
        cases b with
        | false => rfl
        | true =>
          obtain ⟨names, n1, n2, n3⟩ := alpn_loop_inv _ _ hl
          exact absurd ⟨names, n1, n2, by rw [← n3]; exact l1, by rw [← n3]; exact e1⟩ hwf
theorem IS_MAX_FRAGMENT_LENGTH_EXT_VALID_iff (value : Nat) :
    IS_MAX_FRAGMENT_LENGTH_EXT_VALID value = true ↔ 1 ≤ value ∧ value ≤ 4 := by
  simp [IS_MAX_FRAGMENT_LENGTH_EXT_VALID, TLSEXT_max_fragment_length_512,
    TLSEXT_max_fragment_length_4096]

theorem tls_parse_ctos_maxfragmentlen_one (s : SSL_CONNECTION) (code : Nat) :
    tls_parse_ctos_maxfragmentlen s [code]
      = if 1 ≤ code ∧ code ≤ 4 then
          (1, if s.session.ext.max_fragment_len_mode = TLSEXT_max_fragment_length_UNSPECIFIED
              then { s with session := { s.session with
                       ext := { s.session.ext with max_fragment_len_mode := code } } }
              else s)
        else
          (0, SSLfatal s Alert.SSL_AD_ILLEGAL_PARAMETER
                Reason.SSL_R_SSL3_EXT_INVALID_MAX_FRAGMENT_LENGTH) := by
  simp only [tls_parse_ctos_maxfragmentlen, PACKET_remaining, PACKET_get_1, List.length_singleton]
  rw [if_neg (by simp)]
  by_cases hv : 1 ≤ code ∧ code ≤ 4
  · rw [if_pos hv, if_neg (by simp [(IS_MAX_FRAGMENT_LENGTH_EXT_VALID_iff code).mpr hv])]
    split <;> rfl
  · rw [if_neg hv, if_pos]
    cases hc : IS_MAX_FRAGMENT_LENGTH_EXT_VALID code with
    | false => rfl
    | true => exact absurd ((IS_MAX_FRAGMENT_LENGTH_EXT_VALID_iff code).mp hc) hv

theorem tls_parse_ctos_maxfragmentlen_length (s : SSL_CONNECTION) (body : List Nat)
    (h : body.length ≠ 1) :
    tls_parse_ctos_maxfragmentlen s body
      = (0, SSLfatal s Alert.SSL_AD_DECODE_ERROR Reason.SSL_R_BAD_EXTENSION) := by
  simp only [tls_parse_ctos_maxfragmentlen, PACKET_remaining]
  rw [if_pos h]

theorem tls_construct_stoc_maxfragmentlen_sent (s : SSL_CONNECTION) (sub : WPACKET_SUB)
    (ps : List WPACKET_SUB) (M : Nat)
    (hmode : 1 ≤ s.session.ext.max_fragment_len_mode ∧ s.session.ext.max_fragment_len_mode ≤ 4)
    (hroom : WPACKET.written ⟨sub :: ps, M⟩ + 5 ≤ M) :
    tls_construct_stoc_maxfragmentlen s ⟨sub :: ps, M⟩
      = (EXT_RETURN.EXT_RETURN_SENT, s,
          ⟨{ sub with body := sub.body
                ++ maxfragmentlen_extension s.session.ext.max_fragment_len_mode } :: ps, M⟩) := by
  have hw := WPACKET_written_cons sub ps M
  unfold tls_construct_stoc_maxfragmentlen USE_MAX_FRAGMENT_LENGTH_EXT
  rw [if_neg (by simp [(IS_MAX_FRAGMENT_LENGTH_EXT_VALID_iff _).mpr hmode])]
  unfold maxfragmentlen_write WPACKET_put_bytes_u16 WPACKET_start_sub_packet_u16
    WPACKET_put_bytes_u8
  rw [WPACKET_put_bytes_some sub ps M _ 2 (by decide) (by decide) (by omega)]
  simp only []
  rw [WPACKET_start_sub_packet_len_some _ ps M 2
    (by rw [WPACKET_written_cons]; simp only [List.length_append, put_value_length]; omega)]
  simp only []
  rw [WPACKET_put_bytes_some _ _ M _ 1 (by decide) (by omega)
    (by rw [WPACKET_written_cons, WPACKET_written_cons]
        simp only [List.length_append, put_value_length, List.length_nil]; omega)]
  simp only []
  rw [WPACKET_close_some _ _ ps M (by simp [put_value_length])]
  have hm : s.session.ext.max_fragment_len_mode % 256 = s.session.ext.max_fragment_len_mode :=
    Nat.mod_eq_of_lt (by omega)
  simp [maxfragmentlen_extension, put_value, hm]

theorem tls_construct_stoc_maxfragmentlen_inv (s s1 : SSL_CONNECTION) (pkt pkt1 : WPACKET)
    (h : tls_construct_stoc_maxfragmentlen s pkt = (EXT_RETURN.EXT_RETURN_SENT, s1, pkt1)) :
    (1 ≤ s.session.ext.max_fragment_len_mode ∧ s.session.ext.max_fragment_len_mode ≤ 4)
      ∧ s1 = s
      ∧ ∃ sub ps, pkt.subs = sub :: ps
          ∧ pkt1 = ⟨{ sub with body := sub.body
                ++ maxfragmentlen_extension s.session.ext.max_fragment_len_mode } :: ps,
              pkt.maxsize⟩ := by
  unfold tls_construct_stoc_maxfragmentlen USE_MAX_FRAGMENT_LENGTH_EXT at h
  cases hv : IS_MAX_FRAGMENT_LENGTH_EXT_VALID s.session.ext.max_fragment_len_mode with
  | false => rw [hv] at h; simp at h
  | true =>
    rw [hv] at h
    rw [if_neg (by simp)] at h
    have hmode := (IS_MAX_FRAGMENT_LENGTH_EXT_VALID_iff _).mp hv
    cases hw : maxfragmentlen_write s pkt with
    | none => rw [hw] at h; simp at h
    | some p =>
      rw [hw] at h
      simp only [Prod.mk.injEq, true_and] at h
      obtain ⟨hs, hp⟩ := h
      refine ⟨hmode, hs.symm, ?_⟩
      obtain ⟨subs, M⟩ := pkt
      cases subs with
      | nil =>
        simp [maxfragmentlen_write, WPACKET_put_bytes_u16, WPACKET_put_bytes,
          WPACKET_allocate_bytes, WPACKET_reserve_bytes] at hw
      | cons sub ps =>
        refine ⟨sub, ps, rfl, ?_⟩
        unfold maxfragmentlen_write WPACKET_put_bytes_u16 WPACKET_start_sub_packet_u16
          WPACKET_put_bytes_u8 at hw
        cases h1 : WPACKET_put_bytes ⟨sub :: ps, M⟩ TLSEXT_TYPE_max_fragment_length 2 with
        | none => rw [h1] at hw; simp at hw
        | some p1 =>
          rw [h1] at hw
          obtain ⟨e1, _⟩ := WPACKET_put_bytes_eq _ _ _ _ _ _ h1
          subst e1
          simp only [] at hw
          cases h2 : WPACKET_start_sub_packet_len
              ⟨{ sub with body := sub.body ++ put_value TLSEXT_TYPE_max_fragment_length 2 } :: ps, M⟩ 2 with
          | none => rw [h2] at hw; simp at hw
          | some p2 =>
            rw [h2] at hw
            have e2 := WPACKET_start_sub_packet_len_eq _ _ _ _ h2
            subst e2
            simp only [] at hw
            cases h3 : WPACKET_put_bytes
                ⟨⟨2, []⟩ :: { sub with body := sub.body ++ put_value TLSEXT_TYPE_max_fragment_length 2 } :: ps, M⟩
                s.session.ext.max_fragment_len_mode 1 with
            | none => rw [h3] at hw; simp at hw
            | some p3 =>
              rw [h3] at hw
              obtain ⟨e3, _⟩ := WPACKET_put_bytes_eq _ _ _ _ _ _ h3
              subst e3
              simp only [] at hw
              obtain ⟨e4, _⟩ := WPACKET_close_eq _ _ _ _ _ hw
              rw [← hp, e4]
              have hm : s.session.ext.max_fragment_len_mode % 256
                  = s.session.ext.max_fragment_len_mode := Nat.mod_eq_of_lt (by omega)
              simp [maxfragmentlen_extension, put_value, hm]
/-- The parser on a MAC-valid cookie, up to the point where the format version
has been read. -/
theorem tls_parse_ctos_cookie_mac_valid (env : Env) (s : SSL_CONNECTION)
    (verify_cb : List Nat → Bool) (format : Nat) (rest : List Nat)
    (hcb : env.verify_stateless_cookie_cb = some verify_cb)
    (hst : s.s3.flags &&& TLS1_FLAGS_STATELESS ≠ 0)
    (hfmt : format < 65536)
    (hlen : (put_value format 2 ++ rest).length < 65536)
    (hmac : cookie_mac_valid env s (put_value format 2 ++ rest))
    (hne : format ≠ COOKIE_STATE_FORMAT_VERSION) :
    tls_parse_ctos_cookie env s (cookie_extension (put_value format 2 ++ rest)) = (1, s) := by
  obtain ⟨h32, hm⟩ := hmac
  rw [show SHA256_DIGEST_LENGTH = 32 from rfl] at h32 hm
  generalize hc : put_value format 2 ++ rest = cookie at *
  unfold tls_parse_ctos_cookie cookie_extension
  rw [hcb]
  simp only []
  rw [if_neg hst, PACKET_as_length_prefixed_2_put_value _ hlen]
  simp only [PACKET_remaining, SHA256_DIGEST_LENGTH]
  rw [if_neg (by omega)]
  have hf : PACKET_forward cookie (cookie.length - 32) = some (cookie.drop (cookie.length - 32)) := by
    unfold PACKET_forward
    rw [if_neg (by omega)]
  rw [hf]
  simp only []
  rw [hm]
  simp only []
  rw [if_neg (by simp; omega)]
  have ht : (cookie.drop (cookie.length - 32)).take 32 = cookie.drop (cookie.length - 32) := by
    apply List.take_of_length_le
    simp; omega
  rw [ht, if_neg (by simp)]
  rw [← hc, PACKET_get_net_2_put_value _ _ hfmt]
  simp only []
  rw [if_pos hne]
theorem supported_versions_write_eq (s : SSL_CONNECTION) (sub : WPACKET_SUB)
    (ps : List WPACKET_SUB) (M : Nat) (p : WPACKET)
    (h : supported_versions_write s ⟨sub :: ps, M⟩ = some p) :
    p = ⟨{ sub with body := sub.body ++ (put_value TLSEXT_TYPE_supported_versions 2
            ++ (put_value 2 2 ++ put_value s.version 2)) } :: ps, M⟩
      ∧ s.version < 65536 := by
  unfold supported_versions_write WPACKET_put_bytes_u16 WPACKET_start_sub_packet_u16 at h
  cases h1 : WPACKET_put_bytes ⟨sub :: ps, M⟩ TLSEXT_TYPE_supported_versions 2 with
  | none => rw [h1] at h; simp at h
  | some p1 =>
    rw [h1] at h
    obtain ⟨e1, _⟩ := WPACKET_put_bytes_eq _ _ _ _ _ _ h1
    subst e1
    simp only [] at h
    cases h2 : WPACKET_start_sub_packet_len
        ⟨{ sub with body := sub.body ++ put_value TLSEXT_TYPE_supported_versions 2 } :: ps, M⟩ 2 with
    | none => rw [h2] at h; simp at h
    | some p2 =>
      rw [h2] at h
      have e2 := WPACKET_start_sub_packet_len_eq _ _ _ _ h2
      subst e2
      simp only [] at h
      cases h3 : WPACKET_put_bytes
          ⟨⟨2, []⟩ :: { sub with body := sub.body ++ put_value TLSEXT_TYPE_supported_versions 2 } :: ps, M⟩
          s.version 2 with
      | none => rw [h3] at h; simp at h
      | some p3 =>
        rw [h3] at h
        obtain ⟨e3, hv⟩ := WPACKET_put_bytes_eq _ _ _ _ _ _ h3
        subst e3
        simp only [] at h
        obtain ⟨e4, _⟩ := WPACKET_close_eq _ _ _ _ _ h
        refine ⟨?_, by simpa using hv⟩
        rw [e4]
        simp [put_value_length]

theorem key_share_hrr_write_eq (s : SSL_CONNECTION) (sub : WPACKET_SUB)
    (ps : List WPACKET_SUB) (M : Nat) (p : WPACKET)
    (h : key_share_hrr_write s ⟨sub :: ps, M⟩ = some p) :
    p = ⟨{ sub with body := sub.body ++ (put_value TLSEXT_TYPE_key_share 2
            ++ (put_value 2 2 ++ put_value s.s3.group_id 2)) } :: ps, M⟩ := by
  unfold key_share_hrr_write WPACKET_put_bytes_u16 WPACKET_start_sub_packet_u16 at h
  cases h1 : WPACKET_put_bytes ⟨sub :: ps, M⟩ TLSEXT_TYPE_key_share 2 with
  | none => rw [h1] at h; simp at h
  | some p1 =>
    rw [h1] at h
    obtain ⟨e1, _⟩ := WPACKET_put_bytes_eq _ _ _ _ _ _ h1
    subst e1
    simp only [] at h
    cases h2 : WPACKET_start_sub_packet_len
        ⟨{ sub with body := sub.body ++ put_value TLSEXT_TYPE_key_share 2 } :: ps, M⟩ 2 with
    | none => rw [h2] at h; simp at h
    | some p2 =>
      rw [h2] at h
      have e2 := WPACKET_start_sub_packet_len_eq _ _ _ _ h2
      subst e2
      simp only [] at h
      cases h3 : WPACKET_put_bytes
          ⟨⟨2, []⟩ :: { sub with body := sub.body ++ put_value TLSEXT_TYPE_key_share 2 } :: ps, M⟩
          s.s3.group_id 2 with
      | none => rw [h3] at h; simp at h
      | some p3 =>
        rw [h3] at h
        obtain ⟨e3, _⟩ := WPACKET_put_bytes_eq _ _ _ _ _ _ h3
        subst e3
        simp only [] at h
        obtain ⟨e4, _⟩ := WPACKET_close_eq _ _ _ _ _ h
        rw [e4]
        simp [put_value_length]

theorem tls_construct_stoc_supported_versions_sent (s s1 : SSL_CONNECTION) (pkt pkt1 : WPACKET)
    (h : tls_construct_stoc_supported_versions s pkt = (EXT_RETURN.EXT_RETURN_SENT, s1, pkt1)) :
    s1 = s ∧ s.version < 65536 ∧ SSL_CONNECTION_IS_TLS13 s = true
      ∧ ∃ sub ps, pkt.subs = sub :: ps
        ∧ pkt1 = ⟨{ sub with body := sub.body ++ (put_value TLSEXT_TYPE_supported_versions 2
              ++ (put_value 2 2 ++ put_value s.version 2)) } :: ps, pkt.maxsize⟩ := by
  unfold tls_construct_stoc_supported_versions at h
  cases h13 : SSL_CONNECTION_IS_TLS13 s with
  | false => rw [h13] at h; simp at h
  | true =>
    rw [h13] at h
    rw [if_neg (by simp)] at h
    cases hw : supported_versions_write s pkt with
    | none => rw [hw] at h; simp at h
    | some p =>
      rw [hw] at h
      simp only [Prod.mk.injEq, true_and] at h
      obtain ⟨hs, hp⟩ := h
      obtain ⟨subs, M⟩ := pkt
      cases subs with
      | nil =>
        simp [supported_versions_write, WPACKET_put_bytes_u16, WPACKET_put_bytes,
          WPACKET_allocate_bytes, WPACKET_reserve_bytes] at hw
      | cons sub ps =>
        obtain ⟨e, hv⟩ := supported_versions_write_eq s sub ps M p hw
        exact ⟨hs.symm, hv, rfl, sub, ps, rfl, by rw [← hp, e]⟩

/-- What tls_construct_stoc_key_share does while a HelloRetryRequest is
pending: nothing when the client's share was acceptable, otherwise it writes
the extension that names the group. -/
theorem tls_construct_stoc_key_share_hrr (kex : KexEnv) (s s1 : SSL_CONNECTION)
    (sub : WPACKET_SUB) (ps : List WPACKET_SUB) (M : Nat) (pkt1 : WPACKET) (r : EXT_RETURN)
    (hhrr : s.hello_retry_request = HRR_STATE.SSL_HRR_PENDING)
    (h : tls_construct_stoc_key_share kex s ⟨sub :: ps, M⟩ = (r, s1, pkt1))
    (hr : r ≠ EXT_RETURN.EXT_RETURN_FAIL) :
    s1 = s
      ∧ ((s.s3.peer_tmp ≠ none ∧ r = EXT_RETURN.EXT_RETURN_NOT_SENT ∧ pkt1 = ⟨sub :: ps, M⟩)
        ∨ (s.s3.peer_tmp = none ∧ r = EXT_RETURN.EXT_RETURN_SENT
            ∧ pkt1 = ⟨{ sub with body := sub.body ++ (put_value TLSEXT_TYPE_key_share 2
                ++ (put_value 2 2 ++ put_value s.s3.group_id 2)) } :: ps, M⟩)) := by
  unfold tls_construct_stoc_key_share at h
  rw [if_pos hhrr] at h
  cases hp : s.s3.peer_tmp with
  | some ckey =>
    rw [hp] at h
    simp only [Prod.mk.injEq] at h
    obtain ⟨h1, h2, h3⟩ := h
    exact ⟨h2.symm, Or.inl ⟨by simp, h1.symm, h3.symm⟩⟩
  | none =>
    rw [hp] at h
    simp only [] at h
    cases hw : key_share_hrr_write s ⟨sub :: ps, M⟩ with
    | none =>
      rw [hw] at h
      simp only [Prod.mk.injEq] at h
      exact absurd h.1.symm hr
    | some p =>
      rw [hw] at h
      simp only [Prod.mk.injEq] at h
      obtain ⟨h1, h2, h3⟩ := h
      have e := key_share_hrr_write_eq s sub ps M p hw
      exact ⟨h2.symm, Or.inr ⟨rfl, h1.symm, by rw [← h3, e]⟩⟩

/-! ## Lemmas on the small extensions -/

theorem put_value_one (v : Nat) : put_value v 1 = [v % 256] := by
  simp [put_value]

theorem srtp_profile_ids_cons (id : Nat) (ids : List Nat) :
    srtp_profile_ids (id :: ids) = id / 256 % 256 :: id % 256 :: srtp_profile_ids ids := by
  simp [srtp_profile_ids, put_value_two]

theorem srtp_profile_ids_length (ids : List Nat) : (srtp_profile_ids ids).length = 2 * ids.length := by
  induction ids with
  | nil => rfl
  | cons id ids ih => rw [srtp_profile_ids_cons]; simp only [List.length_cons, ih]; omega

/-- What the inner loop finds: nothing when no profile among the first
srtp_pref - i has the id, otherwise the first such profile. -/
theorem srtp_match_none (id : Nat) (l : List SRTP_PROTECTION_PROFILE) (i srtp_pref : Nat)
    (h : srtp_match id l i srtp_pref = none) :
    ∀ x ∈ l.take (srtp_pref - i), x.id ≠ id := by
  induction l generalizing i with
  | nil => simp
  | cons sprof rest ih =>
    unfold srtp_match at h
    by_cases hi : i < srtp_pref
    · rw [if_pos hi] at h
      by_cases hid : sprof.id = id
      · rw [if_pos hid] at h; simp at h
      · rw [if_neg hid] at h
        have e : srtp_pref - i = (srtp_pref - (i + 1)) + 1 := by omega
        rw [e, List.take_succ_cons]
        intro x hx
        rcases List.mem_cons.mp hx with hx | hx
        · rw [hx]; exact hid
        · exact ih (i + 1) h x hx
    · have e : srtp_pref - i = 0 := by omega
      rw [e]; simp

theorem srtp_match_some (id : Nat) (l : List SRTP_PROTECTION_PROFILE) (i srtp_pref : Nat)
    (sprof : SRTP_PROTECTION_PROFILE) (j : Nat)
    (h : srtp_match id l i srtp_pref = some (sprof, j)) :
    ∃ pre post, l.take (srtp_pref - i) = pre ++ sprof :: post ∧ (∀ x ∈ pre, x.id ≠ id)
      ∧ sprof.id = id ∧ j = i + pre.length ∧ l.take (j - i) = pre := by
  induction l generalizing i with
  | nil => simp [srtp_match] at h
  | cons hd rest ih =>
    unfold srtp_match at h
    by_cases hi : i < srtp_pref
    · rw [if_pos hi] at h
      have e : srtp_pref - i = (srtp_pref - (i + 1)) + 1 := by omega
      by_cases hid : hd.id = id
      · rw [if_pos hid] at h
        simp only [Option.some.injEq, Prod.mk.injEq] at h
        obtain ⟨h1, h2⟩ := h
        subst h1 h2
        exact ⟨[], rest.take (srtp_pref - (i + 1)), by rw [e, List.take_succ_cons]; rfl,
          by simp, hid, by simp, by simp⟩
      · rw [if_neg hid] at h
        obtain ⟨pre, post, h1, h2, h3, h4, h5⟩ := ih (i + 1) h
        refine ⟨hd :: pre, post, ?_, ?_, h3, ?_, ?_⟩
        · rw [e, List.take_succ_cons, h1]; rfl
        · intro x hx
          rcases List.mem_cons.mp hx with hx | hx
          · rw [hx]; exact hid
          · exact h2 x hx
        · simp only [List.length_cons]; omega
        · have e2 : j - i = (j - (i + 1)) + 1 := by omega
          rw [e2, List.take_succ_cons, h5]
    · rw [if_neg hi] at h; simp at h

theorem find_congr_mem {α : Type} (l : List α) (p q : α → Bool) (h : ∀ x ∈ l, p x = q x) :
    l.find? p = l.find? q := by
  induction l with
  | nil => rfl
  | cons a l ih =>
    simp only [List.find?_cons, h a (by simp)]
    rw [ih (fun x hx => h x (List.mem_cons_of_mem _ hx))]

/-- The profile loop over a well-formed id list: the chosen profile is the
first of the server profiles of index below srtp_pref whose id is on the
list, and the one chosen before when there is none. -/
theorem srtp_loop_ids (srvr : List SRTP_PROTECTION_PROFILE) (ids : List Nat)
    (hids : ∀ id ∈ ids, id < 65536) (s : SSL_CONNECTION) (srtp_pref : Nat) :
    srtp_loop srvr (srtp_profile_ids ids) s srtp_pref
      = (1, { s with srtp_profile :=
                ((srvr.take srtp_pref).find? (fun p => decide (p.id ∈ ids))).or s.srtp_profile }) := by
  induction ids generalizing s srtp_pref with
  | nil =>
    have hf : (srvr.take srtp_pref).find? (fun p => decide (p.id ∈ ([] : List Nat))) = none := by
      rw [List.find?_eq_none]; simp
    rw [hf]
    simp [srtp_profile_ids, srtp_loop]
  | cons id ids ih =>
    have hid : id < 65536 := hids id (by simp)
    have hrest : ∀ x ∈ ids, x < 65536 := fun x hx => hids x (List.mem_cons_of_mem _ hx)
    rw [srtp_profile_ids_cons]
    unfold srtp_loop
    have e : id / 256 % 256 * 256 + id % 256 = id := by omega
    rw [e]
    cases hm : srtp_match id srvr 0 srtp_pref with
    | none =>
      simp only []
      rw [ih hrest]
      have hn := srtp_match_none id srvr 0 srtp_pref hm
      rw [Nat.sub_zero] at hn
      rw [find_congr_mem (srvr.take srtp_pref) (fun p => decide (p.id ∈ id :: ids))
        (fun p => decide (p.id ∈ ids))]
      intro x hx
      simp [hn x hx]
    | some r =>
      obtain ⟨sprof, j⟩ := r
      simp only []
      rw [ih hrest]
      obtain ⟨pre, post, h1, h2, h3, h4, h5⟩ := srtp_match_some id srvr 0 srtp_pref sprof j hm
      rw [Nat.sub_zero] at h1 h5
      rw [h5, h1, List.find?_append]
      have hpre : pre.find? (fun p => decide (p.id ∈ id :: ids))
          = pre.find? (fun p => decide (p.id ∈ ids)) := by
        apply find_congr_mem
        intro x hx
        simp [h2 x hx]
      rw [hpre]
      cases hf : pre.find? (fun p => decide (p.id ∈ ids)) with
      | some y => simp
      | none => simp [List.find?_cons, h3]

theorem srtp_loop_fatal (srvr : List SRTP_PROTECTION_PROFILE) :
    ∀ (l : List Nat) (s : SSL_CONNECTION) (srtp_pref : Nat),
      (srtp_loop srvr l s srtp_pref).1 ≠ 1 →
      (srtp_loop srvr l s srtp_pref).1 = 0
        ∧ fatal_alert (srtp_loop srvr l s srtp_pref).2 = some Alert.SSL_AD_DECODE_ERROR
  | [], s, p => by simp [srtp_loop]
  | [_], s, p => by simp [srtp_loop, SSLfatal, fatal_alert]
  | b0 :: b1 :: rest, s, p => by
    unfold srtp_loop
    cases srtp_match (b0 * 256 + b1) srvr 0 p with
    | none => simp only []; exact srtp_loop_fatal srvr rest _ _
    | some r => simp only []; exact srtp_loop_fatal srvr rest _ _

theorem srtp_profile_ids_surj : ∀ (n : Nat) (l : List Nat), l.length = 2 * n →
    (∀ b ∈ l, b < 256) →
    ∃ ids : List Nat, ids.length = n ∧ (∀ id ∈ ids, id < 65536) ∧ l = srtp_profile_ids ids
  | 0, l, hl, _ => by
    have : l = [] := List.length_eq_zero.mp (by omega)
    exact ⟨[], rfl, by simp, by rw [this]; rfl⟩
  | n + 1, [], hl, _ => by simp at hl
  | n + 1, [_], hl, _ => by simp at hl; omega
  | n + 1, b0 :: b1 :: rest, hl, hb => by
    have hl2 : rest.length = 2 * n := by simp only [List.length_cons] at hl; omega
    obtain ⟨ids, h1, h2, h3⟩ := srtp_profile_ids_surj n rest hl2
      (fun b hbm => hb b (List.mem_cons_of_mem _ (List.mem_cons_of_mem _ hbm)))
    have h0 : b0 < 256 := hb b0 (by simp)
    have h1b : b1 < 256 := hb b1 (by simp)
    refine ⟨(b0 * 256 + b1) :: ids, by simp [h1], ?_, ?_⟩
    · intro id hid
      rcases List.mem_cons.mp hid with hid | hid
      · rw [hid]; omega
      · exact h2 id hid
    · rw [srtp_profile_ids_cons, ← h3]
      have e0 : (b0 * 256 + b1) / 256 % 256 = b0 := by omega
      have e1 : (b0 * 256 + b1) % 256 = b1 := by omega
      rw [e0, e1]

/-- The parser on a well-formed use_srtp body. -/
theorem tls_parse_ctos_use_srtp_body (s : SSL_CONNECTION) (srvr : List SRTP_PROTECTION_PROFILE)
    (ids mki : List Nat) (hs : s.srtp_profiles = some srvr) (hids : ∀ id ∈ ids, id < 65536)
    (hlen : 2 * ids.length < 65536) (hmki : mki.length < 256) :
    tls_parse_ctos_use_srtp s (use_srtp_body ids mki)
      = (1, { s with srtp_profile := srvr.find? (fun p => decide (p.id ∈ ids)) }) := by
  unfold tls_parse_ctos_use_srtp use_srtp_body
  rw [hs]
  simp only []
  rw [PACKET_get_net_2_put_value _ _ hlen]
  simp only []
  have hand : 2 * ids.length &&& 1 = 0 := by rw [Nat.and_one_is_mod]; omega
  rw [if_neg (by rw [hand]; simp)]
  have hsub : PACKET_get_sub_packet (srtp_profile_ids ids ++ (put_value mki.length 1 ++ mki))
      (2 * ids.length) = some (srtp_profile_ids ids, put_value mki.length 1 ++ mki) := by
    unfold PACKET_get_sub_packet
    rw [if_neg (by simp [srtp_profile_ids_length])]
    rw [← srtp_profile_ids_length ids, List.take_left, List.drop_left]
  rw [hsub]
  simp only []
  rw [srtp_loop_ids srvr ids hids]
  simp only [List.take_length]
  rw [if_neg (by simp)]
  rw [put_value_one, Nat.mod_eq_of_lt hmki]
  simp [PACKET_get_1, PACKET_forward, PACKET_remaining]

/-- Every body that is not well formed is refused with decode_error. -/
theorem tls_parse_ctos_use_srtp_malformed (s : SSL_CONNECTION)
    (srvr : List SRTP_PROTECTION_PROFILE) (body : List Nat) (hs : s.srtp_profiles = some srvr)
    (hb : ∀ b ∈ body, b < 256) (hwf : ¬ use_srtp_well_formed body) :
    (tls_parse_ctos_use_srtp s body).1 = 0
      ∧ fatal_alert (tls_parse_ctos_use_srtp s body).2 = some Alert.SSL_AD_DECODE_ERROR := by
  unfold tls_parse_ctos_use_srtp
  rw [hs]
  simp only []
  cases h1 : PACKET_get_net_2 body with
  | none => simp [SSLfatal, fatal_alert]
  | some r1 =>
    obtain ⟨ct, pkt1⟩ := r1
    obtain ⟨e1, hct⟩ := PACKET_get_net_2_inv body pkt1 ct h1 hb
    simp only []
    by_cases hodd : ct &&& 1 ≠ 0
    · rw [if_pos hodd]; simp [SSLfatal, fatal_alert]
    · rw [if_neg hodd]
      have heven : ct % 2 = 0 := by
        rw [Nat.and_one_is_mod] at hodd; omega
      unfold PACKET_get_sub_packet
      by_cases hshort : pkt1.length < ct
      · rw [if_pos hshort]; simp [SSLfatal, fatal_alert]
      · rw [if_neg hshort]
        simp only []
        by_cases hloop : (srtp_loop srvr (List.take ct pkt1)
            { s with srtp_profiles := some srvr, srtp_profile := none } srvr.length).1 = 1
        · rw [if_neg (by rw [hloop]; simp)]
          cases h2 : PACKET_get_1 (List.drop ct pkt1) with
          | none => simp [SSLfatal, fatal_alert]
          | some r2 =>
            obtain ⟨mki_len, pkt3⟩ := r2
            simp only []
            unfold PACKET_forward
            by_cases hm : pkt3.length < mki_len
            · rw [if_pos hm]; simp [SSLfatal, fatal_alert]
            · rw [if_neg hm]
              simp only []
              by_cases hrem : PACKET_remaining (List.drop mki_len pkt3) ≠ 0
              · rw [if_pos hrem]; simp [SSLfatal, fatal_alert]
              · exfalso
                apply hwf
                have hb1 : ∀ b ∈ pkt1, b < 256 := fun b hbm =>
                  hb b (by rw [e1]; exact List.mem_append_right _ hbm)
                have htl : (List.take ct pkt1).length = 2 * (ct / 2) := by
                  rw [List.length_take]; omega
                obtain ⟨ids, hi1, hi2, hi3⟩ := srtp_profile_ids_surj (ct / 2) (List.take ct pkt1)
                  htl (fun b hbm => hb1 b (List.mem_of_mem_take hbm))
                have hd : List.drop ct pkt1 = mki_len :: pkt3 := by
                  cases hdd : List.drop ct pkt1 with
                  | nil => rw [hdd] at h2; simp [PACKET_get_1] at h2
                  | cons a t =>
                    rw [hdd] at h2
                    simp only [PACKET_get_1, Option.some.injEq, Prod.mk.injEq] at h2
                    rw [h2.1, h2.2]
                have hmem : mki_len ∈ List.drop ct pkt1 := by rw [hd]; simp
                have hml : mki_len < 256 := hb1 mki_len (List.mem_of_mem_drop hmem)
                have hl3 : pkt3.length = mki_len := by
                  simp only [PACKET_remaining, List.length_drop, ne_eq, Decidable.not_not] at hrem
                  omega
                refine ⟨ids, pkt3, hi2, by omega, by omega, ?_⟩
                unfold use_srtp_body
                rw [e1, hi1, ← hi3, put_value_one, hl3, Nat.mod_eq_of_lt hml]
                have e2 : 2 * (ct / 2) = ct := by omega
                rw [e2]
                congr 1
                rw [List.singleton_append, ← hd, List.take_append_drop]
        · rw [if_pos (by
            have := (srtp_loop_fatal srvr _ _ _ hloop).1
            exact this)]
          exact srtp_loop_fatal srvr _ _ _ hloop

/-- An odd length of the profile list is refused. -/
theorem tls_parse_ctos_use_srtp_odd (s : SSL_CONNECTION) (srvr : List SRTP_PROTECTION_PROFILE)
    (ct : Nat) (rest : List Nat) (hs : s.srtp_profiles = some srvr) (hct : ct < 65536)
    (hodd : ct % 2 = 1) :
    tls_parse_ctos_use_srtp s (put_value ct 2 ++ rest)
      = (0, SSLfatal s Alert.SSL_AD_DECODE_ERROR
              Reason.SSL_R_BAD_SRTP_PROTECTION_PROFILE_LIST) := by
  unfold tls_parse_ctos_use_srtp
  rw [hs]
  simp only []
  rw [PACKET_get_net_2_put_value _ _ hct]
  simp only []
  rw [if_pos (by rw [Nat.and_one_is_mod]; omega)]

/-- An MKI whose length byte does not announce exactly the bytes that follow
is refused: the MKI is cut short or bytes trail it. -/
theorem tls_parse_ctos_use_srtp_bad_mki (s : SSL_CONNECTION)
    (srvr : List SRTP_PROTECTION_PROFILE) (ids : List Nat) (mki_len : Nat) (tail : List Nat)
    (hs : s.srtp_profiles = some srvr) (hids : ∀ id ∈ ids, id < 65536)
    (hlen : 2 * ids.length < 65536) (hne : tail.length ≠ mki_len) :
    tls_parse_ctos_use_srtp s
        (put_value (2 * ids.length) 2 ++ (srtp_profile_ids ids ++ mki_len :: tail))
      = (0, SSLfatal { s with srtp_profile := srvr.find? (fun p => decide (p.id ∈ ids)) }
              Alert.SSL_AD_DECODE_ERROR Reason.SSL_R_BAD_SRTP_MKI_VALUE) := by
  unfold tls_parse_ctos_use_srtp
  rw [hs]
  simp only []
  rw [PACKET_get_net_2_put_value _ _ hlen]
  simp only []
  have hand : 2 * ids.length &&& 1 = 0 := by rw [Nat.and_one_is_mod]; omega
  rw [if_neg (by rw [hand]; simp)]
  have hsub : PACKET_get_sub_packet (srtp_profile_ids ids ++ mki_len :: tail)
      (2 * ids.length) = some (srtp_profile_ids ids, mki_len :: tail) := by
    unfold PACKET_get_sub_packet
    rw [if_neg (by simp [srtp_profile_ids_length])]
    rw [← srtp_profile_ids_length ids, List.take_left, List.drop_left]
  rw [hsub]
  simp only []
  rw [srtp_loop_ids srvr ids hids]
  simp only [List.take_length]
  rw [if_neg (by simp)]
  simp only [PACKET_get_1, PACKET_forward, PACKET_remaining]
  by_cases hshort : tail.length < mki_len
  · rw [if_pos hshort]; simp
  · rw [if_neg hshort]
    simp only []
    rw [if_pos (by simp only [List.length_drop]; omega)]
    simp

theorem find_first {α : Type} (f : α → Bool) : ∀ (l : List α) (i : Nat) (p : α),
    l[i]? = some p → f p = true → (∀ j q, j < i → l[j]? = some q → f q = false) →
    l.find? f = some p
  | [], i, p, h, _, _ => by simp at h
  | a :: l, 0, p, h, hp, _ => by
    simp only [List.getElem?_cons_zero, Option.some.injEq] at h
    rw [h, List.find?_cons, hp]
  | a :: l, i + 1, p, h, hp, hlt => by
    have ha : f a = false := hlt 0 a (by omega) (by simp)
    rw [List.find?_cons, ha]
    simp only [List.getElem?_cons_succ] at h
    exact find_first f l i p h hp (fun j q hj hq => hlt (j + 1) q (by omega) (by simpa using hq))

theorem find_perm_pred {α : Type} (l : List α) (g : α → Nat) (ids ids1 : List Nat)
    (h : ids1.Perm ids) :
    l.find? (fun p => decide (g p ∈ ids1)) = l.find? (fun p => decide (g p ∈ ids)) := by
  apply find_congr_mem
  intro x _
  simp [h.mem_iff]

theorem or_two_pow_of_and_ne_zero (a n : Nat) (h : a &&& 2 ^ n ≠ 0) : a ||| 2 ^ n = a := by
  apply Nat.eq_of_testBit_eq
  intro i
  rw [Nat.testBit_or, Nat.testBit_two_pow]
  by_cases hi : n = i
  · subst hi
    have ht : a.testBit n = true := by
      by_contra hf
      apply h
      apply Nat.eq_of_testBit_eq
      intro j
      rw [Nat.testBit_and, Nat.testBit_two_pow, Nat.zero_testBit]
      by_cases hj : n = j
      · subst hj; simp [hf]
      · simp [hj]
    simp [ht]
  · simp [hi]

theorem tls_parse_ctos_ems_empty (s : SSL_CONNECTION)
    (h : s.s3.flags &&& TLS1_FLAGS_RECEIVED_EXTMS ≠ 0) : tls_parse_ctos_ems s [] = (1, s) := by
  unfold tls_parse_ctos_ems
  rw [if_neg (by simp [PACKET_remaining])]
  by_cases ho : s.options &&& SSL_OP_NO_EXTENDED_MASTER_SECRET ≠ 0
  · rw [if_pos ho]
  · rw [if_neg ho]
    have e : s.s3.flags ||| TLS1_FLAGS_RECEIVED_EXTMS = s.s3.flags :=
      or_two_pow_of_and_ne_zero s.s3.flags 9 h
    rw [e]

theorem tls_parse_ctos_etm_set (s : SSL_CONNECTION) (pkt : List Nat) (h : s.ext.use_etm = 1) :
    tls_parse_ctos_etm s pkt = (1, s) := by
  unfold tls_parse_ctos_etm
  by_cases ho : s.options &&& SSL_OP_NO_ENCRYPT_THEN_MAC = 0
  · rw [if_pos ho, ← h]
  · rw [if_neg ho]

theorem empty_extension_write_eq (sub : WPACKET_SUB) (ps : List WPACKET_SUB) (M ext_type : Nat)
    (p : WPACKET) (h : empty_extension_write ⟨sub :: ps, M⟩ ext_type = some p) :
    p = ⟨{ sub with body := sub.body ++ extension_wire ext_type [] } :: ps, M⟩ := by
  unfold empty_extension_write WPACKET_put_bytes_u16 at h
  cases h1 : WPACKET_put_bytes ⟨sub :: ps, M⟩ ext_type 2 with
  | none => rw [h1] at h; simp at h
  | some p1 =>
    rw [h1] at h
    obtain ⟨e1, _⟩ := WPACKET_put_bytes_eq _ _ _ _ _ _ h1
    subst e1
    simp only [] at h
    obtain ⟨e2, _⟩ := WPACKET_put_bytes_eq _ _ _ _ _ _ h
    rw [e2]
    simp [extension_wire]

theorem empty_extension_write_nil (M ext_type : Nat) :
    empty_extension_write ⟨[], M⟩ ext_type = none := by
  simp [empty_extension_write, WPACKET_put_bytes_u16, WPACKET_put_bytes,
    WPACKET_allocate_bytes, WPACKET_reserve_bytes]

theorem early_data_write_eq (sub : WPACKET_SUB) (ps : List WPACKET_SUB) (M : Nat)
    (p : WPACKET) (h : early_data_write ⟨sub :: ps, M⟩ = some p) :
    p = ⟨{ sub with body := sub.body ++ extension_wire TLSEXT_TYPE_early_data [] } :: ps, M⟩ := by
  unfold early_data_write WPACKET_put_bytes_u16 WPACKET_start_sub_packet_u16 at h
  cases h1 : WPACKET_put_bytes ⟨sub :: ps, M⟩ TLSEXT_TYPE_early_data 2 with
  | none => rw [h1] at h; simp at h
  | some p1 =>
    rw [h1] at h
    obtain ⟨e1, _⟩ := WPACKET_put_bytes_eq _ _ _ _ _ _ h1
    subst e1
    simp only [] at h
    cases h2 : WPACKET_start_sub_packet_len
        ⟨{ sub with body := sub.body ++ put_value TLSEXT_TYPE_early_data 2 } :: ps, M⟩ 2 with
    | none => rw [h2] at h; simp at h
    | some p2 =>
      rw [h2] at h
      have e2 := WPACKET_start_sub_packet_len_eq _ _ _ _ h2
      subst e2
      simp only [] at h
      obtain ⟨e3, _⟩ := WPACKET_close_eq _ _ _ _ _ h
      rw [e3]
      simp [extension_wire]

theorem early_data_write_nil (M : Nat) : early_data_write ⟨[], M⟩ = none := by
  simp [early_data_write, WPACKET_put_bytes_u16, WPACKET_put_bytes,
    WPACKET_allocate_bytes, WPACKET_reserve_bytes]

/-- What a SENT of the extended_master_secret producer means. -/
theorem tls_construct_stoc_ems_inv (s s1 : SSL_CONNECTION) (pkt pkt1 : WPACKET)
    (h : tls_construct_stoc_ems s pkt = (EXT_RETURN.EXT_RETURN_SENT, s1, pkt1)) :
    s.s3.flags &&& TLS1_FLAGS_RECEIVED_EXTMS ≠ 0 ∧ s1 = s
      ∧ ∃ sub ps, pkt.subs = sub :: ps
          ∧ pkt1 = ⟨{ sub with body := sub.body
                ++ extension_wire TLSEXT_TYPE_extended_master_secret [] } :: ps, pkt.maxsize⟩ := by
  unfold tls_construct_stoc_ems at h
  by_cases hf : s.s3.flags &&& TLS1_FLAGS_RECEIVED_EXTMS = 0
  · rw [if_pos hf] at h; simp at h
  · rw [if_neg hf] at h
    cases hw : empty_extension_write pkt TLSEXT_TYPE_extended_master_secret with
    | none => rw [hw] at h; simp at h
    | some p =>
      rw [hw] at h
      simp only [Prod.mk.injEq, true_and] at h
      obtain ⟨hs, hp⟩ := h
      refine ⟨hf, hs.symm, ?_⟩
      obtain ⟨subs, M⟩ := pkt
      cases subs with
      | nil => rw [empty_extension_write_nil] at hw; simp at hw
      | cons sub ps => exact ⟨sub, ps, rfl, by rw [← hp]; exact empty_extension_write_eq _ _ _ _ _ hw⟩

/-- What a SENT of the encrypt_then_mac producer means. -/
theorem tls_construct_stoc_etm_inv (s s1 : SSL_CONNECTION) (pkt pkt1 : WPACKET)
    (h : tls_construct_stoc_etm s pkt = some (EXT_RETURN.EXT_RETURN_SENT, s1, pkt1)) :
    s.ext.use_etm ≠ 0 ∧ s1 = s
      ∧ ∃ sub ps, pkt.subs = sub :: ps
          ∧ pkt1 = ⟨{ sub with body := sub.body
                ++ extension_wire TLSEXT_TYPE_encrypt_then_mac [] } :: ps, pkt.maxsize⟩ := by
  unfold tls_construct_stoc_etm at h
  by_cases hf : s.ext.use_etm = 0
  · rw [if_pos hf] at h; simp at h
  · rw [if_neg hf] at h
    cases hc : s.s3.tmp.new_cipher with
    | none => rw [hc] at h; simp at h
    | some c =>
      rw [hc] at h
      simp only [] at h
      split at h
      · simp at h
      · cases hw : empty_extension_write pkt TLSEXT_TYPE_encrypt_then_mac with
        | none => rw [hw] at h; simp at h
        | some p =>
          rw [hw] at h
          simp only [Option.some.injEq, Prod.mk.injEq, true_and] at h
          obtain ⟨hs, hp⟩ := h
          refine ⟨hf, hs.symm, ?_⟩
          obtain ⟨subs, M⟩ := pkt
          cases subs with
          | nil => rw [empty_extension_write_nil] at hw; simp at hw
          | cons sub ps =>
            exact ⟨sub, ps, rfl, by rw [← hp]; exact empty_extension_write_eq _ _ _ _ _ hw⟩

/-- What a SENT of the early_data producer means outside NewSessionTicket. -/
theorem tls_construct_stoc_early_data_inv (s s1 : SSL_CONNECTION) (pkt pkt1 : WPACKET)
    (context : Nat) (hctx : context ≠ SSL_EXT_TLS1_3_NEW_SESSION_TICKET)
    (h : tls_construct_stoc_early_data s pkt context = (EXT_RETURN.EXT_RETURN_SENT, s1, pkt1)) :
    s.ext.early_data = SSL_EARLY_DATA_ACCEPTED ∧ s1 = s
      ∧ ∃ sub ps, pkt.subs = sub :: ps
          ∧ pkt1 = ⟨{ sub with body := sub.body
                ++ extension_wire TLSEXT_TYPE_early_data [] } :: ps, pkt.maxsize⟩ := by
  unfold tls_construct_stoc_early_data at h
  rw [if_neg hctx] at h
  by_cases hf : s.ext.early_data ≠ SSL_EARLY_DATA_ACCEPTED
  · rw [if_pos hf] at h; simp at h
  · rw [if_neg hf] at h
    cases hw : early_data_write pkt with
    | none => rw [hw] at h; simp at h
    | some p =>
      rw [hw] at h
      simp only [Prod.mk.injEq, true_and] at h
      obtain ⟨hs, hp⟩ := h
      refine ⟨by simpa using hf, hs.symm, ?_⟩
      obtain ⟨subs, M⟩ := pkt
      cases subs with
      | nil => rw [early_data_write_nil] at hw; simp at hw
      | cons sub ps => exact ⟨sub, ps, rfl, by rw [← hp]; exact early_data_write_eq _ _ _ _ hw⟩

theorem or_flag_again (a k x : Nat) : ((a ||| k) ||| x) ||| k = (a ||| x) ||| k := by
  apply Nat.eq_of_testBit_eq
  intro i
  simp only [Nat.testBit_or]
  cases a.testBit i <;> cases k.testBit i <;> cases x.testBit i <;> rfl

theorem or_flag_late (a k x : Nat) : ((a ||| k) ||| x) ||| 0 = (a ||| x) ||| k := by
  apply Nat.eq_of_testBit_eq
  intro i
  simp only [Nat.testBit_or, Nat.zero_testBit]
  cases a.testBit i <;> cases k.testBit i <;> cases x.testBit i <;> rfl

theorem psk_kex_modes_loop_eq (modes : List Nat) (s : SSL_CONNECTION) :
    psk_kex_modes_loop modes s
      = { s with ext := { s.ext with
            psk_kex_mode := psk_kex_mode_offered s.ext.psk_kex_mode s.options modes } } := by
  induction modes generalizing s with
  | nil => simp [psk_kex_modes_loop, psk_kex_mode_offered]
  | cons mode rest ih =>
    unfold psk_kex_modes_loop
    by_cases h1 : mode = TLSEXT_KEX_MODE_KE_DHE
    · rw [if_pos h1, ih]
      have h0 : TLSEXT_KEX_MODE_KE ∈ mode :: rest ↔ TLSEXT_KEX_MODE_KE ∈ rest := by
        rw [h1]; simp [TLSEXT_KEX_MODE_KE, TLSEXT_KEX_MODE_KE_DHE]
      have hm : TLSEXT_KEX_MODE_KE_DHE ∈ mode :: rest := by rw [h1]; simp
      simp only [psk_kex_mode_offered, h0, hm, if_true]
      by_cases hr : TLSEXT_KEX_MODE_KE_DHE ∈ rest
      · simp only [hr, if_true, Nat.or_assoc, Nat.or_self]
      · simp only [hr, if_false, Nat.or_zero]
    · rw [if_neg h1]
      have hm : TLSEXT_KEX_MODE_KE_DHE ∈ mode :: rest ↔ TLSEXT_KEX_MODE_KE_DHE ∈ rest := by
        simp [Ne.symm h1]
      by_cases h2 : mode = TLSEXT_KEX_MODE_KE ∧ s.options &&& SSL_OP_ALLOW_NO_DHE_KEX ≠ 0
      · rw [if_pos h2, ih]
        have h0 : TLSEXT_KEX_MODE_KE ∈ mode :: rest := by rw [h2.1]; simp
        simp only [psk_kex_mode_offered, h0, hm, h2.2, true_and, if_true, ne_eq,
          not_false_eq_true, and_true]
        by_cases hr : TLSEXT_KEX_MODE_KE ∈ rest
        · simp only [hr, if_true]
          rw [or_flag_again]
        · simp only [hr, if_false]
          rw [or_flag_late]
      · rw [if_neg h2, ih]
        have h0 : (TLSEXT_KEX_MODE_KE ∈ mode :: rest ∧ s.options &&& SSL_OP_ALLOW_NO_DHE_KEX ≠ 0)
            ↔ (TLSEXT_KEX_MODE_KE ∈ rest ∧ s.options &&& SSL_OP_ALLOW_NO_DHE_KEX ≠ 0) := by
          constructor
          · rintro ⟨hmem, ho⟩
            rcases List.mem_cons.mp hmem with hmem | hmem
            · exact absurd ⟨hmem.symm, ho⟩ h2
            · exact ⟨hmem, ho⟩
          · rintro ⟨hmem, ho⟩
            exact ⟨List.mem_cons_of_mem _ hmem, ho⟩
        simp only [psk_kex_mode_offered, h0, hm]

theorem PACKET_as_length_prefixed_1_put_value (body : List Nat) (hb : body.length < 256) :
    PACKET_as_length_prefixed_1 (put_value body.length 1 ++ body) = some body := by
  rw [put_value_one, Nat.mod_eq_of_lt hb]
  simp [PACKET_as_length_prefixed_1, PACKET_get_1]

theorem PACKET_as_length_prefixed_1_inv (l body : List Nat)
    (h : PACKET_as_length_prefixed_1 l = some body) (hb : ∀ b ∈ l, b < 256) :
    l = put_value body.length 1 ++ body ∧ body.length < 256 := by
  cases l with
  | nil => simp [PACKET_as_length_prefixed_1, PACKET_get_1] at h
  | cons len rest =>
    simp only [PACKET_as_length_prefixed_1, PACKET_get_1] at h
    by_cases hl : rest.length = len
    · rw [if_pos hl] at h
      simp only [Option.some.injEq] at h
      subst h
      have hlen : len < 256 := hb len (by simp)
      rw [put_value_one, hl, Nat.mod_eq_of_lt hlen]
      exact ⟨rfl, hlen⟩
    · rw [if_neg hl] at h; simp at h

/-- The parser on a well-formed psk_key_exchange_modes body. -/
theorem tls_parse_ctos_psk_kex_modes_body (s : SSL_CONNECTION) (modes : List Nat)
    (hne : modes ≠ []) (hlen : modes.length < 256) :
    tls_parse_ctos_psk_kex_modes s (psk_kex_modes_body modes)
      = (1, { s with ext := { s.ext with
                psk_kex_mode := psk_kex_mode_preferred
                  (psk_kex_mode_offered s.ext.psk_kex_mode s.options modes) s.options } }) := by
  unfold tls_parse_ctos_psk_kex_modes psk_kex_modes_body
  rw [PACKET_as_length_prefixed_1_put_value _ hlen]
  simp only []
  rw [if_neg (by simpa [PACKET_remaining] using hne), psk_kex_modes_loop_eq]
  unfold psk_kex_mode_preferred
  simp only []
  split <;> rfl

/-- Every other body is refused with decode_error. -/
theorem tls_parse_ctos_psk_kex_modes_malformed (s : SSL_CONNECTION) (body : List Nat)
    (hb : ∀ b ∈ body, b < 256) (hwf : ¬ psk_kex_modes_well_formed body) :
    tls_parse_ctos_psk_kex_modes s body
      = (0, SSLfatal s Alert.SSL_AD_DECODE_ERROR Reason.SSL_R_BAD_EXTENSION) := by
  unfold tls_parse_ctos_psk_kex_modes
  cases h : PACKET_as_length_prefixed_1 body with
  | none => rfl
  | some modes =>
    simp only []
    obtain ⟨e, hl⟩ := PACKET_as_length_prefixed_1_inv body modes h hb
    by_cases h0 : PACKET_remaining modes = 0
    · rw [if_pos h0]
    · exfalso
      apply hwf
      refine ⟨modes, ?_, hl, e⟩
      intro hm
      rw [hm] at h0
      exact h0 rfl

theorem reconcile_cert_type_good (pref other : List Nat) (chosen p : Nat)
    (h : pref.find? (fun t => decide (t ∈ other)) = some p) :
    reconcile_cert_type pref other chosen = (OSSL_CERT_TYPE_CTOS_GOOD, p) := by
  induction pref with
  | nil => simp at h
  | cons a rest ih =>
    unfold reconcile_cert_type
    by_cases ha : a ∈ other
    · rw [if_pos (by simpa using ha)]
      simp only [List.find?_cons, ha, decide_True, Option.some.injEq] at h
      rw [h]
    · rw [if_neg (by simpa using ha)]
      simp only [List.find?_cons, ha, decide_False] at h
      exact ih h

theorem reconcile_cert_type_error (pref other : List Nat) (chosen : Nat)
    (h : ∀ t ∈ pref, t ∉ other) :
    reconcile_cert_type pref other chosen = (OSSL_CERT_TYPE_CTOS_ERROR, chosen) := by
  induction pref with
  | nil => rfl
  | cons a rest ih =>
    unfold reconcile_cert_type
    rw [if_neg (by simpa using h a (by simp))]
    exact ih (fun t ht => h t (List.mem_cons_of_mem _ ht))

theorem reconcile_cert_type_cases (pref other : List Nat) (chosen : Nat) :
    (reconcile_cert_type pref other chosen).1 = OSSL_CERT_TYPE_CTOS_GOOD
      ∨ (reconcile_cert_type pref other chosen).1 = OSSL_CERT_TYPE_CTOS_ERROR := by
  induction pref with
  | nil => right; rfl
  | cons a rest ih =>
    unfold reconcile_cert_type
    by_cases ha : other.contains a = true
    · rw [if_pos ha]; left; rfl
    · rw [if_neg ha]; exact ih

theorem tls_parse_ctos_client_cert_type_body (sc : SSL_CONNECTION) (cfg types : List Nat)
    (hcfg : sc.client_cert_type = some cfg) (hne : types ≠ []) (hlen : types.length < 256) :
    tls_parse_ctos_client_cert_type sc (cert_type_body types)
      = (1, { sc with ext := { sc.ext with
                client_cert_type_ctos :=
                  (reconcile_cert_type types cfg sc.ext.client_cert_type).1,
                client_cert_type :=
                  (reconcile_cert_type types cfg sc.ext.client_cert_type).2 } }) := by
  unfold tls_parse_ctos_client_cert_type cert_type_body
  rw [hcfg]
  simp only []
  rw [PACKET_as_length_prefixed_1_put_value _ hlen]
  simp only []
  rw [if_neg (by simpa [PACKET_remaining] using hne)]
  simp [PACKET_get_bytes, PACKET_remaining]

theorem tls_parse_ctos_server_cert_type_body (sc : SSL_CONNECTION) (cfg types : List Nat)
    (hcfg : sc.server_cert_type = some cfg) (hne : types ≠ []) (hlen : types.length < 256) :
    tls_parse_ctos_server_cert_type sc (cert_type_body types)
      = if (reconcile_cert_type cfg types sc.ext.server_cert_type).1 = OSSL_CERT_TYPE_CTOS_GOOD
        then (1, { sc with ext := { sc.ext with
                server_cert_type_ctos :=
                  (reconcile_cert_type cfg types sc.ext.server_cert_type).1,
                server_cert_type :=
                  (reconcile_cert_type cfg types sc.ext.server_cert_type).2 } })
        else (0, SSLfatal { sc with ext := { sc.ext with
                server_cert_type_ctos :=
                  (reconcile_cert_type cfg types sc.ext.server_cert_type).1,
                server_cert_type :=
                  (reconcile_cert_type cfg types sc.ext.server_cert_type).2 } }
              Alert.SSL_AD_UNSUPPORTED_CERTIFICATE Reason.SSL_R_BAD_EXTENSION) := by
  unfold tls_parse_ctos_server_cert_type cert_type_body
  rw [hcfg]
  simp only []
  rw [PACKET_as_length_prefixed_1_put_value _ hlen]
  simp only []
  rw [if_neg (by simpa [PACKET_remaining] using hne)]
  simp [PACKET_get_bytes, PACKET_remaining]

/-! ## Lemmas on pre_shared_key -/

theorem put_value_net_value (l : List Nat) (hb : ∀ b ∈ l, b < 256) :
    put_value (net_value l) l.length = l ∧ net_value l < 256 ^ l.length := by
  induction l using List.reverseRecOn with
  | nil => exact ⟨rfl, by simp [net_value]⟩
  | append_singleton init b ih =>
    have hinit : ∀ x ∈ init, x < 256 := fun x hx => hb x (List.mem_append_left _ hx)
    have hb0 : b < 256 := hb b (by simp)
    obtain ⟨ih1, ih2⟩ := ih hinit
    rw [net_value_append_singleton, List.length_append, List.length_singleton]
    constructor
    · rw [put_value]
      have e1 : (net_value init * 256 + b) / 256 = net_value init := by omega
      have e2 : (net_value init * 256 + b) % 256 = b := by omega
      rw [e1, e2, ih1]
    · rw [pow_succ]; omega

theorem PACKET_get_net_4_put_value (v : Nat) (rest : List Nat) (hv : v < 2 ^ 32) :
    PACKET_get_net_4 (put_value v 4 ++ rest) = some (v, rest) := by
  unfold PACKET_get_net_4
  have hl : (put_value v 4).length = 4 := put_value_length v 4
  rw [if_neg (by simp [hl])]
  rw [List.take_left' hl, List.drop_left' hl, net_value_put_value 4 v (by norm_num; omega)]

theorem PACKET_get_net_4_inv (l rest : List Nat) (v : Nat)
    (h : PACKET_get_net_4 l = some (v, rest)) (hb : ∀ b ∈ l, b < 256) :
    l = put_value v 4 ++ rest ∧ v < 2 ^ 32 := by
  unfold PACKET_get_net_4 at h
  by_cases hl : l.length < 4
  · rw [if_pos hl] at h; simp at h
  · rw [if_neg hl] at h
    simp only [Option.some.injEq, Prod.mk.injEq] at h
    obtain ⟨hv, hr⟩ := h
    have ht : (l.take 4).length = 4 := by rw [List.length_take]; omega
    obtain ⟨h1, h2⟩ := put_value_net_value (l.take 4) (fun b hbm => hb b (List.mem_of_mem_take hbm))
    rw [ht, hv] at h1 h2
    refine ⟨?_, by norm_num at h2; omega⟩
    rw [h1, ← hr, List.take_append_drop]

theorem psk_identities_wire_cons (e : List Nat × Nat) (es : List (List Nat × Nat)) :
    psk_identities_wire (e :: es) = psk_identity_wire e ++ psk_identities_wire es := by
  simp [psk_identities_wire]

theorem psk_identities_wire_append (es1 es2 : List (List Nat × Nat)) :
    psk_identities_wire (es1 ++ es2) = psk_identities_wire es1 ++ psk_identities_wire es2 := by
  simp [psk_identities_wire]

theorem psk_identity_wire_length (e : List Nat × Nat) :
    (psk_identity_wire e).length = 6 + e.1.length := by
  simp only [psk_identity_wire, List.length_append, put_value_length]; omega

/-- Reading one identity off the wire. -/
theorem psk_identity_wire_read (e : List Nat × Nat) (rest : List Nat)
    (h1 : e.1.length < 65536) (h2 : e.2 < 2 ^ 32) :
    PACKET_get_length_prefixed_2 (psk_identity_wire e ++ rest)
        = some (e.1, put_value e.2 4 ++ rest)
      ∧ PACKET_get_net_4 (put_value e.2 4 ++ rest) = some (e.2, rest) := by
  constructor
  · unfold psk_identity_wire
    rw [List.append_assoc, List.append_assoc]
    exact PACKET_get_length_prefixed_2_put_value e.1 _ h1
  · exact PACKET_get_net_4_put_value e.2 rest h2

/-- One iteration of the loop on an identity read off the wire. -/
theorem psk_loop_step (env : PskEnv) (fuel id : Nat) (e : List Nat × Nat) (rest : List Nat)
    (s : SSL_CONNECTION) (ext : Nat) (h1 : e.1.length < 65536) (h2 : e.2 < 2 ^ 32) :
    psk_loop env (fuel + 1) id (psk_identity_wire e ++ rest) s ext
      = match psk_identity env id s ext e.1 e.2 with
        | none => none
        | some (PSK_STEP.ret r) => some (PSK_EXIT.ret r)
        | some (PSK_STEP.skip s1 ext1) => psk_loop env fuel (id + 1) rest s1 ext1
        | some (PSK_STEP.found s1 ext1 sess md) => some (PSK_EXIT.selected id s1 ext1 sess md) := by
  rw [psk_loop]
  have hne : ¬ PACKET_remaining (psk_identity_wire e ++ rest) = 0 := by
    simp only [PACKET_remaining, List.length_append, psk_identity_wire_length]; omega
  rw [if_neg hne]
  obtain ⟨r1, r2⟩ := psk_identity_wire_read e rest h1 h2
  simp only [r1, r2]

theorem psk_loop_nil (env : PskEnv) (fuel id : Nat) (s : SSL_CONNECTION) (ext : Nat) :
    psk_loop env fuel id [] s ext = some (PSK_EXIT.none_left s) := by
  unfold psk_loop
  simp [PACKET_remaining]

/-- The loop over a run of identities that are all passed over. -/
theorem psk_loop_after (env : PskEnv) (pre : List (List Nat × Nat)) :
    ∀ (fuel id : Nat) (rest : List Nat) (s : SSL_CONNECTION) (ext : Nat)
      (s0 : SSL_CONNECTION) (ext0 : Nat),
      (∀ e ∈ pre, e.1.length < 65536 ∧ e.2 < 2 ^ 32) →
      psk_after env id pre s ext = some (s0, ext0) →
      (psk_identities_wire pre ++ rest).length ≤ fuel →
      ∃ fuel1, rest.length ≤ fuel1
        ∧ psk_loop env fuel id (psk_identities_wire pre ++ rest) s ext
            = psk_loop env fuel1 (id + pre.length) rest s0 ext0 := by
  induction pre with
  | nil =>
    intro fuel id rest s ext s0 ext0 _ ha hf
    simp only [psk_after, Option.some.injEq, Prod.mk.injEq] at ha
    obtain ⟨e1, e2⟩ := ha
    subst e1 e2
    exact ⟨fuel, by simpa [psk_identities_wire] using hf, by simp [psk_identities_wire]⟩
  | cons e es ih =>
    intro fuel id rest s ext s0 ext0 hv ha hf
    have hve := hv e (by simp)
    rw [psk_identities_wire_cons, List.append_assoc] at hf ⊢
    have hlen : (psk_identity_wire e ++ (psk_identities_wire es ++ rest)).length
        = 6 + e.1.length + (psk_identities_wire es ++ rest).length := by
      rw [List.length_append, psk_identity_wire_length]
    cases fuel with
    | zero => omega
    | succ fuel0 =>
      rw [psk_loop_step env fuel0 id e _ s ext hve.1 hve.2]
      unfold psk_after at ha
      cases hstep : psk_identity env id s ext e.1 e.2 with
      | none => rw [hstep] at ha; simp at ha
      | some st =>
        rw [hstep] at ha
        cases st with
        | ret r => simp at ha
        | found a b c d => simp at ha
        | skip s1 ext1 =>
          simp only [] at ha ⊢
          obtain ⟨fuel1, hf1, heq⟩ := ih fuel0 (id + 1) rest s1 ext1 s0 ext0
            (fun x hx => hv x (List.mem_cons_of_mem _ hx)) ha (by omega)
          refine ⟨fuel1, hf1, ?_⟩
          rw [heq, List.length_cons]
          congr 1
          omega

/-! ### The session and tick_identity are not written by the identity loop -/

theorem psk_frame_refl (s : SSL_CONNECTION) : psk_frame s s := ⟨rfl, rfl⟩

theorem psk_frame_trans (s s1 s2 : SSL_CONNECTION) (h1 : psk_frame s s1) (h2 : psk_frame s1 s2) :
    psk_frame s s2 := ⟨h2.1.trans h1.1, h2.2.trans h1.2⟩

theorem psk_frame_fatal (s s1 : SSL_CONNECTION) (al : Alert) (reason : Reason)
    (h : psk_frame s s1) : psk_frame s (SSLfatal s1 al reason) := h

theorem psk_find_session_frame (env : PskEnv) (s : SSL_CONNECTION) (identity : PACKET) (r : RET)
    (h : psk_find_session env s identity = PSK_LOOKUP.fail r) : psk_frame s r.2 := by
  unfold psk_find_session at h
  split at h
  · simp at h
  · split at h
    · simp only [PSK_LOOKUP.fail.injEq] at h
      rw [← h]
      exact psk_frame_refl s
    · simp at h

theorem psk_server_session_frame (env : PskEnv) (s : SSL_CONNECTION) (identity : PACKET)
    (r : RET) (h : psk_server_session env s identity = PSK_LOOKUP.fail r) : psk_frame s r.2 := by
  unfold psk_server_session at h
  split at h
  · simp at h
  · split at h
    · simp only [] at h
      split at h
      · simp only [PSK_LOOKUP.fail.injEq] at h
        rw [← h]; exact psk_frame_refl s
      · split at h
        · split at h
          · simp only [PSK_LOOKUP.fail.injEq] at h
            rw [← h]; exact psk_frame_refl s
          · split at h
            · simp only [PSK_LOOKUP.fail.injEq] at h
              rw [← h]; exact psk_frame_refl s
            · split at h
              · simp only [PSK_LOOKUP.fail.injEq] at h
                rw [← h]; exact psk_frame_refl s
              · simp at h
        · simp at h
    · simp at h

theorem psk_session_found_frame (env : PskEnv) (id : Nat) (s : SSL_CONNECTION)
    (sess : SSL_SESSION) : psk_frame s (psk_session_found env id s sess).conn := by
  unfold psk_session_found
  split
  · exact psk_frame_refl s
  · simp only [PSK_OBTAIN.conn]
    by_cases hid : id = 0
    · rw [if_pos hid]; exact ⟨rfl, rfl⟩
    · rw [if_neg hid]; exact ⟨rfl, rfl⟩

theorem tls_get_stateful_ticket_frame (s : SSL_CONNECTION) (tick : PACKET) :
    psk_frame s (tls_get_stateful_ticket s tick).2 := by
  unfold tls_get_stateful_ticket
  simp only []
  split
  · exact ⟨rfl, rfl⟩
  · split
    · split <;> exact ⟨rfl, rfl⟩
    · exact ⟨rfl, rfl⟩

theorem psk_ticket_session_frame (env : PskEnv) (id : Nat) (s : SSL_CONNECTION) (ext : Nat)
    (sess : SSL_SESSION) (ticket_agel : Nat) :
    psk_frame s (psk_ticket_session env id s ext sess ticket_agel).conn := by
  unfold psk_ticket_session
  split
  · exact psk_frame_refl s
  · simp only []
    split <;> (simp only [PSK_OBTAIN.conn]; split <;> exact ⟨rfl, rfl⟩)

theorem psk_ticket_frame (env : PskEnv) (id : Nat) (s : SSL_CONNECTION) (ext : Nat)
    (identity : PACKET) (ticket_agel : Nat) :
    psk_frame s (psk_ticket env id s ext identity ticket_agel).conn := by
  unfold psk_ticket
  have hr : psk_frame s
      (if s.options &&& SSL_OP_NO_TICKET ≠ 0
          ∨ (s.max_early_data > 0 ∧ s.options &&& SSL_OP_NO_ANTI_REPLAY = 0) then
        tls_get_stateful_ticket s identity
      else
        let d := env.tls_decrypt_ticket s identity
        (d.1, { s with ext := { s.ext with ticket_expected := d.2 } })).2 := by
    split
    · exact tls_get_stateful_ticket_frame s identity
    · exact ⟨rfl, rfl⟩
  simp only []
  split
  · exact hr
  · exact hr
  · exact hr
  · exact hr
  · exact hr
  · exact psk_frame_trans _ _ _ hr (psk_ticket_session_frame env id _ ext _ ticket_agel)
  · exact psk_frame_trans _ _ _ hr (psk_ticket_session_frame env id _ ext _ ticket_agel)

theorem psk_obtain_frame (env : PskEnv) (id : Nat) (s : SSL_CONNECTION) (ext : Nat)
    (identity : PACKET) (ticket_agel : Nat) :
    psk_frame s (psk_obtain env id s ext identity ticket_agel).conn := by
  unfold psk_obtain
  split
  · rename_i r hr
    exact psk_find_session_frame env s identity r hr
  · exact psk_session_found_frame env id s _
  · split
    · rename_i r hr
      exact psk_server_session_frame env s identity r hr
    · exact psk_session_found_frame env id s _
    · exact psk_ticket_frame env id s ext identity ticket_agel

theorem psk_check_md_frame (env : PskEnv) (s : SSL_CONNECTION) (ext : Nat) (sess : SSL_SESSION)
    (st : PSK_STEP) (h : psk_check_md env s ext sess = some st) : psk_frame s st.conn := by
  unfold psk_check_md at h
  split at h
  · simp at h
  · split at h
    · simp only [Option.some.injEq] at h
      rw [← h]; exact psk_frame_refl s
    · split at h
      · simp at h
      · split at h
        · simp only [Option.some.injEq] at h
          rw [← h]; exact ⟨rfl, rfl⟩
        · simp only [Option.some.injEq] at h
          rw [← h]; exact psk_frame_refl s

theorem psk_identity_frame (env : PskEnv) (id : Nat) (s : SSL_CONNECTION) (ext : Nat)
    (identity : PACKET) (ticket_agel : Nat) (st : PSK_STEP)
    (h : psk_identity env id s ext identity ticket_agel = some st) : psk_frame s st.conn := by
  have ho := psk_obtain_frame env id s ext identity ticket_agel
  unfold psk_identity at h
  split at h
  · rename_i r hr
    rw [hr] at ho
    simp only [Option.some.injEq] at h
    rw [← h]; exact ho
  · rename_i s1 hr
    rw [hr] at ho
    simp only [Option.some.injEq] at h
    rw [← h]; exact ho
  · rename_i s1 ext1 sess hr
    rw [hr] at ho
    exact psk_frame_trans _ _ _ ho (psk_check_md_frame env s1 ext1 sess st h)

theorem psk_after_frame (env : PskEnv) (es : List (List Nat × Nat)) :
    ∀ (id : Nat) (s : SSL_CONNECTION) (ext : Nat) (s0 : SSL_CONNECTION) (ext0 : Nat),
      psk_after env id es s ext = some (s0, ext0) → psk_frame s s0 := by
  induction es with
  | nil =>
    intro id s ext s0 ext0 h
    simp only [psk_after, Option.some.injEq, Prod.mk.injEq] at h
    rw [← h.1]; exact psk_frame_refl s
  | cons e es ih =>
    intro id s ext s0 ext0 h
    unfold psk_after at h
    cases hstep : psk_identity env id s ext e.1 e.2 with
    | none => rw [hstep] at h; simp at h
    | some st =>
      rw [hstep] at h
      cases st with
      | ret r => simp at h
      | found a b c d => simp at h
      | skip s1 ext1 =>
        simp only [] at h
        exact psk_frame_trans _ _ _ (psk_identity_frame env id s ext e.1 e.2 _ hstep)
          (ih (id + 1) s1 ext1 s0 ext0 h)

theorem psk_loop_frame (env : PskEnv) :
    ∀ (fuel id : Nat) (identities : PACKET) (s : SSL_CONNECTION) (ext : Nat) (ex : PSK_EXIT),
      psk_loop env fuel id identities s ext = some ex → psk_frame s ex.conn := by
  intro fuel
  induction fuel with
  | zero =>
    intro id identities s ext ex h
    rw [psk_loop] at h
    split at h
    · simp only [Option.some.injEq] at h
      rw [← h]; exact psk_frame_refl s
    · simp at h
  | succ fuel ih =>
    intro id identities s ext ex h
    rw [psk_loop] at h
    split at h
    · simp only [Option.some.injEq] at h
      rw [← h]; exact psk_frame_refl s
    · split at h
      · simp only [Option.some.injEq] at h
        rw [← h]; exact psk_frame_refl s
      · split at h
        · simp only [Option.some.injEq] at h
          rw [← h]; exact psk_frame_refl s
        · rename_i identity identities1 _ _ ticket_agel identities2 _
          cases hstep : psk_identity env id s ext identity ticket_agel with
          | none => rw [hstep] at h; simp at h
          | some st =>
            have hf := psk_identity_frame env id s ext identity ticket_agel st hstep
            rw [hstep] at h
            cases st with
            | ret r =>
              simp only [Option.some.injEq] at h
              rw [← h]; exact hf
            | skip s1 ext1 =>
              simp only [] at h
              exact psk_frame_trans _ _ _ hf (ih (id + 1) identities2 s1 ext1 ex h)
            | found s1 ext1 sess md =>
              simp only [Option.some.injEq] at h
              rw [← h]; exact hf

/-! ### The identity loop on a block of identities -/

/-- The loop over identities that are all passed over ends with sess NULL. -/
theorem psk_loop_skipped (env : PskEnv) (es : List (List Nat × Nat)) (fuel : Nat)
    (s : SSL_CONNECTION) (ext : Nat) (s1 : SSL_CONNECTION) (ext1 : Nat)
    (hv : ∀ e ∈ es, e.1.length < 65536 ∧ e.2 < 2 ^ 32)
    (ha : psk_after env 0 es s ext = some (s1, ext1))
    (hf : (psk_identities_wire es).length ≤ fuel) :
    psk_loop env fuel 0 (psk_identities_wire es) s ext = some (PSK_EXIT.none_left s1) := by
  obtain ⟨fuel1, _, heq⟩ := psk_loop_after env es fuel 0 [] s ext s1 ext1 hv ha (by simpa using hf)
  rw [List.append_nil] at heq
  rw [heq, psk_loop_nil]

/-- The loop breaks at the first identity that is not passed over and yields a
session with the digest of the negotiated cipher. -/
theorem psk_loop_selected (env : PskEnv) (pre : List (List Nat × Nat)) (sel : List Nat × Nat)
    (tail : List Nat) (fuel : Nat) (s : SSL_CONNECTION) (ext : Nat)
    (s0 : SSL_CONNECTION) (ext0 : Nat) (s1 : SSL_CONNECTION) (ext1 : Nat)
    (sess : SSL_SESSION) (md : EVP_MD)
    (hv : ∀ e ∈ pre ++ [sel], e.1.length < 65536 ∧ e.2 < 2 ^ 32)
    (ha : psk_after env 0 pre s ext = some (s0, ext0))
    (hsel : psk_identity env pre.length s0 ext0 sel.1 sel.2
      = some (PSK_STEP.found s1 ext1 sess md))
    (hf : (psk_identities_wire (pre ++ [sel]) ++ tail).length ≤ fuel) :
    psk_loop env fuel 0 (psk_identities_wire (pre ++ [sel]) ++ tail) s ext
      = some (PSK_EXIT.selected pre.length s1 ext1 sess md) := by
  have hvp : ∀ e ∈ pre, e.1.length < 65536 ∧ e.2 < 2 ^ 32 :=
    fun e he => hv e (List.mem_append_left _ he)
  have hvs := hv sel (by simp)
  rw [psk_identities_wire_append, List.append_assoc] at hf ⊢
  obtain ⟨fuel1, hf1, heq⟩ := psk_loop_after env pre fuel 0
    (psk_identities_wire [sel] ++ tail) s ext s0 ext0 hvp ha hf
  rw [heq]
  have hw : psk_identities_wire [sel] = psk_identity_wire sel := by simp [psk_identities_wire]
  rw [hw] at hf1 ⊢
  rw [List.length_append, psk_identity_wire_length] at hf1
  cases fuel1 with
  | zero => omega
  | succ fuel2 =>
    rw [psk_loop_step env fuel2 _ sel tail s0 ext0 hvs.1 hvs.2, Nat.zero_add, hsel]

/-- What the ways out of the loop say about the block of identities. -/
theorem psk_loop_inv (env : PskEnv) :
    ∀ (fuel id : Nat) (identities : PACKET) (s : SSL_CONNECTION) (ext : Nat) (ex : PSK_EXIT),
      (∀ b ∈ identities, b < 256) →
      psk_loop env fuel id identities s ext = some ex →
      (∀ s1, ex = PSK_EXIT.none_left s1 →
        ∃ (es : List (List Nat × Nat)) (ext1 : Nat),
          (∀ e ∈ es, e.1.length < 65536 ∧ e.2 < 2 ^ 32)
          ∧ identities = psk_identities_wire es
          ∧ psk_after env id es s ext = some (s1, ext1))
      ∧ (∀ i s1 ext1 sess md, ex = PSK_EXIT.selected i s1 ext1 sess md →
        ∃ (pre : List (List Nat × Nat)) (sel : List Nat × Nat) (tail : List Nat)
          (s0 : SSL_CONNECTION) (ext0 : Nat),
          (∀ e ∈ pre ++ [sel], e.1.length < 65536 ∧ e.2 < 2 ^ 32)
          ∧ identities = psk_identities_wire (pre ++ [sel]) ++ tail
          ∧ psk_after env id pre s ext = some (s0, ext0)
          ∧ psk_identity env i s0 ext0 sel.1 sel.2 = some (PSK_STEP.found s1 ext1 sess md)
          ∧ i = id + pre.length) := by
  intro fuel
  induction fuel with
  | zero =>
    intro id identities s ext ex hb h
    rw [psk_loop] at h
    split at h
    · rename_i h0
      simp only [Option.some.injEq] at h
      have hnil : identities = [] := List.length_eq_zero.mp h0
      refine ⟨fun s1 he => ⟨[], ext, by simp, by rw [hnil]; rfl, ?_⟩, fun i s1 ext1 sess md he => ?_⟩
      · rw [← h] at he
        simp only [PSK_EXIT.none_left.injEq] at he
        rw [he]; rfl
      · rw [← h] at he; simp at he
    · simp at h
  | succ fuel ih =>
    intro id identities s ext ex hb h
    rw [psk_loop] at h
    split at h
    · rename_i h0
      simp only [Option.some.injEq] at h
      have hnil : identities = [] := List.length_eq_zero.mp h0
      refine ⟨fun s1 he => ⟨[], ext, by simp, by rw [hnil]; rfl, ?_⟩, fun i s1 ext1 sess md he => ?_⟩
      · rw [← h] at he
        simp only [PSK_EXIT.none_left.injEq] at he
        rw [he]; rfl
      · rw [← h] at he; simp at he
    · split at h
      · simp only [Option.some.injEq] at h
        rw [← h]
        exact ⟨fun s1 he => by simp at he, fun i s1 ext1 sess md he => by simp at he⟩
      · split at h
        · simp only [Option.some.injEq] at h
          rw [← h]
          exact ⟨fun s1 he => by simp at he, fun i s1 ext1 sess md he => by simp at he⟩
        · rename_i identity identities1 h1 _ ticket_agel identities2 h2
          obtain ⟨e1, hl1⟩ := PACKET_get_length_prefixed_2_inv identities identity identities1 h1 hb
          have hb1 : ∀ b ∈ identities1, b < 256 := fun b hbm =>
            hb b (by rw [e1]; exact List.mem_append_right _ (List.mem_append_right _ hbm))
          obtain ⟨e2, hl2⟩ := PACKET_get_net_4_inv identities1 identities2 ticket_agel h2 hb1
          have hb2 : ∀ b ∈ identities2, b < 256 := fun b hbm =>
            hb1 b (by rw [e2]; exact List.mem_append_right _ hbm)
          have hwire : identities = psk_identity_wire (identity, ticket_agel) ++ identities2 := by
            rw [e1, e2]
            simp [psk_identity_wire]
          cases hstep : psk_identity env id s ext identity ticket_agel with
          | none => rw [hstep] at h; simp at h
          | some st =>
            rw [hstep] at h
            cases st with
            | ret r =>
              simp only [Option.some.injEq] at h
              rw [← h]
              exact ⟨fun s1 he => by simp at he, fun i s1 ext1 sess md he => by simp at he⟩
            | found s1 ext1 sess md =>
              simp only [Option.some.injEq] at h
              rw [← h]
              refine ⟨fun s1 he => by simp at he, fun i s2 ext2 sess2 md2 he => ?_⟩
              simp only [PSK_EXIT.selected.injEq] at he
              obtain ⟨hi, hs, hext, hsess, hmd⟩ := he
              subst hi hs hext hsess hmd
              refine ⟨[], (identity, ticket_agel), identities2, s, ext, ?_, ?_, rfl, hstep, rfl⟩
              · intro e he
                simp only [List.nil_append, List.mem_singleton] at he
                rw [he]; exact ⟨hl1, hl2⟩
              · rw [hwire]; simp [psk_identities_wire]
            | skip s1 ext1 =>
              simp only [] at h
              obtain ⟨ih1, ih2⟩ := ih (id + 1) identities2 s1 ext1 ex hb2 h
              refine ⟨fun s2 he => ?_, fun i s2 ext2 sess2 md2 he => ?_⟩
              · obtain ⟨es, ext3, hv, hes, ha⟩ := ih1 s2 he
                refine ⟨(identity, ticket_agel) :: es, ext3, ?_, ?_, ?_⟩
                · intro e hem
                  rcases List.mem_cons.mp hem with hem | hem
                  · rw [hem]; exact ⟨hl1, hl2⟩
                  · exact hv e hem
                · rw [psk_identities_wire_cons, ← hes, hwire]
                · unfold psk_after
                  simp only [hstep]
                  exact ha
              · obtain ⟨pre, sel, tail, s0, ext0, hv, hes, ha, hsel, hi⟩ := ih2 i s2 ext2 sess2 md2 he
                refine ⟨(identity, ticket_agel) :: pre, sel, tail, s0, ext0, ?_, ?_, ?_, hsel, ?_⟩
                · intro e hem
                  rw [List.cons_append] at hem
                  rcases List.mem_cons.mp hem with hem | hem
                  · rw [hem]; exact ⟨hl1, hl2⟩
                  · exact hv e hem
                · rw [List.cons_append, psk_identities_wire_cons, List.append_assoc, ← hes, hwire]
                · unfold psk_after
                  simp only [hstep]
                  exact ha
                · rw [hi, List.length_cons]; omega

/-! ### The binders -/

theorem psk_binders_wire_cons (b : List Nat) (bs : List (List Nat)) :
    psk_binders_wire (b :: bs) = put_value b.length 1 ++ (b ++ psk_binders_wire bs) := by
  simp [psk_binders_wire]

/-- The binder loop reads the binder with the index of the selected identity. -/
theorem psk_binder_loop_wire (bs : List (List Nat)) :
    ∀ i : Nat, (∀ b ∈ bs, b.length < 256) → psk_binder_loop i (psk_binders_wire bs) = bs[i]? := by
  induction bs with
  | nil =>
    intro i _
    cases i <;> simp [psk_binder_loop, psk_binders_wire, PACKET_get_length_prefixed_1, PACKET_get_1]
  | cons b bs ih =>
    intro i hb
    have hb0 : b.length < 256 := hb b (by simp)
    rw [psk_binders_wire_cons]
    cases i with
    | zero =>
      unfold psk_binder_loop
      rw [PACKET_get_length_prefixed_1_put_value b _ hb0]
      simp
    | succ i =>
      unfold psk_binder_loop
      rw [PACKET_get_length_prefixed_1_put_value b _ hb0]
      simp only [List.getElem?_cons_succ]
      exact ih i (fun x hx => hb x (List.mem_cons_of_mem _ hx))

theorem psk_binders_block_read (bl trailing : List Nat) (hl : bl.length < 65536) :
    PACKET_get_length_prefixed_2 (psk_binders_block bl ++ trailing) = some (bl, trailing) := by
  unfold psk_binders_block
  rw [List.append_assoc]
  exact PACKET_get_length_prefixed_2_put_value bl trailing hl

/-- No binder with the index of the selected identity. -/
theorem psk_binders_missing (env : PskEnv) (s : SSL_CONNECTION) (bs : List (List Nat))
    (trailing : List Nat) (binderoffset id ext : Nat) (sess : SSL_SESSION) (md : EVP_MD)
    (hb : ∀ b ∈ bs, b.length < 256) (hl : (psk_binders_wire bs).length < 65536)
    (hsize : 0 < md.size) (hi : bs.length ≤ id) :
    psk_binders env s (psk_binders_block (psk_binders_wire bs) ++ trailing) binderoffset id ext
        sess md
      = (0, SSLfatal s Alert.SSL_AD_DECODE_ERROR Reason.SSL_R_BAD_EXTENSION) := by
  unfold psk_binders
  simp only []
  rw [if_neg (by omega), psk_binders_block_read _ _ hl]
  simp only []
  rw [psk_binder_loop_wire bs id hb, List.getElem?_eq_none hi]

/-- The binder with the index of the selected identity has another length
than the digest. -/
theorem psk_binders_length (env : PskEnv) (s : SSL_CONNECTION) (bs : List (List Nat))
    (trailing : List Nat) (binderoffset id ext : Nat) (sess : SSL_SESSION) (md : EVP_MD)
    (binder : List Nat)
    (hb : ∀ b ∈ bs, b.length < 256) (hl : (psk_binders_wire bs).length < 65536)
    (hsize : 0 < md.size) (hi : bs[id]? = some binder) (hne : (binder.length : Int) ≠ md.size) :
    psk_binders env s (psk_binders_block (psk_binders_wire bs) ++ trailing) binderoffset id ext
        sess md
      = (0, SSLfatal s Alert.SSL_AD_DECODE_ERROR Reason.SSL_R_BAD_EXTENSION) := by
  unfold psk_binders
  simp only []
  rw [if_neg (by omega), psk_binders_block_read _ _ hl]
  simp only []
  rw [psk_binder_loop_wire bs id hb, hi]
  simp only []
  rw [if_pos (by simpa [PACKET_remaining] using hne)]

/-- The binder with the index of the selected identity does not verify. -/
theorem psk_binders_rejected (env : PskEnv) (s : SSL_CONNECTION) (bs : List (List Nat))
    (trailing : List Nat) (binderoffset id ext : Nat) (sess : SSL_SESSION) (md : EVP_MD)
    (binder : List Nat) (al : Alert) (reason : Reason)
    (hb : ∀ b ∈ bs, b.length < 256) (hl : (psk_binders_wire bs).length < 65536)
    (hsize : 0 < md.size) (hi : bs[id]? = some binder) (heq : (binder.length : Int) = md.size)
    (hbind : env.tls_psk_do_binder s md binderoffset binder sess ext = some (al, reason)) :
    psk_binders env s (psk_binders_block (psk_binders_wire bs) ++ trailing) binderoffset id ext
        sess md
      = (0, SSLfatal s al reason) := by
  unfold psk_binders
  simp only []
  rw [if_neg (by omega), psk_binders_block_read _ _ hl]
  simp only []
  rw [psk_binder_loop_wire bs id hb, hi]
  simp only []
  rw [if_neg (by simpa [PACKET_remaining] using heq), hbind]

/-- The binder with the index of the selected identity verifies. -/
theorem psk_binders_verified (env : PskEnv) (s : SSL_CONNECTION) (bs : List (List Nat))
    (trailing : List Nat) (binderoffset id ext : Nat) (sess : SSL_SESSION) (md : EVP_MD)
    (binder : List Nat)
    (hb : ∀ b ∈ bs, b.length < 256) (hl : (psk_binders_wire bs).length < 65536)
    (hsize : 0 < md.size) (hi : bs[id]? = some binder) (heq : (binder.length : Int) = md.size)
    (hbind : env.tls_psk_do_binder s md binderoffset binder sess ext = none) :
    psk_binders env s (psk_binders_block (psk_binders_wire bs) ++ trailing) binderoffset id ext
        sess md
      = (1, { s with ext := { s.ext with tick_identity := id }, session := sess }) := by
  unfold psk_binders
  simp only []
  rw [if_neg (by omega), psk_binders_block_read _ _ hl]
  simp only []
  rw [psk_binder_loop_wire bs id hb, hi]
  simp only []
  rw [if_neg (by simpa [PACKET_remaining] using heq), hbind]

/-- A failure of the binder check leaves the session and tick_identity. -/
theorem psk_binders_fail_frame (env : PskEnv) (s : SSL_CONNECTION) (pkt : PACKET)
    (binderoffset id ext : Nat) (sess : SSL_SESSION) (md : EVP_MD)
    (h : (psk_binders env s pkt binderoffset id ext sess md).1 ≠ 1) :
    (psk_binders env s pkt binderoffset id ext sess md).1 = 0
      ∧ psk_frame s (psk_binders env s pkt binderoffset id ext sess md).2 := by
  unfold psk_binders at h ⊢
  simp only [] at h ⊢
  by_cases h1 : md.size ≤ 0
  · rw [if_pos h1]; exact ⟨rfl, psk_frame_refl s⟩
  · rw [if_neg h1] at h ⊢
    cases h2 : PACKET_get_length_prefixed_2 pkt with
    | none => exact ⟨rfl, psk_frame_refl s⟩
    | some p =>
      obtain ⟨binders, pkt1⟩ := p
      rw [h2] at h
      simp only [] at h ⊢
      cases h3 : psk_binder_loop id binders with
      | none => exact ⟨rfl, psk_frame_refl s⟩
      | some binder =>
        rw [h3] at h
        simp only [] at h ⊢
        by_cases h4 : (PACKET_remaining binder : Int) ≠ md.size
        · rw [if_pos h4]; exact ⟨rfl, psk_frame_refl s⟩
        · rw [if_neg h4] at h ⊢
          cases h5 : env.tls_psk_do_binder s md binderoffset binder sess ext with
          | some e => exact ⟨rfl, psk_frame_refl s⟩
          | none =>
            rw [h5] at h
            exact absurd rfl h

/-- A success of the binder check installs the session and the index. -/
theorem psk_binders_success (env : PskEnv) (s : SSL_CONNECTION) (pkt : PACKET)
    (binderoffset id ext : Nat) (sess : SSL_SESSION) (md : EVP_MD) (s1 : SSL_CONNECTION)
    (h : psk_binders env s pkt binderoffset id ext sess md = (1, s1)) :
    s1 = { s with ext := { s.ext with tick_identity := id }, session := sess } := by
  unfold psk_binders at h
  simp only [] at h
  split at h
  · simp at h
  · split at h
    · simp at h
    · split at h
      · simp at h
      · split at h
        · simp at h
        · split at h
          · simp at h
          · simp only [Prod.mk.injEq, true_and] at h
            exact h.symm

/-! ### The parser as a whole -/

theorem psk_body_read (identities rest : List Nat) (hl : identities.length < 65536) :
    PACKET_get_length_prefixed_2 (psk_body identities rest) = some (identities, rest) := by
  unfold psk_body
  exact PACKET_get_length_prefixed_2_put_value identities rest hl

theorem psk_body_length (identities rest : List Nat) :
    (psk_body identities rest).length - rest.length = 2 + identities.length := by
  simp only [psk_body, List.length_append, put_value_length]; omega

/-- The parser in terms of the way out of the identity loop. -/
theorem tls_parse_ctos_psk_exit (env : PskEnv) (s : SSL_CONNECTION) (identities rest : List Nat)
    (pkt_offset : Nat) (ex : PSK_EXIT)
    (hmode : s.ext.psk_kex_mode &&& (TLSEXT_KEX_MODE_FLAG_KE ||| TLSEXT_KEX_MODE_FLAG_KE_DHE) ≠ 0)
    (hl : identities.length < 65536)
    (hloop : psk_loop env identities.length 0 identities
      { s with ext := { s.ext with ticket_expected := 0 } } 0 = some ex) :
    (∀ r, ex = PSK_EXIT.ret r →
        tls_parse_ctos_psk env s (psk_body identities rest) pkt_offset = some r)
      ∧ (∀ s1, ex = PSK_EXIT.none_left s1 →
        tls_parse_ctos_psk env s (psk_body identities rest) pkt_offset = some (1, s1))
      ∧ (∀ id s1 ext sess md, ex = PSK_EXIT.selected id s1 ext sess md →
        tls_parse_ctos_psk env s (psk_body identities rest) pkt_offset
          = some (psk_binders env s1 rest (pkt_offset + (2 + identities.length)) id ext sess
              md)) := by
  unfold tls_parse_ctos_psk
  rw [if_neg hmode, psk_body_read identities rest hl]
  simp only [PACKET_remaining]
  rw [hloop, psk_body_length]
  refine ⟨fun r he => ?_, fun s1 he => ?_, fun id s1 ext sess md he => ?_⟩ <;> rw [he]

/-! ### A return from inside the loop is a failure -/

theorem psk_find_session_fail (env : PskEnv) (s : SSL_CONNECTION) (identity : PACKET) (r : RET)
    (h : psk_find_session env s identity = PSK_LOOKUP.fail r) : r.1 = 0 := by
  unfold psk_find_session at h
  split at h
  · simp at h
  · split at h
    · simp only [PSK_LOOKUP.fail.injEq] at h
      rw [← h]
    · simp at h

theorem psk_server_session_fail (env : PskEnv) (s : SSL_CONNECTION) (identity : PACKET)
    (r : RET) (h : psk_server_session env s identity = PSK_LOOKUP.fail r) : r.1 = 0 := by
  unfold psk_server_session at h
  split at h
  · simp at h
  · split at h
    · simp only [] at h
      split at h
      · simp only [PSK_LOOKUP.fail.injEq] at h
        rw [← h]
      · split at h
        · split at h
          · simp only [PSK_LOOKUP.fail.injEq] at h
            rw [← h]
          · split at h
            · simp only [PSK_LOOKUP.fail.injEq] at h
              rw [← h]
            · split at h
              · simp only [PSK_LOOKUP.fail.injEq] at h
                rw [← h]
              · simp at h
        · simp at h
    · simp at h

theorem psk_session_found_fail (env : PskEnv) (id : Nat) (s : SSL_CONNECTION)
    (sess : SSL_SESSION) (r : RET) (h : psk_session_found env id s sess = PSK_OBTAIN.ret r) :
    r.1 = 0 := by
  unfold psk_session_found at h
  split at h
  · simp only [PSK_OBTAIN.ret.injEq] at h
    rw [← h]
  · simp at h

theorem psk_ticket_session_fail (env : PskEnv) (id : Nat) (s : SSL_CONNECTION) (ext : Nat)
    (sess : SSL_SESSION) (ticket_agel : Nat) (r : RET)
    (h : psk_ticket_session env id s ext sess ticket_agel = PSK_OBTAIN.ret r) : r.1 = 0 := by
  unfold psk_ticket_session at h
  split at h
  · simp at h
  · simp only [] at h
    split at h <;> simp at h

theorem psk_ticket_fail (env : PskEnv) (id : Nat) (s : SSL_CONNECTION) (ext : Nat)
    (identity : PACKET) (ticket_agel : Nat) (r : RET)
    (h : psk_ticket env id s ext identity ticket_agel = PSK_OBTAIN.ret r) : r.1 = 0 := by
  unfold psk_ticket at h
  simp only [] at h
  split at h
  · simp only [PSK_OBTAIN.ret.injEq] at h
    rw [← h]
  · simp only [PSK_OBTAIN.ret.injEq] at h
    rw [← h]
  · simp only [PSK_OBTAIN.ret.injEq] at h
    rw [← h]
  · simp at h
  · simp at h
  · exact psk_ticket_session_fail env id _ ext _ ticket_agel r h
  · exact psk_ticket_session_fail env id _ ext _ ticket_agel r h

theorem psk_obtain_fail (env : PskEnv) (id : Nat) (s : SSL_CONNECTION) (ext : Nat)
    (identity : PACKET) (ticket_agel : Nat) (r : RET)
    (h : psk_obtain env id s ext identity ticket_agel = PSK_OBTAIN.ret r) : r.1 = 0 := by
  unfold psk_obtain at h
  split at h
  · rename_i r1 hr
    simp only [PSK_OBTAIN.ret.injEq] at h
    rw [← h]
    exact psk_find_session_fail env s identity r1 hr
  · exact psk_session_found_fail env id s _ r h
  · split at h
    · rename_i r1 hr
      simp only [PSK_OBTAIN.ret.injEq] at h
      rw [← h]
      exact psk_server_session_fail env s identity r1 hr
    · exact psk_session_found_fail env id s _ r h
    · exact psk_ticket_fail env id s ext identity ticket_agel r h

theorem psk_check_md_fail (env : PskEnv) (s : SSL_CONNECTION) (ext : Nat) (sess : SSL_SESSION)
    (r : RET) (h : psk_check_md env s ext sess = some (PSK_STEP.ret r)) : r.1 = 0 := by
  unfold psk_check_md at h
  split at h
  · simp at h
  · split at h
    · simp only [Option.some.injEq, PSK_STEP.ret.injEq] at h
      rw [← h]
    · split at h
      · simp at h
      · split at h <;> simp at h

theorem psk_identity_fail (env : PskEnv) (id : Nat) (s : SSL_CONNECTION) (ext : Nat)
    (identity : PACKET) (ticket_agel : Nat) (r : RET)
    (h : psk_identity env id s ext identity ticket_agel = some (PSK_STEP.ret r)) : r.1 = 0 := by
  unfold psk_identity at h
  split at h
  · rename_i r1 hr
    simp only [Option.some.injEq, PSK_STEP.ret.injEq] at h
    rw [← h]
    exact psk_obtain_fail env id s ext identity ticket_agel r1 hr
  · simp at h
  · exact psk_check_md_fail env _ _ _ r h

theorem psk_loop_fail (env : PskEnv) :
    ∀ (fuel id : Nat) (identities : PACKET) (s : SSL_CONNECTION) (ext : Nat) (r : RET),
      psk_loop env fuel id identities s ext = some (PSK_EXIT.ret r) → r.1 = 0 := by
  intro fuel
  induction fuel with
  | zero =>
    intro id identities s ext r h
    rw [psk_loop] at h
    split at h <;> simp at h
  | succ fuel ih =>
    intro id identities s ext r h
    rw [psk_loop] at h
    split at h
    · simp at h
    · split at h
      · simp only [Option.some.injEq, PSK_EXIT.ret.injEq] at h
        rw [← h]
      · split at h
        · simp only [Option.some.injEq, PSK_EXIT.ret.injEq] at h
          rw [← h]
        · rename_i identity identities1 _ _ ticket_agel identities2 _
          cases hstep : psk_identity env id s ext identity ticket_agel with
          | none => rw [hstep] at h; simp at h
          | some st =>
            rw [hstep] at h
            cases st with
            | ret r1 =>
              simp only [Option.some.injEq, PSK_EXIT.ret.injEq] at h
              rw [← h]
              exact psk_identity_fail env id s ext identity ticket_agel r1 hstep
            | skip s1 ext1 =>
              simp only [] at h
              exact ih (id + 1) identities2 s1 ext1 r h
            | found s1 ext1 sess md => simp at h

/-! ### What a selected identity is -/

/-- An identity at which the loop breaks has yielded a session whose digest is
the digest of the negotiated cipher. -/
theorem psk_identity_found (env : PskEnv) (id : Nat) (s : SSL_CONNECTION) (ext : Nat)
    (identity : PACKET) (ticket_agel : Nat) (s1 : SSL_CONNECTION) (ext1 : Nat)
    (sess : SSL_SESSION) (md : EVP_MD)
    (h : psk_identity env id s ext identity ticket_agel
      = some (PSK_STEP.found s1 ext1 sess md)) :
    psk_obtain env id s ext identity ticket_agel = PSK_OBTAIN.sess s1 ext1 sess
      ∧ ∃ (cipher new_cipher : SSL_CIPHER) (md0 : EVP_MD),
          sess.cipher = some cipher ∧ env.ssl_md cipher.algorithm2 = some md
          ∧ s1.s3.tmp.new_cipher = some new_cipher
          ∧ env.ssl_md new_cipher.algorithm2 = some md0 ∧ md.name = md0.name := by
  unfold psk_identity at h
  split at h
  · simp at h
  · simp at h
  · rename_i s2 ext2 sess2 hob
    unfold psk_check_md at h
    cases hc : sess2.cipher with
    | none => rw [hc] at h; simp at h
    | some cipher =>
      rw [hc] at h
      simp only [] at h
      cases hm : env.ssl_md cipher.algorithm2 with
      | none => rw [hm] at h; simp at h
      | some md1 =>
        rw [hm] at h
        simp only [] at h
        cases hn : s2.s3.tmp.new_cipher with
        | none => rw [hn] at h; simp at h
        | some new_cipher =>
          rw [hn] at h
          simp only [] at h
          by_cases hne : EVP_MD_is_a md1 (EVP_MD_get0_name (env.ssl_md new_cipher.algorithm2))
              = false
          · rw [if_pos hne] at h; simp at h
          · rw [if_neg hne] at h
            simp only [Option.some.injEq, PSK_STEP.found.injEq] at h
            obtain ⟨e1, e2, e3, e4⟩ := h
            subst e1 e2 e3 e4
            refine ⟨hob, cipher, new_cipher, ?_⟩
            cases hm0 : env.ssl_md new_cipher.algorithm2 with
            | none => rw [hm0] at hne; simp [EVP_MD_is_a, EVP_MD_get0_name] at hne
            | some md0 =>
              rw [hm0] at hne
              refine ⟨md0, hc, hm, hn, rfl, ?_⟩
              simpa [EVP_MD_is_a, EVP_MD_get0_name] using hne

theorem SSL_CTX_remove_session_cases (ctx : SSL_CTX) (c : SSL_SESSION) :
    (SSL_CTX_remove_session ctx c).1 = 0 ∨ (SSL_CTX_remove_session ctx c).1 = 1 := by
  unfold SSL_CTX_remove_session
  simp only []
  split
  · right; rfl
  · left; rfl

/-- With anti-replay on, a session from a ticket has been taken out of the
cache. -/
theorem psk_obtain_replay (env : PskEnv) (id : Nat) (s : SSL_CONNECTION) (ext : Nat)
    (identity : PACKET) (ticket_agel : Nat) (s1 : SSL_CONNECTION) (ext1 : Nat)
    (sess : SSL_SESSION)
    (h : psk_obtain env id s ext identity ticket_agel = PSK_OBTAIN.sess s1 ext1 sess)
    (h1 : psk_find_session env s identity = PSK_LOOKUP.sess none)
    (h2 : psk_server_session env s identity = PSK_LOOKUP.sess none)
    (hearly : s.max_early_data > 0) (hreplay : s.options &&& SSL_OP_NO_ANTI_REPLAY = 0) :
    (tls_get_stateful_ticket s identity).1 = TICKET_RESULT.SSL_TICKET_SUCCESS sess
      ∧ (SSL_CTX_remove_session s.session_ctx sess).1 = 1
      ∧ s1.session_ctx = (SSL_CTX_remove_session s.session_ctx sess).2 := by
  unfold psk_obtain at h
  rw [h1] at h
  simp only [] at h
  rw [h2] at h
  simp only [] at h
  unfold psk_ticket at h
  rw [if_pos (Or.inr ⟨hearly, hreplay⟩)] at h
  simp only [] at h
  have hctx : (tls_get_stateful_ticket s identity).2.session_ctx = s.session_ctx := by
    unfold tls_get_stateful_ticket
    simp only []
    split
    · rfl
    · split
      · split <;> rfl
      · rfl
  have hopt : (tls_get_stateful_ticket s identity).2.options = s.options := by
    unfold tls_get_stateful_ticket
    simp only []
    split
    · rfl
    · split
      · split <;> rfl
      · rfl
  have hmed : (tls_get_stateful_ticket s identity).2.max_early_data = s.max_early_data := by
    unfold tls_get_stateful_ticket
    simp only []
    split
    · rfl
    · split
      · split <;> rfl
      · rfl
  have hrenew : ∀ x, (tls_get_stateful_ticket s identity).1
      ≠ TICKET_RESULT.SSL_TICKET_SUCCESS_RENEW x := by
    intro x
    unfold tls_get_stateful_ticket
    simp only []
    split
    · simp
    · split
      · split <;> simp
      · simp
  generalize tls_get_stateful_ticket s identity = r at h hctx hopt hmed hrenew
  obtain ⟨st, s2⟩ := r
  simp only [] at h hctx hopt hmed hrenew
  cases st with
  | SSL_TICKET_FATAL_ERR_MALLOC => simp at h
  | SSL_TICKET_FATAL_ERR_OTHER => simp at h
  | SSL_TICKET_NONE => simp at h
  | SSL_TICKET_EMPTY => simp at h
  | SSL_TICKET_NO_DECRYPT => simp at h
  | SSL_TICKET_SUCCESS_RENEW x => exact absurd rfl (hrenew x)
  | SSL_TICKET_SUCCESS x =>
    simp only [] at h
    unfold psk_ticket_session at h
    rw [hmed, hopt, hctx] at h
    by_cases hrm : (SSL_CTX_remove_session s.session_ctx x).1 = 0
    · rw [if_pos ⟨hearly, hreplay, hrm⟩] at h; simp at h
    · rw [if_neg (by intro hc; exact hrm hc.2.2)] at h
      have hcond : (s.max_early_data > 0 ∧ s.options &&& SSL_OP_NO_ANTI_REPLAY = 0) = True := by
        simp [hearly, hreplay]
      simp only [hcond, if_true] at h
      have hone : (SSL_CTX_remove_session s.session_ctx x).1 = 1 := by
        rcases SSL_CTX_remove_session_cases s.session_ctx x with hc | hc
        · exact absurd hc hrm
        · exact hc
      split at h
      · simp only [PSK_OBTAIN.sess.injEq] at h
        obtain ⟨e1, _, e3⟩ := h
        subst e3
        exact ⟨rfl, hone, by rw [← e1]⟩
      · simp only [PSK_OBTAIN.sess.injEq] at h
        obtain ⟨e1, _, e3⟩ := h
        subst e3
        exact ⟨rfl, hone, by rw [← e1]⟩

theorem psk_identities_wire_length_ge (es : List (List Nat × Nat)) :
    6 * es.length ≤ (psk_identities_wire es).length := by
  induction es with
  | nil => simp [psk_identities_wire]
  | cons e es ih =>
    rw [psk_identities_wire_cons, List.length_append, psk_identity_wire_length, List.length_cons]
    omega

/-! ### The pre_shared_key extension of the ServerHello -/

theorem tls_construct_stoc_psk_sent (s : SSL_CONNECTION) (sub : WPACKET_SUB)
    (ps : List WPACKET_SUB) (M : Nat) (hhit : s.hit = true) (hid : s.ext.tick_identity < 65536)
    (hroom : WPACKET.written ⟨sub :: ps, M⟩ + 6 ≤ M) :
    tls_construct_stoc_psk s ⟨sub :: ps, M⟩
      = (EXT_RETURN.EXT_RETURN_SENT, s,
          ⟨{ sub with body := sub.body
                ++ extension_wire TLSEXT_TYPE_psk (put_value s.ext.tick_identity 2) } :: ps,
            M⟩) := by
  have hw := WPACKET_written_cons sub ps M
  unfold tls_construct_stoc_psk
  rw [if_neg (by simp [hhit])]
  unfold psk_write WPACKET_put_bytes_u16 WPACKET_start_sub_packet_u16
  rw [WPACKET_put_bytes_some sub ps M _ 2 (by decide) (by decide) (by omega)]
  simp only []
  rw [WPACKET_start_sub_packet_len_some _ ps M 2
    (by rw [WPACKET_written_cons]; simp only [List.length_append, put_value_length]; omega)]
  simp only []
  rw [WPACKET_put_bytes_some _ _ M _ 2 (by decide) (by norm_num; omega)
    (by rw [WPACKET_written_cons, WPACKET_written_cons]
        simp only [List.length_append, put_value_length, List.length_nil]; omega)]
  simp only []
  rw [WPACKET_close_some _ _ ps M (by simp [put_value_length])]
  simp [extension_wire, put_value_length]

theorem tls_construct_stoc_psk_inv (s s1 : SSL_CONNECTION) (pkt pkt1 : WPACKET)
    (h : tls_construct_stoc_psk s pkt = (EXT_RETURN.EXT_RETURN_SENT, s1, pkt1)) :
    s.hit = true ∧ s1 = s
      ∧ ∃ sub ps, pkt.subs = sub :: ps
          ∧ pkt1 = ⟨{ sub with body := sub.body
                ++ extension_wire TLSEXT_TYPE_psk (put_value s.ext.tick_identity 2) } :: ps,
              pkt.maxsize⟩ := by
  unfold tls_construct_stoc_psk at h
  by_cases hhit : s.hit = false
  · rw [if_pos hhit] at h; simp at h
  · rw [if_neg hhit] at h
    cases hw : psk_write s pkt with
    | none => rw [hw] at h; simp at h
    | some p =>
      rw [hw] at h
      simp only [Prod.mk.injEq, true_and] at h
      obtain ⟨hs, hp⟩ := h
      refine ⟨by simpa using hhit, hs.symm, ?_⟩
      obtain ⟨subs, M⟩ := pkt
      cases subs with
      | nil =>
        simp [psk_write, WPACKET_put_bytes_u16, WPACKET_put_bytes,
          WPACKET_allocate_bytes, WPACKET_reserve_bytes] at hw
      | cons sub ps =>
        refine ⟨sub, ps, rfl, ?_⟩
        unfold psk_write WPACKET_put_bytes_u16 WPACKET_start_sub_packet_u16 at hw
        cases h1 : WPACKET_put_bytes ⟨sub :: ps, M⟩ TLSEXT_TYPE_psk 2 with
        | none => rw [h1] at hw; simp at hw
        | some p1 =>
          rw [h1] at hw
          obtain ⟨e1, _⟩ := WPACKET_put_bytes_eq _ _ _ _ _ _ h1
          subst e1
          simp only [] at hw
          cases h2 : WPACKET_start_sub_packet_len
              ⟨{ sub with body := sub.body ++ put_value TLSEXT_TYPE_psk 2 } :: ps, M⟩ 2 with
          | none => rw [h2] at hw; simp at hw
          | some p2 =>
            rw [h2] at hw
            have e2 := WPACKET_start_sub_packet_len_eq _ _ _ _ h2
            subst e2
            simp only [] at hw
            cases h3 : WPACKET_put_bytes
                ⟨⟨2, []⟩ :: { sub with body := sub.body ++ put_value TLSEXT_TYPE_psk 2 } :: ps, M⟩
                s.ext.tick_identity 2 with
            | none => rw [h3] at hw; simp at hw
            | some p3 =>
              rw [h3] at hw
              obtain ⟨e3, _⟩ := WPACKET_put_bytes_eq _ _ _ _ _ _ h3
              subst e3
              simp only [] at hw
              obtain ⟨e4, _⟩ := WPACKET_close_eq _ _ _ _ _ hw
              rw [← hp, e4]
              simp [extension_wire, put_value_length]

/-- What a success of the parser says about the extension body. -/
theorem tls_parse_ctos_psk_success (env : PskEnv) (s s1 : SSL_CONNECTION) (pkt : PACKET)
    (pkt_offset : Nat) (hb : ∀ b ∈ pkt, b < 256)
    (hmode : s.ext.psk_kex_mode &&& (TLSEXT_KEX_MODE_FLAG_KE ||| TLSEXT_KEX_MODE_FLAG_KE_DHE) ≠ 0)
    (h : tls_parse_ctos_psk env s pkt pkt_offset = some (1, s1)) :
    ∃ (identities rest : List Nat) (ex : PSK_EXIT),
      pkt = psk_body identities rest ∧ identities.length < 65536
      ∧ (∀ b ∈ identities, b < 256)
      ∧ psk_loop env identities.length 0 identities
          { s with ext := { s.ext with ticket_expected := 0 } } 0 = some ex
      ∧ (ex = PSK_EXIT.none_left s1
        ∨ ∃ id s2 ext sess md, ex = PSK_EXIT.selected id s2 ext sess md
            ∧ s1 = { s2 with ext := { s2.ext with tick_identity := id }, session := sess }) := by
  unfold tls_parse_ctos_psk at h
  rw [if_neg hmode] at h
  cases h1 : PACKET_get_length_prefixed_2 pkt with
  | none => rw [h1] at h; simp at h
  | some p =>
    obtain ⟨identities, pkt1⟩ := p
    rw [h1] at h
    simp only [PACKET_remaining] at h
    obtain ⟨e1, hl⟩ := PACKET_get_length_prefixed_2_inv pkt identities pkt1 h1 hb
    have hbi : ∀ b ∈ identities, b < 256 := fun b hbm =>
      hb b (by rw [e1]; exact List.mem_append_right _ (List.mem_append_left _ hbm))
    cases hloop : psk_loop env identities.length 0 identities
        { s with ext := { s.ext with ticket_expected := 0 } } 0 with
    | none => rw [hloop] at h; simp at h
    | some ex =>
      rw [hloop] at h
      refine ⟨identities, pkt1, ex, e1, hl, hbi, hloop, ?_⟩
      cases ex with
      | ret r =>
        simp only [Option.some.injEq] at h
        have := psk_loop_fail env _ _ _ _ _ r hloop
        rw [h] at this
        simp at this
      | none_left s2 =>
        simp only [Option.some.injEq, Prod.mk.injEq, true_and] at h
        left; rw [h]
      | selected id s2 ext sess md =>
        simp only [Option.some.injEq] at h
        right
        exact ⟨id, s2, ext, sess, md, rfl, psk_binders_success env s2 _ _ id ext sess md s1 h⟩

/-! ### Identities that are passed over -/

theorem psk_identity_binder_irrelevant (env : PskEnv)
    (f : SSL_CONNECTION → EVP_MD → Nat → List Nat → SSL_SESSION → Nat → Option (Alert × Reason))
    (id : Nat) (s : SSL_CONNECTION) (ext : Nat) (identity : PACKET) (ticket_agel : Nat) :
    psk_identity { env with tls_psk_do_binder := f } id s ext identity ticket_agel
      = psk_identity env id s ext identity ticket_agel := rfl

theorem psk_after_binder_irrelevant (env : PskEnv)
    (f : SSL_CONNECTION → EVP_MD → Nat → List Nat → SSL_SESSION → Nat → Option (Alert × Reason))
    (es : List (List Nat × Nat)) :
    ∀ (id : Nat) (s : SSL_CONNECTION) (ext : Nat),
      psk_after { env with tls_psk_do_binder := f } id es s ext = psk_after env id es s ext := by
  induction es with
  | nil => intro id s ext; rfl
  | cons e es ih =>
    intro id s ext
    unfold psk_after
    rw [psk_identity_binder_irrelevant]
    cases psk_identity env id s ext e.1 e.2 with
    | none => rfl
    | some st =>
      cases st with
      | ret r => rfl
      | found a b c d => rfl
      | skip s1 ext1 => exact ih (id + 1) s1 ext1

/-- An identity is passed over when it yields no session or when it yields one
whose digest is not the digest of the negotiated cipher; the latter clears
early_data_ok and ticket_expected. -/
theorem psk_identity_skip (env : PskEnv) (id : Nat) (s : SSL_CONNECTION) (ext : Nat)
    (identity : PACKET) (ticket_agel : Nat) (s1 : SSL_CONNECTION) (ext1 : Nat)
    (h : psk_identity env id s ext identity ticket_agel = some (PSK_STEP.skip s1 ext1)) :
    (psk_obtain env id s ext identity ticket_agel = PSK_OBTAIN.skip s1 ∧ ext1 = ext)
      ∨ ∃ (s2 : SSL_CONNECTION) (sess : SSL_SESSION) (cipher new_cipher : SSL_CIPHER)
          (md : EVP_MD),
          psk_obtain env id s ext identity ticket_agel = PSK_OBTAIN.sess s2 ext1 sess
          ∧ sess.cipher = some cipher ∧ env.ssl_md cipher.algorithm2 = some md
          ∧ s2.s3.tmp.new_cipher = some new_cipher
          ∧ EVP_MD_is_a md (EVP_MD_get0_name (env.ssl_md new_cipher.algorithm2)) = false
          ∧ s1 = { s2 with ext := { s2.ext with early_data_ok := 0, ticket_expected := 0 } } := by
  unfold psk_identity at h
  split at h
  · simp at h
  · rename_i s2 hob
    simp only [Option.some.injEq, PSK_STEP.skip.injEq] at h
    left
    rw [← h.1, ← h.2]
    exact ⟨hob, rfl⟩
  · rename_i s2 ext2 sess2 hob
    right
    unfold psk_check_md at h
    cases hc : sess2.cipher with
    | none => rw [hc] at h; simp at h
    | some cipher =>
      rw [hc] at h
      simp only [] at h
      cases hm : env.ssl_md cipher.algorithm2 with
      | none => rw [hm] at h; simp at h
      | some md1 =>
        rw [hm] at h
        simp only [] at h
        cases hn : s2.s3.tmp.new_cipher with
        | none => rw [hn] at h; simp at h
        | some new_cipher =>
          rw [hn] at h
          simp only [] at h
          by_cases hne : EVP_MD_is_a md1 (EVP_MD_get0_name (env.ssl_md new_cipher.algorithm2))
              = false
          · rw [if_pos hne] at h
            simp only [Option.some.injEq, PSK_STEP.skip.injEq] at h
            obtain ⟨e1, e2⟩ := h
            subst e2
            exact ⟨s2, sess2, cipher, new_cipher, md1, hob, hc, hm, hn, hne, e1.symm⟩
          · rw [if_neg hne] at h; simp at h

theorem psk_after_append (env : PskEnv) (pre : List (List Nat × Nat)) (last : List Nat × Nat) :
    ∀ (id : Nat) (s : SSL_CONNECTION) (ext : Nat) (s1 : SSL_CONNECTION) (ext1 : Nat),
      psk_after env id (pre ++ [last]) s ext = some (s1, ext1) →
      ∃ s0 ext0, psk_after env id pre s ext = some (s0, ext0)
        ∧ psk_identity env (id + pre.length) s0 ext0 last.1 last.2
            = some (PSK_STEP.skip s1 ext1) := by
  induction pre with
  | nil =>
    intro id s ext s1 ext1 h
    refine ⟨s, ext, rfl, ?_⟩
    simp only [List.nil_append] at h
    unfold psk_after at h
    cases hstep : psk_identity env id s ext last.1 last.2 with
    | none => rw [hstep] at h; simp at h
    | some st =>
      rw [hstep] at h
      cases st with
      | ret r => simp at h
      | found a b c d => simp at h
      | skip s2 ext2 =>
        simp only [psk_after, Option.some.injEq, Prod.mk.injEq] at h
        rw [← h.1, ← h.2]
        simpa using hstep
  | cons e es ih =>
    intro id s ext s1 ext1 h
    rw [List.cons_append] at h
    unfold psk_after at h
    cases hstep : psk_identity env id s ext e.1 e.2 with
    | none => rw [hstep] at h; simp at h
    | some st =>
      rw [hstep] at h
      cases st with
      | ret r => simp at h
      | found a b c d => simp at h
      | skip s2 ext2 =>
        simp only [] at h
        obtain ⟨s0, ext0, h1, h2⟩ := ih (id + 1) s2 ext2 s1 ext1 h
        refine ⟨s0, ext0, ?_, ?_⟩
        · unfold psk_after
          simp only [hstep]
          exact h1
        · rw [List.length_cons]
          have e : id + (es.length + 1) = id + 1 + es.length := by omega
          rw [e]; exact h2

/-- When every identity is passed over the parser returns 1 and leaves the
connection as the loop left it. -/
theorem tls_parse_ctos_psk_skipped (env : PskEnv) (s : SSL_CONNECTION)
    (es : List (List Nat × Nat)) (rest : List Nat) (pkt_offset : Nat)
    (s1 : SSL_CONNECTION) (ext1 : Nat)
    (hmode : s.ext.psk_kex_mode &&& (TLSEXT_KEX_MODE_FLAG_KE ||| TLSEXT_KEX_MODE_FLAG_KE_DHE) ≠ 0)
    (hv : ∀ e ∈ es, e.1.length < 65536 ∧ e.2 < 2 ^ 32)
    (hl : (psk_identities_wire es).length < 65536)
    (ha : psk_after env 0 es { s with ext := { s.ext with ticket_expected := 0 } } 0
      = some (s1, ext1)) :
    tls_parse_ctos_psk env s (psk_body (psk_identities_wire es) rest) pkt_offset
      = some (1, s1) := by
  have hloop := psk_loop_skipped env es (psk_identities_wire es).length _ 0 s1 ext1 hv ha
    (Nat.le_refl _)
  exact (tls_parse_ctos_psk_exit env s _ rest pkt_offset _ hmode hl hloop).2.1 s1 rfl

/-- The digest with which the loop breaks is the digest of the cipher of the
session. -/
theorem psk_loop_selected_md (env : PskEnv) :
    ∀ (fuel id : Nat) (identities : PACKET) (s : SSL_CONNECTION) (ext : Nat) (i : Nat)
      (s1 : SSL_CONNECTION) (ext1 : Nat) (sess : SSL_SESSION) (md : EVP_MD),
      psk_loop env fuel id identities s ext = some (PSK_EXIT.selected i s1 ext1 sess md) →
      ∃ cipher : SSL_CIPHER, sess.cipher = some cipher
        ∧ env.ssl_md cipher.algorithm2 = some md := by
  intro fuel
  induction fuel with
  | zero =>
    intro id identities s ext i s1 ext1 sess md h
    rw [psk_loop] at h
    split at h <;> simp at h
  | succ fuel ih =>
    intro id identities s ext i s1 ext1 sess md h
    rw [psk_loop] at h
    split at h
    · simp at h
    · split at h
      · simp at h
      · split at h
        · simp at h
        · rename_i identity identities1 _ _ ticket_agel identities2 _
          cases hstep : psk_identity env id s ext identity ticket_agel with
          | none => rw [hstep] at h; simp at h
          | some st =>
            rw [hstep] at h
            cases st with
            | ret r1 => simp at h
            | skip s2 ext2 =>
              simp only [] at h
              exact ih (id + 1) identities2 s2 ext2 i s1 ext1 sess md h
            | found s2 ext2 sess2 md2 =>
              simp only [Option.some.injEq, PSK_EXIT.selected.injEq] at h
              obtain ⟨_, _, _, e3, e4⟩ := h
              subst e3 e4
              obtain ⟨_, cipher, _, _, hc, hm, _⟩ :=
                psk_identity_found env id s ext identity ticket_agel s2 ext2 sess2 md2 hstep
              exact ⟨cipher, hc, hm⟩

/-! ### The early data window -/

theorem ossl_ms2time_eq (ms : Nat) (h : ms < 2 ^ 32) : ossl_ms2time ms = ms * 1000000 := by
  unfold ossl_ms2time OSSL_TIME_MS
  apply Nat.mod_eq_of_lt
  have : ms * 1000000 < 2 ^ 32 * 1000000 := by omega
  omega

theorem ossl_time_subtract_eq (a b : Nat) : ossl_time_subtract a b = a - b := by
  unfold ossl_time_subtract
  split <;> omega

/-- The test of lines 1475-1479 is the early data window. -/
theorem early_data_test (env : PskEnv) (sess : SSL_SESSION) (ticket_agel : Nat)
    (hage : ticket_agel < 2 ^ 32) (hadd : sess.ext.tick_age_add < 2 ^ 32)
    (hnow : env.ossl_time_now + 1000000000 < 2 ^ 64) :
    (ossl_time_compare sess.timeout (ossl_time_subtract env.ossl_time_now sess.time) ≥ 0
      ∧ ossl_time_compare
          (ossl_time_subtract (ossl_ms2time ticket_agel) (ossl_ms2time sess.ext.tick_age_add))
          (ossl_time_add (ossl_time_subtract env.ossl_time_now sess.time) (ossl_ms2time 1000))
          ≤ 0
      ∧ ossl_time_compare
          (ossl_time_add
            (ossl_time_subtract (ossl_ms2time ticket_agel) (ossl_ms2time sess.ext.tick_age_add))
            TICKET_AGE_ALLOWANCE)
          (ossl_time_add (ossl_time_subtract env.ossl_time_now sess.time) (ossl_ms2time 1000))
          ≥ 0)
      ↔ early_data_window env sess ticket_agel := by
  have h1000 : ossl_ms2time 1000 = 1000000000 := by decide
  have hallow : TICKET_AGE_ALLOWANCE = 10000000000 := by decide
  rw [ossl_ms2time_eq ticket_agel hage, ossl_ms2time_eq _ hadd, h1000, hallow]
  simp only [ossl_time_subtract_eq]
  unfold early_data_window ticket_age session_age
  have hA : ticket_agel * 1000000 - sess.ext.tick_age_add * 1000000 < 2 ^ 32 * 1000000 := by
    omega
  have ha1 : ossl_time_add (env.ossl_time_now - sess.time) 1000000000
      = env.ossl_time_now - sess.time + 1000000000 := by
    unfold ossl_time_add
    rw [if_pos (by omega)]
  have ha2 : ossl_time_add (ticket_agel * 1000000 - sess.ext.tick_age_add * 1000000) 10000000000
      = ticket_agel * 1000000 - sess.ext.tick_age_add * 1000000 + 10000000000 := by
    unfold ossl_time_add
    rw [if_pos (by norm_num at hA ⊢; omega)]
  rw [ha1, ha2]
  unfold ossl_time_compare
  constructor
  · rintro ⟨c1, c2, c3⟩
    refine ⟨?_, ?_, ?_⟩
    · by_contra hc
      rw [if_neg (by omega), if_pos (by omega)] at c1
      omega
    · by_contra hc
      rw [if_pos (by omega)] at c2
      omega
    · by_contra hc
      rw [if_neg (by omega), if_pos (by omega)] at c3
      omega
  · rintro ⟨c1, c2, c3⟩
    refine ⟨?_, ?_, ?_⟩
    · split
      · omega
      · rw [if_neg (by omega)]
    · rw [if_neg (by omega)]
      split <;> omega
    · split
      · omega
      · rw [if_neg (by omega)]

/-- The early data decision for a session from a ticket. -/
theorem psk_ticket_session_early_data (env : PskEnv) (id : Nat) (s : SSL_CONNECTION)
    (ext : Nat) (sess : SSL_SESSION) (ticket_agel : Nat)
    (hage : ticket_agel < 2 ^ 32) (hadd : sess.ext.tick_age_add < 2 ^ 32)
    (hnow : env.ossl_time_now + 1000000000 < 2 ^ 64)
    (s1 : SSL_CONNECTION) (ext1 : Nat) (sess1 : SSL_SESSION)
    (h : psk_ticket_session env id s ext sess ticket_agel = PSK_OBTAIN.sess s1 ext1 sess1) :
    s1.ext.early_data_ok
        = (if id = 0 ∧ early_data_window env sess ticket_agel then 1 else s.ext.early_data_ok)
      ∧ ext1 = ext ∧ sess1 = sess := by
  have ht := early_data_test env sess ticket_agel hage hadd hnow
  unfold psk_ticket_session at h
  split at h
  · simp at h
  · simp only [] at h
    by_cases hw : id = 0 ∧ early_data_window env sess ticket_agel
    · rw [if_pos hw]
      rw [if_pos ⟨hw.1, ht.mpr hw.2⟩] at h
      simp only [PSK_OBTAIN.sess.injEq] at h
      obtain ⟨e1, e2, e3⟩ := h
      exact ⟨by rw [← e1], e2.symm, e3.symm⟩
    · rw [if_neg hw]
      rw [if_neg (by rintro ⟨c0, c⟩; exact hw ⟨c0, ht.mp c⟩)] at h
      simp only [PSK_OBTAIN.sess.injEq] at h
      obtain ⟨e1, e2, e3⟩ := h
      refine ⟨?_, e2.symm, e3.symm⟩
      rw [← e1]
      split <;> rfl

/-! ## Lemmas on the state after a failed key_share -/

theorem key_share_state_kept_refl (s : SSL_CONNECTION) : key_share_state_kept s s :=
  ⟨rfl, rfl, rfl⟩

theorem tls_accept_ksgroup_fail (env : Env) (s : SSL_CONNECTION) (g : Nat) (key : PACKET)
    (h : (tls_accept_ksgroup env s g key).1 = 0) :
    key_share_accept_failed env (tls_accept_ksgroup env s g key).2 := by
  unfold tls_accept_ksgroup at h ⊢
  simp only [] at h ⊢
  by_cases hg : env.ssl_generate_param_group g = false
  · rw [if_pos hg]
    exact ⟨g, key, rfl, rfl, rfl, Or.inl ⟨hg, rfl, rfl⟩⟩
  · rw [if_neg hg] at h ⊢
    by_cases hk : env.tls13_set_encoded_pub_key g key = false
    · rw [if_pos hk]
      exact ⟨g, key, rfl, rfl, rfl, Or.inr ⟨by simpa using hg, hk, rfl, rfl⟩⟩
    · rw [if_neg hk] at h
      simp at h

/-- The share loop writes the connection only through SSLfatal and through
tls_accept_ksgroup. -/
theorem extract_keyshares_loop_state (env : Env) (clnt srvr : List Nat) :
    ∀ (fuel : Nat) (s : SSL_CONNECTION) (ksl : PACKET) (ka : List Nat) (ea : List PACKET)
      (ks : KS_EXTRACTION),
      extract_keyshares_loop env clnt srvr fuel s ksl ka ea = some ks →
      (ks.result = KS_EXTRACTION_RESULT.EXTRACTION_FAILURE →
          key_share_state_kept s ks.s ∨ key_share_accept_failed env ks.s)
        ∧ (ks.result = KS_EXTRACTION_RESULT.EXTRACTION_SUCCESS → ks.s = s) := by
  intro fuel
  induction fuel with
  | zero => intro s ksl ka ea ks h; simp [extract_keyshares_loop] at h
  | succ fuel ih =>
    intro s ksl ka ea ks h
    unfold extract_keyshares_loop at h
    have hfat : ∀ al reason,
        (some (⟨KS_EXTRACTION_RESULT.EXTRACTION_FAILURE, SSLfatal s al reason, [], []⟩
          : KS_EXTRACTION) = some ks) →
        (ks.result = KS_EXTRACTION_RESULT.EXTRACTION_FAILURE →
            key_share_state_kept s ks.s ∨ key_share_accept_failed env ks.s)
          ∧ (ks.result = KS_EXTRACTION_RESULT.EXTRACTION_SUCCESS → ks.s = s) := by
      intro al reason he
      simp only [Option.some.injEq] at he
      rw [← he]
      exact ⟨fun _ => Or.inl ⟨rfl, rfl, rfl⟩, fun hc => by simp at hc⟩
    split at h
    · split at h
      · exact hfat _ _ h
      · split at h
        · exact hfat _ _ h
        · split at h
          · exact hfat _ _ h
          · split at h
            · exact hfat _ _ h
            · split at h
              · exact hfat _ _ h
              · split at h
                · simp only [] at h
                  split at h
                  · rename_i hr
                    simp only [Option.some.injEq] at h
                    rw [← h]
                    exact ⟨fun _ => Or.inr (tls_accept_ksgroup_fail env _ _ _ hr),
                      fun hc => by simp at hc⟩
                  · simp only [Option.some.injEq] at h
                    rw [← h]
                    exact ⟨fun hc => by simp at hc, fun hc => by simp at hc⟩
                · split at h
                  · exact ih s _ ka ea ks h
                  · exact ih s _ _ _ ks h
    · simp only [Option.some.injEq] at h
      rw [← h]
      exact ⟨fun hc => by simp at hc, fun _ => rfl⟩

/-- The tuple loop fails only through tls_accept_ksgroup. -/
theorem tuple_loop_fail (env : Env) (clnt K : List Nat) (E : List PACKET) :
    ∀ (tuples : List Nat) (s : SSL_CONNECTION) (first : List Nat) (r : RET),
      tuple_loop env clnt K E s first tuples = some r → r.1 ≠ 1 →
      r.1 = 0 ∧ key_share_accept_failed env r.2 := by
  intro tuples
  induction tuples with
  | nil =>
    intro s first r h hne
    simp only [tuple_loop, Option.some.injEq] at h
    rw [← h] at hne
    simp at hne
  | cons n tuples ih =>
    intro s first r h hne
    unfold tuple_loop at h
    simp only [] at h
    have hacc : ∀ g key,
        (if (tls_accept_ksgroup env s g key).1 = 0 then
            some (0, (tls_accept_ksgroup env s g key).2)
          else some (1, (tls_accept_ksgroup env s g key).2)) = some r →
        r.1 = 0 ∧ key_share_accept_failed env r.2 := by
      intro g key he
      by_cases hz : (tls_accept_ksgroup env s g key).1 = 0
      · rw [if_pos hz] at he
        simp only [Option.some.injEq] at he
        rw [← he]
        exact ⟨rfl, tls_accept_ksgroup_fail env s g key hz⟩
      · rw [if_neg hz] at he
        simp only [Option.some.injEq] at he
        rw [← he] at hne
        simp at hne
    split at h
    · split at h
      · simp at h
      · split at h
        · exact hacc _ _ h
        · split at h
          · simp at h
          · split at h
            · simp only [Option.some.injEq] at h
              rw [← h] at hne
              simp at hne
            · exact ih s _ r h hne
    · split at h
      · simp at h
      · split at h
        · exact hacc _ _ h
        · split at h
          · simp at h
          · split at h
            · simp only [Option.some.injEq] at h
              rw [← h] at hne
              simp at hne
            · exact ih s _ r h hne

/-- The state after a failed tls_parse_ctos_key_share. -/
theorem tls_parse_ctos_key_share_fail (env : Env) (s : SSL_CONNECTION) (pkt : PACKET) (r : RET)
    (h : tls_parse_ctos_key_share env s pkt = some r) (hne : r.1 ≠ 1) :
    r.1 = 0 ∧ (key_share_state_kept s r.2 ∨ key_share_accept_failed env r.2) := by
  unfold tls_parse_ctos_key_share at h
  simp only [] at h
  have hfat : ∀ al reason,
      some ((0 : Nat), SSLfatal { s with s3 := { s.s3 with group_id_candidate := 0 } } al reason)
        = some r →
      r.1 = 0 ∧ (key_share_state_kept s r.2 ∨ key_share_accept_failed env r.2) := by
    intro al reason he
    simp only [Option.some.injEq] at he
    rw [← he]
    exact ⟨rfl, Or.inl ⟨rfl, rfl, rfl⟩⟩
  split at h
  · simp only [Option.some.injEq] at h
    rw [← h] at hne
    simp at hne
  · split at h
    · exact hfat _ _ h
    · split at h
      · exact hfat _ _ h
      · split at h
        · exact hfat _ _ h
        · split at h
          · exact hfat _ _ h
          · split at h
            · simp at h
            · rename_i ks hks
              unfold extract_keyshares at hks
              obtain ⟨hs1, hs2⟩ := extract_keyshares_loop_state env _ _ _ _ _ _ _ ks hks
              split at h
              · rename_i hres
                simp only [Option.some.injEq] at h
                rw [← h]
                refine ⟨rfl, ?_⟩
                rcases hs1 hres with hk | hk
                · exact Or.inl ⟨hk.1, hk.2.1, hk.2.2⟩
                · exact Or.inr hk
              · split at h
                · simp only [Option.some.injEq] at h
                  rw [← h] at hne
                  simp at hne
                · obtain ⟨h0, hf⟩ := tuple_loop_fail env _ _ _ _ _ _ r h hne
                  exact ⟨h0, Or.inr hf⟩

/-! ## Lemmas for the last claims -/

/-! ### The overlap helper and the accepted key -/

theorem indexOf_cons_eq_self (a : Nat) (l : List Nat) : (a :: l).indexOf a = 0 := by
  simp [List.indexOf_cons]

theorem indexOf_cons_of_ne (a g : Nat) (l : List Nat) (h : g ≠ a) :
    (a :: l).indexOf g = l.indexOf g + 1 := by
  rw [List.indexOf_cons]
  have : (a == g) = false := by simpa using (fun h1 => h h1.symm)
  rw [this]; rfl

theorem getElem?_indexOf_of_mem (l : List Nat) (g : Nat) (h : g ∈ l) :
    l[l.indexOf g]? = some g := by
  induction l with
  | nil => simp at h
  | cons a l ih =>
    by_cases hg : g = a
    · subst hg; simp [indexOf_cons_eq_self]
    · rw [indexOf_cons_of_ne a g l hg]
      rcases List.mem_cons.mp h with h1 | h1
      · exact absurd h1 hg
      · simpa using ih h1

theorem indexOf_le_of_getElem? (l : List Nat) (g : Nat) :
    ∀ j : Nat, l[j]? = some g → l.indexOf g ≤ j := by
  induction l with
  | nil => intro j h; simp at h
  | cons a l ih =>
    intro j h
    by_cases hg : g = a
    · subst hg; simp [indexOf_cons_eq_self]
    · rw [indexOf_cons_of_ne a g l hg]
      cases j with
      | zero => simp at h; exact absurd h.symm hg
      | succ j =>
        have := ih j (by simpa using h)
        omega

theorem mem_of_getElem?_eq (l : List Nat) (g : Nat) :
    ∀ j : Nat, l[j]? = some g → g ∈ l := by
  induction l with
  | nil => intro j h; simp at h
  | cons a l ih =>
    intro j h
    cases j with
    | zero => simp at h; simp [h]
    | succ j => exact List.mem_cons_of_mem _ (ih j (by simpa using h))

theorem overlap_helper_from_none (env : Env) (B : List Nat) :
    ∀ (A : List Nat) (i : Nat), (∀ g ∈ A, ¬ (g ∈ B ∧ passes_policy env g = true)) →
      overlap_helper_from env B A i = none := by
  intro A
  induction A with
  | nil => intro i _; rfl
  | cons a A ih =>
    intro i h
    rw [overlap_helper_from, if_neg (h a (List.mem_cons_self _ _))]
    exact ih (i + 1) (fun g hg => h g (List.mem_cons_of_mem _ hg))

theorem overlap_helper_from_lowest (env : Env) (B : List Nat) (g : Nat) :
    ∀ (A : List Nat) (i : Nat), IsLowestOverlap env A B g →
      overlap_helper_from env B A i = some (i + A.indexOf g, B.indexOf g, g) := by
  intro A
  induction A with
  | nil => intro i h; exact absurd h.1 (by simp)
  | cons a A ih =>
    intro i h
    obtain ⟨hgA, hgB, hgP, hmin⟩ := h
    rw [overlap_helper_from]
    by_cases ha : a ∈ B ∧ passes_policy env a = true
    · rw [if_pos ha]
      have h0 := hmin a (List.mem_cons_self _ _) ha.1 ha.2
      rw [indexOf_cons_eq_self] at h0
      have hga : g = a := by
        by_contra hne
        rw [indexOf_cons_of_ne a g A hne] at h0
        omega
      subst hga
      simp [indexOf_cons_eq_self]
    · rw [if_neg ha]
      have hne : g ≠ a := fun e => ha (e ▸ ⟨hgB, hgP⟩)
      have hgA1 : g ∈ A := by
        rcases List.mem_cons.mp hgA with h1 | h1
        · exact absurd h1 hne
        · exact h1
      have hlow : IsLowestOverlap env A B g := by
        refine ⟨hgA1, hgB, hgP, fun h hA hB hP => ?_⟩
        have hha : h ≠ a := fun e => ha (e ▸ ⟨hB, hP⟩)
        have := hmin h (List.mem_cons_of_mem _ hA) hB hP
        rw [indexOf_cons_of_ne a g A hne, indexOf_cons_of_ne a h A hha] at this
        omega
      rw [ih (i + 1) hlow, indexOf_cons_of_ne a g A hne]
      simp only [Option.some.injEq, Prod.mk.injEq, and_true]
      omega

/-- The outcome of check_overlap in terms of the lists. -/
theorem check_overlap_cases (env : Env) (A B : List Nat) (hB : B.length ≤ 65535) :
    (¬ HasOverlap env A B ∧ check_overlap env A B = some ⟨A.length, 0, 0, 0⟩)
    ∨ ∃ g, IsLowestOverlap env A B g
        ∧ check_overlap env A B = some ⟨A.indexOf g, A.indexOf g, B.indexOf g, g⟩ := by
  by_cases hov : HasOverlap env A B
  · exact Or.inr (check_overlap_of_overlap env A B hB hov)
  · exact Or.inl ⟨hov, check_overlap_of_no_overlap env A B hB hov⟩


theorem suitable_congr (env : Env) (srvr : List Nat) (e1 e2 : KeyShareEntry)
    (h : e1.group = e2.group) : suitable env srvr e1 = suitable env srvr e2 := by
  unfold suitable; rw [h]

/-- The key kept at the position of group g is the key of the first share of
the list whose group is g. -/
theorem kept_key_first_share (env : Env) (srvr : List Nat) (g : Nat) :
    ∀ es : List KeyShareEntry,
      g ∈ (es.filter (suitable env srvr)).map KeyShareEntry.group →
      ∃ e, es.find? (fun e => e.group = g) = some e
        ∧ ((es.filter (suitable env srvr)).map KeyShareEntry.key_exchange).getD
            (((es.filter (suitable env srvr)).map KeyShareEntry.group).indexOf g) []
          = e.key_exchange := by
  intro es
  induction es with
  | nil => intro h; simp at h
  | cons e es ih =>
    intro h
    by_cases hs : suitable env srvr e = true
    · rw [List.filter_cons_of_pos hs] at h ⊢
      simp only [List.map_cons] at h ⊢
      by_cases hg : e.group = g
      · refine ⟨e, by simp [hg], ?_⟩
        rw [← hg, List.indexOf_cons_self]
        rfl
      · have hg1 : g ≠ e.group := fun x => hg x.symm
        rcases List.mem_cons.mp h with h1 | h1
        · exact absurd h1 hg1
        obtain ⟨e1, he1, hk⟩ := ih h1
        refine ⟨e1, by simpa [List.find?_cons, hg] using he1, ?_⟩
        rw [List.indexOf_cons_ne _ (fun x => hg x)]
        simpa using hk
    · have hs1 : suitable env srvr e = false := by simpa using hs
      have hfil : (e :: es).filter (suitable env srvr) = es.filter (suitable env srvr) := by
        simp [List.filter_cons, hs1]
      rw [hfil] at h ⊢
      obtain ⟨e1, he1, hk⟩ := ih h
      have hg : e.group ≠ g := by
        intro hg
        obtain ⟨e2, he2, hge2⟩ := List.mem_map.mp h
        have := (List.mem_filter.mp he2).2
        rw [suitable_congr env srvr e2 e (by rw [hge2, hg])] at this
        rw [hs1] at this
        exact absurd this (by simp)
      exact ⟨e1, by simpa [List.find?_cons, hg] using he1, hk⟩

theorem check_overlap_inv (env : Env) (A B : List Nat) (o : OVERLAP)
    (h : check_overlap env A B = some o) :
    o = ⟨A.length, 0, 0, 0⟩
    ∨ ∃ g, IsLowestOverlap env A B g ∧ o = ⟨A.indexOf g, A.indexOf g, B.indexOf g, g⟩ := by
  have hB : B.length ≤ 65535 := by
    by_contra hB
    unfold check_overlap at h
    rw [if_neg hB] at h
    exact absurd h (by simp)
  rcases check_overlap_cases env A B hB with ⟨_, heq⟩ | ⟨g, hg, heq⟩
  · rw [heq] at h
    exact Or.inl (Option.some.inj h).symm
  · rw [heq] at h
    exact Or.inr ⟨g, hg, (Option.some.inj h).symm⟩

/-- A result of the tuple loop with group_id set comes from tls_accept_ksgroup
on a kept group with the key kept at the position of that group. -/
theorem tuple_loop_accept_inv (env : Env) (clnt K : List Nat) (E : List PACKET)
    (s : SSL_CONNECTION) (hgid : s.s3.group_id = 0) :
    ∀ (sizes first : List Nat) (r : RET),
      tuple_loop env clnt K E s first sizes = some r → r.2.s3.group_id ≠ 0 →
      ∃ g, g ∈ K ∧ r = tls_accept_ksgroup env s g (E.getD (K.indexOf g) []) := by
  intro sizes
  induction sizes with
  | nil =>
    intro first r h hr
    rw [tuple_loop] at h
    rw [← Option.some.inj h] at hr
    exact absurd hgid hr
  | cons n ns ih =>
    intro first r h hr
    rw [tuple_loop] at h
    simp only [] at h
    by_cases hp : s.options &&& SSL_OP_SERVER_PREFERENCE ≠ 0
    · rw [if_pos hp] at h
      cases h1 : check_overlap env (first.take n) K with
      | none => rw [h1] at h; exact absurd h (by simp)
      | some o =>
        rw [h1] at h
        simp only [] at h
        rcases check_overlap_inv env _ _ o h1 with ho | ⟨g, hg, ho⟩
        · subst ho
          simp only [gt_iff_lt, lt_self_iff_false, if_false] at h
          cases h2 : check_overlap env (first.take n) clnt with
          | none => rw [h2] at h; exact absurd h (by simp)
          | some o2 =>
            rw [h2] at h
            simp only [] at h
            by_cases hsel : o2.selected_group > 0
            · rw [if_pos hsel] at h
              rw [← Option.some.inj h] at hr
              exact absurd hgid hr
            · rw [if_neg hsel] at h
              exact ih _ r h hr
        · subst ho
          simp only [] at h
          by_cases hg0 : g > 0
          · rw [if_pos hg0, tls_accept_ksgroup_ret] at h
            exact ⟨g, hg.2.1, (Option.some.inj h).symm⟩
          · rw [if_neg hg0] at h
            cases h2 : check_overlap env (first.take n) clnt with
            | none => rw [h2] at h; exact absurd h (by simp)
            | some o2 =>
              rw [h2] at h
              simp only [] at h
              by_cases hsel : o2.selected_group > 0
              · rw [if_pos hsel] at h
                rw [← Option.some.inj h] at hr
                exact absurd hgid hr
              · rw [if_neg hsel] at h
                exact ih _ r h hr
    · rw [if_neg hp] at h
      cases h1 : check_overlap env K (first.take n) with
      | none => rw [h1] at h; exact absurd h (by simp)
      | some o =>
        rw [h1] at h
        simp only [] at h
        rcases check_overlap_inv env _ _ o h1 with ho | ⟨g, hg, ho⟩
        · subst ho
          simp only [gt_iff_lt, lt_self_iff_false, if_false] at h
          cases h2 : check_overlap env clnt (first.take n) with
          | none => rw [h2] at h; exact absurd h (by simp)
          | some o2 =>
            rw [h2] at h
            simp only [] at h
            by_cases hsel : o2.selected_group > 0
            · rw [if_pos hsel] at h
              rw [← Option.some.inj h] at hr
              exact absurd hgid hr
            · rw [if_neg hsel] at h
              exact ih _ r h hr
        · subst ho
          simp only [] at h
          by_cases hg0 : g > 0
          · rw [if_pos hg0, tls_accept_ksgroup_ret] at h
            exact ⟨g, hg.1, (Option.some.inj h).symm⟩
          · rw [if_neg hg0] at h
            cases h2 : check_overlap env clnt (first.take n) with
            | none => rw [h2] at h; exact absurd h (by simp)
            | some o2 =>
              rw [h2] at h
              simp only [] at h
              by_cases hsel : o2.selected_group > 0
              · rw [if_pos hsel] at h
                rw [← Option.some.inj h] at hr
                exact absurd hgid hr
              · rw [if_neg hsel] at h
                exact ih _ r h hr

/-- When no tuple overlaps what the client offered the tuple loop runs off its
end with ret = 1 and the connection untouched. -/
theorem tuple_loop_no_overlap (env : Env) (clnt K : List Nat) (E : List PACKET)
    (s : SSL_CONNECTION) (hK : K.length ≤ 65535) (hC : clnt.length ≤ 65535) :
    ∀ (sizes first : List Nat), first.length ≤ 65535 →
      (∀ U ∈ group_tuples first sizes, ¬ HasOverlap env U K ∧ ¬ HasOverlap env U clnt) →
      tuple_loop env clnt K E s first sizes = some (1, s) := by
  intro sizes
  induction sizes with
  | nil => intro first _ _; rw [tuple_loop]
  | cons n ns ih =>
    intro first hfl hno
    have hU := hno (first.take n) (by rw [group_tuples]; exact List.mem_cons_self _ _)
    rw [tuple_loop_skip env clnt K E s first n ns hK (fun _ => hC)
      (fun _ => by simp; omega) hU.1 hU.2]
    exact ih (first.drop n) (by simp; omega)
      (fun U hU1 => hno U (by rw [group_tuples]; exact List.mem_cons_of_mem _ hU1))

theorem tls_parse_ctos_key_share_reset (env : Env) (s : SSL_CONNECTION) (pkt : PACKET)
    (c : Nat) :
    tls_parse_ctos_key_share env { s with s3 := { s.s3 with group_id_candidate := c } } pkt
      = tls_parse_ctos_key_share env s pkt := rfl


/-! ### Anti-replay and the digest check -/

/-- A session found in the cache under a non-empty id is removed by
SSL_CTX_remove_session, and is not found afterwards. -/
theorem SSL_CTX_remove_session_of_lookup (s : SSL_CONNECTION) (tick : PACKET)
    (sess : SSL_SESSION) (hl : tick.length ≠ 0)
    (h : lookup_sess_in_cache s tick = some sess) :
    (SSL_CTX_remove_session s.session_ctx sess).1 = 1
      ∧ (SSL_CTX_remove_session s.session_ctx sess).2
          = { s.session_ctx with sessions := s.session_ctx.sessions.filter (fun r =>
                !(r.ssl_version == sess.ssl_version && r.session_id == sess.session_id)) }
      ∧ lookup_sess_in_cache
          { s with session_ctx := (SSL_CTX_remove_session s.session_ctx sess).2 } tick = none := by
  unfold lookup_sess_in_cache at h
  have hp := List.find?_some h
  have hm := List.mem_of_find?_eq_some h
  simp only [Bool.and_eq_true, beq_iff_eq] at hp
  have hcond : sess.session_id.length ≠ 0
      ∧ s.session_ctx.sessions.any (fun r =>
          r.ssl_version == sess.ssl_version && r.session_id == sess.session_id) = true := by
    refine ⟨by rw [hp.2]; exact hl, ?_⟩
    rw [List.any_eq_true]
    exact ⟨sess, hm, by simp⟩
  have heq : SSL_CTX_remove_session s.session_ctx sess
      = (1, { s.session_ctx with sessions := s.session_ctx.sessions.filter (fun r =>
                !(r.ssl_version == sess.ssl_version && r.session_id == sess.session_id)) }) := by
    unfold SSL_CTX_remove_session
    simp only []
    rw [if_pos hcond]
  rw [heq]
  refine ⟨rfl, rfl, ?_⟩
  unfold lookup_sess_in_cache
  rw [List.find?_eq_none]
  intro r hr
  have := (List.mem_filter.mp hr).2
  simp only [Bool.not_eq_true', Bool.and_eq_false_iff, beq_eq_false_iff_ne] at this
  simp only [Bool.and_eq_true, beq_iff_eq, not_and]
  intro hv hid
  rcases this with h1 | h1
  · exact absurd (hv.trans hp.1.symm) h1
  · exact absurd (hid.trans hp.2.symm) h1

/-- With anti-replay on, a ticket identity that is found in the cache and
whose digest differs from the negotiated one is passed over after the session
has been taken out of the cache. -/
theorem psk_identity_replay_mismatch (env : PskEnv) (id : Nat) (s : SSL_CONNECTION) (ext : Nat)
    (identity : PACKET) (ticket_agel : Nat) (sess : SSL_SESSION) (cipher new_cipher : SSL_CIPHER)
    (md : EVP_MD)
    (h1 : psk_find_session env s identity = PSK_LOOKUP.sess none)
    (h2 : psk_server_session env s identity = PSK_LOOKUP.sess none)
    (hearly : s.max_early_data > 0) (hreplay : s.options &&& SSL_OP_NO_ANTI_REPLAY = 0)
    (hlen : identity.length = SSL_MAX_SSL_SESSION_ID_LENGTH)
    (hlook : lookup_sess_in_cache s identity = some sess)
    (hc : sess.cipher = some cipher) (hmd : env.ssl_md cipher.algorithm2 = some md)
    (hnc : s.s3.tmp.new_cipher = some new_cipher)
    (hdiff : EVP_MD_is_a md (EVP_MD_get0_name (env.ssl_md new_cipher.algorithm2)) = false) :
    psk_identity env id s ext identity ticket_agel
      = some (PSK_STEP.skip
          { s with ext := { s.ext with early_data_ok := 0, ticket_expected := 0 },
                   session_ctx := (SSL_CTX_remove_session s.session_ctx sess).2 } ext) := by
  have hl : identity.length ≠ 0 := by rw [hlen]; decide
  obtain ⟨hone, _, _⟩ := SSL_CTX_remove_session_of_lookup s identity sess hl hlook
  have hget : tls_get_stateful_ticket s identity
      = (TICKET_RESULT.SSL_TICKET_SUCCESS sess,
          { s with ext := { s.ext with ticket_expected := 1 } }) := by
    unfold tls_get_stateful_ticket
    simp only []
    rw [if_neg (by simpa [PACKET_remaining] using hl), if_pos (by simpa [PACKET_remaining] using hlen)]
    have : lookup_sess_in_cache { s with ext := { s.ext with ticket_expected := 1 } } identity
        = some sess := hlook
    rw [this]
  have hne : ¬ ((SSL_CTX_remove_session s.session_ctx sess).1 = 0) := by rw [hone]; decide
  have hobt : ∃ s2, psk_obtain env id s ext identity ticket_agel = PSK_OBTAIN.sess s2 ext sess
      ∧ s2.s3 = s.s3
      ∧ { s2 with ext := { s2.ext with early_data_ok := 0, ticket_expected := 0 } }
          = { s with ext := { s.ext with early_data_ok := 0, ticket_expected := 0 },
                     session_ctx := (SSL_CTX_remove_session s.session_ctx sess).2 } := by
    unfold psk_obtain
    rw [h1]
    simp only []
    rw [h2]
    simp only []
    unfold psk_ticket
    rw [if_pos (Or.inr ⟨hearly, hreplay⟩)]
    simp only []
    rw [hget]
    simp only []
    unfold psk_ticket_session
    simp only [hearly, hreplay, hne, and_false, and_true, if_false, if_true, true_and]
    by_cases hw : id = 0
        ∧ ossl_time_compare sess.timeout (ossl_time_subtract env.ossl_time_now sess.time) ≥ 0
        ∧ ossl_time_compare
            (ossl_time_subtract (ossl_ms2time ticket_agel) (ossl_ms2time sess.ext.tick_age_add))
            (ossl_time_add (ossl_time_subtract env.ossl_time_now sess.time) (ossl_ms2time 1000))
            ≤ 0
        ∧ ossl_time_compare
            (ossl_time_add
              (ossl_time_subtract (ossl_ms2time ticket_agel) (ossl_ms2time sess.ext.tick_age_add))
              TICKET_AGE_ALLOWANCE)
            (ossl_time_add (ossl_time_subtract env.ossl_time_now sess.time) (ossl_ms2time 1000))
            ≥ 0
    · rw [if_pos hw]; exact ⟨_, rfl, rfl, rfl⟩
    · rw [if_neg hw]; exact ⟨_, rfl, rfl, rfl⟩
  obtain ⟨s2, hs2, hs3, hfin⟩ := hobt
  unfold psk_identity
  rw [hs2]
  simp only []
  unfold psk_check_md
  rw [hc]
  simp only []
  rw [hmd]
  simp only []
  have hnc2 : s2.s3.tmp.new_cipher = some new_cipher := by rw [hs3]; exact hnc
  rw [hnc2]
  simp only []
  rw [if_pos hdiff, hfin]

theorem psk_after_snoc (env : PskEnv) (pre : List (List Nat × Nat)) (e : List Nat × Nat) :
    ∀ (id : Nat) (s : SSL_CONNECTION) (ext : Nat) (s0 : SSL_CONNECTION) (ext0 : Nat)
      (s1 : SSL_CONNECTION) (ext1 : Nat),
      psk_after env id pre s ext = some (s0, ext0) →
      psk_identity env (id + pre.length) s0 ext0 e.1 e.2 = some (PSK_STEP.skip s1 ext1) →
      psk_after env id (pre ++ [e]) s ext = some (s1, ext1) := by
  induction pre with
  | nil =>
    intro id s ext s0 ext0 s1 ext1 h hstep
    simp only [psk_after, Option.some.injEq, Prod.mk.injEq] at h
    rw [← h.1, ← h.2] at hstep
    simp only [List.length_nil, Nat.add_zero] at hstep
    simp only [List.nil_append, psk_after, hstep]
  | cons p pre ih =>
    intro id s ext s0 ext0 s1 ext1 h hstep
    rw [List.cons_append, psk_after]
    rw [psk_after] at h
    cases hp : psk_identity env id s ext p.1 p.2 with
    | none => rw [hp] at h; simp at h
    | some st =>
      rw [hp] at h
      cases st with
      | ret r => simp at h
      | found a b c d => simp at h
      | skip s2 ext2 =>
        simp only [] at h ⊢
        refine ih (id + 1) s2 ext2 s0 ext0 s1 ext1 h ?_
        rw [List.length_cons] at hstep
        rw [show id + 1 + pre.length = id + (pre.length + 1) by omega]
        exact hstep

/-! ### early_data_ok along the identity loop -/

theorem psk_session_found_early (env : PskEnv) (id : Nat) (s : SSL_CONNECTION)
    (sess : SSL_SESSION) (hid : id ≠ 0) :
    (psk_session_found env id s sess).conn.ext.early_data_ok = s.ext.early_data_ok := by
  unfold psk_session_found
  split
  · rfl
  · simp only [PSK_OBTAIN.conn]
    rw [if_neg hid]

theorem tls_get_stateful_ticket_early (s : SSL_CONNECTION) (tick : PACKET) :
    (tls_get_stateful_ticket s tick).2.ext.early_data_ok = s.ext.early_data_ok := by
  unfold tls_get_stateful_ticket
  simp only []
  split
  · rfl
  · split
    · split <;> rfl
    · rfl

theorem psk_ticket_session_early (env : PskEnv) (id : Nat) (s : SSL_CONNECTION) (ext : Nat)
    (sess : SSL_SESSION) (ticket_agel : Nat) :
    (psk_ticket_session env id s ext sess ticket_agel).conn.ext.early_data_ok
        = s.ext.early_data_ok
      ∨ (id = 0 ∧ ∃ s1 ext1 sess1,
          psk_ticket_session env id s ext sess ticket_agel = PSK_OBTAIN.sess s1 ext1 sess1) := by
  unfold psk_ticket_session
  split
  · exact Or.inl rfl
  · simp only []
    split
    · rename_i hw
      exact Or.inr ⟨hw.1, _, _, _, rfl⟩
    · left
      simp only [PSK_OBTAIN.conn]
      split <;> rfl

theorem psk_ticket_early (env : PskEnv) (id : Nat) (s : SSL_CONNECTION) (ext : Nat)
    (identity : PACKET) (ticket_agel : Nat) :
    (psk_ticket env id s ext identity ticket_agel).conn.ext.early_data_ok = s.ext.early_data_ok
      ∨ (id = 0 ∧ ∃ s1 ext1 sess1,
          psk_ticket env id s ext identity ticket_agel = PSK_OBTAIN.sess s1 ext1 sess1) := by
  unfold psk_ticket
  have hr : (if s.options &&& SSL_OP_NO_TICKET ≠ 0
          ∨ (s.max_early_data > 0 ∧ s.options &&& SSL_OP_NO_ANTI_REPLAY = 0) then
        tls_get_stateful_ticket s identity
      else
        let d := env.tls_decrypt_ticket s identity
        (d.1, { s with ext := { s.ext with ticket_expected := d.2 } })).2.ext.early_data_ok
      = s.ext.early_data_ok := by
    split
    · exact tls_get_stateful_ticket_early s identity
    · rfl
  simp only []
  split
  · exact Or.inl hr
  · exact Or.inl hr
  · exact Or.inl hr
  · exact Or.inl hr
  · exact Or.inl hr
  · rcases psk_ticket_session_early env id _ ext _ ticket_agel with h | h
    · exact Or.inl (h.trans hr)
    · exact Or.inr h
  · rcases psk_ticket_session_early env id _ ext _ ticket_agel with h | h
    · exact Or.inl (h.trans hr)
    · exact Or.inr h

theorem psk_find_session_conn (env : PskEnv) (s : SSL_CONNECTION) (identity : PACKET) (r : RET)
    (h : psk_find_session env s identity = PSK_LOOKUP.fail r) :
    r.2.ext.early_data_ok = s.ext.early_data_ok := by
  unfold psk_find_session at h
  split at h
  · simp at h
  · split at h
    · simp only [PSK_LOOKUP.fail.injEq] at h
      rw [← h]; rfl
    · simp at h

theorem psk_server_session_conn (env : PskEnv) (s : SSL_CONNECTION) (identity : PACKET)
    (r : RET) (h : psk_server_session env s identity = PSK_LOOKUP.fail r) :
    r.2.ext.early_data_ok = s.ext.early_data_ok := by
  unfold psk_server_session at h
  split at h
  · simp at h
  · split at h
    · simp only [] at h
      split at h
      · simp only [PSK_LOOKUP.fail.injEq] at h
        rw [← h]; rfl
      · split at h
        · split at h
          · simp only [PSK_LOOKUP.fail.injEq] at h
            rw [← h]; rfl
          · split at h
            · simp only [PSK_LOOKUP.fail.injEq] at h
              rw [← h]; rfl
            · split at h
              · simp only [PSK_LOOKUP.fail.injEq] at h
                rw [← h]; rfl
              · simp at h
        · simp at h
    · simp at h

theorem psk_session_found_cases (env : PskEnv) (id : Nat) (s : SSL_CONNECTION)
    (sess : SSL_SESSION) :
    (psk_session_found env id s sess).conn.ext.early_data_ok = s.ext.early_data_ok
      ∨ (id = 0 ∧ ∃ s1 ext1 sess1,
          psk_session_found env id s sess = PSK_OBTAIN.sess s1 ext1 sess1) := by
  by_cases hid : id = 0
  · unfold psk_session_found
    split
    · exact Or.inl rfl
    · exact Or.inr ⟨hid, _, _, _, rfl⟩
  · exact Or.inl (psk_session_found_early env id s sess hid)

/-- The first part of the loop body leaves early_data_ok as it was, unless it
is the body for the first identity and it has found a session. -/
theorem psk_obtain_early (env : PskEnv) (id : Nat) (s : SSL_CONNECTION) (ext : Nat)
    (identity : PACKET) (ticket_agel : Nat) :
    (psk_obtain env id s ext identity ticket_agel).conn.ext.early_data_ok = s.ext.early_data_ok
      ∨ (id = 0 ∧ ∃ s1 ext1 sess1,
          psk_obtain env id s ext identity ticket_agel = PSK_OBTAIN.sess s1 ext1 sess1) := by
  unfold psk_obtain
  split
  · rename_i r hr
    exact Or.inl (psk_find_session_conn env s identity r hr)
  · exact psk_session_found_cases env id s _
  · split
    · rename_i r hr
      exact Or.inl (psk_server_session_conn env s identity r hr)
    · exact psk_session_found_cases env id s _
    · exact psk_ticket_early env id s ext identity ticket_agel

/-- One iteration of the identity loop: an identity that is passed over leaves
early_data_ok as it was or clear, and an identity that is selected leaves it
as it was unless it is the first identity. -/
theorem psk_identity_early (env : PskEnv) (id : Nat) (s : SSL_CONNECTION) (ext : Nat)
    (identity : PACKET) (ticket_agel : Nat) (st : PSK_STEP)
    (h : psk_identity env id s ext identity ticket_agel = some st) :
    (∀ s1 ext1, st = PSK_STEP.skip s1 ext1 →
        s1.ext.early_data_ok = s.ext.early_data_ok ∨ s1.ext.early_data_ok = 0)
      ∧ (∀ s1 ext1 sess md, st = PSK_STEP.found s1 ext1 sess md →
        s1.ext.early_data_ok = s.ext.early_data_ok ∨ id = 0) := by
  have ho := psk_obtain_early env id s ext identity ticket_agel
  unfold psk_identity at h
  cases hobt : psk_obtain env id s ext identity ticket_agel with
  | ret r =>
    rw [hobt] at h
    simp only [Option.some.injEq] at h
    subst h
    exact ⟨fun _ _ hx => by simp at hx, fun _ _ _ _ hx => by simp at hx⟩
  | skip s2 =>
    rw [hobt] at h ho
    simp only [Option.some.injEq] at h
    subst h
    refine ⟨fun s1 ext1 hx => ?_, fun _ _ _ _ hx => by simp at hx⟩
    simp only [PSK_STEP.skip.injEq] at hx
    rcases ho with ho | ⟨_, _, _, _, ho⟩
    · rw [← hx.1]; exact Or.inl ho
    · simp at ho
  | sess s2 ext2 sess2 =>
    rw [hobt] at h ho
    simp only [] at h
    have hs2 : s2.ext.early_data_ok = s.ext.early_data_ok ∨ id = 0 := by
      rcases ho with ho | ⟨hid, _⟩
      · exact Or.inl ho
      · exact Or.inr hid
    unfold psk_check_md at h
    split at h
    · simp at h
    · split at h
      · simp only [Option.some.injEq] at h
        subst h
        exact ⟨fun _ _ hx => by simp at hx, fun _ _ _ _ hx => by simp at hx⟩
      · split at h
        · simp at h
        · split at h
          · simp only [Option.some.injEq] at h
            subst h
            refine ⟨fun s1 ext1 hx => ?_, fun _ _ _ _ hx => by simp at hx⟩
            simp only [PSK_STEP.skip.injEq] at hx
            rw [← hx.1]; exact Or.inr rfl
          · simp only [Option.some.injEq] at h
            subst h
            refine ⟨fun _ _ hx => by simp at hx, fun s1 ext1 sess md hx => ?_⟩
            simp only [PSK_STEP.found.injEq] at hx
            rw [← hx.1]; exact hs2

/-- The identity loop entered with early_data_ok clear leaves it clear unless
it breaks at the first identity. -/
theorem psk_loop_early (env : PskEnv) :
    ∀ (fuel id : Nat) (identities : PACKET) (s : SSL_CONNECTION) (ext : Nat) (ex : PSK_EXIT),
      psk_loop env fuel id identities s ext = some ex → s.ext.early_data_ok = 0 →
      (∀ s1, ex = PSK_EXIT.none_left s1 → s1.ext.early_data_ok = 0)
        ∧ (∀ i s1 ext1 sess md, ex = PSK_EXIT.selected i s1 ext1 sess md →
            s1.ext.early_data_ok = 0 ∨ i = 0) := by
  intro fuel
  induction fuel with
  | zero =>
    intro id identities s ext ex h h0
    rw [psk_loop] at h
    split at h
    · simp only [Option.some.injEq] at h
      subst h
      refine ⟨fun s1 hx => ?_, fun _ _ _ _ _ hx => by simp at hx⟩
      simp only [PSK_EXIT.none_left.injEq] at hx
      rw [← hx]; exact h0
    · simp at h
  | succ fuel ih =>
    intro id identities s ext ex h h0
    rw [psk_loop] at h
    split at h
    · simp only [Option.some.injEq] at h
      subst h
      refine ⟨fun s1 hx => ?_, fun _ _ _ _ _ hx => by simp at hx⟩
      simp only [PSK_EXIT.none_left.injEq] at hx
      rw [← hx]; exact h0
    · split at h
      · simp only [Option.some.injEq] at h
        subst h
        exact ⟨fun _ hx => by simp at hx, fun _ _ _ _ _ hx => by simp at hx⟩
      · split at h
        · simp only [Option.some.injEq] at h
          subst h
          exact ⟨fun _ hx => by simp at hx, fun _ _ _ _ _ hx => by simp at hx⟩
        · rename_i identity identities1 _ _ ticket_agel identities2 _
          cases hstep : psk_identity env id s ext identity ticket_agel with
          | none => rw [hstep] at h; simp at h
          | some st =>
            have hf := psk_identity_early env id s ext identity ticket_agel st hstep
            rw [hstep] at h
            cases st with
            | ret r =>
              simp only [Option.some.injEq] at h
              subst h
              exact ⟨fun _ hx => by simp at hx, fun _ _ _ _ _ hx => by simp at hx⟩
            | skip s1 ext1 =>
              simp only [] at h
              have h1 : s1.ext.early_data_ok = 0 := by
                rcases hf.1 s1 ext1 rfl with hx | hx
                · rw [hx]; exact h0
                · exact hx
              exact ih (id + 1) identities2 s1 ext1 ex h h1
            | found s1 ext1 sess md =>
              simp only [Option.some.injEq] at h
              subst h
              refine ⟨fun _ hx => by simp at hx, fun i s2 ext2 sess2 md2 hx => ?_⟩
              simp only [PSK_EXIT.selected.injEq] at hx
              rcases hf.2 s1 ext1 sess md rfl with hy | hy
              · left; rw [← hx.2.1, hy]; exact h0
              · right; rw [← hx.1]; exact hy

/-- A successful tls_parse_ctos_psk either has selected no identity and
returns the connection the loop left, or has selected one and installed its
session. -/
theorem tls_parse_ctos_psk_success_inv (env : PskEnv) (s s1 : SSL_CONNECTION) (pkt : PACKET)
    (pkt_offset : Nat) (h : tls_parse_ctos_psk env s pkt pkt_offset = some (1, s1)) :
    (s.ext.psk_kex_mode &&& (TLSEXT_KEX_MODE_FLAG_KE ||| TLSEXT_KEX_MODE_FLAG_KE_DHE) = 0
        ∧ s1 = s)
    ∨ (s.ext.psk_kex_mode &&& (TLSEXT_KEX_MODE_FLAG_KE ||| TLSEXT_KEX_MODE_FLAG_KE_DHE) ≠ 0
        ∧ ∃ identities pkt1, PACKET_get_length_prefixed_2 pkt = some (identities, pkt1)
          ∧ (psk_loop env (PACKET_remaining identities) 0 identities
                { s with ext := { s.ext with ticket_expected := 0 } } 0
              = some (PSK_EXIT.none_left s1)
            ∨ ∃ id s2 ext sess md,
                psk_loop env (PACKET_remaining identities) 0 identities
                    { s with ext := { s.ext with ticket_expected := 0 } } 0
                  = some (PSK_EXIT.selected id s2 ext sess md)
                ∧ s1 = { s2 with ext := { s2.ext with tick_identity := id }, session := sess })) := by
  unfold tls_parse_ctos_psk at h
  by_cases hmode :
      s.ext.psk_kex_mode &&& (TLSEXT_KEX_MODE_FLAG_KE ||| TLSEXT_KEX_MODE_FLAG_KE_DHE) = 0
  · rw [if_pos hmode] at h
    simp only [Option.some.injEq, Prod.mk.injEq, true_and] at h
    exact Or.inl ⟨hmode, h.symm⟩
  · rw [if_neg hmode] at h
    right
    refine ⟨hmode, ?_⟩
    cases hp : PACKET_get_length_prefixed_2 pkt with
    | none => rw [hp] at h; simp at h
    | some p =>
      obtain ⟨identities, pkt1⟩ := p
      rw [hp] at h
      simp only [] at h
      refine ⟨identities, pkt1, rfl, ?_⟩
      cases hloop : psk_loop env (PACKET_remaining identities) 0 identities
          { s with ext := { s.ext with ticket_expected := 0 } } 0 with
      | none => rw [hloop] at h; simp at h
      | some ex =>
        rw [hloop] at h
        cases ex with
        | ret r =>
          simp only [Option.some.injEq] at h
          have := psk_loop_fail env _ _ _ _ _ r hloop
          rw [h] at this
          exact absurd this (by simp)
        | none_left s2 =>
          simp only [Option.some.injEq, Prod.mk.injEq, true_and] at h
          rw [h]; exact Or.inl rfl
        | selected id s2 ext sess md =>
          simp only [Option.some.injEq] at h
          exact Or.inr ⟨id, s2, ext, sess, md, rfl,
            psk_binders_success env s2 pkt1 _ id ext sess md s1 h⟩

/-! ### The index of the selected identity -/

theorem PACKET_get_length_prefixed_2_length (l body rest : List Nat)
    (h : PACKET_get_length_prefixed_2 l = some (body, rest)) :
    l.length = 2 + body.length + rest.length := by
  unfold PACKET_get_length_prefixed_2 at h
  cases l with
  | nil => simp [PACKET_get_net_2] at h
  | cons b0 l1 =>
    cases l1 with
    | nil => simp [PACKET_get_net_2] at h
    | cons b1 l2 =>
      simp only [PACKET_get_net_2] at h
      split at h
      · simp at h
      · rename_i hlen
        simp only [Option.some.injEq, Prod.mk.injEq] at h
        rw [← h.1, ← h.2]
        simp only [List.length_cons, List.length_take, List.length_drop]
        omega

theorem PACKET_get_net_4_length (l rest : List Nat) (v : Nat)
    (h : PACKET_get_net_4 l = some (v, rest)) : l.length = 4 + rest.length := by
  unfold PACKET_get_net_4 at h
  split at h
  · simp at h
  · simp only [Option.some.injEq, Prod.mk.injEq] at h
    rw [← h.2]
    simp only [List.length_drop]
    omega

/-- Every identity before and including the selected one has taken at least six
bytes of the identities block. -/
theorem psk_loop_index_bound (env : PskEnv) :
    ∀ (fuel id : Nat) (identities : PACKET) (s : SSL_CONNECTION) (ext : Nat) (i : Nat)
      (s1 : SSL_CONNECTION) (ext1 : Nat) (sess : SSL_SESSION) (md : EVP_MD),
      psk_loop env fuel id identities s ext = some (PSK_EXIT.selected i s1 ext1 sess md) →
      id ≤ i ∧ 6 * (i + 1 - id) ≤ identities.length := by
  intro fuel
  induction fuel with
  | zero =>
    intro id identities s ext i s1 ext1 sess md h
    rw [psk_loop] at h
    split at h <;> simp at h
  | succ fuel ih =>
    intro id identities s ext i s1 ext1 sess md h
    rw [psk_loop] at h
    split at h
    · simp at h
    · split at h
      · simp at h
      · split at h
        · simp at h
        · rename_i identity identities1 hp2 _ ticket_agel identities2 hp4
          have hl2 := PACKET_get_length_prefixed_2_length _ _ _ hp2
          have hl4 := PACKET_get_net_4_length _ _ _ hp4
          cases hstep : psk_identity env id s ext identity ticket_agel with
          | none => rw [hstep] at h; simp at h
          | some st =>
            rw [hstep] at h
            cases st with
            | ret r => simp at h
            | skip s2 ext2 =>
              simp only [] at h
              have := ih (id + 1) identities2 s2 ext2 i s1 ext1 sess md h
              omega
            | found s2 ext2 sess2 md2 =>
              simp only [Option.some.injEq, PSK_EXIT.selected.injEq] at h
              omega

/-! ### status_request -/

theorem responder_ids_wire_cons (id : List Nat) (ids : List (List Nat)) :
    responder_ids_wire (id :: ids)
      = put_value id.length 2 ++ (id ++ responder_ids_wire ids) := by
  simp [responder_ids_wire]

/-- The loop over the responder ids on the wire form of a list of ids that all
decode: the decoded ids are appended to the stack in order. -/
theorem responder_id_loop_wire (env : OcspEnv) (s : SSL_CONNECTION)
    (hpush : ∀ a r, env.sk_OCSP_RESPID_push a r = true) :
    ∀ (ids : List (List Nat × OCSP_RESPID)) (fuel : Nat) (acc : List OCSP_RESPID),
      (∀ p ∈ ids, p.1 ≠ [] ∧ p.1.length < 65536
        ∧ env.d2i_OCSP_RESPID p.1 = some (p.2, p.1.length)) →
      (responder_ids_wire (ids.map Prod.fst)).length ≤ fuel →
      responder_id_loop env fuel (responder_ids_wire (ids.map Prod.fst))
          { s with ext := { s.ext with ocsp := { s.ext.ocsp with ids := some acc } } }
        = some (1, { s with ext := { s.ext with ocsp :=
            { s.ext.ocsp with ids := some (acc ++ ids.map Prod.snd) } } }) := by
  intro ids
  induction ids with
  | nil =>
    intro fuel acc _ _
    unfold responder_id_loop
    simp [responder_ids_wire, PACKET_remaining]
  | cons p ids ih =>
    intro fuel acc hall hfuel
    obtain ⟨hne, hlen, hdec⟩ := hall p (List.mem_cons_self _ _)
    rw [List.map_cons, responder_ids_wire_cons] at hfuel ⊢
    have hpos : 0 < p.1.length := List.length_pos.mpr hne
    cases fuel with
    | zero =>
      simp only [List.length_append, put_value_length] at hfuel
      omega
    | succ fuel =>
      rw [responder_id_loop]
      rw [if_neg (by simp [PACKET_remaining, put_value_length])]
      simp only []
      rw [PACKET_get_length_prefixed_2_put_value _ _ hlen]
      simp only []
      rw [if_neg (by simp [PACKET_remaining]; exact hne), hdec]
      simp only []
      rw [if_neg (by simp [PACKET_remaining])]
      rw [if_neg (by simp [hpush])]
      have := ih fuel (acc ++ [p.2]) (fun q hq => hall q (List.mem_cons_of_mem _ hq))
        (by simp only [List.length_append, put_value_length] at hfuel; omega)
      simp only [List.append_assoc, List.singleton_append] at this
      simpa using this

/-! ### supported_groups -/

theorem supported_groups_loop_skip (env : Env) (s : SSL_CONNECTION) (version : Nat)
    (first : Bool) (pkt : WPACKET) :
    ∀ (pre l : List Nat),
      (∀ x ∈ pre, ¬ (env.tls_valid_group x version version false = true
        ∧ env.tls_group_allowed x SSL_SECOP_CURVE_SUPPORTED = true)) →
      supported_groups_loop env s version (pre ++ l) first pkt
        = supported_groups_loop env s version l first pkt := by
  intro pre
  induction pre with
  | nil => intro l _; rfl
  | cons x pre ih =>
    intro l h
    rw [List.cons_append, supported_groups_loop, if_neg (h x (List.mem_cons_self _ _))]
    exact ih l (fun y hy => h y (List.mem_cons_of_mem _ hy))

/-- Once the header is written the loop appends two bytes for every group that
is valid and allowed. -/
theorem supported_groups_loop_rest (env : Env) (s : SSL_CONNECTION) (version : Nat)
    (ps : List WPACKET_SUB) (M : Nat) :
    ∀ (groups : List Nat) (sub : WPACKET_SUB),
      (∀ g ∈ groups.filter (fun g => env.tls_valid_group g version version false
          && env.tls_group_allowed g SSL_SECOP_CURVE_SUPPORTED), g < 65536) →
      WPACKET.written ⟨sub :: ps, M⟩
          + 2 * (groups.filter (fun g => env.tls_valid_group g version version false
              && env.tls_group_allowed g SSL_SECOP_CURVE_SUPPORTED)).length ≤ M →
      supported_groups_loop env s version groups false ⟨sub :: ps, M⟩
        = SG_LOOP.done false
            ⟨{ sub with body := sub.body
                ++ ((groups.filter (fun g => env.tls_valid_group g version version false
                      && env.tls_group_allowed g SSL_SECOP_CURVE_SUPPORTED)).map
                    (fun g => put_value g 2)).flatten } :: ps, M⟩ := by
  intro groups
  induction groups with
  | nil => intro sub _ _; simp [supported_groups_loop]
  | cons g groups ih =>
    intro sub hfit hroom
    rw [supported_groups_loop]
    by_cases hg : env.tls_valid_group g version version false = true
        ∧ env.tls_group_allowed g SSL_SECOP_CURVE_SUPPORTED = true
    · have hp : (env.tls_valid_group g version version false
          && env.tls_group_allowed g SSL_SECOP_CURVE_SUPPORTED) = true := by
        simp [hg.1, hg.2]
      have hfil : (g :: groups).filter (fun g => env.tls_valid_group g version version false
          && env.tls_group_allowed g SSL_SECOP_CURVE_SUPPORTED)
          = g :: groups.filter (fun g => env.tls_valid_group g version version false
              && env.tls_group_allowed g SSL_SECOP_CURVE_SUPPORTED) := by
        simp [List.filter_cons, hp]
      rw [hfil] at hfit hroom ⊢
      rw [if_pos hg, if_neg (by simp)]
      unfold WPACKET_put_bytes_u16
      rw [WPACKET_put_bytes_some sub ps M g 2 (by decide)
        (hfit g (List.mem_cons_self _ _))
        (by simp only [List.length_cons] at hroom; omega)]
      simp only []
      rw [ih _ (fun x hx => hfit x (List.mem_cons_of_mem _ hx))
        (by
          simp only [List.length_cons] at hroom
          rw [WPACKET_written_cons] at hroom ⊢
          simp only [List.length_append, put_value_length]
          omega)]
      simp [List.append_assoc]
    · have hp : (env.tls_valid_group g version version false
          && env.tls_group_allowed g SSL_SECOP_CURVE_SUPPORTED) = false := by
        simpa using hg
      have hfil : (g :: groups).filter (fun g => env.tls_valid_group g version version false
          && env.tls_group_allowed g SSL_SECOP_CURVE_SUPPORTED)
          = groups.filter (fun g => env.tls_valid_group g version version false
              && env.tls_group_allowed g SSL_SECOP_CURVE_SUPPORTED) := by
        simp [List.filter_cons, hp]
      rw [hfil] at hfit hroom ⊢
      rw [if_neg hg]
      exact ih sub hfit hroom

theorem flatten_put_value_two_length (l : List Nat) :
    ((l.map (fun g => put_value g 2)).flatten).length = 2 * l.length := by
  induction l with
  | nil => rfl
  | cons a l ih =>
    simp only [List.map_cons, List.flatten_cons, List.length_append, put_value_length,
      List.length_cons, ih]
    omega

theorem sendable_groups_split (env : Env) (s : SSL_CONNECTION) (g : Nat) (rest : List Nat)
    (h : sendable_groups env s = g :: rest) :
    ∃ pre tail, s.ext.supportedgroups = pre ++ g :: tail
      ∧ (∀ x ∈ pre, ¬ (env.tls_valid_group x s.version s.version false = true
          ∧ env.tls_group_allowed x SSL_SECOP_CURVE_SUPPORTED = true))
      ∧ (env.tls_valid_group g s.version s.version false = true
          ∧ env.tls_group_allowed g SSL_SECOP_CURVE_SUPPORTED = true)
      ∧ tail.filter (fun g => env.tls_valid_group g s.version s.version false
          && env.tls_group_allowed g SSL_SECOP_CURVE_SUPPORTED) = rest := by
  unfold sendable_groups at h
  generalize s.ext.supportedgroups = l at h
  induction l with
  | nil => simp at h
  | cons a l ih =>
    by_cases hp : (env.tls_valid_group a s.version s.version false
        && env.tls_group_allowed a SSL_SECOP_CURVE_SUPPORTED) = true
    · have hfil : (a :: l).filter (fun g => env.tls_valid_group g s.version s.version false
          && env.tls_group_allowed g SSL_SECOP_CURVE_SUPPORTED)
          = a :: l.filter (fun g => env.tls_valid_group g s.version s.version false
              && env.tls_group_allowed g SSL_SECOP_CURVE_SUPPORTED) := by
        simp [List.filter_cons, hp]
      rw [hfil] at h
      simp only [List.cons.injEq] at h
      refine ⟨[], l, by rw [h.1]; rfl, by simp, ?_, h.2⟩
      rw [← h.1]
      simpa using hp
    · have hfil : (a :: l).filter (fun g => env.tls_valid_group g s.version s.version false
          && env.tls_group_allowed g SSL_SECOP_CURVE_SUPPORTED)
          = l.filter (fun g => env.tls_valid_group g s.version s.version false
              && env.tls_group_allowed g SSL_SECOP_CURVE_SUPPORTED) := by
        simp [List.filter_cons, hp]
      rw [hfil] at h
      obtain ⟨pre, tail, h1, h2, h3, h4⟩ := ih h
      refine ⟨a :: pre, tail, by rw [h1]; rfl, ?_, h3, h4⟩
      intro x hx
      rcases List.mem_cons.mp hx with rfl | hx
      · simpa using hp
      · exact h2 x hx

theorem sendable_groups_nil (env : Env) (s : SSL_CONNECTION)
    (h : sendable_groups env s = []) :
    ∀ x ∈ s.ext.supportedgroups,
      ¬ (env.tls_valid_group x s.version s.version false = true
        ∧ env.tls_group_allowed x SSL_SECOP_CURVE_SUPPORTED = true) := by
  intro x hx hp
  unfold sendable_groups at h
  have : x ∈ s.ext.supportedgroups.filter (fun g =>
      env.tls_valid_group g s.version s.version false
        && env.tls_group_allowed g SSL_SECOP_CURVE_SUPPORTED) :=
    List.mem_filter.mpr ⟨hx, by simp [hp.1, hp.2]⟩
  rw [h] at this
  exact absurd this (by simp)

/-- Without a valid and allowed group the loop writes nothing, and the
function returns what the two calls of WPACKET_close make of the writer it was
given. -/
theorem tls_construct_stoc_supported_groups_none (env : Env) (s : SSL_CONNECTION)
    (pkt p6 p7 : WPACKET) (hgid : s.s3.group_id ≠ 0) (hne : s.ext.supportedgroups ≠ [])
    (hnone : sendable_groups env s = [])
    (h6 : WPACKET_close pkt = some p6) (h7 : WPACKET_close p6 = some p7) :
    tls_construct_stoc_supported_groups env s pkt = (EXT_RETURN.EXT_RETURN_SENT, s, p7) := by
  unfold tls_construct_stoc_supported_groups
  rw [if_neg hgid]
  simp only []
  rw [if_neg (by simpa using hne)]
  have hloop : supported_groups_loop env s s.version s.ext.supportedgroups true pkt
      = SG_LOOP.done true pkt := by
    have := supported_groups_loop_skip env s s.version true pkt s.ext.supportedgroups []
      (sendable_groups_nil env s hnone)
    rw [List.append_nil] at this
    rw [this, supported_groups_loop]
  rw [hloop]
  simp only []
  rw [h6]
  simp only []
  rw [h7]

theorem tls_construct_stoc_supported_groups_preferred (env : Env) (s : SSL_CONNECTION)
    (pkt : WPACKET) (rest : List Nat) (hgid : s.s3.group_id ≠ 0)
    (hsend : sendable_groups env s = s.s3.group_id :: rest) :
    tls_construct_stoc_supported_groups env s pkt = (EXT_RETURN.EXT_RETURN_NOT_SENT, s, pkt) := by
  obtain ⟨pre, tail, h1, h2, h3, _⟩ := sendable_groups_split env s _ rest hsend
  unfold tls_construct_stoc_supported_groups
  rw [if_neg hgid]
  simp only []
  rw [if_neg (by rw [h1]; simp)]
  have hloop : supported_groups_loop env s s.version s.ext.supportedgroups true pkt
      = SG_LOOP.not_sent := by
    rw [h1, supported_groups_loop_skip env s s.version true pkt pre _ h2, supported_groups_loop,
      if_pos h3, if_pos rfl, if_pos rfl]
  rw [hloop]

theorem tls_construct_stoc_supported_groups_sent (env : Env) (s : SSL_CONNECTION)
    (sub : WPACKET_SUB) (ps : List WPACKET_SUB) (M : Nat) (g : Nat) (rest : List Nat)
    (hgid : s.s3.group_id ≠ 0)
    (hsend : sendable_groups env s = g :: rest) (hg : g ≠ s.s3.group_id)
    (hfit : ∀ x ∈ sendable_groups env s, x < 65536)
    (hroom : WPACKET.written ⟨sub :: ps, M⟩ + 6 + 2 * (sendable_groups env s).length ≤ M)
    (hlen : 2 + 2 * (sendable_groups env s).length < 65536) :
    tls_construct_stoc_supported_groups env s ⟨sub :: ps, M⟩
      = (EXT_RETURN.EXT_RETURN_SENT, s,
          ⟨{ sub with body := sub.body
                          ++ extension_wire TLSEXT_TYPE_supported_groups
                              (supported_groups_body (sendable_groups env s)) } :: ps, M⟩) := by
  obtain ⟨pre, tail, h1, h2, h3, h4⟩ := sendable_groups_split env s g rest hsend
  rw [hsend] at hfit hroom hlen ⊢
  simp only [List.length_cons] at hroom hlen
  have hgfit := hfit g (List.mem_cons_self _ _)
  unfold tls_construct_stoc_supported_groups
  rw [if_neg hgid]
  simp only []
  rw [if_neg (by rw [h1]; simp)]
  have hhead : supported_groups_header ⟨sub :: ps, M⟩
      = some ⟨⟨2, []⟩ :: ⟨2, []⟩
          :: { sub with body := sub.body ++ put_value TLSEXT_TYPE_supported_groups 2 } :: ps,
          M⟩ := by
    unfold supported_groups_header WPACKET_put_bytes_u16 WPACKET_start_sub_packet_u16
    rw [WPACKET_put_bytes_some sub ps M _ 2 (by decide) (by decide) (by omega)]
    simp only []
    rw [WPACKET_start_sub_packet_len_some _ _ _ _
      (by rw [WPACKET_written_cons] at hroom ⊢
          simp only [List.length_append, put_value_length]; omega)]
    simp only []
    rw [WPACKET_start_sub_packet_len_some _ _ _ _
      (by rw [WPACKET_written_cons, WPACKET_written_cons]
          rw [WPACKET_written_cons] at hroom
          simp only [List.length_append, put_value_length, List.length_nil]; omega)]
  have hw : WPACKET.written
      ⟨⟨2, []⟩ :: ⟨2, []⟩
        :: { sub with body := sub.body ++ put_value TLSEXT_TYPE_supported_groups 2 } :: ps, M⟩
      = WPACKET.written ⟨sub :: ps, M⟩ + 6 := by
    rw [WPACKET_written_cons, WPACKET_written_cons, WPACKET_written_cons, WPACKET_written_cons]
    simp only [List.length_append, put_value_length, List.length_nil]
    omega
  have hloop : supported_groups_loop env s s.version s.ext.supportedgroups true ⟨sub :: ps, M⟩
      = SG_LOOP.done false
          ⟨⟨2, ((g :: rest).map (fun g => put_value g 2)).flatten⟩ :: ⟨2, []⟩
            :: { sub with body := sub.body ++ put_value TLSEXT_TYPE_supported_groups 2 } :: ps,
            M⟩ := by
    rw [h1, supported_groups_loop_skip env s s.version true _ pre _ h2, supported_groups_loop,
      if_pos h3, if_pos rfl, if_neg (fun e => hg e.symm), hhead]
    simp only []
    unfold WPACKET_put_bytes_u16
    rw [WPACKET_put_bytes_some _ _ M g 2 (by decide) hgfit (by rw [hw]; omega)]
    simp only []
    rw [supported_groups_loop_rest env s s.version _ M tail _
      (by rw [h4]; exact fun x hx => hfit x (List.mem_cons_of_mem _ hx))
      (by
        rw [h4, WPACKET_written_cons]
        rw [WPACKET_written_cons] at hw
        simp only [List.length_append, put_value_length, List.length_nil] at hw ⊢
        omega)]
    rw [h4]
    simp
  rw [hloop]
  simp only []
  have hfl := flatten_put_value_two_length (g :: rest)
  simp only [List.length_cons] at hfl
  rw [WPACKET_close_some _ _ _ M (by simp only []; rw [hfl]; omega)]
  simp only []
  rw [WPACKET_close_some _ _ _ M (by
    simp only [List.nil_append, List.length_append, put_value_length]; rw [hfl]; omega)]
  simp only [extension_wire, supported_groups_body, List.nil_append, List.length_append,
    put_value_length, List.length_cons, hfl, List.append_assoc]

theorem responder_ids_wire_pos (ids : List (List Nat)) (h : ids ≠ []) :
    0 < (responder_ids_wire ids).length := by
  cases ids with
  | nil => exact absurd rfl h
  | cons id ids =>
    rw [responder_ids_wire_cons]
    simp only [List.length_append, put_value_length]
    omega

/-- The request extensions on their wire form: an empty list leaves the stored
extensions alone, a list that decodes as a whole replaces them. -/
theorem status_request_exts_wire (env : OcspEnv) (s : SSL_CONNECTION) (exts : List Nat)
    (xd : X509_EXTENSIONS) (hel : exts.length < 65536)
    (hx : exts ≠ [] → env.d2i_X509_EXTENSIONS exts = some (xd, exts.length)) :
    status_request_exts env s (put_value exts.length 2 ++ exts)
      = (1, { s with ext := { s.ext with ocsp := { s.ext.ocsp with
                exts := if exts = [] then s.ext.ocsp.exts else some xd } } }) := by
  unfold status_request_exts
  rw [PACKET_as_length_prefixed_2_put_value _ hel]
  simp only []
  by_cases he : exts = []
  · rw [if_neg (by simp [he, PACKET_remaining]), if_pos he]
  · rw [if_pos (by simpa [PACKET_remaining] using List.length_pos.mpr he), hx he, if_neg he]
    simp only []
    rw [if_neg (by simp [PACKET_remaining])]

/-- The parser on a well-formed body of type ocsp whose fields decode. -/
theorem tls_parse_ctos_status_request_ocsp (env : OcspEnv) (s : SSL_CONNECTION)
    (ids : List (List Nat × OCSP_RESPID)) (exts : List Nat) (xd : X509_EXTENSIONS)
    (hhit : s.hit = false)
    (hall : ∀ p ∈ ids, p.1 ≠ [] ∧ p.1.length < 65536
      ∧ env.d2i_OCSP_RESPID p.1 = some (p.2, p.1.length))
    (hwl : (responder_ids_wire (ids.map Prod.fst)).length < 65536)
    (hel : exts.length < 65536)
    (hnew : ids ≠ [] → env.sk_OCSP_RESPID_new_null = true)
    (hpush : ∀ a r, env.sk_OCSP_RESPID_push a r = true)
    (hx : exts ≠ [] → env.d2i_X509_EXTENSIONS exts = some (xd, exts.length)) :
    tls_parse_ctos_status_request env s (status_request_body (ids.map Prod.fst) exts) none
      = some (1, { s with ext := { s.ext with
            status_type := 1,
            ocsp := { ids := if ids = [] then none else some (ids.map Prod.snd),
                      exts := if exts = [] then s.ext.ocsp.exts else some xd } } }) := by
  unfold tls_parse_ctos_status_request status_request_body
  rw [if_neg (by simp [hhit]), if_neg (by simp)]
  simp only [PACKET_get_1]
  rw [if_neg (by simp [TLSEXT_STATUSTYPE_ocsp])]
  rw [PACKET_get_length_prefixed_2_put_value _ _ hwl]
  simp only []
  by_cases hids : ids = []
  · subst hids
    have h0 : PACKET_remaining (responder_ids_wire (List.map Prod.fst
        ([] : List (List Nat × OCSP_RESPID)))) = 0 := rfl
    rw [if_neg (by rw [h0]; simp)]
    simp only [h0, gt_iff_lt, lt_self_iff_false, if_false]
    have hloop : ∀ t : SSL_CONNECTION, responder_id_loop env 0 (responder_ids_wire (List.map
        Prod.fst ([] : List (List Nat × OCSP_RESPID)))) t = some (1, t) := by
      intro t
      unfold responder_id_loop
      rw [if_pos h0]
    rw [hloop]
    simp only []
    rw [if_neg (by simp), status_request_exts_wire env _ exts xd hel hx]
    simp
  · have hpos : PACKET_remaining (responder_ids_wire (ids.map Prod.fst)) > 0 := by
      unfold PACKET_remaining
      exact responder_ids_wire_pos _ (by simpa using hids)
    rw [if_neg (by simp [hnew hids])]
    simp only [hpos, if_true]
    have hloop := responder_id_loop_wire env
      { s with ext := { s.ext with status_type := ((1 : Nat) : Int) } } hpush ids
      (PACKET_remaining (responder_ids_wire (ids.map Prod.fst))) [] hall (le_refl _)
    simp only [List.nil_append] at hloop
    rw [hloop]
    simp only []
    rw [if_neg (by simp), status_request_exts_wire env _ exts xd hel hx, if_neg hids]
    simp

theorem tls_parse_ctos_status_request_other (env : OcspEnv) (s : SSL_CONNECTION)
    (status_type : Nat) (rest : List Nat) (hhit : s.hit = false) (ht : status_type ≠ 1) :
    tls_parse_ctos_status_request env s (status_type :: rest) none
      = some (1, { s with ext := { s.ext with status_type := TLSEXT_STATUSTYPE_nothing } }) := by
  unfold tls_parse_ctos_status_request
  rw [if_neg (by simp [hhit]), if_neg (by simp)]
  simp only [PACKET_get_1]
  rw [if_pos (by
    simp only [TLSEXT_STATUSTYPE_ocsp, ne_eq]
    intro h
    exact ht (by exact_mod_cast h))]

/-! ### The length of the rebuilt HelloRetryRequest -/

theorem reconstructed_hrr_length (session_id : List Nat) (cipher_id version group_id key_share : Nat)
    (cookie : List Nat) :
    (handshake_message SSL3_MT_SERVER_HELLO
        (hrr_body session_id cipher_id
          (hrr_extensions version group_id key_share cookie))).length
      = 56 + session_id.length + (if key_share ≠ 0 then 6 else 0) + cookie.length := by
  unfold handshake_message hrr_body
  simp only [List.length_append, List.length_cons, put_value_length, hrr_extensions_length]
  have : hrrrandom.length = 32 := by decide
  rw [this]
  omega

/-! ### The early returns of the key_share parser -/

theorem tls_parse_ctos_key_share_psk_only (env : Env) (s : SSL_CONNECTION) (pkt : PACKET)
    (h : s.hit = true ∧ s.ext.psk_kex_mode &&& TLSEXT_KEX_MODE_FLAG_KE_DHE = 0) :
    tls_parse_ctos_key_share env s pkt
      = some (1, { s with s3 := { s.s3 with group_id_candidate := 0 } }) := by
  unfold tls_parse_ctos_key_share
  simp only []
  rw [if_pos h]

theorem tls_parse_ctos_key_share_peer_key (env : Env) (s : SSL_CONNECTION) (pkt : PACKET)
    (hdhe : ¬ (s.hit = true ∧ s.ext.psk_kex_mode &&& TLSEXT_KEX_MODE_FLAG_KE_DHE = 0))
    (hpeer : s.s3.peer_tmp ≠ none) :
    tls_parse_ctos_key_share env s pkt
      = some (0, SSLfatal { s with s3 := { s.s3 with group_id_candidate := 0 } }
          Alert.SSL_AD_INTERNAL_ERROR Reason.ERR_R_INTERNAL_ERROR) := by
  unfold tls_parse_ctos_key_share
  simp only []
  rw [if_neg hdhe, if_pos hpeer]

theorem tls_parse_ctos_key_share_no_groups (env : Env) (s : SSL_CONNECTION)
    (key_share_list : List Nat)
    (hdhe : ¬ (s.hit = true ∧ s.ext.psk_kex_mode &&& TLSEXT_KEX_MODE_FLAG_KE_DHE = 0))
    (hpeer : s.s3.peer_tmp = none) (hclnt : s.ext.peer_supportedgroups = [])
    (hlen : key_share_list.length < 65536) :
    tls_parse_ctos_key_share env s (put_value key_share_list.length 2 ++ key_share_list)
      = some (0, SSLfatal { s with s3 := { s.s3 with group_id_candidate := 0 } }
          Alert.SSL_AD_MISSING_EXTENSION Reason.SSL_R_MISSING_SUPPORTED_GROUPS_EXTENSION) := by
  unfold tls_parse_ctos_key_share
  simp only []
  rw [if_neg hdhe, if_neg (by simp [hpeer]), PACKET_as_length_prefixed_2_put_value _ hlen]
  simp only []
  rw [if_pos (by simp [hclnt])]

/-! ### early_data_ok over identities that are passed over -/

theorem psk_after_split (env : PskEnv) (l1 l2 : List (List Nat × Nat)) :
    ∀ (id : Nat) (s : SSL_CONNECTION) (ext : Nat) (s1 : SSL_CONNECTION) (ext1 : Nat),
      psk_after env id (l1 ++ l2) s ext = some (s1, ext1) →
      ∃ s0 ext0, psk_after env id l1 s ext = some (s0, ext0)
        ∧ psk_after env (id + l1.length) l2 s0 ext0 = some (s1, ext1) := by
  induction l1 with
  | nil =>
    intro id s ext s1 ext1 h
    exact ⟨s, ext, by simp [psk_after], by simpa using h⟩
  | cons p l1 ih =>
    intro id s ext s1 ext1 h
    rw [List.cons_append, psk_after] at h
    rw [psk_after]
    cases hp : psk_identity env id s ext p.1 p.2 with
    | none => rw [hp] at h; simp at h
    | some st =>
      rw [hp] at h
      cases st with
      | ret r => simp at h
      | found a b c d => simp at h
      | skip s2 ext2 =>
        simp only [] at h ⊢
        obtain ⟨s0, ext0, h1, h2⟩ := ih (id + 1) s2 ext2 s1 ext1 h
        refine ⟨s0, ext0, h1, ?_⟩
        rw [List.length_cons, show id + (l1.length + 1) = id + 1 + l1.length by omega]
        exact h2

/-- Identities that are passed over leave a clear early_data_ok clear. -/
theorem psk_after_early_zero (env : PskEnv) (es : List (List Nat × Nat)) :
    ∀ (id : Nat) (s : SSL_CONNECTION) (ext : Nat) (s1 : SSL_CONNECTION) (ext1 : Nat),
      psk_after env id es s ext = some (s1, ext1) → s.ext.early_data_ok = 0 →
      s1.ext.early_data_ok = 0 := by
  induction es with
  | nil =>
    intro id s ext s1 ext1 h h0
    simp only [psk_after, Option.some.injEq, Prod.mk.injEq] at h
    rw [← h.1]; exact h0
  | cons p es ih =>
    intro id s ext s1 ext1 h h0
    rw [psk_after] at h
    cases hp : psk_identity env id s ext p.1 p.2 with
    | none => rw [hp] at h; simp at h
    | some st =>
      rw [hp] at h
      cases st with
      | ret r => simp at h
      | found a b c d => simp at h
      | skip s2 ext2 =>
        simp only [] at h
        refine ih (id + 1) s2 ext2 s1 ext1 h ?_
        rcases (psk_identity_early env id s ext p.1 p.2 _ hp).1 s2 ext2 rfl with hx | hx
        · rw [hx]; exact h0
        · exact hx

/-- When all identities are passed over and one of them has yielded a session,
early_data_ok is clear at the end. -/
theorem psk_after_early_session (env : PskEnv) (pre : List (List Nat × Nat))
    (e : List Nat × Nat) (post : List (List Nat × Nat)) (id : Nat) (s : SSL_CONNECTION)
    (ext : Nat) (s1 : SSL_CONNECTION) (ext1 : Nat) (s0 : SSL_CONNECTION) (ext0 : Nat)
    (s2 : SSL_CONNECTION) (ext2 : Nat) (sess : SSL_SESSION)
    (h : psk_after env id (pre ++ e :: post) s ext = some (s1, ext1))
    (hpre : psk_after env id pre s ext = some (s0, ext0))
    (hob : psk_obtain env (id + pre.length) s0 ext0 e.1 e.2 = PSK_OBTAIN.sess s2 ext2 sess) :
    s1.ext.early_data_ok = 0 := by
  obtain ⟨s0a, ext0a, h1, h2⟩ := psk_after_split env pre (e :: post) id s ext s1 ext1 h
  rw [hpre] at h1
  simp only [Option.some.injEq, Prod.mk.injEq] at h1
  rw [← h1.1, ← h1.2, psk_after] at h2
  cases hp : psk_identity env (id + pre.length) s0 ext0 e.1 e.2 with
  | none => rw [hp] at h2; simp at h2
  | some st =>
    rw [hp] at h2
    cases st with
    | ret r => simp at h2
    | found a b c d => simp at h2
    | skip s3 ext3 =>
      simp only [] at h2
      refine psk_after_early_zero env post _ s3 ext3 s1 ext1 h2 ?_
      rcases psk_identity_skip env _ s0 ext0 e.1 e.2 s3 ext3 hp with ⟨h3, _⟩ | h3
      · rw [hob] at h3; simp at h3
      · obtain ⟨_, _, _, _, _, _, _, _, _, _, hs3⟩ := h3
        rw [hs3]

/-! ## The claims -/

/-- Counterexample for C1. The server prefers its own order and has the
tuples [secp384r1] and [secp256r1, x25519]; the client sends well-formed
shares for x25519 and secp256r1, both in its supported_groups, so the first
tuple with a group of the client is [secp256r1, x25519] and its lowest kept
group is secp256r1. On a resumption whose only PSK key exchange mode is psk_ke
the parser returns 1 with group_id = 0 and group_id_candidate = 0: it accepts
nothing and names no candidate. With a peer key already stored it fails with
internal_error. -/
theorem C1_counterexample :
    demo_conn_server_pref_psk_only.s3.group_id = 0
      ∧ demo_conn_server_pref_psk_only.options &&& SSL_OP_SERVER_PREFERENCE ≠ 0
      ∧ (∀ e ∈ demo_shares,
          e.wf ∧ e.group ∈ demo_conn_server_pref_psk_only.ext.peer_supportedgroups)
      ∧ group_tuples demo_conn_server_pref_psk_only.ext.supportedgroups
          demo_conn_server_pref_psk_only.ext.tuples = [[0x0018], [0x0017, 0x001D]]
      ∧ ¬ HasOverlap demo_env [0x0018]
          (kept_groups demo_env demo_conn_server_pref_psk_only.ext.supportedgroups demo_shares
            ++ demo_conn_server_pref_psk_only.ext.peer_supportedgroups)
      ∧ IsLowestOverlap demo_env [0x0017, 0x001D]
          (kept_groups demo_env demo_conn_server_pref_psk_only.ext.supportedgroups demo_shares)
          0x0017
      ∧ tls_parse_ctos_key_share demo_env demo_conn_server_pref_psk_only
          (key_share_extension demo_shares) = some (1, demo_conn_server_pref_psk_only)
      ∧ demo_conn_server_pref_psk_only.s3.group_id_candidate = 0
      ∧ tls_parse_ctos_key_share demo_env demo_conn_server_pref_peer_key
          (key_share_extension demo_shares)
        = some (0, SSLfatal demo_conn_server_pref_peer_key Alert.SSL_AD_INTERNAL_ERROR
                    Reason.ERR_R_INTERNAL_ERROR) := by
  refine ⟨rfl, by decide, by decide, by decide, by decide, by decide, by decide, rfl,
    by decide⟩

/-- Claim C1 as amended, server-preference selection. With group_id = 0 at
entry, SSL_OP_SERVER_PREFERENCE set and a well-formed key_share list whose
groups all occur in the client's supported_groups, let T be the first server
tuple that holds a policy-passing group offered by the client (as a kept key
share or in supported_groups). On a resumption whose PSK key exchange modes do
not include psk_dhe_ke the call returns 1 at once with group_id_candidate = 0
and walks no tuple. Otherwise, with a peer key already stored, the sanity
check fails with internal_error; with none, the parser stops at T. If T holds
the group of a kept share, the call is tls_accept_ksgroup for the such group
with the lowest index in T, so group_id = group_id_candidate = kex_group =
that group; otherwise it returns 1, leaves group_id = 0 and sets
group_id_candidate to the policy-passing group of T with the lowest index in T
that is in the client's supported_groups. The client list has at most 65535
entries (the loop counter of check_overlap is 16 bits wide) and the id 0,
which the code uses for "no group", does not pass the policy predicates. -/
theorem C1_server_preference_selection (env : Env) (s : SSL_CONNECTION)
    (es : List KeyShareEntry) (pre post : List (List Nat)) (T : List Nat)
    (hgid : s.s3.group_id = 0)
    (hpref : s.options &&& SSL_OP_SERVER_PREFERENCE ≠ 0)
    (hwf : ∀ e ∈ es, e.wf) (hlen : (encode_key_shares es).length < 65536)
    (hin : ∀ e ∈ es, e.group ∈ s.ext.peer_supportedgroups)
    (hclen : s.ext.peer_supportedgroups.length ≤ 65535)
    (hz : passes_policy env 0 = false)
    (htup : group_tuples s.ext.supportedgroups s.ext.tuples = pre ++ T :: post)
    (hpre : ∀ U ∈ pre, ¬ HasOverlap env U
      (kept_groups env s.ext.supportedgroups es ++ s.ext.peer_supportedgroups))
    (hT : HasOverlap env T
      (kept_groups env s.ext.supportedgroups es ++ s.ext.peer_supportedgroups)) :
    (s.hit = true ∧ s.ext.psk_kex_mode &&& TLSEXT_KEX_MODE_FLAG_KE_DHE = 0 →
        tls_parse_ctos_key_share env s (key_share_extension es)
          = some (1, { s with s3 := { s.s3 with group_id_candidate := 0 } }))
    ∧ (¬ (s.hit = true ∧ s.ext.psk_kex_mode &&& TLSEXT_KEX_MODE_FLAG_KE_DHE = 0) →
        s.s3.peer_tmp ≠ none →
        tls_parse_ctos_key_share env s (key_share_extension es)
          = some (0, SSLfatal { s with s3 := { s.s3 with group_id_candidate := 0 } }
              Alert.SSL_AD_INTERNAL_ERROR Reason.ERR_R_INTERNAL_ERROR))
    ∧ (¬ (s.hit = true ∧ s.ext.psk_kex_mode &&& TLSEXT_KEX_MODE_FLAG_KE_DHE = 0) →
        s.s3.peer_tmp = none →
    ∃ r, tls_parse_ctos_key_share env s (key_share_extension es) = some r
      ∧ (HasOverlap env T
            (kept_groups env s.ext.supportedgroups es) →
          ∃ g, IsLowestOverlap env T
                (kept_groups env s.ext.supportedgroups es) g
            ∧ r = tls_accept_ksgroup env { s with s3 := { s.s3 with group_id_candidate := 0 } } g
                ((kept_keys env s.ext.supportedgroups es).getD
                  ((kept_groups env s.ext.supportedgroups es).indexOf g) [])
            ∧ r.2.s3.group_id = g ∧ r.2.s3.group_id_candidate = g
            ∧ r.2.session.kex_group = g)
      ∧ (¬ HasOverlap env T
            (kept_groups env s.ext.supportedgroups es) →
          ∃ g, IsLowestOverlap env T s.ext.peer_supportedgroups g
            ∧ r = (1, { s with s3 := { s.s3 with group_id_candidate := g } })
            ∧ r.2.s3.group_id = 0 ∧ r.2.s3.group_id_candidate = g)) := by
  refine ⟨fun h => tls_parse_ctos_key_share_psk_only env s _ h,
    fun hdhe hpeer => tls_parse_ctos_key_share_peer_key env s _ hdhe hpeer,
    fun hdhe hpeer => ?_⟩
  simp only [kept_groups, kept_keys] at hpre hT ⊢
  have hclnt := clnt_ne_nil_of_overlap env _ _ T es hin hT
  have hK := kept_length_le env s.ext.supportedgroups es hlen
  rw [tls_parse_ctos_key_share_select env s es hgid hdhe hpeer hwf hlen hin hclnt]
  obtain ⟨first1, n, ns, h1, _, h3⟩ :=
    tuple_loop_skip_prefix env s.ext.peer_supportedgroups _
      ((es.filter (suitable env s.ext.supportedgroups)).map KeyShareEntry.key_exchange)
      { s with s3 := { s.s3 with group_id_candidate := 0 } } T post hK (fun _ => hclen) pre
      s.ext.supportedgroups s.ext.tuples (fun h => absurd hpref h) htup hpre
  rw [h3]
  subst h1
  have hpref0 : ({ s with s3 := { s.s3 with group_id_candidate := 0 } } : SSL_CONNECTION).options
      &&& SSL_OP_SERVER_PREFERENCE ≠ 0 := hpref
  by_cases hov : HasOverlap env (first1.take n)
      ((es.filter (suitable env s.ext.supportedgroups)).map KeyShareEntry.group)
  · obtain ⟨g, hg, _⟩ := check_overlap_of_overlap env _ _ hK hov
    rw [tuple_loop_server_accept env _ _ _ _ first1 n ns g hpref0 hK (lowest_ne_zero env _ _ g hz hg) hg]
    refine ⟨_, rfl, fun _ => ⟨g, hg, rfl, tls_accept_ksgroup_fields env _ g _⟩, fun h => absurd hov h⟩
  · have hov2 : HasOverlap env (first1.take n) s.ext.peer_supportedgroups := by
      rcases (hasOverlap_append env _ _ _).mp hT with h | h
      · exact absurd h hov
      · exact h
    obtain ⟨g, hg, _⟩ := check_overlap_of_overlap env _ _ hclen hov2
    rw [tuple_loop_server_hrr env _ _ _ _ first1 n ns g hpref0 hK hclen (lowest_ne_zero env _ _ g hz hg) hov hg]
    refine ⟨_, rfl, fun h => absurd h hov, fun _ => ⟨g, hg, ?_, ?_, ?_⟩⟩
    · simp
    · simpa using hgid
    · simp

/-- Witness for C1 as amended: the server tuple [secp256r1, x25519] with shares for both
groups. -/
theorem C1_witness :
    ∃ r, tls_parse_ctos_key_share demo_env demo_conn_server_pref
          (key_share_extension demo_shares) = some r
      ∧ (HasOverlap demo_env [0x0017, 0x001D]
            (kept_groups demo_env demo_conn_server_pref.ext.supportedgroups demo_shares) →
          ∃ g, IsLowestOverlap demo_env [0x0017, 0x001D]
                (kept_groups demo_env demo_conn_server_pref.ext.supportedgroups demo_shares) g
            ∧ r = tls_accept_ksgroup demo_env
                { demo_conn_server_pref with
                    s3 := { demo_conn_server_pref.s3 with group_id_candidate := 0 } } g
                ((kept_keys demo_env demo_conn_server_pref.ext.supportedgroups demo_shares).getD
                  ((kept_groups demo_env demo_conn_server_pref.ext.supportedgroups
                      demo_shares).indexOf g) [])
            ∧ r.2.s3.group_id = g ∧ r.2.s3.group_id_candidate = g
            ∧ r.2.session.kex_group = g)
      ∧ (¬ HasOverlap demo_env [0x0017, 0x001D]
            (kept_groups demo_env demo_conn_server_pref.ext.supportedgroups demo_shares) →
          ∃ g, IsLowestOverlap demo_env [0x0017, 0x001D]
                demo_conn_server_pref.ext.peer_supportedgroups g
            ∧ r = (1, { demo_conn_server_pref with
                          s3 := { demo_conn_server_pref.s3 with group_id_candidate := g } })
            ∧ r.2.s3.group_id = 0 ∧ r.2.s3.group_id_candidate = g) :=
  (C1_server_preference_selection demo_env demo_conn_server_pref demo_shares
    [[0x0018]] [] [0x0017, 0x001D]
    (by decide) (by decide) (by decide) (by decide) (by decide) (by decide) (by decide)
    (by decide) (by decide) (by decide)).2.2 (by decide) (by decide)

/-- Counterexample for C2. The client's order decides and the server has the
tuples [secp384r1] and [secp256r1, x25519]; the client sends well-formed
shares for x25519 and secp256r1, both in its supported_groups, so the first
tuple with a group of the client is [secp256r1, x25519] and the earliest kept
share in it is the one for x25519. On a resumption whose only PSK key exchange
mode is psk_ke the parser returns 1 with group_id = 0 and
group_id_candidate = 0: it accepts nothing and names no candidate. With a peer
key already stored it fails with internal_error. -/
theorem C2_counterexample :
    demo_conn_client_pref_psk_only.s3.group_id = 0
      ∧ demo_conn_client_pref_psk_only.options &&& SSL_OP_SERVER_PREFERENCE = 0
      ∧ (∀ e ∈ demo_shares,
          e.wf ∧ e.group ∈ demo_conn_client_pref_psk_only.ext.peer_supportedgroups)
      ∧ group_tuples demo_conn_client_pref_psk_only.ext.supportedgroups
          demo_conn_client_pref_psk_only.ext.tuples = [[0x0018], [0x0017, 0x001D]]
      ∧ ¬ HasOverlap demo_env [0x0018]
          (kept_groups demo_env demo_conn_client_pref_psk_only.ext.supportedgroups demo_shares
            ++ demo_conn_client_pref_psk_only.ext.peer_supportedgroups)
      ∧ IsLowestOverlap demo_env
          (kept_groups demo_env demo_conn_client_pref_psk_only.ext.supportedgroups demo_shares)
          [0x0017, 0x001D] 0x001D
      ∧ tls_parse_ctos_key_share demo_env demo_conn_client_pref_psk_only
          (key_share_extension demo_shares) = some (1, demo_conn_client_pref_psk_only)
      ∧ demo_conn_client_pref_psk_only.s3.group_id_candidate = 0
      ∧ tls_parse_ctos_key_share demo_env demo_conn_client_pref_peer_key
          (key_share_extension demo_shares)
        = some (0, SSLfatal demo_conn_client_pref_peer_key Alert.SSL_AD_INTERNAL_ERROR
                    Reason.ERR_R_INTERNAL_ERROR) := by
  refine ⟨rfl, by decide, by decide, by decide, by decide, by decide, by decide, rfl,
    by decide⟩

/-- Claim C2 as amended, client-preference selection. With group_id = 0 at
entry, SSL_OP_SERVER_PREFERENCE clear and a well-formed key_share list whose
groups all occur in the client's supported_groups, let T be the first server
tuple that holds a policy-passing group offered by the client. On a resumption
whose PSK key exchange modes do not include psk_dhe_ke the call returns 1 at
once with group_id_candidate = 0 and walks no tuple. Otherwise, with a peer
key already stored, the sanity check fails with internal_error; with none, the
parser stops at T. If the group of a kept share lies in T, the call is
tls_accept_ksgroup for the earliest such share in the order of the key_share
list; otherwise it returns 1, accepts nothing and sets group_id_candidate to
the earliest policy-passing group, in the order of the client's
supported_groups, that lies in T. The server list has at most 65535 entries
(the loop counter of check_overlap is 16 bits wide) and the id 0 does not pass
the policy predicates. -/
theorem C2_client_preference_selection (env : Env) (s : SSL_CONNECTION)
    (es : List KeyShareEntry) (pre post : List (List Nat)) (T : List Nat)
    (hgid : s.s3.group_id = 0)
    (hpref : s.options &&& SSL_OP_SERVER_PREFERENCE = 0)
    (hwf : ∀ e ∈ es, e.wf) (hlen : (encode_key_shares es).length < 65536)
    (hin : ∀ e ∈ es, e.group ∈ s.ext.peer_supportedgroups)
    (hslen : s.ext.supportedgroups.length ≤ 65535)
    (hz : passes_policy env 0 = false)
    (htup : group_tuples s.ext.supportedgroups s.ext.tuples = pre ++ T :: post)
    (hpre : ∀ U ∈ pre, ¬ HasOverlap env U
      (kept_groups env s.ext.supportedgroups es ++ s.ext.peer_supportedgroups))
    (hT : HasOverlap env T
      (kept_groups env s.ext.supportedgroups es ++ s.ext.peer_supportedgroups)) :
    (s.hit = true ∧ s.ext.psk_kex_mode &&& TLSEXT_KEX_MODE_FLAG_KE_DHE = 0 →
        tls_parse_ctos_key_share env s (key_share_extension es)
          = some (1, { s with s3 := { s.s3 with group_id_candidate := 0 } }))
    ∧ (¬ (s.hit = true ∧ s.ext.psk_kex_mode &&& TLSEXT_KEX_MODE_FLAG_KE_DHE = 0) →
        s.s3.peer_tmp ≠ none →
        tls_parse_ctos_key_share env s (key_share_extension es)
          = some (0, SSLfatal { s with s3 := { s.s3 with group_id_candidate := 0 } }
              Alert.SSL_AD_INTERNAL_ERROR Reason.ERR_R_INTERNAL_ERROR))
    ∧ (¬ (s.hit = true ∧ s.ext.psk_kex_mode &&& TLSEXT_KEX_MODE_FLAG_KE_DHE = 0) →
        s.s3.peer_tmp = none →
    ∃ r, tls_parse_ctos_key_share env s (key_share_extension es) = some r
      ∧ (HasOverlap env T
            (kept_groups env s.ext.supportedgroups es) →
          ∃ g, IsLowestOverlap env
                (kept_groups env s.ext.supportedgroups es) T g
            ∧ r = tls_accept_ksgroup env { s with s3 := { s.s3 with group_id_candidate := 0 } } g
                ((kept_keys env s.ext.supportedgroups es).getD
                  ((kept_groups env s.ext.supportedgroups es).indexOf g) [])
            ∧ r.2.s3.group_id = g ∧ r.2.s3.group_id_candidate = g
            ∧ r.2.session.kex_group = g)
      ∧ (¬ HasOverlap env T
            (kept_groups env s.ext.supportedgroups es) →
          ∃ g, IsLowestOverlap env s.ext.peer_supportedgroups T g
            ∧ r = (1, { s with s3 := { s.s3 with group_id_candidate := g } })
            ∧ r.2.s3.group_id = 0 ∧ r.2.s3.group_id_candidate = g)) := by
  refine ⟨fun h => tls_parse_ctos_key_share_psk_only env s _ h,
    fun hdhe hpeer => tls_parse_ctos_key_share_peer_key env s _ hdhe hpeer,
    fun hdhe hpeer => ?_⟩
  simp only [kept_groups, kept_keys] at hpre hT ⊢
  have hclnt := clnt_ne_nil_of_overlap env _ _ T es hin hT
  have hK := kept_length_le env s.ext.supportedgroups es hlen
  rw [tls_parse_ctos_key_share_select env s es hgid hdhe hpeer hwf hlen hin hclnt]
  obtain ⟨first1, n, ns, h1, h2, h3⟩ :=
    tuple_loop_skip_prefix env s.ext.peer_supportedgroups _
      ((es.filter (suitable env s.ext.supportedgroups)).map KeyShareEntry.key_exchange)
      { s with s3 := { s.s3 with group_id_candidate := 0 } } T post hK
      (fun h => absurd hpref (by simpa using h)) pre
      s.ext.supportedgroups s.ext.tuples (fun _ => hslen) htup hpre
  rw [h3]
  subst h1
  have hpref0 : ¬ ({ s with s3 := { s.s3 with group_id_candidate := 0 } } : SSL_CONNECTION).options
      &&& SSL_OP_SERVER_PREFERENCE ≠ 0 := by simpa using hpref
  have hTl : (first1.take n).length ≤ 65535 := by
    have := h2 hpref0; simp; omega
  by_cases hov : HasOverlap env (first1.take n)
      ((es.filter (suitable env s.ext.supportedgroups)).map KeyShareEntry.group)
  · obtain ⟨g, hg, _⟩ := check_overlap_of_overlap env _ _ hTl ((hasOverlap_symm env _ _).mp hov)
    rw [tuple_loop_client_accept env _ _ _ _ first1 n ns g hpref0 hTl (lowest_ne_zero env _ _ g hz hg) hg]
    refine ⟨_, rfl, fun _ => ⟨g, hg, rfl, tls_accept_ksgroup_fields env _ g _⟩, fun h => absurd hov h⟩
  · have hov2 : HasOverlap env (first1.take n) s.ext.peer_supportedgroups := by
      rcases (hasOverlap_append env _ _ _).mp hT with h | h
      · exact absurd h hov
      · exact h
    obtain ⟨g, hg, _⟩ := check_overlap_of_overlap env _ _ hTl ((hasOverlap_symm env _ _).mp hov2)
    rw [tuple_loop_client_hrr env _ _ _ _ first1 n ns g hpref0 hTl (lowest_ne_zero env _ _ g hz hg) hov hg]
    refine ⟨_, rfl, fun h => absurd h hov, fun _ => ⟨g, hg, ?_, ?_, ?_⟩⟩
    · simp
    · simpa using hgid
    · simp

/-- Witness for C2 as amended: the server tuple [secp256r1, x25519] with shares for both
groups. -/
theorem C2_witness :
    ∃ r, tls_parse_ctos_key_share demo_env demo_conn_client_pref
          (key_share_extension demo_shares) = some r
      ∧ (HasOverlap demo_env [0x0017, 0x001D]
            (kept_groups demo_env demo_conn_client_pref.ext.supportedgroups demo_shares) →
          ∃ g, IsLowestOverlap demo_env
                (kept_groups demo_env demo_conn_client_pref.ext.supportedgroups demo_shares)
                [0x0017, 0x001D] g
            ∧ r = tls_accept_ksgroup demo_env
                { demo_conn_client_pref with
                    s3 := { demo_conn_client_pref.s3 with group_id_candidate := 0 } } g
                ((kept_keys demo_env demo_conn_client_pref.ext.supportedgroups demo_shares).getD
                  ((kept_groups demo_env demo_conn_client_pref.ext.supportedgroups
                      demo_shares).indexOf g) [])
            ∧ r.2.s3.group_id = g ∧ r.2.s3.group_id_candidate = g
            ∧ r.2.session.kex_group = g)
      ∧ (¬ HasOverlap demo_env [0x0017, 0x001D]
            (kept_groups demo_env demo_conn_client_pref.ext.supportedgroups demo_shares) →
          ∃ g, IsLowestOverlap demo_env demo_conn_client_pref.ext.peer_supportedgroups
                [0x0017, 0x001D] g
            ∧ r = (1, { demo_conn_client_pref with
                          s3 := { demo_conn_client_pref.s3 with group_id_candidate := g } })
            ∧ r.2.s3.group_id = 0 ∧ r.2.s3.group_id_candidate = g) :=
  (C2_client_preference_selection demo_env demo_conn_client_pref demo_shares
    [[0x0018]] [] [0x0017, 0x001D]
    (by decide) (by decide) (by decide) (by decide) (by decide) (by decide) (by decide)
    (by decide) (by decide) (by decide)).2.2 (by decide) (by decide)

/-- Claim C3 as amended. With SSL_OP_SERVER_PREFERENCE set, group_id = 0 and a
well-formed key_share list, every reordering of the list makes
tls_parse_ctos_key_share end with the same group_id and the same
group_id_candidate. -/
theorem C3_server_preference_order_independent (env : Env) (s : SSL_CONNECTION)
    (es1 es2 : List KeyShareEntry)
    (hgid : s.s3.group_id = 0)
    (hpref : s.options &&& SSL_OP_SERVER_PREFERENCE ≠ 0)
    (hwf : ∀ e ∈ es1, e.wf) (hlen : (encode_key_shares es1).length < 65536)
    (hclen : s.ext.peer_supportedgroups.length ≤ 65535)
    (hperm : es1.Perm es2) :
    ∃ r1 r2, tls_parse_ctos_key_share env s (key_share_extension es1) = some r1
      ∧ tls_parse_ctos_key_share env s (key_share_extension es2) = some r2
      ∧ r1.2.s3.group_id = r2.2.s3.group_id
      ∧ r1.2.s3.group_id_candidate = r2.2.s3.group_id_candidate := by
  have hwf2 : ∀ e ∈ es2, e.wf := fun e he => hwf e (hperm.mem_iff.mpr he)
  have hlen2 : (encode_key_shares es2).length < 65536 := by
    rw [← encode_key_shares_length_perm es1 es2 hperm]; exact hlen
  rw [tls_parse_ctos_key_share_encoded env s es1 hgid hwf hlen,
    tls_parse_ctos_key_share_encoded env s es2 hgid hwf2 hlen2]
  split
  · exact ⟨_, _, rfl, rfl, rfl, rfl⟩
  split
  · exact ⟨_, _, rfl, rfl, rfl, rfl⟩
  split
  · exact ⟨_, _, rfl, rfl, rfl, rfl⟩
  by_cases hin : ∀ e ∈ es1, e.group ∈ s.ext.peer_supportedgroups
  · have hin2 : ∀ e ∈ es2, e.group ∈ s.ext.peer_supportedgroups :=
      fun e he => hin e (hperm.mem_iff.mpr he)
    rw [if_pos hin, if_pos hin2]
    have hp : ((es1.filter (suitable env s.ext.supportedgroups)).map KeyShareEntry.group).Perm
        ((es2.filter (suitable env s.ext.supportedgroups)).map KeyShareEntry.group) :=
      (hperm.filter _).map _
    have hpref0 : ({ s with s3 := { s.s3 with group_id_candidate := 0 } } : SSL_CONNECTION).options
        &&& SSL_OP_SERVER_PREFERENCE ≠ 0 := hpref
    exact tuple_loop_server_congr env _ _ _ _ _ _ hpref0 (fun x => hp.mem_iff)
      (kept_length_le env _ es1 hlen) (kept_length_le env _ es2 hlen2) hclen _ _
  · have hin2 : ¬ ∀ e ∈ es2, e.group ∈ s.ext.peer_supportedgroups :=
      fun h => hin (fun e he => h e (hperm.mem_iff.mp he))
    rw [if_neg hin, if_neg hin2]
    exact ⟨_, _, rfl, rfl, rfl, rfl⟩

/-- Witness for C3 as amended: the two orders of demo_shares under server
preference. -/
theorem C3_witness :
    ∃ r1 r2, tls_parse_ctos_key_share demo_env demo_conn_server_pref
          (key_share_extension demo_shares) = some r1
      ∧ tls_parse_ctos_key_share demo_env demo_conn_server_pref
          (key_share_extension demo_shares_reordered) = some r2
      ∧ r1.2.s3.group_id = r2.2.s3.group_id
      ∧ r1.2.s3.group_id_candidate = r2.2.s3.group_id_candidate :=
  C3_server_preference_order_independent demo_env demo_conn_server_pref demo_shares
    demo_shares_reordered (by decide) (by decide) (by decide) (by decide) (by decide)
    (List.Perm.swap _ _ _)

/-- Counterexample to C3 as stated: under client preference the list
[x25519, secp256r1], which follows the order of the client's supported_groups,
ends with group_id = x25519, and its reordering [secp256r1, x25519] ends with
group_id = secp256r1. -/
theorem C3_counterexample :
    demo_conn_client_pref.s3.group_id = 0
    ∧ in_supported_groups_order demo_conn_client_pref.ext.peer_supportedgroups demo_shares
    ∧ demo_shares.Perm demo_shares_reordered
    ∧ (tls_parse_ctos_key_share demo_env demo_conn_client_pref
          (key_share_extension demo_shares)).map (fun r => (r.1, r.2.s3.group_id))
        = some (1, 0x001D)
    ∧ (tls_parse_ctos_key_share demo_env demo_conn_client_pref
          (key_share_extension demo_shares_reordered)).map (fun r => (r.1, r.2.s3.group_id))
        = some (1, 0x0017) :=
  ⟨by decide, by decide, List.Perm.swap _ _ _, by decide, by decide⟩

/-- Claim C4 as amended. In scenario B (server groups [secp256r1, x25519],
group_id = 0, one 97-byte share for secp384r1) the call fails with
illegal_parameter and SSL_R_BAD_KEY_SHARE when the client's supported_groups
are [x25519, secp256r1], because the share's group is not among them. When the
client also lists secp384r1, the server groups form one tuple, client
preference is in force and x25519 passes the policy predicates, the call
returns 1 without accepting a share and leaves group_id_candidate = 0x001D. -/
theorem C4_scenario_B_amended (env : Env) (s : SSL_CONNECTION) (key : List Nat)
    (hgid : s.s3.group_id = 0)
    (hdhe : ¬ (s.hit = true ∧ s.ext.psk_kex_mode &&& TLSEXT_KEX_MODE_FLAG_KE_DHE = 0))
    (hpeer : s.s3.peer_tmp = none)
    (hsrv : s.ext.supportedgroups = [0x0017, 0x001D]) (hkey : key.length = 97) :
    (s.ext.peer_supportedgroups = [0x001D, 0x0017] →
        tls_parse_ctos_key_share env s (key_share_extension [⟨0x0018, key⟩])
          = some (0, SSLfatal { s with s3 := { s.s3 with group_id_candidate := 0 } }
              Alert.SSL_AD_ILLEGAL_PARAMETER Reason.SSL_R_BAD_KEY_SHARE))
    ∧ (s.ext.peer_supportedgroups = [0x001D, 0x0017, 0x0018] → s.ext.tuples = [2] →
        s.options &&& SSL_OP_SERVER_PREFERENCE = 0 → passes_policy env 0x001D = true →
        tls_parse_ctos_key_share env s (key_share_extension [⟨0x0018, key⟩])
          = some (1, { s with s3 := { s.s3 with group_id_candidate := 0x001D } })) := by
  have hwf : ∀ e ∈ [(⟨0x0018, key⟩ : KeyShareEntry)], e.wf := by
    intro e he
    rw [List.mem_singleton] at he
    subst he
    simp [KeyShareEntry.wf, hkey]
  have hlen : (encode_key_shares [(⟨0x0018, key⟩ : KeyShareEntry)]).length < 65536 := by
    simp [encode_key_shares, encode_length, hkey]
  constructor
  · intro hc
    rw [tls_parse_ctos_key_share_encoded env s _ hgid hwf hlen, if_neg hdhe,
      if_neg (by simp [hpeer]), if_neg (by simp [hc]), if_neg (by simp [hc])]
  · intro hc ht ho hp
    rw [tls_parse_ctos_key_share_select env s _ hgid hdhe hpeer hwf hlen (by simp [hc])
      (by simp [hc])]
    have hK : (List.filter (suitable env s.ext.supportedgroups) [(⟨0x0018, key⟩ : KeyShareEntry)])
        = [] := by
      simp [suitable, hsrv]
    rw [hK, hsrv, ht, hc]
    have hg : IsLowestOverlap env [0x001D, 0x0017, 0x0018] (List.take 2 [0x0017, 0x001D]) 0x001D := by
      refine ⟨by simp, by simp, hp, ?_⟩
      intro h _ _ _
      simp
    rw [tuple_loop_client_hrr env _ _ _ _ [0x0017, 0x001D] 2 [] 0x001D (by simpa using ho)
      (by simp) (by decide) (by simp [HasOverlap]) hg]

/-- Witness for C4 as amended: scenario B with secp384r1 listed by the client. -/
theorem C4_witness :
    tls_parse_ctos_key_share demo_env scenario_B_listed
        (key_share_extension [⟨0x0018, List.replicate 97 4⟩])
      = some (1, { scenario_B_listed with
                     s3 := { scenario_B_listed.s3 with group_id_candidate := 0x001D } }) :=
  (C4_scenario_B_amended demo_env scenario_B_listed (List.replicate 97 4)
    (by decide) (by decide) (by decide) (by decide) (by decide)).2
    (by decide) (by decide) (by decide) (by decide)

/-- Counterexample to C4 as stated: in scenario B the call returns 0 with
illegal_parameter staged and group_id_candidate = 0. -/
theorem C4_counterexample :
    tls_parse_ctos_key_share demo_env scenario_B
        (key_share_extension [⟨0x0018, List.replicate 97 4⟩])
      = some (0, SSLfatal scenario_B Alert.SSL_AD_ILLEGAL_PARAMETER Reason.SSL_R_BAD_KEY_SHARE) := by
  decide

/-- Claim C5, the membership check of phase A. For a well-formed key_share list
and group_id = 0, extract_keyshares fails with illegal_parameter and
SSL_R_BAD_KEY_SHARE if some share's group is absent from the client's
supported_groups, and returns EXTRACTION_SUCCESS if every group is present,
whatever the order of the shares. The shares it keeps are exactly those whose
group is in the server's list and passes the policy predicates, in their
original order. -/
theorem C5_extract_keyshares_membership (env : Env) (s : SSL_CONNECTION)
    (es : List KeyShareEntry) (clntgroups srvrgroups : List Nat)
    (hgid : s.s3.group_id = 0) (hwf : ∀ e ∈ es, e.wf) :
    ((∃ e ∈ es, e.group ∉ clntgroups) →
        extract_keyshares env s (encode_key_shares es) clntgroups srvrgroups
          = some ⟨KS_EXTRACTION_RESULT.EXTRACTION_FAILURE,
              SSLfatal s Alert.SSL_AD_ILLEGAL_PARAMETER Reason.SSL_R_BAD_KEY_SHARE, [], []⟩)
    ∧ ((∀ e ∈ es, e.group ∈ clntgroups) →
        extract_keyshares env s (encode_key_shares es) clntgroups srvrgroups
          = some ⟨KS_EXTRACTION_RESULT.EXTRACTION_SUCCESS, s,
              kept_groups env srvrgroups es, kept_keys env srvrgroups es⟩) := by
  unfold extract_keyshares kept_groups kept_keys
  rw [extract_keyshares_loop_encoded env clntgroups srvrgroups es hwf _ s [] [] hgid
    (by unfold PACKET_remaining; omega)]
  constructor
  · rintro ⟨e, he, hne⟩
    rw [if_neg (fun h => hne (h e he))]
  · intro h
    rw [if_pos h]; simp

/-- Witness for C5: three shares out of the client's order, the middle one for
a group the server does not have. -/
theorem C5_witness :
    extract_keyshares demo_env scenario_B
        (encode_key_shares [⟨0x0017, [4, 1, 2]⟩, ⟨0x0018, [9]⟩, ⟨0x001D, [5, 6]⟩])
        [0x001D, 0x0018, 0x0017] [0x0017, 0x001D]
      = some ⟨KS_EXTRACTION_RESULT.EXTRACTION_SUCCESS, scenario_B,
          kept_groups demo_env [0x0017, 0x001D]
            [⟨0x0017, [4, 1, 2]⟩, ⟨0x0018, [9]⟩, ⟨0x001D, [5, 6]⟩],
          kept_keys demo_env [0x0017, 0x001D]
            [⟨0x0017, [4, 1, 2]⟩, ⟨0x0018, [9]⟩, ⟨0x001D, [5, 6]⟩]⟩ :=
  (C5_extract_keyshares_membership demo_env scenario_B
    [⟨0x0017, [4, 1, 2]⟩, ⟨0x0018, [9]⟩, ⟨0x001D, [5, 6]⟩]
    [0x001D, 0x0018, 0x0017] [0x0017, 0x001D] (by decide) (by decide)).2 (by decide)

/-- Counterexample for C6. After an HRR for x25519, on a resumption whose
only PSK key exchange mode is psk_ke, an empty key_share list and a list of two
shares both return 1 with the connection unchanged: success without exactly
one share, and no illegal_parameter. With psk_dhe_ke allowed, an empty list
from a client without supported_groups gives missing_extension, and any body
gives internal_error while a peer key is stored. -/
theorem C6_counterexample :
    demo_conn_after_hrr_psk_only.s3.group_id ≠ 0
      ∧ tls_parse_ctos_key_share demo_env demo_conn_after_hrr_psk_only (key_share_extension [])
          = some (1, demo_conn_after_hrr_psk_only)
      ∧ tls_parse_ctos_key_share demo_env demo_conn_after_hrr_psk_only
            (key_share_extension demo_shares)
          = some (1, demo_conn_after_hrr_psk_only)
      ∧ demo_conn_after_hrr_no_groups.s3.group_id ≠ 0
      ∧ tls_parse_ctos_key_share demo_env demo_conn_after_hrr_no_groups (key_share_extension [])
          = some (0, SSLfatal demo_conn_after_hrr_no_groups Alert.SSL_AD_MISSING_EXTENSION
                      Reason.SSL_R_MISSING_SUPPORTED_GROUPS_EXTENSION)
      ∧ demo_conn_after_hrr_peer_key.s3.group_id ≠ 0
      ∧ tls_parse_ctos_key_share demo_env demo_conn_after_hrr_peer_key (key_share_extension [])
          = some (0, SSLfatal demo_conn_after_hrr_peer_key Alert.SSL_AD_INTERNAL_ERROR
                      Reason.ERR_R_INTERNAL_ERROR) := by
  refine ⟨by decide, by decide, by decide, by decide, by decide, by decide, by decide⟩

/-- Claim C6 as amended, the key_share after an HRR. With group_id nonzero at
entry: on a resumption whose PSK key exchange modes do not include psk_dhe_ke
the call returns 1 for every body, with group_id_candidate = 0 and nothing
else changed. Otherwise tls_parse_ctos_key_share always returns; it returns
success only if the body is the encoding of exactly one share for group_id,
and then the result is that of tls_accept_ksgroup for group_id, which leaves
group_id unchanged and involves no tuple. With a peer key already stored
every body gives internal_error. With none stored, a framed list from a client
without supported_groups gives missing_extension; with supported_groups
present, an empty list, a well-formed first share for another group and a
first share followed by further bytes each give illegal_parameter with
SSL_R_BAD_KEY_SHARE. -/
theorem C6_key_share_after_hrr (env : Env) (s : SSL_CONNECTION)
    (hgid : s.s3.group_id ≠ 0) :
    (s.hit = true ∧ s.ext.psk_kex_mode &&& TLSEXT_KEX_MODE_FLAG_KE_DHE = 0 →
      ∀ pkt : PACKET, tls_parse_ctos_key_share env s pkt
        = some (1, { s with s3 := { s.s3 with group_id_candidate := 0 } }))
    ∧ (¬ (s.hit = true ∧ s.ext.psk_kex_mode &&& TLSEXT_KEX_MODE_FLAG_KE_DHE = 0) →
    (∀ pkt : PACKET, ∃ r, tls_parse_ctos_key_share env s pkt = some r)
    ∧ (∀ (pkt : PACKET) (r : RET), (∀ b ∈ pkt, b < 256) →
        tls_parse_ctos_key_share env s pkt = some r → r.1 ≠ 0 →
        ∃ key, pkt = key_share_extension [⟨s.s3.group_id, key⟩] ∧ key ≠ []
          ∧ r = tls_accept_ksgroup env { s with s3 := { s.s3 with group_id_candidate := 0 } }
                  s.s3.group_id key
          ∧ r.2.s3.group_id = s.s3.group_id)
    ∧ (s.s3.peer_tmp ≠ none →
        ∀ pkt : PACKET, tls_parse_ctos_key_share env s pkt
          = some (0, SSLfatal { s with s3 := { s.s3 with group_id_candidate := 0 } }
              Alert.SSL_AD_INTERNAL_ERROR Reason.ERR_R_INTERNAL_ERROR))
    ∧ (s.s3.peer_tmp = none → s.ext.peer_supportedgroups = [] →
        ∀ key_share_list : List Nat, key_share_list.length < 65536 →
          tls_parse_ctos_key_share env s
              (put_value key_share_list.length 2 ++ key_share_list)
            = some (0, SSLfatal { s with s3 := { s.s3 with group_id_candidate := 0 } }
                Alert.SSL_AD_MISSING_EXTENSION
                Reason.SSL_R_MISSING_SUPPORTED_GROUPS_EXTENSION))
    ∧ (s.s3.peer_tmp = none → s.ext.peer_supportedgroups ≠ [] →
        tls_parse_ctos_key_share env s (key_share_extension [])
          = some (0, SSLfatal { s with s3 := { s.s3 with group_id_candidate := 0 } }
              Alert.SSL_AD_ILLEGAL_PARAMETER Reason.SSL_R_BAD_KEY_SHARE))
    ∧ (s.s3.peer_tmp = none → s.ext.peer_supportedgroups ≠ [] →
        ∀ (e : KeyShareEntry) (rest : List Nat), e.wf → (e.encode ++ rest).length < 65536 →
          (e.group ≠ s.s3.group_id ∨ rest ≠ []) →
          tls_parse_ctos_key_share env s
              (put_value (e.encode ++ rest).length 2 ++ (e.encode ++ rest))
            = some (0, SSLfatal { s with s3 := { s.s3 with group_id_candidate := 0 } }
                Alert.SSL_AD_ILLEGAL_PARAMETER Reason.SSL_R_BAD_KEY_SHARE))) := by
  refine ⟨fun h pkt => tls_parse_ctos_key_share_psk_only env s pkt h, fun hdhe =>
    ⟨?_, ?_, fun hpeer pkt => tls_parse_ctos_key_share_peer_key env s pkt hdhe hpeer,
      fun hpeer hclnt ksl hlen =>
        tls_parse_ctos_key_share_no_groups env s ksl hdhe hpeer hclnt hlen, ?_, ?_⟩⟩
  · intro pkt
    rcases tls_parse_ctos_key_share_hrr env s pkt hgid hdhe with ⟨st, h⟩ | ⟨_, _, _, _, _, _, _, _, _, h⟩
    · exact ⟨_, h⟩
    · exact ⟨_, h⟩
  · intro pkt r hb hres hr
    rcases tls_parse_ctos_key_share_hrr env s pkt hgid hdhe with
      ⟨st, h⟩ | ⟨ksl, g, l1, key, h1, h2, h3, hk, hg, h⟩
    · rw [h] at hres
      simp only [Option.some.injEq] at hres
      subst hres
      exact absurd rfl hr
    · rw [h] at hres
      simp only [Option.some.injEq] at hres
      obtain ⟨e1, _⟩ := PACKET_as_length_prefixed_2_inv pkt ksl h1 hb
      have hbk : ∀ b ∈ ksl, b < 256 := by
        intro b hbm
        apply hb b
        rw [e1]
        exact List.mem_append_right _ hbm
      obtain ⟨e2, _⟩ := PACKET_get_net_2_inv ksl l1 g h2 hbk
      have hbl : ∀ b ∈ l1, b < 256 := by
        intro b hbm
        apply hbk b
        rw [e2]
        exact List.mem_append_right _ hbm
      obtain ⟨e3, _⟩ := PACKET_get_length_prefixed_2_inv l1 key [] h3 hbl
      refine ⟨key, ?_, hk, hres.symm, ?_⟩
      · unfold key_share_extension
        have : encode_key_shares [(⟨s.s3.group_id, key⟩ : KeyShareEntry)] = ksl := by
          rw [e2, e3, hg]
          simp [encode_key_shares, KeyShareEntry.encode]
        rw [this]
        exact e1
      · rw [← hres]
        exact (tls_accept_ksgroup_fields env _ _ _).1
  · intro hpeer hclnt
    unfold tls_parse_ctos_key_share key_share_extension
    simp only []
    rw [if_neg hdhe, if_neg (by simp [hpeer]),
      PACKET_as_length_prefixed_2_put_value _ (by simp [encode_key_shares])]
    simp only []
    rw [if_neg (by simpa using hclnt), if_pos ⟨hgid, by simp [encode_key_shares, PACKET_remaining]⟩]
  · intro hpeer hclnt e rest hwf hlen hbad
    obtain ⟨hg, hk0, hk⟩ := hwf
    unfold tls_parse_ctos_key_share
    simp only []
    rw [if_neg hdhe, if_neg (by simp [hpeer]), PACKET_as_length_prefixed_2_put_value _ hlen]
    simp only []
    have hne : e.encode ++ rest ≠ [] := by
      intro h
      have := congrArg List.length h
      simp [encode_length] at this
    have hrem : ¬ (s.s3.group_id ≠ 0 ∧ PACKET_remaining (e.encode ++ rest) = 0) := by
      rintro ⟨_, h0⟩
      exact hne (List.length_eq_zero.mp h0)
    rw [if_neg (by simpa using hclnt), if_neg hrem]
    unfold extract_keyshares
    rw [extract_keyshares_loop_hrr env _ _ _ _ _ [] [] (by simpa using hgid) hne]
    have henc : e.encode ++ rest
        = put_value e.group 2 ++ (put_value e.key_exchange.length 2 ++ (e.key_exchange ++ rest)) := by
      simp [KeyShareEntry.encode]
    rw [henc, PACKET_get_net_2_put_value _ _ hg]
    simp only []
    rw [PACKET_get_length_prefixed_2_put_value _ _ hk]
    simp only []
    have hkne : e.key_exchange ≠ [] := List.length_pos.mp hk0
    rw [if_neg hkne, if_pos hbad]
    simp

/-- Witness for C6 as amended: an empty key_share list after an HRR for
x25519, with no resumption, no stored peer key and supported_groups present. -/
theorem C6_witness :
    tls_parse_ctos_key_share demo_env demo_conn_after_hrr (key_share_extension [])
      = some (0, SSLfatal
          { demo_conn_after_hrr with
              s3 := { demo_conn_after_hrr.s3 with group_id_candidate := 0 } }
          Alert.SSL_AD_ILLEGAL_PARAMETER Reason.SSL_R_BAD_KEY_SHARE) :=
  ((C6_key_share_after_hrr demo_env demo_conn_after_hrr (by decide)).2 (by decide)).2.2.2.2.1
    (by decide) (by decide)

/-- Claim C7, cookie tampering. In stateless mode with a verify callback, for
every cookie of at least 32 bytes whose last 32 bytes differ from the
HMAC-SHA-256 of the bytes before them, tls_parse_ctos_cookie returns 0 with
illegal_parameter and SSL_R_COOKIE_MISMATCH staged and nothing else changed.
In particular this holds for a MAC-valid cookie whose last byte was changed. -/
theorem C7_cookie_tampering (env : Env) (s : SSL_CONNECTION) (verify_cb : List Nat → Bool)
    (hcb : env.verify_stateless_cookie_cb = some verify_cb)
    (hst : s.s3.flags &&& TLS1_FLAGS_STATELESS ≠ 0)
    (hmac : ∀ d, ∃ m, env.EVP_DigestSign s.ext.cookie_hmac_key d = some m ∧ m.length = 32) :
    (∀ cookie : List Nat, 32 ≤ cookie.length → cookie.length < 65536 →
        env.EVP_DigestSign s.ext.cookie_hmac_key (cookie.take (cookie.length - 32))
          ≠ some (cookie.drop (cookie.length - 32)) →
        tls_parse_ctos_cookie env s (cookie_extension cookie)
          = (0, SSLfatal s Alert.SSL_AD_ILLEGAL_PARAMETER Reason.SSL_R_COOKIE_MISMATCH))
    ∧ (∀ (body : List Nat) (b c : Nat), 32 ≤ (body ++ [b]).length → (body ++ [b]).length < 65536 →
        env.EVP_DigestSign s.ext.cookie_hmac_key
            ((body ++ [b]).take ((body ++ [b]).length - 32))
          = some ((body ++ [b]).drop ((body ++ [b]).length - 32)) →
        c ≠ b →
        tls_parse_ctos_cookie env s (cookie_extension (body ++ [c]))
          = (0, SSLfatal s Alert.SSL_AD_ILLEGAL_PARAMETER Reason.SSL_R_COOKIE_MISMATCH)) := by
  have general : ∀ cookie : List Nat, 32 ≤ cookie.length → cookie.length < 65536 →
      env.EVP_DigestSign s.ext.cookie_hmac_key (cookie.take (cookie.length - 32))
        ≠ some (cookie.drop (cookie.length - 32)) →
      tls_parse_ctos_cookie env s (cookie_extension cookie)
        = (0, SSLfatal s Alert.SSL_AD_ILLEGAL_PARAMETER Reason.SSL_R_COOKIE_MISMATCH) := by
    intro cookie h32 hlen hne
    obtain ⟨m, hm, hml⟩ := hmac (cookie.take (cookie.length - 32))
    exact tls_parse_ctos_cookie_mac_mismatch env s verify_cb cookie m hcb hst h32 hlen hm hml
      (fun h => hne (by rw [hm, h]))
  refine ⟨general, ?_⟩
  intro body b c h32 hlen hok hcb2
  have hl : (body ++ [c]).length = (body ++ [b]).length := by simp
  apply general (body ++ [c]) (by rw [hl]; exact h32) (by rw [hl]; exact hlen)
  have hk : (body ++ [b]).length - 32 ≤ body.length := by simp
  rw [hl, List.take_append_of_le_length hk]
  rw [List.take_append_of_le_length hk] at hok
  rw [hok]
  intro heq
  simp only [Option.some.injEq] at heq
  rw [List.drop_append_of_le_length hk, List.drop_append_of_le_length hk] at heq
  have := List.append_inj_right heq rfl
  simp at this
  exact hcb2 this.symm

/-- Witness for C7: the cookie of demo_env with its last byte replaced. -/
theorem C7_witness :
    tls_parse_ctos_cookie demo_env demo_conn_cookie
        (cookie_extension (demo_cookie.dropLast ++ [demo_cookie.getLastD 0 + 1]))
      = (0, SSLfatal demo_conn_cookie Alert.SSL_AD_ILLEGAL_PARAMETER
              Reason.SSL_R_COOKIE_MISMATCH) :=
  (C7_cookie_tampering demo_env demo_conn_cookie (fun c => c == [7, 7]) rfl (by decide)
    (fun _ => ⟨_, rfl, List.length_replicate _ _⟩)).2
    demo_cookie.dropLast (demo_cookie.getLastD 0) (demo_cookie.getLastD 0 + 1)
    (by decide) (by decide) (by decide) (by decide)

/-- Claim C9, the wire format of the cookie. Whenever tls_construct_stoc_cookie
returns EXT_RETURN_SENT it has appended the extension type and, inside two
2-byte length prefixes, the cookie: u16 1, u16 0x0304, u16 group_id, the two
cipher bytes, one byte that is 1 exactly when peer_tmp is absent, u64 time,
u16 length and transcript hash, u8 length and application cookie, followed by
the 32-byte HMAC under cookie_hmac_key of all those bytes. -/
theorem C9_cookie_wire_format (env : Env) (s s1 : SSL_CONNECTION) (pkt pkt1 : WPACKET)
    (hsha : ∀ d m, env.EVP_DigestSign s.ext.cookie_hmac_key d = some m
      → m.length = SHA256_DIGEST_LENGTH)
    (h : tls_construct_stoc_cookie env s pkt = (EXT_RETURN.EXT_RETURN_SENT, s1, pkt1)) :
    ∃ sub ps c gen_cb chhash appcookie hmac,
      pkt.subs = sub :: ps ∧ s.s3.tmp.new_cipher = some c
      ∧ env.ssl_handshake_hash s = some chhash
      ∧ env.gen_stateless_cookie_cb = some gen_cb ∧ gen_cb s = some appcookie
      ∧ env.EVP_DigestSign s.ext.cookie_hmac_key
          (cookie_plaintext s.s3.group_id (put_value c.id 2)
            (if s.s3.peer_tmp = none then 1 else 0) (env.time % 2 ^ 64) chhash appcookie)
          = some hmac
      ∧ hmac.length = 32
      ∧ pkt1.subs = { sub with body := sub.body ++ (put_value TLSEXT_TYPE_cookie 2 ++ cookie_extension (cookie_extension (cookie_plaintext s.s3.group_id (put_value c.id 2) (if s.s3.peer_tmp = none then 1 else 0) (env.time % 2 ^ 64) chhash appcookie ++ hmac))) } :: ps := by
  obtain ⟨sub, ps, c, gen_cb, chhash, appcookie, hmac, h1, h2, _, _, h5, h6, _, h8, _, h10, _, h12⟩ :=
    tls_construct_stoc_cookie_sent env s s1 pkt pkt1 h
  exact ⟨sub, ps, c, gen_cb, chhash, appcookie, hmac, h1, h2, h8, h5, h6, h10, hsha _ _ h10,
    by rw [h12]⟩

/-- Witness for C9: demo_env writes the cookie of demo_conn_cookie into demo_writer. -/
theorem C9_witness :
    ∃ sub ps c gen_cb chhash appcookie hmac,
      demo_writer.subs = sub :: ps ∧ demo_conn_cookie.s3.tmp.new_cipher = some c
      ∧ demo_env.ssl_handshake_hash demo_conn_cookie = some chhash
      ∧ demo_env.gen_stateless_cookie_cb = some gen_cb ∧ gen_cb demo_conn_cookie = some appcookie
      ∧ demo_env.EVP_DigestSign demo_conn_cookie.ext.cookie_hmac_key
          (cookie_plaintext demo_conn_cookie.s3.group_id (put_value c.id 2)
            (if demo_conn_cookie.s3.peer_tmp = none then 1 else 0) (demo_env.time % 2 ^ 64)
            chhash appcookie)
          = some hmac
      ∧ hmac.length = 32
      ∧ demo_writer_sent.subs = { sub with body := sub.body ++ (put_value TLSEXT_TYPE_cookie 2 ++ cookie_extension (cookie_extension (cookie_plaintext demo_conn_cookie.s3.group_id (put_value c.id 2) (if demo_conn_cookie.s3.peer_tmp = none then 1 else 0) (demo_env.time % 2 ^ 64) chhash appcookie ++ hmac))) } :: ps :=
  C9_cookie_wire_format demo_env demo_conn_cookie demo_conn_cookie demo_writer demo_writer_sent
    (fun d m h => by
      simp only [demo_env, Option.some.injEq] at h
      rw [← h]
      exact List.length_replicate _ _)
    (by decide)

/-- Claim C11, an unknown cookie format is ignored. For every cookie whose HMAC
verifies and whose format version, the first two bytes, is not 1,
tls_parse_ctos_cookie returns 1 whatever bytes follow, and the connection is
as it was before the call: hello_retry_request, cookieok and the transcript
are untouched. -/
theorem C11_unknown_cookie_format_ignored (env : Env) (s : SSL_CONNECTION)
    (format : Nat) (rest : List Nat)
    (hfmt : format < 65536)
    (hlen : (put_value format 2 ++ rest).length < 65536)
    (hmac : cookie_mac_valid env s (put_value format 2 ++ rest))
    (hne : format ≠ COOKIE_STATE_FORMAT_VERSION) :
    tls_parse_ctos_cookie env s (cookie_extension (put_value format 2 ++ rest)) = (1, s)
      ∧ (tls_parse_ctos_cookie env s
            (cookie_extension (put_value format 2 ++ rest))).2.hello_retry_request
          = s.hello_retry_request
      ∧ (tls_parse_ctos_cookie env s
            (cookie_extension (put_value format 2 ++ rest))).2.ext.cookieok = s.ext.cookieok
      ∧ (tls_parse_ctos_cookie env s
            (cookie_extension (put_value format 2 ++ rest))).2.handshake_transcript
          = s.handshake_transcript := by
  have h : tls_parse_ctos_cookie env s (cookie_extension (put_value format 2 ++ rest))
      = (1, s) := by
    cases hcb : env.verify_stateless_cookie_cb with
    | none =>
      unfold tls_parse_ctos_cookie
      rw [hcb]
    | some verify_cb =>
      by_cases hst : s.s3.flags &&& TLS1_FLAGS_STATELESS = 0
      · unfold tls_parse_ctos_cookie
        rw [hcb]
        simp only []
        rw [if_pos hst]
      · exact tls_parse_ctos_cookie_mac_valid env s verify_cb format rest hcb hst hfmt hlen
          hmac hne
  rw [h]
  exact ⟨rfl, rfl, rfl, rfl⟩

/-- Witness for C11: a MAC-valid cookie of format version 2. -/
theorem C11_witness :
    tls_parse_ctos_cookie demo_env demo_conn_cookie
          (cookie_extension (put_value 2 2 ++ demo_cookie_rest_format_2))
        = (1, demo_conn_cookie)
      ∧ (tls_parse_ctos_cookie demo_env demo_conn_cookie
            (cookie_extension (put_value 2 2 ++ demo_cookie_rest_format_2))).2.hello_retry_request
          = demo_conn_cookie.hello_retry_request
      ∧ (tls_parse_ctos_cookie demo_env demo_conn_cookie
            (cookie_extension (put_value 2 2 ++ demo_cookie_rest_format_2))).2.ext.cookieok
          = demo_conn_cookie.ext.cookieok
      ∧ (tls_parse_ctos_cookie demo_env demo_conn_cookie
            (cookie_extension (put_value 2 2 ++ demo_cookie_rest_format_2))).2.handshake_transcript
          = demo_conn_cookie.handshake_transcript :=
  C11_unknown_cookie_format_ignored demo_env demo_conn_cookie 2 demo_cookie_rest_format_2
    (by decide) (by decide) ⟨by decide, by decide⟩ (by decide)

/-- Claim C13, the rebuilt HelloRetryRequest carries the emitted extensions.
While a HelloRetryRequest is pending, let tls_construct_stoc_supported_versions,
tls_construct_stoc_key_share and tls_construct_stoc_cookie run in that order on
the extension block, the first and the last returning EXT_RETURN_SENT and
key_share not failing. The bytes they append are: supported_versions, then a
key_share extension holding only group_id exactly when the cookie's key_share
flag (byte 8 of the cookie) is set, then the cookie extension with the cookie.
When tls_parse_ctos_cookie later accepts that cookie on a connection with the
same version, group_id, cipher and HMAC key, the HelloRetryRequest it rebuilds
and hands to create_synthetic_message_hash has exactly these bytes as its
extension block. -/
theorem C13_reconstructed_hrr_extensions (env1 env2 : Env) (kex : KexEnv)
    (s s1 s2 s3 t : SSL_CONNECTION) (pkt pkt1 pkt2 pkt3 : WPACKET) (r2 : EXT_RETURN)
    (verify_cb : List Nat → Bool)
    (hhrr : s.hello_retry_request = HRR_STATE.SSL_HRR_PENDING)
    (hc1 : tls_construct_stoc_supported_versions s pkt
      = (EXT_RETURN.EXT_RETURN_SENT, s1, pkt1))
    (hc2 : tls_construct_stoc_key_share kex s1 pkt1 = (r2, s2, pkt2))
    (hr2 : r2 ≠ EXT_RETURN.EXT_RETURN_FAIL)
    (hc3 : tls_construct_stoc_cookie env1 s2 pkt2 = (EXT_RETURN.EXT_RETURN_SENT, s3, pkt3))
    (hver : t.version = s.version)
    (hgid : t.s3.group_id = s.s3.group_id)
    (hciph : t.s3.tmp.new_cipher = s.s3.tmp.new_cipher)
    (hkey : t.ext.cookie_hmac_key = s.ext.cookie_hmac_key)
    (hst : t.s3.flags &&& TLS1_FLAGS_STATELESS ≠ 0)
    (hsid : t.tmp_session_id.length ≤ SSL_MAX_SSL_SESSION_ID_LENGTH)
    (hsign : env2.EVP_DigestSign = env1.EVP_DigestSign)
    (hsha : ∀ d m, env1.EVP_DigestSign s.ext.cookie_hmac_key d = some m
      → m.length = SHA256_DIGEST_LENGTH)
    (hlook : ∀ c, s.s3.tmp.new_cipher = some c
      → env2.ssl_get_cipher_by_char (put_value c.id 2) = some c)
    (ht0 : env1.time ≤ env2.time) (ht1 : env2.time ≤ env1.time + 600)
    (ht2 : env2.time < 2 ^ 64)
    (hcb : env2.verify_stateless_cookie_cb = some verify_cb)
    (hverify : ∀ gen_cb app, env1.gen_stateless_cookie_cb = some gen_cb
      → gen_cb s = some app → verify_cb app = true)
    (hsyn : ∀ h hrr, ∃ t1, env2.create_synthetic_message_hash t h hrr = some t1) :
    ∃ sub ps cookie chhash c key_share extensions t1,
      pkt.subs = sub :: ps
      ∧ pkt3.subs = { sub with body := sub.body ++ extensions } :: ps
      ∧ extensions = hrr_extensions s.version s.s3.group_id key_share cookie
      ∧ cookie.getD 8 0 = key_share
      ∧ (key_share ≠ 0 ↔ r2 = EXT_RETURN.EXT_RETURN_SENT)
      ∧ env1.ssl_handshake_hash s = some chhash
      ∧ s.s3.tmp.new_cipher = some c
      ∧ reconstruct_hrr t key_share cookie
          = some (handshake_message SSL3_MT_SERVER_HELLO
              (hrr_body t.tmp_session_id c.id extensions))
      ∧ env2.create_synthetic_message_hash t chhash
          (handshake_message SSL3_MT_SERVER_HELLO
            (hrr_body t.tmp_session_id c.id extensions)) = some t1
      ∧ tls_parse_ctos_cookie env2 t (cookie_extension cookie)
          = (1, { t1 with hello_retry_request := HRR_STATE.SSL_HRR_PENDING,
                          ext := { t1.ext with cookieok := 1 } }) := by
  obtain ⟨e1, hv, _, sub, ps, hsubs, hp1⟩ :=
    tls_construct_stoc_supported_versions_sent s s1 pkt pkt1 hc1
  rw [e1, hp1] at hc2
  obtain ⟨e2, hks⟩ := tls_construct_stoc_key_share_hrr kex s s2 _ ps pkt.maxsize pkt2 r2 hhrr hc2 hr2
  rw [e2] at hc3
  have hp2 : pkt2 = ⟨{ sub with body := sub.body ++ (put_value TLSEXT_TYPE_supported_versions 2
        ++ (put_value 2 2 ++ put_value s.version 2))
        ++ (if (if s.s3.peer_tmp = none then 1 else 0) ≠ 0 then
              put_value TLSEXT_TYPE_key_share 2 ++ (put_value 2 2 ++ put_value s.s3.group_id 2)
            else []) } :: ps, pkt.maxsize⟩
      ∧ ((if s.s3.peer_tmp = none then 1 else 0) ≠ 0 ↔ r2 = EXT_RETURN.EXT_RETURN_SENT) := by
    rcases hks with ⟨hn, hr, hp⟩ | ⟨hn, hr, hp⟩
    · rw [hp, hr, if_neg hn]
      simp
    · rw [hp, hr, if_pos hn]
      simp
  obtain ⟨hp2, hflag⟩ := hp2
  obtain ⟨sub', ps', c, gen_cb, chhash, appcookie, hmac, k1, k2, k3, k4, k5, k6, k7, k8, k9, k10,
    _, k12⟩ := tls_construct_stoc_cookie_sent env1 s s3 pkt2 pkt3 hc3
  rw [hp2] at k1 k12
  simp only [List.cons.injEq] at k1
  obtain ⟨ksub, kps⟩ := k1
  subst ksub
  subst kps
  have htm : env1.time % 2 ^ 64 = env1.time := Nat.mod_eq_of_lt (by omega)
  have hnow : env2.time % 2 ^ 64 = env2.time := Nat.mod_eq_of_lt ht2
  rw [htm] at k10 k12
  have hml : hmac.length = 32 := hsha _ _ k10
  have hE : EVP_MAX_MD_SIZE = 64 := rfl
  have hS : SSL_MAX_SSL_SESSION_ID_LENGTH = 32 := rfl
  rw [hE] at k9
  rw [hS] at hsid
  have hpl := cookie_plaintext_length s.s3.group_id (put_value c.id 2)
    (if s.s3.peer_tmp = none then 1 else 0) env1.time chhash appcookie
  rw [put_value_length] at hpl
  have hlen : (cookie_plaintext s.s3.group_id (put_value c.id 2)
      (if s.s3.peer_tmp = none then 1 else 0) env1.time chhash appcookie
      ++ hmac).length ≤ 371 := by
    rw [List.length_append, hpl, hml]; omega
  have hrec := reconstruct_hrr_eq t c (if s.s3.peer_tmp = none then 1 else 0)
    (cookie_plaintext s.s3.group_id (put_value c.id 2)
      (if s.s3.peer_tmp = none then 1 else 0) env1.time chhash appcookie ++ hmac)
    (by rw [hciph, k2]) k3 (by rw [hver]; exact hv) (by rw [hgid]; exact k4)
    (by omega) (by rw [show MAX_HRR_SIZE = 4300 from rfl]; omega)
  rw [hver, hgid] at hrec
  obtain ⟨t1, ht1'⟩ := hsyn chhash (handshake_message SSL3_MT_SERVER_HELLO
    (hrr_body t.tmp_session_id c.id (hrr_extensions s.version s.s3.group_id
      (if s.s3.peer_tmp = none then 1 else 0)
      (cookie_plaintext s.s3.group_id (put_value c.id 2)
        (if s.s3.peer_tmp = none then 1 else 0) env1.time chhash appcookie
        ++ hmac))))
  have hparse : tls_parse_ctos_cookie env2 t (cookie_extension
      (cookie_plaintext s.s3.group_id (put_value c.id 2)
        (if s.s3.peer_tmp = none then 1 else 0) env1.time chhash appcookie
        ++ hmac))
      = (1, { t1 with hello_retry_request := HRR_STATE.SSL_HRR_PENDING,
                      ext := { t1.ext with cookieok := 1 } }) := by
    rw [tls_parse_ctos_cookie_wellformed env2 t verify_cb s.s3.group_id (put_value c.id 2)
      (if s.s3.peer_tmp = none then 1 else 0) env1.time chhash appcookie hmac hcb hst
      k4 (put_value_length _ _) (by omega) (by omega) k7 (by omega)
      (by rw [hkey, hsign]; exact k10) hml]
    rw [if_neg (by rw [hgid, hciph, k2, hlook c k2]; simp)]
    rw [hnow, if_neg (by omega), if_neg (by simp [hverify gen_cb appcookie k5 k6])]
    rw [reconstruct_hrr_eq t c _ _ (by rw [hciph, k2]) k3 (by rw [hver]; exact hv)
      (by rw [hgid]; exact k4) (by omega) (by rw [show MAX_HRR_SIZE = 4300 from rfl]; omega)]
    simp only []
    rw [hver, hgid, ht1']
  refine ⟨sub, ps, _, chhash, c, (if s.s3.peer_tmp = none then 1 else 0), _, t1, hsubs, ?_, rfl,
    ?_, hflag, k8, k2, hrec, ht1', hparse⟩
  · rw [k12]
    simp [hrr_extensions]
  · simp [cookie_plaintext, put_value]

/-- Witness for C13: the HelloRetryRequest of demo_conn_hrr, whose cookie is
parsed 300 seconds later on demo_conn_cookie. -/
theorem C13_witness :
    ∃ sub ps cookie chhash c key_share extensions t1,
      demo_writer.subs = sub :: ps
      ∧ demo_writer_hrr.subs = { sub with body := sub.body ++ extensions } :: ps
      ∧ extensions = hrr_extensions demo_conn_hrr.version demo_conn_hrr.s3.group_id key_share cookie
      ∧ cookie.getD 8 0 = key_share
      ∧ (key_share ≠ 0 ↔ EXT_RETURN.EXT_RETURN_SENT = EXT_RETURN.EXT_RETURN_SENT)
      ∧ demo_env.ssl_handshake_hash demo_conn_hrr = some chhash
      ∧ demo_conn_hrr.s3.tmp.new_cipher = some c
      ∧ reconstruct_hrr demo_conn_cookie key_share cookie
          = some (handshake_message SSL3_MT_SERVER_HELLO
              (hrr_body demo_conn_cookie.tmp_session_id c.id extensions))
      ∧ demo_env_later.create_synthetic_message_hash demo_conn_cookie chhash
          (handshake_message SSL3_MT_SERVER_HELLO
            (hrr_body demo_conn_cookie.tmp_session_id c.id extensions)) = some t1
      ∧ tls_parse_ctos_cookie demo_env_later demo_conn_cookie (cookie_extension cookie)
          = (1, { t1 with hello_retry_request := HRR_STATE.SSL_HRR_PENDING,
                          ext := { t1.ext with cookieok := 1 } }) :=
  C13_reconstructed_hrr_extensions demo_env demo_env_later demo_kex
    demo_conn_hrr demo_conn_hrr demo_conn_hrr demo_conn_hrr demo_conn_cookie
    demo_writer demo_writer_sv demo_writer_ks demo_writer_hrr EXT_RETURN.EXT_RETURN_SENT
    (fun c => c == [7, 7])
    rfl (by decide) (by decide) (by decide) (by decide)
    rfl rfl rfl rfl (by decide) (by decide) rfl
    (fun d m h => by
      simp only [demo_env, Option.some.injEq] at h
      rw [← h]
      exact List.length_replicate _ _)
    (fun c h => by
      simp only [demo_conn_hrr, demo_conn_cookie, Option.some.injEq] at h
      rw [← h]
      rfl)
    (by decide) (by decide) (by decide) rfl
    (fun gen_cb app h1 h2 => by
      simp only [demo_env, Option.some.injEq] at h1
      rw [← h1] at h2
      simp only [Option.some.injEq] at h2
      rw [← h2]
      rfl)
    (fun _ _ => ⟨_, rfl⟩)

/-- Claim C14 as amended. When the session is not resumed or the connection is
TLS 1.3, tls_parse_ctos_server_name accepts every host name of at most 255
bytes without a NUL byte (a 255-byte name included) and stores it, rejects
every longer name (a 256-byte name included) with unrecognized_name, and
rejects every name containing a NUL byte with unrecognized_name. On a
resumption below TLS 1.3 neither limit is checked: the call returns 1 and
only compares the name with the host name of the session. -/
theorem C14_server_name_limits (s : SSL_CONNECTION) (name : List Nat)
    (hlen : name.length + 3 < 65536) :
    ((s.hit = false ∨ SSL_CONNECTION_IS_TLS13 s = true) →
        (name.length ≤ 255 → 0 ∉ name →
          tls_parse_ctos_server_name s (server_name_extension name)
            = (1, { s with ext := { s.ext with hostname := some name }, servername_done := 1 }))
        ∧ (255 < name.length →
          tls_parse_ctos_server_name s (server_name_extension name)
            = (0, SSLfatal s Alert.SSL_AD_UNRECOGNIZED_NAME Reason.SSL_R_BAD_EXTENSION))
        ∧ (0 ∈ name →
          tls_parse_ctos_server_name s (server_name_extension name)
            = (0, SSLfatal s Alert.SSL_AD_UNRECOGNIZED_NAME Reason.SSL_R_BAD_EXTENSION)))
      ∧ (¬ (s.hit = false ∨ SSL_CONNECTION_IS_TLS13 s = true) →
          tls_parse_ctos_server_name s (server_name_extension name)
            = (1, { s with servername_done :=
                      if session_hostname_equal s name = true then 1 else 0 })) := by
  have h := tls_parse_ctos_server_name_entry s TLSEXT_NAMETYPE_host_name name []
    (by rw [List.append_nil, server_name_entry_length]; omega)
  rw [List.append_nil, if_neg (by simp)] at h
  have hE : server_name_extension name
      = server_name_list (server_name_entry TLSEXT_NAMETYPE_host_name name) := rfl
  have h255 : TLSEXT_MAXLEN_host_name = 255 := rfl
  rw [hE, h, h255]
  refine ⟨fun hnew => ?_, fun hold => ?_⟩
  · rw [if_pos hnew]
    refine ⟨fun h1 h2 => ?_, fun h1 => ?_, fun h1 => ?_⟩
    · rw [if_neg (by simp only [not_or]; exact ⟨by omega, h2⟩)]
    · rw [if_pos (Or.inl h1)]
    · rw [if_pos (Or.inr h1)]
  · rw [if_neg hold]

/-- Witness for C14 as amended: a new TLS 1.2 session offered "example.com". -/
theorem C14_witness :
    (((({} : SSL_CONNECTION).hit = false ∨ SSL_CONNECTION_IS_TLS13 {} = true) →
        (demo_example_com.length ≤ 255 → 0 ∉ demo_example_com →
          tls_parse_ctos_server_name {} (server_name_extension demo_example_com)
            = (1, { ext := { hostname := some demo_example_com }, servername_done := 1 }))
        ∧ (255 < demo_example_com.length →
          tls_parse_ctos_server_name {} (server_name_extension demo_example_com)
            = (0, SSLfatal {} Alert.SSL_AD_UNRECOGNIZED_NAME Reason.SSL_R_BAD_EXTENSION))
        ∧ (0 ∈ demo_example_com →
          tls_parse_ctos_server_name {} (server_name_extension demo_example_com)
            = (0, SSLfatal {} Alert.SSL_AD_UNRECOGNIZED_NAME Reason.SSL_R_BAD_EXTENSION)))
      ∧ (¬ (({} : SSL_CONNECTION).hit = false ∨ SSL_CONNECTION_IS_TLS13 {} = true) →
          tls_parse_ctos_server_name {} (server_name_extension demo_example_com)
            = (1, { servername_done :=
                      if session_hostname_equal {} demo_example_com = true then 1 else 0 }))) :=
  C14_server_name_limits {} demo_example_com (by decide)

/-- Counterexample to C14 as stated: on a TLS 1.2 resumption the name with a
NUL byte and a 256-byte name are both accepted. -/
theorem C14_counterexample :
    tls_parse_ctos_server_name demo_conn_resumed (server_name_extension demo_name_with_nul)
        = (1, { demo_conn_resumed with servername_done := 0 })
      ∧ tls_parse_ctos_server_name demo_conn_resumed
          (server_name_extension (List.replicate 256 0x61))
        = (1, { demo_conn_resumed with servername_done := 0 }) := by
  constructor
  · decide
  · have h := tls_parse_ctos_server_name_entry demo_conn_resumed TLSEXT_NAMETYPE_host_name
      (List.replicate 256 0x61) []
      (by rw [List.append_nil, server_name_entry_length, List.length_replicate]; decide)
    rw [List.append_nil, if_neg (by simp), if_neg (by decide)] at h
    have hE : server_name_extension (List.replicate 256 0x61)
        = server_name_list (server_name_entry TLSEXT_NAMETYPE_host_name
            (List.replicate 256 0x61)) := rfl
    have hne : ∀ n : List Nat, n.length = 256 →
        session_hostname_equal demo_conn_resumed n = false := by
      intro n hn
      simp [session_hostname_equal, demo_conn_resumed, PACKET_equal, PACKET_remaining, strlen,
        demo_example_com, hn]
    rw [hE, h, hne _ (List.length_replicate _ _)]
    rfl

/-- Claim C15 as amended. tls_parse_ctos_server_name succeeds only if the body
is a 2-byte length-prefixed list that fills the body and holds exactly one
entry of name type host_name (0) whose 2-byte length-prefixed name fills the
list. An empty list, another name type, bytes after the name inside the list
(such as a second entry) and bytes after the list are rejected with
decode_error. The name is not required to be non-empty. -/
theorem C15_server_name_shape (s : SSL_CONNECTION) (body : List Nat)
    (hb : ∀ b ∈ body, b < 256) :
    ((tls_parse_ctos_server_name s body).1 = 1 → ∃ name, body = server_name_extension name)
      ∧ (body = server_name_list [] →
          tls_parse_ctos_server_name s body
            = (0, SSLfatal s Alert.SSL_AD_DECODE_ERROR Reason.SSL_R_BAD_EXTENSION))
      ∧ (∀ t name extra, body = server_name_list (server_name_entry t name ++ extra) →
          (server_name_entry t name ++ extra).length < 65536 →
          t ≠ TLSEXT_NAMETYPE_host_name ∨ extra ≠ [] →
          tls_parse_ctos_server_name s body
            = (0, SSLfatal s Alert.SSL_AD_DECODE_ERROR Reason.SSL_R_BAD_EXTENSION))
      ∧ (∀ list extra, body = server_name_list list ++ extra → list.length < 65536 →
          extra ≠ [] →
          tls_parse_ctos_server_name s body
            = (0, SSLfatal s Alert.SSL_AD_DECODE_ERROR Reason.SSL_R_BAD_EXTENSION)) := by
  refine ⟨fun h => ?_, fun h => ?_, fun t name extra h hl hc => ?_, fun list extra h hl he => ?_⟩
  · obtain ⟨name, hn, _⟩ := tls_parse_ctos_server_name_shape s body hb h
    exact ⟨name, hn⟩
  · rw [h]
    rfl
  · rw [h, tls_parse_ctos_server_name_entry s t name extra hl, if_pos hc]
  · rw [h, tls_parse_ctos_server_name_trailing s list extra hl he]

/-- Witness for C15 as amended: the extension for "example.com" on a new session. -/
theorem C15_witness :
    ((tls_parse_ctos_server_name {} (server_name_extension demo_example_com)).1 = 1 →
        ∃ name, server_name_extension demo_example_com = server_name_extension name)
      ∧ (server_name_extension demo_example_com = server_name_list [] →
          tls_parse_ctos_server_name {} (server_name_extension demo_example_com)
            = (0, SSLfatal {} Alert.SSL_AD_DECODE_ERROR Reason.SSL_R_BAD_EXTENSION))
      ∧ (∀ t name extra, server_name_extension demo_example_com
            = server_name_list (server_name_entry t name ++ extra) →
          (server_name_entry t name ++ extra).length < 65536 →
          t ≠ TLSEXT_NAMETYPE_host_name ∨ extra ≠ [] →
          tls_parse_ctos_server_name {} (server_name_extension demo_example_com)
            = (0, SSLfatal {} Alert.SSL_AD_DECODE_ERROR Reason.SSL_R_BAD_EXTENSION))
      ∧ (∀ list extra, server_name_extension demo_example_com = server_name_list list ++ extra →
          list.length < 65536 → extra ≠ [] →
          tls_parse_ctos_server_name {} (server_name_extension demo_example_com)
            = (0, SSLfatal {} Alert.SSL_AD_DECODE_ERROR Reason.SSL_R_BAD_EXTENSION)) :=
  C15_server_name_shape {} (server_name_extension demo_example_com) (by decide)

/-- Counterexample to C15 as stated: on a new session the body 00 03 00 00 00,
one host_name entry with a zero-length name, is accepted and the empty name
is stored. -/
theorem C15_counterexample :
    server_name_extension [] = [0, 3, 0, 0, 0]
      ∧ tls_parse_ctos_server_name {} [0, 3, 0, 0, 0]
          = (1, { ext := { hostname := some [] }, servername_done := 1 }) := by
  constructor
  · decide
  · decide

/-- Claim C16, server_name on a resumption. For a well-formed server_name
extension: when the session is resumed and the connection is not TLS 1.3, the
call returns 1, leaves the stored peer host name (s->ext.hostname) as it was,
and sets servername_done to 1 exactly when the session has a stored host name
that equals the offered name byte for byte, and to 0 otherwise; when the
session is not resumed or the connection is TLS 1.3, an offered name within
the limits (at most 255 bytes, no NUL byte) is stored as peer host name and
servername_done is 1. The host name of the session is a C string and holds no
NUL byte. -/
theorem C16_server_name_resumption (s : SSL_CONNECTION) (name : List Nat)
    (hlen : name.length + 3 < 65536)
    (hcstr : ∀ h, s.session.ext.hostname = some h → 0 ∉ h) :
    (s.hit = true → SSL_CONNECTION_IS_TLS13 s = false →
        tls_parse_ctos_server_name s (server_name_extension name)
            = (1, { s with servername_done :=
                      if s.session.ext.hostname = some name then 1 else 0 })
          ∧ (tls_parse_ctos_server_name s (server_name_extension name)).2.ext.hostname
              = s.ext.hostname
          ∧ ((tls_parse_ctos_server_name s (server_name_extension name)).2.servername_done = 1
              ↔ s.session.ext.hostname = some name)
          ∧ ((tls_parse_ctos_server_name s (server_name_extension name)).2.servername_done = 0
              ↔ s.session.ext.hostname ≠ some name))
      ∧ ((s.hit = false ∨ SSL_CONNECTION_IS_TLS13 s = true) →
          name.length ≤ TLSEXT_MAXLEN_host_name → 0 ∉ name →
          tls_parse_ctos_server_name s (server_name_extension name)
            = (1, { s with ext := { s.ext with hostname := some name },
                           servername_done := 1 })) := by
  have h := tls_parse_ctos_server_name_entry s TLSEXT_NAMETYPE_host_name name []
    (by rw [List.append_nil, server_name_entry_length]; omega)
  rw [List.append_nil, if_neg (by simp)] at h
  have hE : server_name_extension name
      = server_name_list (server_name_entry TLSEXT_NAMETYPE_host_name name) := rfl
  rw [hE, h]
  refine ⟨fun hhit h13 => ?_, fun hnew h255 h0 => ?_⟩
  · rw [if_neg (by simp [hhit, h13])]
    by_cases heq : s.session.ext.hostname = some name
    · rw [if_pos ((session_hostname_equal_iff s name hcstr).mpr heq), if_pos heq]
      simp [heq]
    · rw [if_neg (fun hc => heq ((session_hostname_equal_iff s name hcstr).mp hc)), if_neg heq]
      simp [heq]
  · rw [if_pos hnew, if_neg (by simp only [not_or]; exact ⟨by omega, h0⟩)]

/-- Witness for C16: the resumed TLS 1.2 session for "example.com" is offered
that name again. -/
theorem C16_witness :
    (demo_conn_resumed.hit = true → SSL_CONNECTION_IS_TLS13 demo_conn_resumed = false →
        tls_parse_ctos_server_name demo_conn_resumed (server_name_extension demo_example_com)
            = (1, { demo_conn_resumed with servername_done :=
                      if demo_conn_resumed.session.ext.hostname = some demo_example_com
                      then 1 else 0 })
          ∧ (tls_parse_ctos_server_name demo_conn_resumed
                (server_name_extension demo_example_com)).2.ext.hostname
              = demo_conn_resumed.ext.hostname
          ∧ ((tls_parse_ctos_server_name demo_conn_resumed
                (server_name_extension demo_example_com)).2.servername_done = 1
              ↔ demo_conn_resumed.session.ext.hostname = some demo_example_com)
          ∧ ((tls_parse_ctos_server_name demo_conn_resumed
                (server_name_extension demo_example_com)).2.servername_done = 0
              ↔ demo_conn_resumed.session.ext.hostname ≠ some demo_example_com))
      ∧ ((demo_conn_resumed.hit = false ∨ SSL_CONNECTION_IS_TLS13 demo_conn_resumed = true) →
          demo_example_com.length ≤ TLSEXT_MAXLEN_host_name → 0 ∉ demo_example_com →
          tls_parse_ctos_server_name demo_conn_resumed (server_name_extension demo_example_com)
            = (1, { demo_conn_resumed with
                      ext := { demo_conn_resumed.ext with hostname := some demo_example_com },
                      servername_done := 1 })) :=
  C16_server_name_resumption demo_conn_resumed demo_example_com (by decide)
    (fun h hh => by
      simp only [demo_conn_resumed, Option.some.injEq] at hh
      rw [← hh]
      decide)

/-- Claim C17, the renegotiation_info check. tls_parse_ctos_renegotiate returns
1 exactly when the body starts with the 1-byte length of
previous_client_finished followed by the bytes of previous_client_finished,
and then sets send_connection_binding to 1; a body whose length-prefixed
payload differs from previous_client_finished in length or content fails with
handshake_failure and leaves send_connection_binding as it was; a body that
is empty or shorter than its length byte announces fails with decode_error. -/
theorem C17_renegotiate_check (s : SSL_CONNECTION) (body : List Nat)
    (hbuf : s.s3.previous_client_finished_len ≤ s.s3.previous_client_finished.length) :
    ((tls_parse_ctos_renegotiate s body).1 = 1
        ↔ ∃ rest, body = renegotiation_info (client_finished s) ++ rest)
      ∧ ((tls_parse_ctos_renegotiate s body).1 = 1 →
          tls_parse_ctos_renegotiate s body
            = (1, { s with s3 := { s.s3 with send_connection_binding := 1 } }))
      ∧ (∀ payload rest, body = renegotiation_info payload ++ rest →
          payload ≠ client_finished s →
          tls_parse_ctos_renegotiate s body
              = (0, SSLfatal s Alert.SSL_AD_HANDSHAKE_FAILURE Reason.SSL_R_RENEGOTIATION_MISMATCH)
            ∧ (tls_parse_ctos_renegotiate s body).2.s3.send_connection_binding
                = s.s3.send_connection_binding)
      ∧ ((body = [] ∨ ∃ ilen rest, body = ilen :: rest ∧ rest.length < ilen) →
          tls_parse_ctos_renegotiate s body
            = (0, SSLfatal s Alert.SSL_AD_DECODE_ERROR Reason.SSL_R_RENEGOTIATION_ENCODING_ERR)) := by
  have hlen := client_finished_length s hbuf
  have hframed : ∀ payload rest, body = renegotiation_info payload ++ rest →
      tls_parse_ctos_renegotiate s body
        = if payload ≠ client_finished s then
            (0, SSLfatal s Alert.SSL_AD_HANDSHAKE_FAILURE Reason.SSL_R_RENEGOTIATION_MISMATCH)
          else (1, { s with s3 := { s.s3 with send_connection_binding := 1 } }) := by
    intro payload rest hb
    rw [hb, renegotiation_info, List.cons_append,
      tls_parse_ctos_renegotiate_framed s _ payload rest rfl]
    by_cases hp : payload = client_finished s
    · rw [if_neg (by rw [hp, hlen]; simp), if_neg (by simp [hp])]
    · rw [if_pos (Or.inr hp), if_pos hp]
  refine ⟨⟨fun h => ?_, fun h => ?_⟩, fun h => ?_, fun payload rest hb hp => ?_,
    tls_parse_ctos_renegotiate_truncated s body⟩
  · rcases renegotiate_body_cases body with ht | ⟨payload, rest, hb⟩
    · rw [tls_parse_ctos_renegotiate_truncated s body ht] at h
      simp at h
    · rw [hframed payload rest hb] at h
      by_cases hp : payload = client_finished s
      · exact ⟨rest, by rw [hb, hp]⟩
      · rw [if_pos hp] at h
        simp at h
  · obtain ⟨rest, hb⟩ := h
    rw [hframed _ rest hb, if_neg (by simp)]
  · rcases renegotiate_body_cases body with ht | ⟨payload, rest, hb⟩
    · rw [tls_parse_ctos_renegotiate_truncated s body ht] at h
      simp at h
    · rw [hframed payload rest hb] at h ⊢
      by_cases hp : payload = client_finished s
      · rw [if_neg (by simp [hp])]
      · rw [if_pos hp] at h
        simp at h
  · rw [hframed payload rest hb, if_pos hp]
    exact ⟨rfl, rfl⟩

/-- Witness for C17: the binding 01 02 03 of a previous handshake is offered again. -/
theorem C17_witness :
    ((tls_parse_ctos_renegotiate demo_conn_renegotiation [3, 1, 2, 3]).1 = 1
        ↔ ∃ rest, [3, 1, 2, 3]
            = renegotiation_info (client_finished demo_conn_renegotiation) ++ rest)
      ∧ ((tls_parse_ctos_renegotiate demo_conn_renegotiation [3, 1, 2, 3]).1 = 1 →
          tls_parse_ctos_renegotiate demo_conn_renegotiation [3, 1, 2, 3]
            = (1, { demo_conn_renegotiation with
                      s3 := { demo_conn_renegotiation.s3 with send_connection_binding := 1 } }))
      ∧ (∀ payload rest, [3, 1, 2, 3] = renegotiation_info payload ++ rest →
          payload ≠ client_finished demo_conn_renegotiation →
          tls_parse_ctos_renegotiate demo_conn_renegotiation [3, 1, 2, 3]
              = (0, SSLfatal demo_conn_renegotiation Alert.SSL_AD_HANDSHAKE_FAILURE
                      Reason.SSL_R_RENEGOTIATION_MISMATCH)
            ∧ (tls_parse_ctos_renegotiate demo_conn_renegotiation
                  [3, 1, 2, 3]).2.s3.send_connection_binding
                = demo_conn_renegotiation.s3.send_connection_binding)
      ∧ (([3, 1, 2, 3] = [] ∨ ∃ ilen rest, [3, 1, 2, 3] = ilen :: rest ∧ rest.length < ilen) →
          tls_parse_ctos_renegotiate demo_conn_renegotiation [3, 1, 2, 3]
            = (0, SSLfatal demo_conn_renegotiation Alert.SSL_AD_DECODE_ERROR
                    Reason.SSL_R_RENEGOTIATION_ENCODING_ERR)) :=
  C17_renegotiate_check demo_conn_renegotiation [3, 1, 2, 3] (by decide)

/-- Claim C18, evaluated on the code: tls_parse_ctos_renegotiate never tests
that the body ends with the 1-byte-length-prefixed payload. On a first
handshake the body 00 FF, an empty binding followed by one more byte, is
accepted and send_connection_binding is set, while tls_parse_ctos_psk_kex_modes,
whose body has the same framing, refuses a body with one byte after its list
with decode_error. In general a body with bytes after the payload gives the
result of the body without them, which is never the decode_error of this
parser; decode_error is the result exactly for a body that is empty or shorter
than its length byte announces. -/
theorem C18_renegotiate_trailing_bytes_not_checked :
    tls_parse_ctos_renegotiate {} [0, 0xFF] = (1, { s3 := { send_connection_binding := 1 } })
      ∧ tls_parse_ctos_psk_kex_modes {} [1, 1, 0xFF]
          = (0, SSLfatal {} Alert.SSL_AD_DECODE_ERROR Reason.SSL_R_BAD_EXTENSION)
      ∧ ∀ (s : SSL_CONNECTION) (payload extra : List Nat),
          tls_parse_ctos_renegotiate s (renegotiation_info payload ++ extra)
              = tls_parse_ctos_renegotiate s (renegotiation_info payload)
            ∧ tls_parse_ctos_renegotiate s (renegotiation_info payload ++ extra)
                ≠ (0, SSLfatal s Alert.SSL_AD_DECODE_ERROR
                        Reason.SSL_R_RENEGOTIATION_ENCODING_ERR)
            ∧ ∀ body, tls_parse_ctos_renegotiate s body
                  = (0, SSLfatal s Alert.SSL_AD_DECODE_ERROR
                          Reason.SSL_R_RENEGOTIATION_ENCODING_ERR)
                ↔ (body = [] ∨ ∃ ilen rest, body = ilen :: rest ∧ rest.length < ilen) := by
  refine ⟨by decide, by decide, fun s payload extra => ?_⟩
  have hne : ∀ p r, tls_parse_ctos_renegotiate s (renegotiation_info p ++ r)
      ≠ (0, SSLfatal s Alert.SSL_AD_DECODE_ERROR Reason.SSL_R_RENEGOTIATION_ENCODING_ERR) := by
    intro p r
    rw [renegotiation_info, List.cons_append, tls_parse_ctos_renegotiate_framed s _ p r rfl]
    split
    · intro h
      have h2 := congrArg (fun x => x.2.fatal) h
      simp [SSLfatal] at h2
    · intro h
      have h2 := congrArg (fun x => x.1) h
      simp at h2
  refine ⟨?_, hne payload extra, fun body => ⟨fun h => ?_, tls_parse_ctos_renegotiate_truncated s body⟩⟩
  · have h0 := tls_parse_ctos_renegotiate_framed s _ payload [] rfl
    rw [List.append_nil] at h0
    rw [renegotiation_info, List.cons_append,
      tls_parse_ctos_renegotiate_framed s _ payload extra rfl, h0]
  · rcases renegotiate_body_cases body with ht | ⟨p, r, hb⟩
    · exact ht
    · rw [hb] at h
      exact absurd h (hne p r)

/-- Claim C19, max_fragment_length is sticky. tls_parse_ctos_maxfragmentlen
accepts exactly the one-byte bodies whose code is 1, 2, 3 or 4; another code
fails with illegal_parameter and a body of another length with decode_error.
An accepted code is stored in the session only if the session's mode is
unspecified, otherwise the session is left as it was, so a second accepted
code v2 never replaces what the first one, v1, left: parsing v1 and then v2
on a session with unspecified mode leaves v1. When the session's mode is one
of the four codes, tls_construct_stoc_maxfragmentlen writes the extension
with exactly that mode byte. -/
theorem C19_max_fragment_length_sticky (s : SSL_CONNECTION) (v1 v2 : Nat)
    (h1 : 1 ≤ v1 ∧ v1 ≤ 4) (h2 : 1 ≤ v2 ∧ v2 ≤ 4) :
    (∀ body, (tls_parse_ctos_maxfragmentlen s body).1 = 1
        ↔ ∃ code, body = [code] ∧ 1 ≤ code ∧ code ≤ 4)
      ∧ (∀ code, ¬ (1 ≤ code ∧ code ≤ 4) →
          tls_parse_ctos_maxfragmentlen s [code]
            = (0, SSLfatal s Alert.SSL_AD_ILLEGAL_PARAMETER
                    Reason.SSL_R_SSL3_EXT_INVALID_MAX_FRAGMENT_LENGTH))
      ∧ (∀ body, body.length ≠ 1 →
          tls_parse_ctos_maxfragmentlen s body
            = (0, SSLfatal s Alert.SSL_AD_DECODE_ERROR Reason.SSL_R_BAD_EXTENSION))
      ∧ (s.session.ext.max_fragment_len_mode = TLSEXT_max_fragment_length_UNSPECIFIED →
          tls_parse_ctos_maxfragmentlen s [v1]
            = (1, { s with session := { s.session with
                      ext := { s.session.ext with max_fragment_len_mode := v1 } } }))
      ∧ (s.session.ext.max_fragment_len_mode ≠ TLSEXT_max_fragment_length_UNSPECIFIED →
          tls_parse_ctos_maxfragmentlen s [v1] = (1, s))
      ∧ tls_parse_ctos_maxfragmentlen (tls_parse_ctos_maxfragmentlen s [v1]).2 [v2]
          = (1, (tls_parse_ctos_maxfragmentlen s [v1]).2)
      ∧ (s.session.ext.max_fragment_len_mode = TLSEXT_max_fragment_length_UNSPECIFIED →
          (tls_parse_ctos_maxfragmentlen (tls_parse_ctos_maxfragmentlen s [v1]).2
              [v2]).2.session.ext.max_fragment_len_mode = v1)
      ∧ (∀ (t : SSL_CONNECTION) (sub : WPACKET_SUB) (ps : List WPACKET_SUB) (M : Nat),
          1 ≤ t.session.ext.max_fragment_len_mode ∧ t.session.ext.max_fragment_len_mode ≤ 4 →
          WPACKET.written ⟨sub :: ps, M⟩ + 5 ≤ M →
          tls_construct_stoc_maxfragmentlen t ⟨sub :: ps, M⟩
            = (EXT_RETURN.EXT_RETURN_SENT, t,
                ⟨{ sub with body := sub.body
                      ++ maxfragmentlen_extension t.session.ext.max_fragment_len_mode } :: ps,
                  M⟩))
      ∧ (∀ (t t1 : SSL_CONNECTION) (pkt pkt1 : WPACKET),
          tls_construct_stoc_maxfragmentlen t pkt = (EXT_RETURN.EXT_RETURN_SENT, t1, pkt1) →
          t1 = t ∧ ∃ sub ps, pkt.subs = sub :: ps
            ∧ pkt1 = ⟨{ sub with body := sub.body
                  ++ maxfragmentlen_extension t.session.ext.max_fragment_len_mode } :: ps,
                pkt.maxsize⟩) := by
  have hU : TLSEXT_max_fragment_length_UNSPECIFIED = 255 := rfl
  have hp1 := tls_parse_ctos_maxfragmentlen_one s v1
  rw [if_pos h1] at hp1
  have hmode1 : (tls_parse_ctos_maxfragmentlen s [v1]).2.session.ext.max_fragment_len_mode
      ≠ TLSEXT_max_fragment_length_UNSPECIFIED := by
    rw [hp1]
    by_cases hu : s.session.ext.max_fragment_len_mode = TLSEXT_max_fragment_length_UNSPECIFIED
    · rw [if_pos hu, hU]
      simp only []
      omega
    · rw [if_neg hu]
      exact hu
  have hp2 := tls_parse_ctos_maxfragmentlen_one (tls_parse_ctos_maxfragmentlen s [v1]).2 v2
  rw [if_pos h2, if_neg hmode1] at hp2
  refine ⟨fun body => ⟨fun h => ?_, fun h => ?_⟩, fun code hc => ?_,
    tls_parse_ctos_maxfragmentlen_length s, fun hu => ?_, fun hu => ?_, hp2, fun hu => ?_,
    fun t sub ps M hm hr => tls_construct_stoc_maxfragmentlen_sent t sub ps M hm hr,
    fun t t1 pkt pkt1 h => ?_⟩
  · by_cases hl : body.length = 1
    · obtain ⟨code, hcode⟩ := List.length_eq_one.mp hl
      subst hcode
      refine ⟨code, rfl, ?_⟩
      by_contra hc
      rw [tls_parse_ctos_maxfragmentlen_one, if_neg hc] at h
      simp at h
    · rw [tls_parse_ctos_maxfragmentlen_length s body hl] at h
      simp at h
  · obtain ⟨code, hb, hc⟩ := h
    rw [hb, tls_parse_ctos_maxfragmentlen_one, if_pos hc]
  · rw [tls_parse_ctos_maxfragmentlen_one, if_neg hc]
  · rw [hp1, if_pos hu]
  · rw [hp1, if_neg hu]
  · rw [hp2, hp1, if_pos hu]
  · obtain ⟨_, e1, e2⟩ := tls_construct_stoc_maxfragmentlen_inv t t1 pkt pkt1 h
    exact ⟨e1, e2⟩

/-- Witness for C19: a new session is offered code 2 and then code 3. -/
theorem C19_witness :
    tls_parse_ctos_maxfragmentlen (tls_parse_ctos_maxfragmentlen {} [2]).2 [3]
        = (1, demo_conn_mfl)
      ∧ tls_construct_stoc_maxfragmentlen demo_conn_mfl demo_writer
        = (EXT_RETURN.EXT_RETURN_SENT, demo_conn_mfl, demo_writer_mfl) := by
  have h := C19_max_fragment_length_sticky {} 2 3 (by decide) (by decide)
  refine ⟨?_, ?_⟩
  · rw [h.2.2.2.2.2.1]
    decide
  · exact h.2.2.2.2.2.2.2.1 demo_conn_mfl ⟨2, []⟩ [⟨3, [3, 3]⟩, ⟨0, [2]⟩] 20000
      (by decide) (by decide)

/-- Claim C20, ALPN parsing. On a first handshake tls_parse_ctos_alpn returns,
and it succeeds exactly when the body is a 2-byte length-prefixed list that
fills the body and is a concatenation of one or more entries, each a 1-byte
length n ≥ 1 followed by n bytes; every other body fails with decode_error; on
success alpn_proposed is exactly the list, without the outer 2-byte length. On
a renegotiation the call returns 1 and leaves the connection, alpn_proposed
included, as it was, whatever the body is. -/
theorem C20_alpn_parsing (s : SSL_CONNECTION) (body : List Nat)
    (hb : ∀ b ∈ body, b < 256) :
    (SSL_IS_FIRST_HANDSHAKE s = true →
        ((∃ r, tls_parse_ctos_alpn s body = some r ∧ r.1 = 1) ↔ alpn_well_formed body)
        ∧ (∀ names : List (List Nat), names ≠ [] → (∀ n ∈ names, n ≠ []) →
            (alpn_protocol_list names).length < 65536 →
            body = alpn_extension (alpn_protocol_list names) →
            tls_parse_ctos_alpn s body
              = some (1, { s with s3 := { s.s3 with
                              alpn_proposed := some (alpn_protocol_list names) } }))
        ∧ (¬ alpn_well_formed body →
            tls_parse_ctos_alpn s body
              = some (0, SSLfatal s Alert.SSL_AD_DECODE_ERROR Reason.SSL_R_BAD_EXTENSION)))
      ∧ (SSL_IS_FIRST_HANDSHAKE s = false → tls_parse_ctos_alpn s body = some (1, s)) := by
  refine ⟨fun hfirst => ⟨⟨fun h => ?_, fun h => ?_⟩, fun names h1 h2 h3 h4 => ?_,
    tls_parse_ctos_alpn_malformed s body hb hfirst⟩, fun hre => ?_⟩
  · by_contra hwf
    obtain ⟨r, hr, hr1⟩ := h
    rw [tls_parse_ctos_alpn_malformed s body hb hfirst hwf] at hr
    simp only [Option.some.injEq] at hr
    rw [← hr] at hr1
    simp at hr1
  · obtain ⟨names, h1, h2, h3, h4⟩ := h
    rw [h4, tls_parse_ctos_alpn_encoded s names hfirst h1 h2 h3]
    exact ⟨_, rfl, rfl⟩
  · rw [h4, tls_parse_ctos_alpn_encoded s names hfirst h1 h2 h3]
  · unfold tls_parse_ctos_alpn
    rw [if_pos hre]

/-- Witness for C20: the names "h2" and "http/1.1" offered on a first handshake. -/
theorem C20_witness :
    (SSL_IS_FIRST_HANDSHAKE {} = true →
        ((∃ r, tls_parse_ctos_alpn {} (alpn_extension (alpn_protocol_list demo_alpn_names))
              = some r ∧ r.1 = 1)
          ↔ alpn_well_formed (alpn_extension (alpn_protocol_list demo_alpn_names)))
        ∧ (∀ names : List (List Nat), names ≠ [] → (∀ n ∈ names, n ≠ []) →
            (alpn_protocol_list names).length < 65536 →
            alpn_extension (alpn_protocol_list demo_alpn_names)
              = alpn_extension (alpn_protocol_list names) →
            tls_parse_ctos_alpn {} (alpn_extension (alpn_protocol_list demo_alpn_names))
              = some (1, { s3 := { alpn_proposed := some (alpn_protocol_list names) } }))
        ∧ (¬ alpn_well_formed (alpn_extension (alpn_protocol_list demo_alpn_names)) →
            tls_parse_ctos_alpn {} (alpn_extension (alpn_protocol_list demo_alpn_names))
              = some (0, SSLfatal {} Alert.SSL_AD_DECODE_ERROR Reason.SSL_R_BAD_EXTENSION)))
      ∧ (SSL_IS_FIRST_HANDSHAKE {} = false →
          tls_parse_ctos_alpn {} (alpn_extension (alpn_protocol_list demo_alpn_names))
            = some (1, {})) :=
  C20_alpn_parsing {} (alpn_extension (alpn_protocol_list demo_alpn_names)) (by decide)

/-! ## Claims C21 to C30 -/

/-- Claim C21, SRTP profile selection. With server profiles configured, for
every well-formed use_srtp body (a 2-byte-prefixed list of 2-byte profile ids,
then a 1-byte-length MKI that fills the rest) tls_parse_ctos_use_srtp
succeeds and sets srtp_profile to the first server profile whose id occurs
anywhere in the client's list: the profile of the smallest server-list index
with that property, none if no id is shared, and the same for every
reordering of the client's list. An odd list length, an MKI cut short and
bytes after the MKI fail with decode_error, as does every other body that is
not well formed. -/
theorem C21_srtp_profile_selection (s : SSL_CONNECTION) (srvr : List SRTP_PROTECTION_PROFILE)
    (hs : s.srtp_profiles = some srvr) :
    (∀ ids mki : List Nat, (∀ id ∈ ids, id < 65536) → 2 * ids.length < 65536 →
        mki.length < 256 →
        tls_parse_ctos_use_srtp s (use_srtp_body ids mki)
            = (1, { s with srtp_profile := srvr.find? (fun p => decide (p.id ∈ ids)) })
          ∧ (∀ (i : Nat) (p : SRTP_PROTECTION_PROFILE), srvr[i]? = some p → p.id ∈ ids →
              (∀ j q, j < i → srvr[j]? = some q → q.id ∉ ids) →
              (tls_parse_ctos_use_srtp s (use_srtp_body ids mki)).2.srtp_profile = some p)
          ∧ ((∀ p ∈ srvr, p.id ∉ ids) →
              (tls_parse_ctos_use_srtp s (use_srtp_body ids mki)).2.srtp_profile = none)
          ∧ (∀ ids1 : List Nat, ids1.Perm ids →
              tls_parse_ctos_use_srtp s (use_srtp_body ids1 mki)
                = tls_parse_ctos_use_srtp s (use_srtp_body ids mki)))
      ∧ (∀ (ct : Nat) (rest : List Nat), ct < 65536 → ct % 2 = 1 →
          (tls_parse_ctos_use_srtp s (put_value ct 2 ++ rest)).1 = 0
            ∧ fatal_alert (tls_parse_ctos_use_srtp s (put_value ct 2 ++ rest)).2
                = some Alert.SSL_AD_DECODE_ERROR)
      ∧ (∀ (ids : List Nat) (mki_len : Nat) (tail : List Nat), (∀ id ∈ ids, id < 65536) →
          2 * ids.length < 65536 → tail.length ≠ mki_len →
          (tls_parse_ctos_use_srtp s
              (put_value (2 * ids.length) 2 ++ (srtp_profile_ids ids ++ mki_len :: tail))).1 = 0
            ∧ fatal_alert (tls_parse_ctos_use_srtp s
                (put_value (2 * ids.length) 2 ++ (srtp_profile_ids ids ++ mki_len :: tail))).2
                = some Alert.SSL_AD_DECODE_ERROR)
      ∧ (∀ body : List Nat, (∀ b ∈ body, b < 256) → ¬ use_srtp_well_formed body →
          (tls_parse_ctos_use_srtp s body).1 = 0
            ∧ fatal_alert (tls_parse_ctos_use_srtp s body).2 = some Alert.SSL_AD_DECODE_ERROR) := by
  refine ⟨fun ids mki hids hlen hmki => ?_, fun ct rest hct hodd => ?_,
    fun ids mki_len tail hids hlen hne => ?_,
    fun body hb hwf => tls_parse_ctos_use_srtp_malformed s srvr body hs hb hwf⟩
  · have h := tls_parse_ctos_use_srtp_body s srvr ids mki hs hids hlen hmki
    refine ⟨h, fun i p hi hp hlt => ?_, fun hnone => ?_, fun ids1 hperm => ?_⟩
    · rw [h]
      exact find_first _ srvr i p hi (by simpa using hp)
        (fun j q hj hq => by simpa using hlt j q hj hq)
    · rw [h]
      simp only [List.find?_eq_none]
      intro x hx
      simpa using hnone x hx
    · have hids1 : ∀ id ∈ ids1, id < 65536 := fun id hid => hids id (hperm.mem_iff.mp hid)
      have hl1 : ids1.length = ids.length := hperm.length_eq
      rw [h, tls_parse_ctos_use_srtp_body s srvr ids1 mki hs hids1 (by omega) hmki,
        find_perm_pred srvr (fun p => p.id) ids ids1 hperm]
  · rw [tls_parse_ctos_use_srtp_odd s srvr ct rest hs hct hodd]
    exact ⟨rfl, rfl⟩
  · rw [tls_parse_ctos_use_srtp_bad_mki s srvr ids mki_len tail hs hids hlen hne]
    exact ⟨rfl, rfl⟩

/-- Witness for C21: the client lists profile 2 before profile 1 and sends no
MKI; the server's first profile, id 1, is chosen. -/
theorem C21_witness :
    demo_conn_srtp.srtp_profiles = some demo_srtp_profiles
      ∧ tls_parse_ctos_use_srtp demo_conn_srtp (use_srtp_body [2, 1] [])
          = (1, { demo_conn_srtp with srtp_profile := some { id := 1 } }) := by
  refine ⟨rfl, ?_⟩
  rw [((C21_srtp_profile_selection demo_conn_srtp demo_srtp_profiles rfl).1 [2, 1] []
    (by decide) (by decide) (by decide)).1]
  decide

/-- Claim C22, evaluated on the code: tls_parse_ctos_etm does not look at the
extension body. On a new connection the one-byte body 00 is accepted and
use_etm is set, while tls_parse_ctos_ems refuses the same body with
decode_error. The rest of the claim holds: tls_parse_ctos_etm always returns
success and sets use_etm exactly when SSL_OP_NO_ENCRYPT_THEN_MAC is not set;
tls_parse_ctos_ems refuses every non-empty body with decode_error and on an
empty body sets the received-EMS flag exactly when
SSL_OP_NO_EXTENDED_MASTER_SECRET is not set. -/
theorem C22_etm_body_not_checked :
    tls_parse_ctos_etm {} [0] = (1, { ext := { use_etm := 1 } })
      ∧ tls_parse_ctos_ems {} [0]
          = (0, SSLfatal {} Alert.SSL_AD_DECODE_ERROR Reason.SSL_R_BAD_EXTENSION)
      ∧ (∀ (s : SSL_CONNECTION) (body : List Nat),
          (s.options &&& SSL_OP_NO_ENCRYPT_THEN_MAC = 0 →
            tls_parse_ctos_etm s body = (1, { s with ext := { s.ext with use_etm := 1 } }))
          ∧ (s.options &&& SSL_OP_NO_ENCRYPT_THEN_MAC ≠ 0 → tls_parse_ctos_etm s body = (1, s)))
      ∧ (∀ (s : SSL_CONNECTION) (body : List Nat), body ≠ [] →
          tls_parse_ctos_ems s body
            = (0, SSLfatal s Alert.SSL_AD_DECODE_ERROR Reason.SSL_R_BAD_EXTENSION))
      ∧ (∀ s : SSL_CONNECTION,
          (s.options &&& SSL_OP_NO_EXTENDED_MASTER_SECRET = 0 →
            tls_parse_ctos_ems s []
              = (1, { s with s3 := { s.s3 with
                        flags := s.s3.flags ||| TLS1_FLAGS_RECEIVED_EXTMS } }))
          ∧ (s.options &&& SSL_OP_NO_EXTENDED_MASTER_SECRET ≠ 0 →
              tls_parse_ctos_ems s [] = (1, s))) := by
  refine ⟨by decide, by decide, fun s body => ⟨fun h => ?_, fun h => ?_⟩, fun s body hb => ?_,
    fun s => ⟨fun h => ?_, fun h => ?_⟩⟩
  · unfold tls_parse_ctos_etm; rw [if_pos h]
  · unfold tls_parse_ctos_etm; rw [if_neg h]
  · unfold tls_parse_ctos_ems
    rw [if_pos (by simpa [PACKET_remaining] using hb)]
  · unfold tls_parse_ctos_ems
    rw [if_neg (by simp [PACKET_remaining]), if_neg (by simp [h])]
  · unfold tls_parse_ctos_ems
    rw [if_neg (by simp [PACKET_remaining]), if_pos h]

/-- Claim C23, empty-extension round trip. Whenever the producer of
extended_master_secret, of encrypt_then_mac or of early_data (outside
NewSessionTicket, no HelloRetryRequest sent) returns SENT, it has appended the
extension type followed by a zero length, so the body is empty; the
ClientHello parser of the same extension accepts the empty body; and the flag
that made the producer send (received-EMS flag, use_etm, early_data =
ACCEPTED) is set after parsing as it was after producing: parsing leaves the
connection exactly as producing left it, for use_etm when it holds 0 or 1, the
values the code stores. -/
theorem C23_empty_extension_round_trip (s s1 : SSL_CONNECTION) (pkt pkt1 : WPACKET)
    (context : Nat) :
    (tls_construct_stoc_ems s pkt = (EXT_RETURN.EXT_RETURN_SENT, s1, pkt1) →
        (∃ sub ps, pkt.subs = sub :: ps
          ∧ pkt1 = ⟨{ sub with body := sub.body
                ++ extension_wire TLSEXT_TYPE_extended_master_secret [] } :: ps, pkt.maxsize⟩)
        ∧ s1.s3.flags &&& TLS1_FLAGS_RECEIVED_EXTMS ≠ 0
        ∧ tls_parse_ctos_ems s1 [] = (1, s1))
      ∧ (tls_construct_stoc_etm s pkt = some (EXT_RETURN.EXT_RETURN_SENT, s1, pkt1) →
          (∃ sub ps, pkt.subs = sub :: ps
            ∧ pkt1 = ⟨{ sub with body := sub.body
                  ++ extension_wire TLSEXT_TYPE_encrypt_then_mac [] } :: ps, pkt.maxsize⟩)
          ∧ s1.ext.use_etm ≠ 0
          ∧ (tls_parse_ctos_etm s1 []).1 = 1
          ∧ (tls_parse_ctos_etm s1 []).2.ext.use_etm ≠ 0
          ∧ (s.ext.use_etm ≤ 1 → s1.ext.use_etm = 1 ∧ tls_parse_ctos_etm s1 [] = (1, s1)))
      ∧ (context ≠ SSL_EXT_TLS1_3_NEW_SESSION_TICKET →
          s.hello_retry_request = HRR_STATE.SSL_HRR_NONE →
          tls_construct_stoc_early_data s pkt context
            = (EXT_RETURN.EXT_RETURN_SENT, s1, pkt1) →
          (∃ sub ps, pkt.subs = sub :: ps
            ∧ pkt1 = ⟨{ sub with body := sub.body
                  ++ extension_wire TLSEXT_TYPE_early_data [] } :: ps, pkt.maxsize⟩)
          ∧ s1.ext.early_data = SSL_EARLY_DATA_ACCEPTED
          ∧ tls_parse_ctos_early_data s1 [] = (1, s1)) := by
  refine ⟨fun h => ?_, fun h => ?_, fun hctx hhrr h => ?_⟩
  · obtain ⟨hf, hs, hp⟩ := tls_construct_stoc_ems_inv s s1 pkt pkt1 h
    rw [hs]
    exact ⟨hp, hf, tls_parse_ctos_ems_empty s hf⟩
  · obtain ⟨hf, hs, hp⟩ := tls_construct_stoc_etm_inv s s1 pkt pkt1 h
    rw [hs]
    refine ⟨hp, hf, ?_, ?_, fun hu => ?_⟩
    · unfold tls_parse_ctos_etm; split <;> rfl
    · unfold tls_parse_ctos_etm
      split
      · simp
      · exact hf
    · have h1 : s.ext.use_etm = 1 := by omega
      exact ⟨h1, tls_parse_ctos_etm_set s [] h1⟩
  · obtain ⟨hf, hs, hp⟩ := tls_construct_stoc_early_data_inv s s1 pkt pkt1 context hctx h
    rw [hs]
    refine ⟨hp, hf, ?_⟩
    unfold tls_parse_ctos_early_data
    rw [if_neg (by simp [PACKET_remaining]), if_neg (by simp [hhrr])]

/-- Witness for C23: the three producers write into a ServerHello under
construction and return SENT, and the parsers accept the empty body. -/
theorem C23_witness :
    (tls_construct_stoc_ems demo_conn_ems demo_writer
        = (EXT_RETURN.EXT_RETURN_SENT, demo_conn_ems,
            ⟨[⟨2, [0, 23, 0, 0]⟩, ⟨3, [3, 3]⟩, ⟨0, [2]⟩], 20000⟩)
      ∧ tls_parse_ctos_ems demo_conn_ems [] = (1, demo_conn_ems))
    ∧ (tls_construct_stoc_etm demo_conn_etm demo_writer
        = some (EXT_RETURN.EXT_RETURN_SENT, demo_conn_etm,
            ⟨[⟨2, [0, 22, 0, 0]⟩, ⟨3, [3, 3]⟩, ⟨0, [2]⟩], 20000⟩)
      ∧ tls_parse_ctos_etm demo_conn_etm [] = (1, demo_conn_etm))
    ∧ (tls_construct_stoc_early_data demo_conn_early_data demo_writer 0x0400
        = (EXT_RETURN.EXT_RETURN_SENT, demo_conn_early_data,
            ⟨[⟨2, [0, 42, 0, 0]⟩, ⟨3, [3, 3]⟩, ⟨0, [2]⟩], 20000⟩)
      ∧ tls_parse_ctos_early_data demo_conn_early_data [] = (1, demo_conn_early_data)) := by
  have h1 : tls_construct_stoc_ems demo_conn_ems demo_writer
      = (EXT_RETURN.EXT_RETURN_SENT, demo_conn_ems,
          ⟨[⟨2, [0, 23, 0, 0]⟩, ⟨3, [3, 3]⟩, ⟨0, [2]⟩], 20000⟩) := by decide
  have h2 : tls_construct_stoc_etm demo_conn_etm demo_writer
      = some (EXT_RETURN.EXT_RETURN_SENT, demo_conn_etm,
          ⟨[⟨2, [0, 22, 0, 0]⟩, ⟨3, [3, 3]⟩, ⟨0, [2]⟩], 20000⟩) := by decide
  have h3 : tls_construct_stoc_early_data demo_conn_early_data demo_writer 0x0400
      = (EXT_RETURN.EXT_RETURN_SENT, demo_conn_early_data,
          ⟨[⟨2, [0, 42, 0, 0]⟩, ⟨3, [3, 3]⟩, ⟨0, [2]⟩], 20000⟩) := by decide
  exact ⟨⟨h1, ((C23_empty_extension_round_trip demo_conn_ems demo_conn_ems demo_writer _ 0).1
      h1).2.2⟩,
    ⟨h2, (((C23_empty_extension_round_trip demo_conn_etm demo_conn_etm demo_writer _ 0).2.1
      h2).2.2.2.2 (by decide)).2⟩,
    ⟨h3, ((C23_empty_extension_round_trip demo_conn_early_data demo_conn_early_data demo_writer
      _ 0x0400).2.2 (by decide) rfl h3).2.2⟩⟩

/-- Claim C24, psk_key_exchange_modes. tls_parse_ctos_psk_kex_modes fails
exactly when the body is not a 1-byte length-prefixed, non-empty list that
fills the body, and then with decode_error. On every other body it succeeds,
whatever the list holds, and the new psk_kex_mode is the old value with the
DHE flag added if byte 1 (psk_dhe_ke) occurs and the KE flag added if byte 0
(psk_ke) occurs and SSL_OP_ALLOW_NO_DHE_KEX is set, after which the mode is
replaced by KE only if the KE flag is set and SSL_OP_PREFER_NO_DHE_KEX is
set. Bytes other than 0 and 1 change nothing. -/
theorem C24_psk_kex_modes (s : SSL_CONNECTION) (body : List Nat) (hb : ∀ b ∈ body, b < 256) :
    ((tls_parse_ctos_psk_kex_modes s body).1 = 0 ↔ ¬ psk_kex_modes_well_formed body)
      ∧ (¬ psk_kex_modes_well_formed body →
          tls_parse_ctos_psk_kex_modes s body
            = (0, SSLfatal s Alert.SSL_AD_DECODE_ERROR Reason.SSL_R_BAD_EXTENSION))
      ∧ (∀ modes : List Nat, modes ≠ [] → modes.length < 256 →
          body = psk_kex_modes_body modes →
          tls_parse_ctos_psk_kex_modes s body
            = (1, { s with ext := { s.ext with
                      psk_kex_mode := psk_kex_mode_preferred
                        (psk_kex_mode_offered s.ext.psk_kex_mode s.options modes)
                        s.options } }))
      ∧ (∀ modes : List Nat,
          (∀ m ∈ modes, m ≠ TLSEXT_KEX_MODE_KE ∧ m ≠ TLSEXT_KEX_MODE_KE_DHE) →
          psk_kex_mode_offered s.ext.psk_kex_mode s.options modes = s.ext.psk_kex_mode)
      ∧ (∀ modes unknown : List Nat,
          (∀ m ∈ unknown, m ≠ TLSEXT_KEX_MODE_KE ∧ m ≠ TLSEXT_KEX_MODE_KE_DHE) →
          psk_kex_mode_offered s.ext.psk_kex_mode s.options (modes ++ unknown)
            = psk_kex_mode_offered s.ext.psk_kex_mode s.options modes) := by
  refine ⟨⟨fun h hwf => ?_, fun hwf => ?_⟩, tls_parse_ctos_psk_kex_modes_malformed s body hb,
    fun modes hne hlen hbody => ?_, fun modes hm => ?_, fun modes unknown hm => ?_⟩
  · obtain ⟨modes, hne, hlen, hbody⟩ := hwf
    rw [hbody, tls_parse_ctos_psk_kex_modes_body s modes hne hlen] at h
    simp at h
  · rw [tls_parse_ctos_psk_kex_modes_malformed s body hb hwf]
  · rw [hbody, tls_parse_ctos_psk_kex_modes_body s modes hne hlen]
  · have h0 : TLSEXT_KEX_MODE_KE ∉ modes := fun h => (hm _ h).1 rfl
    have h1 : TLSEXT_KEX_MODE_KE_DHE ∉ modes := fun h => (hm _ h).2 rfl
    simp [psk_kex_mode_offered, h0, h1]
  · have h0 : TLSEXT_KEX_MODE_KE ∉ unknown := fun h => (hm _ h).1 rfl
    have h1 : TLSEXT_KEX_MODE_KE_DHE ∉ unknown := fun h => (hm _ h).2 rfl
    simp [psk_kex_mode_offered, h0, h1]

/-- Witness for C24: a server that allows and prefers PSK without DHE is
offered psk_dhe_ke, psk_ke and the unknown mode 7, and keeps KE only. -/
theorem C24_witness :
    (∀ b ∈ [3, 1, 0, 7], b < 256)
      ∧ tls_parse_ctos_psk_kex_modes demo_conn_no_dhe [3, 1, 0, 7]
          = (1, { demo_conn_no_dhe with ext := { psk_kex_mode := TLSEXT_KEX_MODE_FLAG_KE } }) := by
  refine ⟨by decide, ?_⟩
  rw [(C24_psk_kex_modes demo_conn_no_dhe [3, 1, 0, 7] (by decide)).2.2.1 [1, 0, 7]
    (by decide) (by decide) (by decide)]
  decide

/-- Claim C25, certificate-type reconciliation. reconcile_cert_type returns
GOOD with the first element of the priority list that occurs in the other
list, and ERROR with the chosen type untouched if none does. On a well-formed
body tls_parse_ctos_client_cert_type reconciles with the client's list as the
priority list and returns success whatever the outcome; with the outcome
ERROR, tls_construct_stoc_client_cert_type fails with unsupported_certificate
when a certificate request will be sent or post-handshake authentication was
offered, and sends nothing and raises nothing otherwise.
tls_parse_ctos_server_cert_type reconciles with the server's configured list as
the priority list and on ERROR fails at once with unsupported_certificate. -/
theorem C25_cert_type_reconciliation (sc : SSL_CONNECTION) (types : List Nat)
    (hne : types ≠ []) (hlen : types.length < 256) :
    (∀ (pref other : List Nat) (chosen p : Nat),
        pref.find? (fun t => decide (t ∈ other)) = some p →
        reconcile_cert_type pref other chosen = (OSSL_CERT_TYPE_CTOS_GOOD, p))
      ∧ (∀ (pref other : List Nat) (chosen : Nat), (∀ t ∈ pref, t ∉ other) →
          reconcile_cert_type pref other chosen = (OSSL_CERT_TYPE_CTOS_ERROR, chosen))
      ∧ (∀ cfg : List Nat, sc.client_cert_type = some cfg →
          tls_parse_ctos_client_cert_type sc (cert_type_body types)
            = (1, { sc with ext := { sc.ext with
                      client_cert_type_ctos :=
                        (reconcile_cert_type types cfg sc.ext.client_cert_type).1,
                      client_cert_type :=
                        (reconcile_cert_type types cfg sc.ext.client_cert_type).2 } }))
      ∧ (∀ (send_certificate_request : SSL_CONNECTION → Bool) (pkt : WPACKET),
          sc.ext.client_cert_type_ctos = OSSL_CERT_TYPE_CTOS_ERROR →
          (send_certificate_request sc = true ∨ sc.post_handshake_auth = SSL_PHA_EXT_RECEIVED) →
          tls_construct_stoc_client_cert_type send_certificate_request sc pkt
            = (EXT_RETURN.EXT_RETURN_FAIL,
                SSLfatal sc Alert.SSL_AD_UNSUPPORTED_CERTIFICATE Reason.SSL_R_BAD_EXTENSION,
                pkt))
      ∧ (∀ (send_certificate_request : SSL_CONNECTION → Bool) (pkt : WPACKET),
          sc.ext.client_cert_type_ctos = OSSL_CERT_TYPE_CTOS_ERROR →
          send_certificate_request sc = false →
          sc.post_handshake_auth ≠ SSL_PHA_EXT_RECEIVED →
          (tls_construct_stoc_client_cert_type send_certificate_request sc pkt).1
              = EXT_RETURN.EXT_RETURN_NOT_SENT
            ∧ (tls_construct_stoc_client_cert_type send_certificate_request sc pkt).2.1.fatal
              = sc.fatal)
      ∧ (∀ cfg : List Nat, sc.server_cert_type = some cfg →
          ((reconcile_cert_type cfg types sc.ext.server_cert_type).1 = OSSL_CERT_TYPE_CTOS_GOOD →
            tls_parse_ctos_server_cert_type sc (cert_type_body types)
              = (1, { sc with ext := { sc.ext with
                        server_cert_type_ctos :=
                          (reconcile_cert_type cfg types sc.ext.server_cert_type).1,
                        server_cert_type :=
                          (reconcile_cert_type cfg types sc.ext.server_cert_type).2 } }))
          ∧ ((reconcile_cert_type cfg types sc.ext.server_cert_type).1
                = OSSL_CERT_TYPE_CTOS_ERROR →
              tls_parse_ctos_server_cert_type sc (cert_type_body types)
                = (0, SSLfatal { sc with ext := { sc.ext with
                          server_cert_type_ctos :=
                            (reconcile_cert_type cfg types sc.ext.server_cert_type).1,
                          server_cert_type :=
                            (reconcile_cert_type cfg types sc.ext.server_cert_type).2 } }
                        Alert.SSL_AD_UNSUPPORTED_CERTIFICATE Reason.SSL_R_BAD_EXTENSION))) := by
  refine ⟨reconcile_cert_type_good, reconcile_cert_type_error,
    fun cfg hcfg => tls_parse_ctos_client_cert_type_body sc cfg types hcfg hne hlen,
    fun send pkt herr hplay => ?_, fun send pkt herr hs hpha => ?_, fun cfg hcfg => ⟨fun hg => ?_,
      fun he => ?_⟩⟩
  · unfold tls_construct_stoc_client_cert_type
    rw [if_pos ⟨herr, hplay⟩]
  · unfold tls_construct_stoc_client_cert_type
    rw [if_neg (by rintro ⟨_, h | h⟩
                   · rw [hs] at h; simp at h
                   · exact hpha h)]
    by_cases hx : sc.ext.client_cert_type = TLSEXT_cert_type_x509
    · rw [if_pos hx]; exact ⟨rfl, rfl⟩
    · rw [if_neg hx, if_pos (Or.inl ⟨hs, hpha⟩)]; exact ⟨rfl, rfl⟩
  · rw [tls_parse_ctos_server_cert_type_body sc cfg types hcfg hne hlen, if_pos hg]
  · rw [tls_parse_ctos_server_cert_type_body sc cfg types hcfg hne hlen,
      if_neg (by rw [he]; decide)]

/-- Witness for C25: the client offers raw public key (2) before X.509 (0).
For the client certificate type the client's order decides and type 2 is
chosen; for the server certificate type the server's order decides and type 0
is chosen. -/
theorem C25_witness :
    ([2, 0] : List Nat) ≠ [] ∧ ([2, 0] : List Nat).length < 256
      ∧ tls_parse_ctos_client_cert_type demo_conn_cert_type (cert_type_body [2, 0])
          = (1, { demo_conn_cert_type with
                    ext := { client_cert_type_ctos := OSSL_CERT_TYPE_CTOS_GOOD,
                             client_cert_type := 2 } })
      ∧ tls_parse_ctos_server_cert_type demo_conn_cert_type (cert_type_body [2, 0])
          = (1, { demo_conn_cert_type with
                    ext := { server_cert_type_ctos := OSSL_CERT_TYPE_CTOS_GOOD,
                             server_cert_type := 0 } }) := by
  have h := C25_cert_type_reconciliation demo_conn_cert_type [2, 0] (by decide) (by decide)
  refine ⟨by decide, by decide, ?_, ?_⟩
  · rw [h.2.2.1 [2, 0] rfl]
    decide
  · rw [(h.2.2.2.2.2 [0, 2] rfl).1 (by decide)]
    decide

/-- Claim C26, PSK identity selection. Let tls_parse_ctos_psk succeed on a
body of octets with a recognised PSK key exchange mode. Then either every
offered identity was passed over and the session and tick_identity are as
before, or a session is installed, and then: the identities block starts with
identities that were all passed over, followed by one for which a session was
obtained (from the find-session callback, the old style callback or the
ticket lookup, where with anti-replay on a session from a ticket has been
taken out of the cache) whose cipher digest is the digest of the negotiated
cipher; tick_identity is the index of that identity, counted from 0, and the
session is the one obtained; and tls_construct_stoc_psk on the resumed
connection writes the pre_shared_key extension with exactly that index as its
2-byte body. -/
theorem C26_psk_identity_selection (env : PskEnv) (s s1 : SSL_CONNECTION) (pkt : PACKET)
    (pkt_offset : Nat) (hb : ∀ b ∈ pkt, b < 256)
    (hmode : s.ext.psk_kex_mode &&& (TLSEXT_KEX_MODE_FLAG_KE ||| TLSEXT_KEX_MODE_FLAG_KE_DHE) ≠ 0)
    (h : tls_parse_ctos_psk env s pkt pkt_offset = some (1, s1)) :
    (∃ (es : List (List Nat × Nat)) (rest : List Nat) (ext1 : Nat),
        pkt = psk_body (psk_identities_wire es) rest
        ∧ psk_after env 0 es { s with ext := { s.ext with ticket_expected := 0 } } 0
            = some (s1, ext1)
        ∧ s1.session = s.session ∧ s1.ext.tick_identity = s.ext.tick_identity)
      ∨ (∃ (pre : List (List Nat × Nat)) (sel : List Nat × Nat) (tail rest : List Nat)
          (s0 : SSL_CONNECTION) (ext0 : Nat) (s2 : SSL_CONNECTION) (ext2 : Nat)
          (sess : SSL_SESSION) (md : EVP_MD),
        pkt = psk_body (psk_identities_wire (pre ++ [sel]) ++ tail) rest
        ∧ psk_after env 0 pre { s with ext := { s.ext with ticket_expected := 0 } } 0
            = some (s0, ext0)
        ∧ psk_obtain env pre.length s0 ext0 sel.1 sel.2 = PSK_OBTAIN.sess s2 ext2 sess
        ∧ (psk_find_session env s0 sel.1 = PSK_LOOKUP.sess none →
            psk_server_session env s0 sel.1 = PSK_LOOKUP.sess none →
            s0.max_early_data > 0 → s0.options &&& SSL_OP_NO_ANTI_REPLAY = 0 →
            (SSL_CTX_remove_session s0.session_ctx sess).1 = 1)
        ∧ (∃ (cipher new_cipher : SSL_CIPHER) (md0 : EVP_MD),
            sess.cipher = some cipher ∧ env.ssl_md cipher.algorithm2 = some md
            ∧ s2.s3.tmp.new_cipher = some new_cipher
            ∧ env.ssl_md new_cipher.algorithm2 = some md0 ∧ md.name = md0.name)
        ∧ s1 = { s2 with ext := { s2.ext with tick_identity := pre.length }, session := sess }
        ∧ s1.ext.tick_identity = pre.length ∧ s1.session = sess
        ∧ (∀ (sub : WPACKET_SUB) (ps : List WPACKET_SUB) (M : Nat),
            WPACKET.written ⟨sub :: ps, M⟩ + 6 ≤ M →
            tls_construct_stoc_psk { s1 with hit := true } ⟨sub :: ps, M⟩
              = (EXT_RETURN.EXT_RETURN_SENT, { s1 with hit := true },
                  ⟨{ sub with body := sub.body
                        ++ extension_wire TLSEXT_TYPE_psk (put_value pre.length 2) } :: ps,
                    M⟩))) := by
  obtain ⟨identities, rest, ex, hpkt, hl, hbi, hloop, hex⟩ :=
    tls_parse_ctos_psk_success env s s1 pkt pkt_offset hb hmode h
  obtain ⟨hinv1, hinv2⟩ := psk_loop_inv env _ _ _ _ _ ex hbi hloop
  rcases hex with hex | ⟨id, s2, ext2, sess, md, hex, hs1⟩
  · left
    obtain ⟨es, ext1, _, hes, ha⟩ := hinv1 s1 hex
    have hf := psk_after_frame env es 0 _ 0 s1 ext1 ha
    exact ⟨es, rest, ext1, by rw [hpkt, hes], ha, hf.1, hf.2⟩
  · right
    obtain ⟨pre, sel, tail, s0, ext0, _, hes, ha, hsel, hid⟩ := hinv2 id s2 ext2 sess md hex
    rw [Nat.zero_add] at hid
    subst hid
    obtain ⟨hob, hmd⟩ := psk_identity_found env _ s0 ext0 sel.1 sel.2 s2 ext2 sess md hsel
    have hlt : pre.length < 65536 := by
      have h6 := psk_identities_wire_length_ge (pre ++ [sel])
      rw [hes] at hl
      simp only [List.length_append, List.length_singleton] at h6 hl
      omega
    refine ⟨pre, sel, tail, rest, s0, ext0, s2, ext2, sess, md, by rw [hpkt, hes], ha, hob,
      fun h1 h2 h3 h4 => (psk_obtain_replay env _ s0 ext0 sel.1 sel.2 s2 ext2 sess hob h1 h2
        h3 h4).2.1, hmd, hs1, by rw [hs1], by rw [hs1], fun sub ps M hroom => ?_⟩
    have hti : ({ s1 with hit := true } : SSL_CONNECTION).ext.tick_identity = pre.length := by
      rw [hs1]
    rw [tls_construct_stoc_psk_sent { s1 with hit := true } sub ps M rfl
      (by rw [hti]; exact hlt) hroom, hti]

/-- Witness for C26: two tickets are offered; the first decrypts to a SHA-384
session, the second to a SHA-256 session, and SHA-256 is the digest of the
negotiated cipher. The parser succeeds, installs the second session and sets
tick_identity to 1, and the ServerHello extension carries 00 01. -/
theorem C26_witness :
    (∀ b ∈ demo_psk_body, b < 256)
      ∧ tls_parse_ctos_psk demo_psk_env demo_conn_psk demo_psk_body 200
          = some (1, demo_conn_psk_resumed)
      ∧ demo_conn_psk_resumed.ext.tick_identity = 1
      ∧ tls_construct_stoc_psk { demo_conn_psk_resumed with hit := true } demo_writer
          = (EXT_RETURN.EXT_RETURN_SENT, { demo_conn_psk_resumed with hit := true },
              ⟨[⟨2, [0, 41, 0, 2, 0, 1]⟩, ⟨3, [3, 3]⟩, ⟨0, [2]⟩], 20000⟩) := by
  have hb : ∀ b ∈ demo_psk_body, b < 256 := by decide
  have h : tls_parse_ctos_psk demo_psk_env demo_conn_psk demo_psk_body 200
      = some (1, demo_conn_psk_resumed) := by decide
  refine ⟨hb, h, rfl, ?_⟩
  rcases C26_psk_identity_selection demo_psk_env demo_conn_psk demo_conn_psk_resumed
    demo_psk_body 200 hb (by decide) h with ⟨_, _, _, _, _, hsess, _⟩ | _
  · exact absurd hsess (by decide)
  · decide

/-- Counterexample for C27. The server issues no tickets, so identities are
looked up in the session cache. The first identity yields the SHA-384 session
while the negotiated cipher uses SHA-256; the second identity is not in the
cache and yields no session. Every identity that yields a session yields one
with a differing digest, and the parser returns success, but ticket_expected is
1 afterwards: the lookup of the second identity has set it again. -/
theorem C27_counterexample :
    psk_obtain demo_psk_env 0 demo_conn_psk_stateful 0 (List.replicate 32 0xA1) 0
        = PSK_OBTAIN.sess
            { demo_conn_psk_stateful with
                ext := { demo_conn_psk_stateful.ext with ticket_expected := 1 } }
            0 demo_sess_sha384
      ∧ demo_psk_env.ssl_md 2 = some { name := 2, size := 48 }
      ∧ demo_psk_env.ssl_md 1 = some { name := 1, size := 32 }
      ∧ psk_obtain demo_psk_env 1 demo_conn_psk_stateful 0 (List.replicate 32 0xCC) 0
        = PSK_OBTAIN.skip
            { demo_conn_psk_stateful with
                ext := { demo_conn_psk_stateful.ext with ticket_expected := 1 } }
      ∧ tls_parse_ctos_psk demo_psk_env demo_conn_psk_stateful
          (psk_body (psk_identities_wire demo_psk_identities_stateful) []) 200
        = some (1, { demo_conn_psk_stateful with
                      ext := { demo_conn_psk_stateful.ext with ticket_expected := 1 } }) := by
  refine ⟨by decide, by decide, by decide, by decide, ?_⟩
  exact tls_parse_ctos_psk_skipped demo_psk_env demo_conn_psk_stateful
    demo_psk_identities_stateful [] 200 _ 0 (by decide) (by decide) (by decide) (by decide)

/-- Claim C27 as amended, PSK cipher-hash mismatch. If every offered identity
is passed over, that is, none is refused with a fatal error and each one
either yields no session or yields one whose cipher digest differs from the
digest of the negotiated cipher, tls_parse_ctos_psk returns success, the
session of the connection is not replaced and tick_identity is unchanged. No
binder is examined: the result is the same whatever follows the identities
and whatever the binder check would answer. An identity with a differing
digest clears early_data_ok and ticket_expected. early_data_ok is 0 at the
end whenever some identity has yielded a session, and also when it was 0 at
entry; ticket_expected is 0 at the end when the last identity has yielded a
session, while a later identity without a session can set it again. -/
theorem C27_psk_hash_mismatch (env : PskEnv) (s : SSL_CONNECTION)
    (es : List (List Nat × Nat)) (rest : List Nat) (pkt_offset : Nat)
    (s1 : SSL_CONNECTION) (ext1 : Nat)
    (hmode : s.ext.psk_kex_mode &&& (TLSEXT_KEX_MODE_FLAG_KE ||| TLSEXT_KEX_MODE_FLAG_KE_DHE) ≠ 0)
    (hv : ∀ e ∈ es, e.1.length < 65536 ∧ e.2 < 2 ^ 32)
    (hl : (psk_identities_wire es).length < 65536)
    (hskip : psk_after env 0 es { s with ext := { s.ext with ticket_expected := 0 } } 0
      = some (s1, ext1)) :
    tls_parse_ctos_psk env s (psk_body (psk_identities_wire es) rest) pkt_offset = some (1, s1)
      ∧ s1.session = s.session ∧ s1.ext.tick_identity = s.ext.tick_identity
      ∧ (∀ (rest1 : List Nat)
          (f : SSL_CONNECTION → EVP_MD → Nat → List Nat → SSL_SESSION → Nat
            → Option (Alert × Reason)),
          tls_parse_ctos_psk { env with tls_psk_do_binder := f } s
            (psk_body (psk_identities_wire es) rest1) pkt_offset = some (1, s1))
      ∧ (∀ (id : Nat) (st : SSL_CONNECTION) (ext : Nat) (identity : PACKET) (ticket_agel : Nat)
          (st1 : SSL_CONNECTION) (ext2 : Nat),
          psk_identity env id st ext identity ticket_agel = some (PSK_STEP.skip st1 ext2) →
          (psk_obtain env id st ext identity ticket_agel = PSK_OBTAIN.skip st1 ∧ ext2 = ext)
            ∨ ∃ (s2 : SSL_CONNECTION) (sess : SSL_SESSION) (cipher new_cipher : SSL_CIPHER)
                (md : EVP_MD),
                psk_obtain env id st ext identity ticket_agel = PSK_OBTAIN.sess s2 ext2 sess
                ∧ sess.cipher = some cipher ∧ env.ssl_md cipher.algorithm2 = some md
                ∧ s2.s3.tmp.new_cipher = some new_cipher
                ∧ EVP_MD_is_a md (EVP_MD_get0_name (env.ssl_md new_cipher.algorithm2)) = false
                ∧ st1 = { s2 with ext := { s2.ext with early_data_ok := 0,
                                                       ticket_expected := 0 } })
      ∧ (∀ (pre : List (List Nat × Nat)) (e : List Nat × Nat) (post : List (List Nat × Nat)),
          es = pre ++ e :: post →
          ∃ (s0 : SSL_CONNECTION) (ext0 : Nat),
            psk_after env 0 pre { s with ext := { s.ext with ticket_expected := 0 } } 0
              = some (s0, ext0)
            ∧ ∀ (s2 : SSL_CONNECTION) (ext2 : Nat) (sess : SSL_SESSION),
                psk_obtain env pre.length s0 ext0 e.1 e.2 = PSK_OBTAIN.sess s2 ext2 sess →
                s1.ext.early_data_ok = 0)
      ∧ (s.ext.early_data_ok = 0 → s1.ext.early_data_ok = 0)
      ∧ (∀ (pre : List (List Nat × Nat)) (last : List Nat × Nat) (s0 : SSL_CONNECTION)
          (ext0 : Nat) (s2 : SSL_CONNECTION) (ext2 : Nat) (sess : SSL_SESSION),
          es = pre ++ [last] →
          psk_after env 0 pre { s with ext := { s.ext with ticket_expected := 0 } } 0
            = some (s0, ext0) →
          psk_obtain env pre.length s0 ext0 last.1 last.2 = PSK_OBTAIN.sess s2 ext2 sess →
          s1.ext.ticket_expected = 0) := by
  have hf := psk_after_frame env es 0 _ 0 s1 ext1 hskip
  refine ⟨tls_parse_ctos_psk_skipped env s es rest pkt_offset s1 ext1 hmode hv hl hskip,
    hf.1, hf.2, fun rest1 f => ?_, fun id st ext identity ticket_agel st1 ext2 h =>
      psk_identity_skip env id st ext identity ticket_agel st1 ext2 h,
    fun pre e post hes => ?_,
    fun h0 => psk_after_early_zero env es 0 _ 0 s1 ext1 hskip h0,
    fun pre last s0 ext0 s2 ext2 sess hes hpre hob => ?_⟩
  · exact tls_parse_ctos_psk_skipped { env with tls_psk_do_binder := f } s es rest1 pkt_offset
      s1 ext1 hmode hv hl (by rw [psk_after_binder_irrelevant]; exact hskip)
  · rw [hes] at hskip
    obtain ⟨s0, ext0, h1, _⟩ := psk_after_split env pre (e :: post) 0 _ 0 s1 ext1 hskip
    refine ⟨s0, ext0, h1, fun s2 ext2 sess hob => ?_⟩
    exact psk_after_early_session env pre e post 0 _ 0 s1 ext1 s0 ext0 s2 ext2 sess hskip h1
      (by rw [Nat.zero_add]; exact hob)
  · rw [hes] at hskip
    obtain ⟨s0a, ext0a, h1, h2⟩ := psk_after_append env pre last 0 _ 0 s1 ext1 hskip
    rw [hpre] at h1
    simp only [Option.some.injEq, Prod.mk.injEq] at h1
    rw [← h1.1, ← h1.2, Nat.zero_add] at h2
    rcases psk_identity_skip env _ s0 ext0 last.1 last.2 s1 ext1 h2 with ⟨h3, _⟩ | h3
    · rw [hob] at h3; simp at h3
    · obtain ⟨s3, _, _, _, _, _, _, _, _, _, hs1⟩ := h3
      rw [hs1]

/-- Witness for C27: the only identity decrypts to the SHA-384 session while
the negotiated cipher uses SHA-256. -/
theorem C27_witness :
    psk_after demo_psk_env 0 [([0xA1, 0xA1], 0)]
        { demo_conn_psk with ext := { demo_conn_psk.ext with ticket_expected := 0 } } 0
        = some (demo_conn_psk, 0)
      ∧ tls_parse_ctos_psk demo_psk_env demo_conn_psk
          (psk_body (psk_identities_wire [([0xA1, 0xA1], 0)]) []) 200
        = some (1, demo_conn_psk) := by
  have h : psk_after demo_psk_env 0 [([0xA1, 0xA1], 0)]
      { demo_conn_psk with ext := { demo_conn_psk.ext with ticket_expected := 0 } } 0
      = some (demo_conn_psk, 0) := by decide
  exact ⟨h, (C27_psk_hash_mismatch demo_psk_env demo_conn_psk [([0xA1, 0xA1], 0)] [] 200
    demo_conn_psk 0 (by decide) (by decide) (by decide) h).1⟩

/-- Counterexample for C28. One ticket is offered at index 0. The session is
100 seconds old and has not timed out, and the client states an age of 105
seconds, which lies between t - 1s and t + TICKET_AGE_ALLOWANCE. The parser
installs the session and leaves early_data_ok at 0. -/
theorem C28_counterexample :
    session_age demo_psk_env demo_sess_sha256 ≤ demo_sess_sha256.timeout
      ∧ session_age demo_psk_env demo_sess_sha256 - 1000000000
          ≤ ticket_age demo_sess_sha256 105000
      ∧ ticket_age demo_sess_sha256 105000
          ≤ session_age demo_psk_env demo_sess_sha256 + TICKET_AGE_ALLOWANCE
      ∧ (tls_parse_ctos_psk demo_psk_env demo_conn_psk
            (psk_body (psk_identities_wire [([0xA2, 0xA2], 105000)])
              (psk_binders_block (psk_binders_wire [List.replicate 32 0xBB]))) 200).map
          (fun r => (r.1, r.2.session, r.2.ext.tick_identity, r.2.ext.early_data_ok))
        = some (1, demo_sess_sha256, 0, 0) := by
  decide

/-- Claim C28 as amended, early-data admissibility window. For a session from
a ticket, with age = ticket_age - age_add and t = now - session creation time
(both zero when negative), the loop sets early_data_ok exactly when the
identity has index 0, t ≤ session timeout and t + 1s - TICKET_AGE_ALLOWANCE ≤
age ≤ t + 1s; otherwise it leaves early_data_ok as it was, and so for every
index other than 0. When the loop breaks at this identity, early_data_ok has
that value. -/
theorem C28_early_data_window (env : PskEnv) (id : Nat) (s : SSL_CONNECTION) (ext : Nat)
    (sess : SSL_SESSION) (ticket_agel : Nat)
    (hage : ticket_agel < 2 ^ 32) (hadd : sess.ext.tick_age_add < 2 ^ 32)
    (hnow : env.ossl_time_now + 1000000000 < 2 ^ 64) :
    (∀ (s1 : SSL_CONNECTION) (ext1 : Nat) (sess1 : SSL_SESSION),
        psk_ticket_session env id s ext sess ticket_agel = PSK_OBTAIN.sess s1 ext1 sess1 →
        s1.ext.early_data_ok
          = if id = 0 ∧ early_data_window env sess ticket_agel then 1 else s.ext.early_data_ok)
      ∧ (¬ (s.max_early_data > 0 ∧ s.options &&& SSL_OP_NO_ANTI_REPLAY = 0
            ∧ (SSL_CTX_remove_session s.session_ctx sess).1 = 0) →
          ∃ s1 : SSL_CONNECTION,
            psk_ticket_session env id s ext sess ticket_agel = PSK_OBTAIN.sess s1 ext sess)
      ∧ (id ≠ 0 → ∀ (s1 : SSL_CONNECTION) (ext1 : Nat) (sess1 : SSL_SESSION),
          psk_ticket_session env id s ext sess ticket_agel = PSK_OBTAIN.sess s1 ext1 sess1 →
          s1.ext.early_data_ok = s.ext.early_data_ok)
      ∧ (∀ (s0 : SSL_CONNECTION) (ext0 : Nat) (identity : PACKET) (s2 : SSL_CONNECTION)
          (ext2 : Nat) (sess2 : SSL_SESSION) (md : EVP_MD),
          psk_obtain env id s0 ext0 identity ticket_agel
            = psk_ticket_session env id s ext sess ticket_agel →
          psk_identity env id s0 ext0 identity ticket_agel
            = some (PSK_STEP.found s2 ext2 sess2 md) →
          s2.ext.early_data_ok
            = if id = 0 ∧ early_data_window env sess ticket_agel then 1
              else s.ext.early_data_ok) := by
  refine ⟨fun s1 ext1 sess1 h =>
      (psk_ticket_session_early_data env id s ext sess ticket_agel hage hadd hnow s1 ext1 sess1
        h).1,
    fun hrep => ?_, fun hid s1 ext1 sess1 h => ?_,
    fun s0 ext0 identity s2 ext2 sess2 md hob hfound => ?_⟩
  · unfold psk_ticket_session
    rw [if_neg hrep]
    simp only []
    split <;> exact ⟨_, rfl⟩
  · rw [(psk_ticket_session_early_data env id s ext sess ticket_agel hage hadd hnow s1 ext1
      sess1 h).1, if_neg (by intro hc; exact hid hc.1)]
  · have hs := (psk_identity_found env id s0 ext0 identity ticket_agel s2 ext2 sess2 md
      hfound).1
    rw [hob] at hs
    exact (psk_ticket_session_early_data env id s ext sess ticket_agel hage hadd hnow s2 ext2
      sess2 hs).1

/-- Witness for C28: a ticket at index 0 whose client age of 100.5 seconds is
half a second above the 100 seconds that the server sees. -/
theorem C28_witness :
    (100500 : Nat) < 2 ^ 32 ∧ demo_sess_sha256.ext.tick_age_add < 2 ^ 32
      ∧ demo_psk_env.ossl_time_now + 1000000000 < 2 ^ 64
      ∧ early_data_window demo_psk_env demo_sess_sha256 100500
      ∧ psk_ticket_session demo_psk_env 0 demo_conn_psk 0 demo_sess_sha256 100500
          = PSK_OBTAIN.sess
              { demo_conn_psk with ext := { demo_conn_psk.ext with early_data_ok := 1 } }
              0 demo_sess_sha256
      ∧ ({ demo_conn_psk with ext := { demo_conn_psk.ext with early_data_ok := 1 } }
            : SSL_CONNECTION).ext.early_data_ok
          = if 0 = 0 ∧ early_data_window demo_psk_env demo_sess_sha256 100500 then 1
            else demo_conn_psk.ext.early_data_ok := by
  have h : psk_ticket_session demo_psk_env 0 demo_conn_psk 0 demo_sess_sha256 100500
      = PSK_OBTAIN.sess
          { demo_conn_psk with ext := { demo_conn_psk.ext with early_data_ok := 1 } }
          0 demo_sess_sha256 := by decide
  exact ⟨by decide, by decide, by decide, by decide, h,
    (C28_early_data_window demo_psk_env 0 demo_conn_psk 0 demo_sess_sha256 100500 (by decide)
      (by decide) (by decide)).1 _ _ _ h⟩

/-- Claim C29, binder selection and length. Let the identity loop break at the
identity of index i, with a session whose cipher digest has a positive output
length, and let the rest of the body hold a 2-byte length-prefixed list of
1-byte length-prefixed binders. Then tls_parse_ctos_psk fails with
decode_error if the list holds fewer than i + 1 binders, and if the binder of
index i has another length than the digest's output; otherwise it hands
exactly the binder of index i to the binder check, and it fails with the
alert of that check if the check fails and installs the session with
tick_identity = i if it succeeds. Whenever the parser does not succeed, the
session of the connection and tick_identity are as before the call. -/
theorem C29_binder_selection (env : PskEnv) (s : SSL_CONNECTION) (identities : List Nat)
    (bs : List (List Nat)) (trailing : List Nat) (pkt_offset i : Nat) (s2 : SSL_CONNECTION)
    (ext : Nat) (sess : SSL_SESSION) (md : EVP_MD)
    (hmode : s.ext.psk_kex_mode &&& (TLSEXT_KEX_MODE_FLAG_KE ||| TLSEXT_KEX_MODE_FLAG_KE_DHE) ≠ 0)
    (hl : identities.length < 65536) (hb : ∀ b ∈ bs, b.length < 256)
    (hbl : (psk_binders_wire bs).length < 65536) (hsize : 0 < md.size)
    (hsel : psk_loop env identities.length 0 identities
      { s with ext := { s.ext with ticket_expected := 0 } } 0
      = some (PSK_EXIT.selected i s2 ext sess md)) :
    (∃ cipher : SSL_CIPHER, sess.cipher = some cipher ∧ env.ssl_md cipher.algorithm2 = some md)
      ∧ (bs.length ≤ i →
          tls_parse_ctos_psk env s
              (psk_body identities (psk_binders_block (psk_binders_wire bs) ++ trailing))
              pkt_offset
            = some (0, SSLfatal s2 Alert.SSL_AD_DECODE_ERROR Reason.SSL_R_BAD_EXTENSION))
      ∧ (∀ binder : List Nat, bs[i]? = some binder → (binder.length : Int) ≠ md.size →
          tls_parse_ctos_psk env s
              (psk_body identities (psk_binders_block (psk_binders_wire bs) ++ trailing))
              pkt_offset
            = some (0, SSLfatal s2 Alert.SSL_AD_DECODE_ERROR Reason.SSL_R_BAD_EXTENSION))
      ∧ (∀ (binder : List Nat) (al : Alert) (reason : Reason), bs[i]? = some binder →
          (binder.length : Int) = md.size →
          env.tls_psk_do_binder s2 md (pkt_offset + (2 + identities.length)) binder sess ext
            = some (al, reason) →
          tls_parse_ctos_psk env s
              (psk_body identities (psk_binders_block (psk_binders_wire bs) ++ trailing))
              pkt_offset
            = some (0, SSLfatal s2 al reason))
      ∧ (∀ binder : List Nat, bs[i]? = some binder → (binder.length : Int) = md.size →
          env.tls_psk_do_binder s2 md (pkt_offset + (2 + identities.length)) binder sess ext
            = none →
          tls_parse_ctos_psk env s
              (psk_body identities (psk_binders_block (psk_binders_wire bs) ++ trailing))
              pkt_offset
            = some (1, { s2 with ext := { s2.ext with tick_identity := i }, session := sess }))
      ∧ (∀ (rest : List Nat) (r : RET),
          tls_parse_ctos_psk env s (psk_body identities rest) pkt_offset = some r → r.1 ≠ 1 →
          r.1 = 0 ∧ r.2.session = s.session ∧ r.2.ext.tick_identity = s.ext.tick_identity) := by
  have hexit := fun rest => (tls_parse_ctos_psk_exit env s identities rest pkt_offset _ hmode hl
    hsel).2.2 i s2 ext sess md rfl
  have hframe : psk_frame s s2 := psk_loop_frame env _ _ _ _ _ _ hsel
  refine ⟨psk_loop_selected_md env _ _ _ _ _ i s2 ext sess md hsel, fun hi => ?_,
    fun binder hbi hne => ?_, fun binder al reason hbi heq hbind => ?_,
    fun binder hbi heq hbind => ?_, fun rest r hr hne => ?_⟩
  · rw [hexit, psk_binders_missing env s2 bs trailing _ i ext sess md hb hbl hsize hi]
  · rw [hexit, psk_binders_length env s2 bs trailing _ i ext sess md binder hb hbl hsize hbi hne]
  · rw [hexit, psk_binders_rejected env s2 bs trailing _ i ext sess md binder al reason hb hbl
      hsize hbi heq hbind]
  · rw [hexit, psk_binders_verified env s2 bs trailing _ i ext sess md binder hb hbl hsize hbi
      heq hbind]
  · rw [hexit] at hr
    simp only [Option.some.injEq] at hr
    rw [← hr] at hne ⊢
    obtain ⟨h0, hf⟩ := psk_binders_fail_frame env s2 rest _ i ext sess md hne
    exact ⟨h0, hf.1.trans hframe.1, hf.2.trans hframe.2⟩

/-- Witness for C29: the second of two identities is selected and the second
of two binders, of 32 bytes, is the one that is verified. -/
theorem C29_witness :
    psk_loop demo_psk_env (psk_identities_wire demo_psk_identities).length 0
        (psk_identities_wire demo_psk_identities)
        { demo_conn_psk with ext := { demo_conn_psk.ext with ticket_expected := 0 } } 0
        = some (PSK_EXIT.selected 1 demo_conn_psk 0 demo_sess_sha256 { name := 1, size := 32 })
      ∧ demo_psk_binders[1]? = some (List.replicate 32 0xBB)
      ∧ tls_parse_ctos_psk demo_psk_env demo_conn_psk
          (psk_body (psk_identities_wire demo_psk_identities)
            (psk_binders_block (psk_binders_wire demo_psk_binders) ++ [])) 200
        = some (1, { demo_conn_psk with
                      ext := { demo_conn_psk.ext with tick_identity := 1 },
                      session := demo_sess_sha256 }) := by
  have hsel : psk_loop demo_psk_env (psk_identities_wire demo_psk_identities).length 0
      (psk_identities_wire demo_psk_identities)
      { demo_conn_psk with ext := { demo_conn_psk.ext with ticket_expected := 0 } } 0
      = some (PSK_EXIT.selected 1 demo_conn_psk 0 demo_sess_sha256 { name := 1, size := 32 }) := by
    decide
  exact ⟨hsel, by decide,
    (C29_binder_selection demo_psk_env demo_conn_psk (psk_identities_wire demo_psk_identities)
      demo_psk_binders [] 200 1 demo_conn_psk 0 demo_sess_sha256 { name := 1, size := 32 }
      (by decide) (by decide) (by decide) (by decide) (by decide) hsel).2.2.2.2.1
      (List.replicate 32 0xBB) (by decide) (by decide) (by decide)⟩

/-- Counterexample for C30. In scenario B the client sends one x25519 share
whose key, the single byte 09, does not decode. tls_parse_ctos_key_share
fails with illegal_parameter, and afterwards group_id and the kex_group of the
session are x25519 and peer_tmp holds the x25519 parameters, while before the
call they were 0, 0 and NULL. -/
theorem C30_counterexample :
    tls_parse_ctos_key_share demo_env scenario_B (key_share_extension [⟨0x001D, [9]⟩])
        = some (0, SSLfatal
            { scenario_B with
                s3 := { group_id := 0x001D, group_id_candidate := 0x001D,
                        peer_tmp := some { group_id := 0x001D, encoded_pub_key := none } },
                session := { kex_group := 0x001D } }
            Alert.SSL_AD_ILLEGAL_PARAMETER Reason.SSL_R_BAD_ECPOINT)
      ∧ scenario_B.s3.group_id = 0 ∧ scenario_B.session.kex_group = 0
      ∧ scenario_B.s3.peer_tmp = none := by
  decide

/-- Claim C30 as amended, the state after a failed key_share. Whenever
tls_parse_ctos_key_share does not succeed it returns 0, and group_id, the
kex_group cached in the session and peer_tmp have the values they had before
the call, unless the failure was raised by tls_accept_ksgroup for the share it
was accepting: then group_id, group_id_candidate and kex_group hold the group
of that share, and peer_tmp is NULL if the parameters of the group could not
be generated (internal_error) and holds the parameters without a key if the
client's public key failed to decode (illegal_parameter). -/
theorem C30_key_share_failure_state (env : Env) (s : SSL_CONNECTION) (pkt : PACKET) (r : RET)
    (h : tls_parse_ctos_key_share env s pkt = some r) (hne : r.1 ≠ 1) :
    r.1 = 0
      ∧ ((r.2.s3.group_id = s.s3.group_id ∧ r.2.session.kex_group = s.session.kex_group
            ∧ r.2.s3.peer_tmp = s.s3.peer_tmp)
        ∨ ∃ (g : Nat) (key : List Nat),
            r.2.s3.group_id = g ∧ r.2.s3.group_id_candidate = g ∧ r.2.session.kex_group = g
            ∧ ((env.ssl_generate_param_group g = false ∧ r.2.s3.peer_tmp = none
                  ∧ r.2.fatal = some (Alert.SSL_AD_INTERNAL_ERROR,
                                      Reason.SSL_R_UNABLE_TO_FIND_ECDH_PARAMETERS))
              ∨ (env.ssl_generate_param_group g = true
                  ∧ env.tls13_set_encoded_pub_key g key = false
                  ∧ r.2.s3.peer_tmp = some { group_id := g, encoded_pub_key := none }
                  ∧ r.2.fatal = some (Alert.SSL_AD_ILLEGAL_PARAMETER,
                                      Reason.SSL_R_BAD_ECPOINT)))) :=
  tls_parse_ctos_key_share_fail env s pkt r h hne

/-- Witness for C30: in scenario B a share for secp384r1, a group that the
client did not list, is refused and the three fields stay 0, 0 and NULL. -/
theorem C30_witness :
    tls_parse_ctos_key_share demo_env scenario_B
        (key_share_extension [⟨0x0018, List.replicate 97 4⟩])
        = some (0, SSLfatal scenario_B Alert.SSL_AD_ILLEGAL_PARAMETER Reason.SSL_R_BAD_KEY_SHARE)
      ∧ (SSLfatal scenario_B Alert.SSL_AD_ILLEGAL_PARAMETER
            Reason.SSL_R_BAD_KEY_SHARE).s3.group_id = scenario_B.s3.group_id
      ∧ ((0 : Nat), SSLfatal scenario_B Alert.SSL_AD_ILLEGAL_PARAMETER
            Reason.SSL_R_BAD_KEY_SHARE).1 = 0 := by
  have h : tls_parse_ctos_key_share demo_env scenario_B
      (key_share_extension [⟨0x0018, List.replicate 97 4⟩])
      = some (0, SSLfatal scenario_B Alert.SSL_AD_ILLEGAL_PARAMETER Reason.SSL_R_BAD_KEY_SHARE) := by
    decide
  exact ⟨h, rfl, (C30_key_share_failure_state demo_env scenario_B _ _ h (by decide)).1⟩

/-! ## The claims on refinement, acceptance and the remaining invariants -/

/-- Claim C31, check_overlap refines the overlap helper of the specification.
For a priority list A of nonzero group ids and a candidate list B of at most
65535 entries (the loop counter of check_overlap is 16 bits wide),
check_overlap returns, and its selected_group is 0 exactly when no element of
B that passes the policy predicates occurs in A, which is exactly when the
helper returns nothing. Otherwise the helper returns the triple
(prio_group_idx, candidate_group_idx, selected_group) of check_overlap;
selected_group is the element of A at index prio_group_idx, it occurs in B and
passes the policy predicates, no element of A at a smaller index does both,
and candidate_group_idx is the smallest index of B that holds
selected_group. -/
theorem C31_check_overlap_refines_helper (env : Env) (A B : List Nat)
    (hB : B.length ≤ 65535) (hA : ∀ g ∈ A, g ≠ 0) :
    ∃ o, check_overlap env A B = some o
      ∧ (o.selected_group = 0 ↔ ¬ ∃ b ∈ B, passes_policy env b = true ∧ b ∈ A)
      ∧ (o.selected_group = 0 ↔ overlap_helper env A B = none)
      ∧ (o.selected_group ≠ 0 →
          overlap_helper env A B
              = some (o.prio_group_idx, o.candidate_group_idx, o.selected_group)
          ∧ A[o.prio_group_idx]? = some o.selected_group
          ∧ o.selected_group ∈ B ∧ passes_policy env o.selected_group = true
          ∧ (∀ j a, j < o.prio_group_idx → A[j]? = some a →
              ¬ (a ∈ B ∧ passes_policy env a = true))
          ∧ B[o.candidate_group_idx]? = some o.selected_group
          ∧ (∀ j, j < o.candidate_group_idx → B[j]? ≠ some o.selected_group)) := by
  rcases check_overlap_cases env A B hB with ⟨hno, heq⟩ | ⟨g, hg, heq⟩
  · have hnone : overlap_helper env A B = none :=
      overlap_helper_from_none env B A 0 (fun g hgA h => hno ⟨g, hgA, h.1, h.2⟩)
    refine ⟨_, heq, ?_, ?_, ?_⟩
    · simp only [true_iff]
      rintro ⟨b, hb, hp, hbA⟩
      exact hno ⟨b, hbA, hb, hp⟩
    · simp [hnone]
    · intro h; exact absurd rfl h
  · have hsome := overlap_helper_from_lowest env B g A 0 hg
    rw [Nat.zero_add] at hsome
    have hg0 : g ≠ 0 := hA g hg.1
    refine ⟨_, heq, ?_, ?_, ?_⟩
    · simp only [hg0, false_iff, not_not]
      exact ⟨g, hg.2.1, hg.2.2.1, hg.1⟩
    · simp only [hg0, false_iff]
      unfold overlap_helper
      rw [hsome]; simp
    · intro _
      refine ⟨hsome, getElem?_indexOf_of_mem A g hg.1, hg.2.1, hg.2.2.1, ?_,
        getElem?_indexOf_of_mem B g hg.2.1, ?_⟩
      · intro j a hj haj hsat
        have h1 := hg.2.2.2 a (mem_of_getElem?_eq A a j haj) hsat.1 hsat.2
        have h2 := indexOf_le_of_getElem? A a j haj
        simp only at hj
        omega
      · intro j hj hbj
        have h2 := indexOf_le_of_getElem? B g j hbj
        simp only at hj
        omega

/-- Witness for C31: the priority list [secp384r1, secp256r1, x25519] against
the candidates [x25519, secp256r1, secp256r1]. The overlap with the smallest
index in the priority list is secp256r1, at index 1 of both lists. -/
theorem C31_witness :
    check_overlap demo_env [0x0018, 0x0017, 0x001D] [0x001D, 0x0017, 0x0017]
        = some ⟨1, 1, 1, 0x0017⟩
      ∧ overlap_helper demo_env [0x0018, 0x0017, 0x001D] [0x001D, 0x0017, 0x0017]
        = some (1, 1, 0x0017) := by
  obtain ⟨o, ho, _, _, h4⟩ := C31_check_overlap_refines_helper demo_env
    [0x0018, 0x0017, 0x001D] [0x001D, 0x0017, 0x0017] (by decide) (by decide)
  have h : check_overlap demo_env [0x0018, 0x0017, 0x001D] [0x001D, 0x0017, 0x0017]
      = some ⟨1, 1, 1, 0x0017⟩ := by decide
  rw [h] at ho
  have ho1 := (Option.some.inj ho).symm
  subst ho1
  exact ⟨h, (h4 (by decide)).1⟩

/-- Claim C32, phase C accept. When tls_accept_ksgroup for the group g and the
encoded key succeeds, it returns 1, group_id, group_id_candidate and the
session's kex_group are g, peer_tmp holds the key for group g, and the
group-specific decoder has accepted the key. When the parameters of the group
can be created and the decoder rejects the key, it returns 0 with the fatal
alert illegal_parameter (SSL_R_BAD_ECPOINT). When the parameters of the group
cannot be created it returns 0 with the fatal alert internal_error. -/
theorem C32_accept_ksgroup (env : Env) (s : SSL_CONNECTION) (g : Nat) (key : PACKET) :
    ((tls_accept_ksgroup env s g key).1 ≠ 0 →
        (tls_accept_ksgroup env s g key).1 = 1
        ∧ (tls_accept_ksgroup env s g key).2.s3.group_id = g
        ∧ (tls_accept_ksgroup env s g key).2.s3.group_id_candidate = g
        ∧ (tls_accept_ksgroup env s g key).2.session.kex_group = g
        ∧ (tls_accept_ksgroup env s g key).2.s3.peer_tmp
            = some { group_id := g, encoded_pub_key := some key }
        ∧ (tls_accept_ksgroup env s g key).2.fatal = s.fatal
        ∧ env.ssl_generate_param_group g = true
        ∧ env.tls13_set_encoded_pub_key g key = true)
      ∧ (env.ssl_generate_param_group g = true → env.tls13_set_encoded_pub_key g key = false →
          (tls_accept_ksgroup env s g key).1 = 0
          ∧ (tls_accept_ksgroup env s g key).2.fatal
              = some (Alert.SSL_AD_ILLEGAL_PARAMETER, Reason.SSL_R_BAD_ECPOINT))
      ∧ (env.ssl_generate_param_group g = false →
          (tls_accept_ksgroup env s g key).1 = 0
          ∧ (tls_accept_ksgroup env s g key).2.fatal
              = some (Alert.SSL_AD_INTERNAL_ERROR,
                  Reason.SSL_R_UNABLE_TO_FIND_ECDH_PARAMETERS))
      ∧ (env.ssl_generate_param_group g = true → env.tls13_set_encoded_pub_key g key = true →
          (tls_accept_ksgroup env s g key).1 = 1) := by
  unfold tls_accept_ksgroup
  cases hgen : env.ssl_generate_param_group g <;>
    cases hdec : env.tls13_set_encoded_pub_key g key <;> simp [SSLfatal]

/-- Witness for C32: in demo_env the three-byte key is accepted for x25519 and
the one-byte key is rejected by the decoder. -/
theorem C32_witness :
    ((tls_accept_ksgroup demo_env {} 0x001D [1, 2, 3]).1 = 1
        ∧ (tls_accept_ksgroup demo_env {} 0x001D [1, 2, 3]).2.s3.group_id = 0x001D
        ∧ (tls_accept_ksgroup demo_env {} 0x001D [1, 2, 3]).2.s3.peer_tmp
            = some { group_id := 0x001D, encoded_pub_key := some [1, 2, 3] })
      ∧ (tls_accept_ksgroup demo_env {} 0x001D [9]).1 = 0
      ∧ (tls_accept_ksgroup demo_env {} 0x001D [9]).2.fatal
          = some (Alert.SSL_AD_ILLEGAL_PARAMETER, Reason.SSL_R_BAD_ECPOINT) := by
  have h1 := (C32_accept_ksgroup demo_env {} 0x001D [1, 2, 3]).1 (by decide)
  have h2 := (C32_accept_ksgroup demo_env {} 0x001D [9]).2.1 (by decide) (by decide)
  exact ⟨⟨h1.1, h1.2.1, h1.2.2.2.2.1⟩, h2.1, h2.2⟩

/-- Claim C33, evaluated on the code: tls_parse_ctos_status_request replaces
the stored responder ids in every case but the stored request extensions only
when the message carries some. On a connection that keeps a responder id and
request extensions from an earlier handshake, the body 01 00 00 00 00 (type
ocsp, no responder ids, no request extensions) is accepted; afterwards no
responder ids are stored, and the request extensions of the earlier handshake
are still stored. In general, on a non-resumed handshake and a well-formed
body of type ocsp whose fields decode, the parser returns success, the stored
responder ids are those of the message (none for an empty list) whatever was
stored before, and the stored request extensions are those of the message if
it has any and the previously stored ones if it has none. With any other
status type the parser returns success and sets the status type to
"nothing". -/
theorem C33_status_request_keeps_prior_exts :
    tls_parse_ctos_status_request demo_ocsp_env demo_conn_ocsp_prior
        (status_request_body [] []) none
      = some (1, { demo_conn_ocsp_prior with
            ext := { demo_conn_ocsp_prior.ext with
                      status_type := 1, ocsp := { ids := none, exts := some ⟨[9]⟩ } } })
    ∧ status_request_body [] [] = [1, 0, 0, 0, 0]
    ∧ (∀ (env : OcspEnv) (s : SSL_CONNECTION) (ids : List (List Nat × OCSP_RESPID))
        (exts : List Nat) (xd : X509_EXTENSIONS),
        s.hit = false →
        (∀ p ∈ ids, p.1 ≠ [] ∧ p.1.length < 65536
          ∧ env.d2i_OCSP_RESPID p.1 = some (p.2, p.1.length)) →
        (responder_ids_wire (ids.map Prod.fst)).length < 65536 →
        exts.length < 65536 →
        (ids ≠ [] → env.sk_OCSP_RESPID_new_null = true) →
        (∀ a r, env.sk_OCSP_RESPID_push a r = true) →
        (exts ≠ [] → env.d2i_X509_EXTENSIONS exts = some (xd, exts.length)) →
        tls_parse_ctos_status_request env s (status_request_body (ids.map Prod.fst) exts) none
          = some (1, { s with ext := { s.ext with
                status_type := 1,
                ocsp := { ids := if ids = [] then none else some (ids.map Prod.snd),
                          exts := if exts = [] then s.ext.ocsp.exts else some xd } } }))
    ∧ (∀ (env : OcspEnv) (s : SSL_CONNECTION) (status_type : Nat) (rest : List Nat),
        s.hit = false → status_type ≠ 1 →
        tls_parse_ctos_status_request env s (status_type :: rest) none
          = some (1, { s with ext := { s.ext with
                status_type := TLSEXT_STATUSTYPE_nothing } })) := by
  refine ⟨by decide, by decide, ?_, ?_⟩
  · intro env s ids exts xd hhit hall hwl hel hnew hpush hx
    exact tls_parse_ctos_status_request_ocsp env s ids exts xd hhit hall hwl hel hnew hpush hx
  · intro env s status_type rest hhit ht
    exact tls_parse_ctos_status_request_other env s status_type rest hhit ht

/-- Claim C34, counterexample. Anti-replay is on and the cache holds the
SHA-384 session while the negotiated cipher uses SHA-256. The identity that
names this session is passed over, the parser returns success without a
session, and the session is gone from the cache. -/
theorem C34_counterexample :
    demo_conn_psk_replay.max_early_data > 0
      ∧ demo_conn_psk_replay.options &&& SSL_OP_NO_ANTI_REPLAY = 0
      ∧ lookup_sess_in_cache demo_conn_psk_replay (List.replicate 32 0xA1)
          = some demo_sess_sha384
      ∧ demo_psk_env.ssl_md 2 = some { name := 2, size := 48 }
      ∧ demo_psk_env.ssl_md 1 = some { name := 1, size := 32 }
      ∧ tls_parse_ctos_psk demo_psk_env demo_conn_psk_replay
          (psk_body (psk_identities_wire [(List.replicate 32 0xA1, 0)]) []) 200
        = some (1, { demo_conn_psk_replay with session_ctx := { sessions := [] } }) := by
  refine ⟨by decide, by decide, by decide, by decide, by decide, ?_⟩
  exact tls_parse_ctos_psk_skipped demo_psk_env demo_conn_psk_replay
    [(List.replicate 32 0xA1, 0)] [] 200 _ 0 (by decide) (by decide) (by decide) (by decide)

/-- Claim C34 as amended, the anti-replay removal precedes the cipher-hash
check. Let anti-replay be active, let the identities before the last one be
passed over, and let the last identity be a ticket (no callback supplies a
session) that names a session in the cache whose cipher digest differs from
the digest of the negotiated cipher. Then SSL_CTX_remove_session has taken the
session out of the cache (it returned 1), the identity is discarded at the
compatibility step, tls_parse_ctos_psk returns success with the session of the
connection unchanged, and the cache no longer holds the session. -/
theorem C34_replay_removal_precedes_hash_check (env : PskEnv) (s : SSL_CONNECTION)
    (pre : List (List Nat × Nat)) (e : List Nat × Nat) (rest : List Nat) (pkt_offset : Nat)
    (s0 : SSL_CONNECTION) (ext0 : Nat) (sess : SSL_SESSION) (cipher new_cipher : SSL_CIPHER)
    (md : EVP_MD)
    (hmode : s.ext.psk_kex_mode &&& (TLSEXT_KEX_MODE_FLAG_KE ||| TLSEXT_KEX_MODE_FLAG_KE_DHE) ≠ 0)
    (hv : ∀ x ∈ pre ++ [e], x.1.length < 65536 ∧ x.2 < 2 ^ 32)
    (hl : (psk_identities_wire (pre ++ [e])).length < 65536)
    (hpre : psk_after env 0 pre { s with ext := { s.ext with ticket_expected := 0 } } 0
      = some (s0, ext0))
    (h1 : psk_find_session env s0 e.1 = PSK_LOOKUP.sess none)
    (h2 : psk_server_session env s0 e.1 = PSK_LOOKUP.sess none)
    (hearly : s0.max_early_data > 0) (hreplay : s0.options &&& SSL_OP_NO_ANTI_REPLAY = 0)
    (hlen : e.1.length = SSL_MAX_SSL_SESSION_ID_LENGTH)
    (hlook : lookup_sess_in_cache s0 e.1 = some sess)
    (hc : sess.cipher = some cipher) (hmd : env.ssl_md cipher.algorithm2 = some md)
    (hnc : s0.s3.tmp.new_cipher = some new_cipher)
    (hdiff : EVP_MD_is_a md (EVP_MD_get0_name (env.ssl_md new_cipher.algorithm2)) = false) :
    ∃ s1 : SSL_CONNECTION,
      s1 = { s0 with ext := { s0.ext with early_data_ok := 0, ticket_expected := 0 },
                     session_ctx := (SSL_CTX_remove_session s0.session_ctx sess).2 }
      ∧ (SSL_CTX_remove_session s0.session_ctx sess).1 = 1
      ∧ psk_identity env pre.length s0 ext0 e.1 e.2 = some (PSK_STEP.skip s1 ext0)
      ∧ tls_parse_ctos_psk env s (psk_body (psk_identities_wire (pre ++ [e])) rest) pkt_offset
          = some (1, s1)
      ∧ lookup_sess_in_cache s1 e.1 = none
      ∧ s1.session = s.session := by
  have hl0 : e.1.length ≠ 0 := by rw [hlen]; decide
  obtain ⟨hone, _, hgone⟩ := SSL_CTX_remove_session_of_lookup s0 e.1 sess hl0 hlook
  have hstep := psk_identity_replay_mismatch env pre.length s0 ext0 e.1 e.2 sess cipher
    new_cipher md h1 h2 hearly hreplay hlen hlook hc hmd hnc hdiff
  refine ⟨_, rfl, hone, hstep, ?_, hgone, ?_⟩
  · refine tls_parse_ctos_psk_skipped env s (pre ++ [e]) rest pkt_offset _ ext0 hmode hv hl ?_
    refine psk_after_snoc env pre e 0 _ 0 s0 ext0 _ ext0 hpre ?_
    rw [Nat.zero_add]
    exact hstep
  · exact (psk_after_frame env pre 0 _ 0 s0 ext0 hpre).1

/-- Witness for C34: the connection and the identity of the counterexample. -/
theorem C34_witness :
    (SSL_CTX_remove_session demo_conn_psk_replay.session_ctx demo_sess_sha384).1 = 1
      ∧ tls_parse_ctos_psk demo_psk_env demo_conn_psk_replay
          (psk_body (psk_identities_wire [(List.replicate 32 0xA1, 0)]) []) 200
        = some (1, { demo_conn_psk_replay with session_ctx := { sessions := [] } })
      ∧ lookup_sess_in_cache
          { demo_conn_psk_replay with session_ctx := { sessions := [] } }
          (List.replicate 32 0xA1) = none := by
  obtain ⟨s1, hs1, hone, _, hparse, hgone, _⟩ :=
    C34_replay_removal_precedes_hash_check demo_psk_env demo_conn_psk_replay []
      (List.replicate 32 0xA1, 0) [] 200 demo_conn_psk_replay 0 demo_sess_sha384
      { id := 0x1302, algorithm2 := 2 } { id := 0x1301, algorithm2 := 1 }
      { name := 2, size := 48 }
      (by decide) (by decide) (by decide) rfl (by decide) (by decide) (by decide) (by decide)
      (by decide) (by decide) rfl (by decide) rfl (by decide)
  have hs : s1 = { demo_conn_psk_replay with session_ctx := { sessions := [] } } := by
    rw [hs1]; decide
  subst hs
  exact ⟨hone, hparse, hgone⟩

/-- Claim C35, the accepted public key belongs to the accepted group. Let the
body be the encoding of a well-formed key_share list. On a first ClientHello
(group_id = 0 at entry), in both preference modes, whenever the parser leaves
group_id set, its result is the result of tls_accept_ksgroup for that group
with the key_exchange bytes of the first share of the list whose group is that
group. After a HelloRetryRequest (group_id set at entry, key exchange not
excluded by PSK-only resumption) a successful result is the result of
tls_accept_ksgroup for group_id with the key_exchange bytes of the first share
of the list whose group is group_id. -/
theorem C35_accepted_key_belongs_to_group (env : Env) (s : SSL_CONNECTION)
    (es : List KeyShareEntry) (r : RET)
    (hwf : ∀ e ∈ es, e.wf) (hlen : (encode_key_shares es).length < 65536)
    (hres : tls_parse_ctos_key_share env s (key_share_extension es) = some r) :
    (s.s3.group_id = 0 → r.2.s3.group_id ≠ 0 →
      ∃ e, es.find? (fun e => e.group = r.2.s3.group_id) = some e
        ∧ r = tls_accept_ksgroup env { s with s3 := { s.s3 with group_id_candidate := 0 } }
                r.2.s3.group_id e.key_exchange)
    ∧ (s.s3.group_id ≠ 0 →
        ¬ (s.hit = true ∧ s.ext.psk_kex_mode &&& TLSEXT_KEX_MODE_FLAG_KE_DHE = 0) → r.1 = 1 →
      ∃ e, es.find? (fun e => e.group = s.s3.group_id) = some e
        ∧ r = tls_accept_ksgroup env { s with s3 := { s.s3 with group_id_candidate := 0 } }
                s.s3.group_id e.key_exchange) := by
  refine ⟨fun hgid hacc => ?_, fun hgid hdhe hok => ?_⟩
  · rw [tls_parse_ctos_key_share_encoded env s es hgid hwf hlen] at hres
    split at hres
    · rw [← Option.some.inj hres] at hacc; exact absurd hgid hacc
    split at hres
    · rw [← Option.some.inj hres] at hacc; exact absurd hgid hacc
    split at hres
    · rw [← Option.some.inj hres] at hacc; exact absurd hgid hacc
    split at hres
    · obtain ⟨g, hgK, hr⟩ := tuple_loop_accept_inv env _ _ _
        { s with s3 := { s.s3 with group_id_candidate := 0 } } hgid _ _ r hres hacc
      obtain ⟨e, he, hk⟩ := kept_key_first_share env s.ext.supportedgroups g es hgK
      have hg : r.2.s3.group_id = g := by
        rw [hr]; exact (tls_accept_ksgroup_fields env _ g _).1
      rw [hg]
      rw [hk] at hr
      exact ⟨e, he, hr⟩
    · rw [← Option.some.inj hres] at hacc; exact absurd hgid hacc
  · rcases tls_parse_ctos_key_share_hrr env s (key_share_extension es) hgid hdhe with
      ⟨st, h0⟩ | ⟨ksl, g, l1, key, h1, h2, h3, _, hg, h4⟩
    · rw [h0] at hres
      rw [← Option.some.inj hres] at hok
      exact absurd hok (by simp)
    · unfold key_share_extension at h1
      rw [PACKET_as_length_prefixed_2_put_value _ hlen] at h1
      have hksl := (Option.some.inj h1).symm
      subst hksl
      cases es with
      | nil => simp [encode_key_shares, PACKET_get_net_2] at h2
      | cons e rest =>
        obtain ⟨hw1, _, hw3⟩ := hwf e (List.mem_cons_self _ _)
        rw [encode_key_shares, KeyShareEntry.encode, List.append_assoc, List.append_assoc,
          PACKET_get_net_2_put_value _ _ hw1] at h2
        have h2a := Option.some.inj h2
        simp only [Prod.mk.injEq] at h2a
        obtain ⟨hge, hl1⟩ := h2a
        rw [← hl1, PACKET_get_length_prefixed_2_put_value _ _ hw3] at h3
        have h3a := Option.some.inj h3
        simp only [Prod.mk.injEq] at h3a
        rw [h4] at hres
        refine ⟨e, ?_, ?_⟩
        · simp [List.find?_cons, hge, hg]
        · rw [h3a.1]; exact (Option.some.inj hres).symm

/-- Witness for C35: the client repeats x25519 with a second key. Under
client preference x25519 is accepted with the key of the first x25519 share,
01 02 03, not with 09 09 09. -/
theorem C35_witness :
    tls_parse_ctos_key_share demo_env demo_conn_client_pref
        (key_share_extension demo_shares_repeated)
      = some (tls_accept_ksgroup demo_env demo_conn_client_pref 0x001D [1, 2, 3])
    ∧ demo_shares_repeated.find? (fun e => e.group = 0x001D) = some ⟨0x001D, [1, 2, 3]⟩
    ∧ (tls_accept_ksgroup demo_env demo_conn_client_pref 0x001D [1, 2, 3]).2.s3.peer_tmp
        = some { group_id := 0x001D, encoded_pub_key := some [1, 2, 3] } := by
  have hres : tls_parse_ctos_key_share demo_env demo_conn_client_pref
      (key_share_extension demo_shares_repeated)
      = some (tls_accept_ksgroup demo_env demo_conn_client_pref 0x001D [1, 2, 3]) := by decide
  obtain ⟨e, he, _⟩ := (C35_accepted_key_belongs_to_group demo_env demo_conn_client_pref
    demo_shares_repeated _ (by decide) (by decide) hres).1 (by decide) (by decide)
  exact ⟨hres, by decide, by decide⟩

/-- Claim C36, counterexample. The client sends an empty key_share list and no
supported_groups extension. All groups of the list are in the client's
supported_groups and no server tuple holds a group of the client's
supported_groups, vacuously; the parser fails with missing_extension. -/
theorem C36_counterexample :
    demo_conn_no_groups.s3.group_id = 0 ∧ demo_conn_no_groups.s3.peer_tmp = none
      ∧ (∀ e ∈ ([] : List KeyShareEntry),
          e.wf ∧ e.group ∈ demo_conn_no_groups.ext.peer_supportedgroups)
      ∧ (∀ U ∈ group_tuples demo_conn_no_groups.ext.supportedgroups
            demo_conn_no_groups.ext.tuples,
          ¬ HasOverlap demo_env U demo_conn_no_groups.ext.peer_supportedgroups)
      ∧ tls_parse_ctos_key_share demo_env demo_conn_no_groups (key_share_extension [])
          = some (0, SSLfatal demo_conn_no_groups Alert.SSL_AD_MISSING_EXTENSION
                      Reason.SSL_R_MISSING_SUPPORTED_GROUPS_EXTENSION) := by
  refine ⟨rfl, rfl, by simp, by decide, by decide⟩

/-- Claim C36 as amended, no overlap is not a parse failure. With group_id = 0
and no peer key at entry, a client's supported_groups list that is not empty,
and a well-formed key_share list whose groups are all in that list, if no
server tuple contains a policy-passing group from the client's
supported_groups, tls_parse_ctos_key_share returns success with group_id = 0,
group_id_candidate = 0 and no peer key. The two group lists have at most 65535
entries (the loop counter of check_overlap is 16 bits wide). In every call
group_id_candidate is first reset to 0: the result does not depend on its
value at entry, and the early return for PSK-only resumption returns the
connection with group_id_candidate = 0 whatever the body is. -/
theorem C36_no_overlap_is_success (env : Env) (s : SSL_CONNECTION) (es : List KeyShareEntry)
    (hgid : s.s3.group_id = 0) (hpeer : s.s3.peer_tmp = none)
    (hclnt : s.ext.peer_supportedgroups ≠ [])
    (hwf : ∀ e ∈ es, e.wf) (hlen : (encode_key_shares es).length < 65536)
    (hin : ∀ e ∈ es, e.group ∈ s.ext.peer_supportedgroups)
    (hclen : s.ext.peer_supportedgroups.length ≤ 65535)
    (hslen : s.ext.supportedgroups.length ≤ 65535)
    (hno : ∀ U ∈ group_tuples s.ext.supportedgroups s.ext.tuples,
      ¬ HasOverlap env U s.ext.peer_supportedgroups) :
    (∃ r, tls_parse_ctos_key_share env s (key_share_extension es) = some r
      ∧ r = (1, { s with s3 := { s.s3 with group_id_candidate := 0 } })
      ∧ r.2.s3.group_id = 0 ∧ r.2.s3.group_id_candidate = 0 ∧ r.2.s3.peer_tmp = none)
    ∧ (∀ (t : SSL_CONNECTION) (pkt : PACKET) (c : Nat),
        tls_parse_ctos_key_share env { t with s3 := { t.s3 with group_id_candidate := c } } pkt
          = tls_parse_ctos_key_share env t pkt)
    ∧ (∀ (t : SSL_CONNECTION) (pkt : PACKET),
        t.hit = true → t.ext.psk_kex_mode &&& TLSEXT_KEX_MODE_FLAG_KE_DHE = 0 →
        tls_parse_ctos_key_share env t pkt
          = some (1, { t with s3 := { t.s3 with group_id_candidate := 0 } })) := by
  refine ⟨⟨_, ?_, rfl, hgid, rfl, hpeer⟩, fun t pkt c => rfl, fun t pkt h1 h2 => ?_⟩
  · by_cases hdhe : s.hit = true ∧ s.ext.psk_kex_mode &&& TLSEXT_KEX_MODE_FLAG_KE_DHE = 0
    · rw [tls_parse_ctos_key_share_encoded env s es hgid hwf hlen, if_pos hdhe]
    rw [tls_parse_ctos_key_share_select env s es hgid hdhe hpeer hwf hlen hin hclnt]
    refine tuple_loop_no_overlap env _ _ _ _ (kept_length_le env s.ext.supportedgroups es hlen)
      hclen _ _ hslen (fun U hU => ⟨fun hov => ?_, hno U hU⟩)
    obtain ⟨g, hgU, hgK, hgP⟩ := hov
    obtain ⟨e, he, hge⟩ := List.mem_map.mp hgK
    exact hno U hU ⟨g, hgU, hge ▸ hin e (List.mem_of_mem_filter he), hgP⟩
  · unfold tls_parse_ctos_key_share
    simp only []
    rw [if_pos ⟨h1, h2⟩]

/-- Witness for C36: the server only has secp384r1, the client only supports
x25519 and sends a share for it. The parser returns success with nothing
selected. -/
theorem C36_witness :
    tls_parse_ctos_key_share demo_env demo_conn_disjoint
        (key_share_extension [⟨0x001D, [1, 2, 3]⟩])
      = some (1, demo_conn_disjoint) := by
  obtain ⟨⟨r, hr, hr1, _⟩, _⟩ := C36_no_overlap_is_success demo_env demo_conn_disjoint
    [⟨0x001D, [1, 2, 3]⟩] rfl rfl (by decide) (by decide) (by decide) (by decide) (by decide)
    (by decide) (by decide)
  rw [hr, hr1]
  rfl

/-- Claim C37, early_data_ok implies the first identity. If early_data_ok is
clear when tls_parse_ctos_psk is entered and the parser returns success with
early_data_ok set, then the identity loop has stopped at the identity of index
0, the session of that identity is the session of the connection, and
tick_identity is 0. -/
theorem C37_early_data_ok_first_identity (env : PskEnv) (s s1 : SSL_CONNECTION) (pkt : PACKET)
    (pkt_offset : Nat) (h0 : s.ext.early_data_ok = 0)
    (h : tls_parse_ctos_psk env s pkt pkt_offset = some (1, s1))
    (hok : s1.ext.early_data_ok ≠ 0) :
    s1.ext.tick_identity = 0
      ∧ psk_selected_index env s pkt = some 0
      ∧ ∃ identities pkt1 s2 ext sess md,
          PACKET_get_length_prefixed_2 pkt = some (identities, pkt1)
          ∧ psk_loop env (PACKET_remaining identities) 0 identities
              { s with ext := { s.ext with ticket_expected := 0 } } 0
            = some (PSK_EXIT.selected 0 s2 ext sess md)
          ∧ s1.session = sess
          ∧ s1 = { s2 with ext := { s2.ext with tick_identity := 0 }, session := sess } := by
  rcases tls_parse_ctos_psk_success_inv env s s1 pkt pkt_offset h with
    ⟨_, hs⟩ | ⟨hmode, identities, pkt1, hp, hloop | ⟨id, s2, ext, sess, md, hloop, hs⟩⟩
  · rw [hs] at hok; exact absurd h0 hok
  · have := (psk_loop_early env _ _ _ _ _ _ hloop h0).1 s1 rfl
    exact absurd this hok
  · have hk := (psk_loop_early env _ _ _ _ _ _ hloop h0).2 id s2 ext sess md rfl
    have hid : id = 0 := by
      rcases hk with hk | hk
      · rw [hs] at hok; exact absurd hk hok
      · exact hk
    subst hid
    refine ⟨by rw [hs], ?_, identities, pkt1, s2, ext, sess, md, hp, hloop, by rw [hs], hs⟩
    unfold psk_selected_index
    rw [if_neg hmode, hp]
    simp only []
    rw [hloop]

/-- Witness for C37: the ticket of the SHA-256 session, 100 seconds old by the
client's and by the server's clock, is offered first; the parser installs the
session as identity 0 and sets early_data_ok. -/
theorem C37_witness :
    demo_conn_psk.ext.early_data_ok = 0
      ∧ tls_parse_ctos_psk demo_psk_env demo_conn_psk demo_psk_body_early 200
          = some (1, demo_conn_psk_early)
      ∧ demo_conn_psk_early.ext.early_data_ok = 1
      ∧ demo_conn_psk_early.ext.tick_identity = 0
      ∧ psk_selected_index demo_psk_env demo_conn_psk demo_psk_body_early = some 0 := by
  have h : tls_parse_ctos_psk demo_psk_env demo_conn_psk demo_psk_body_early 200
      = some (1, demo_conn_psk_early) := by decide
  obtain ⟨h1, h2, _⟩ := C37_early_data_ok_first_identity demo_psk_env demo_conn_psk
    demo_conn_psk_early demo_psk_body_early 200 rfl h (by decide)
  exact ⟨rfl, h, rfl, h1, h2⟩

/-- Claim C38, the reconstructed HelloRetryRequest always fits its buffer. Let
tls_construct_stoc_cookie return SENT, with an HMAC of SHA256_DIGEST_LENGTH
bytes as HMAC-SHA-256 yields. The cookie it has emitted is at most 371 bytes
long (a transcript hash of at most 64 bytes, an application cookie of at most
255 bytes). For every connection with a legacy session id of at most 32 bytes
(and a cipher id, version and group that fit their 16-bit fields) every write
of the rebuild in tls_parse_ctos_cookie succeeds: the rebuilt message, with
the supported_versions, the key_share (if the flag is set) and the cookie
extension, has 56 bytes plus the session id, 6 bytes for key_share and the
cookie, at most 465 bytes, which is below MAX_HRR_SIZE. -/
theorem C38_reconstructed_hrr_fits (env : Env) (s s1 : SSL_CONNECTION) (pkt pkt1 : WPACKET)
    (t : SSL_CONNECTION) (c : SSL_CIPHER) (key_share : Nat)
    (hsent : tls_construct_stoc_cookie env s pkt = (EXT_RETURN.EXT_RETURN_SENT, s1, pkt1))
    (hsha : ∀ d m, env.EVP_DigestSign s.ext.cookie_hmac_key d = some m
      → m.length = SHA256_DIGEST_LENGTH)
    (hsid : t.tmp_session_id.length ≤ SSL_MAX_SSL_SESSION_ID_LENGTH)
    (hc : t.s3.tmp.new_cipher = some c) (hcid : c.id < 65536)
    (hver : t.version < 65536) (hgid : t.s3.group_id < 65536) :
    ∃ sub ps cookie hrr,
      pkt.subs = sub :: ps
      ∧ pkt1 = ⟨{ sub with body := sub.body
            ++ (put_value TLSEXT_TYPE_cookie 2 ++ cookie_extension (cookie_extension cookie)) }
          :: ps, pkt.maxsize⟩
      ∧ cookie.length ≤ 20 + EVP_MAX_MD_SIZE + 255 + SHA256_DIGEST_LENGTH
      ∧ reconstruct_hrr t key_share cookie = some hrr
      ∧ hrr = handshake_message SSL3_MT_SERVER_HELLO
          (hrr_body t.tmp_session_id c.id
            (hrr_extensions t.version t.s3.group_id key_share cookie))
      ∧ hrr.length
          = 56 + t.tmp_session_id.length + (if key_share ≠ 0 then 6 else 0) + cookie.length
      ∧ hrr.length ≤ 465
      ∧ hrr.length ≤ MAX_HRR_SIZE := by
  obtain ⟨sub, ps, c0, gen_cb, chhash, appcookie, hmac, hsubs, _, _, _, _, _, happ, _, hch,
    hsign, _, hpkt1⟩ := tls_construct_stoc_cookie_sent env s s1 pkt pkt1 hsent
  have hmaclen := hsha _ _ hsign
  have hE : EVP_MAX_MD_SIZE = 64 := rfl
  have hS : SHA256_DIGEST_LENGTH = 32 := rfl
  have hI : SSL_MAX_SSL_SESSION_ID_LENGTH = 32 := rfl
  have hM : MAX_HRR_SIZE = 4300 := by decide
  rw [hE] at hch
  rw [hS] at hmaclen
  rw [hI] at hsid
  have hlen : (cookie_plaintext s.s3.group_id (put_value c0.id 2)
      (if s.s3.peer_tmp = none then 1 else 0) (env.time % 2 ^ 64) chhash appcookie
        ++ hmac).length ≤ 371 := by
    rw [List.length_append, cookie_plaintext_length, put_value_length, hmaclen]
    omega
  have hk : (if key_share ≠ 0 then 6 else 0) ≤ 6 := by split <;> omega
  have hrl := reconstructed_hrr_length t.tmp_session_id c.id t.version t.s3.group_id key_share
    (cookie_plaintext s.s3.group_id (put_value c0.id 2)
      (if s.s3.peer_tmp = none then 1 else 0) (env.time % 2 ^ 64) chhash appcookie ++ hmac)
  refine ⟨sub, ps, _, _, hsubs, hpkt1, by rw [hE, hS]; exact hlen,
    reconstruct_hrr_eq t c key_share _ hc hcid hver hgid (by omega) (by rw [hM]; omega),
    rfl, hrl, by rw [hrl]; omega, by rw [hrl, hM]; omega⟩

/-- Witness for C38: the cookie that demo_env writes for demo_conn_hrr, and
the rebuild on demo_conn_cookie with the key_share flag set. -/
theorem C38_witness :
    ∃ sub ps cookie hrr,
      demo_writer_ks.subs = sub :: ps
      ∧ demo_writer_hrr = ⟨{ sub with body := sub.body
            ++ (put_value TLSEXT_TYPE_cookie 2 ++ cookie_extension (cookie_extension cookie)) }
          :: ps, demo_writer_ks.maxsize⟩
      ∧ cookie.length ≤ 20 + EVP_MAX_MD_SIZE + 255 + SHA256_DIGEST_LENGTH
      ∧ reconstruct_hrr demo_conn_cookie 1 cookie = some hrr
      ∧ hrr = handshake_message SSL3_MT_SERVER_HELLO
          (hrr_body demo_conn_cookie.tmp_session_id 0x1301
            (hrr_extensions demo_conn_cookie.version demo_conn_cookie.s3.group_id 1 cookie))
      ∧ hrr.length
          = 56 + demo_conn_cookie.tmp_session_id.length + (if 1 ≠ 0 then 6 else 0)
              + cookie.length
      ∧ hrr.length ≤ 465
      ∧ hrr.length ≤ MAX_HRR_SIZE :=
  C38_reconstructed_hrr_fits demo_env demo_conn_hrr demo_conn_hrr demo_writer_ks
    demo_writer_hrr demo_conn_cookie { id := 0x1301 } 1 (by decide)
    (fun d m h => by
      simp only [demo_env, Option.some.injEq] at h
      rw [← h]
      exact List.length_replicate _ _)
    (by decide) rfl (by decide) (by decide) (by decide)

/-- Claim C39, evaluated on the code: the two calls of WPACKET_close at the end
of tls_construct_stoc_supported_groups are not guarded. On a server that has
accepted a key share for x25519 while no group of its list is valid, at the
start of the extension block of EncryptedExtensions, the function writes
nothing, closes the extension block and the message body, which its caller
opened, and returns SENT. In general, with group_id set and a non-empty group
list of which no group is valid and allowed, the result is SENT whenever the
writer it is given has two sub-packets that close. The rest of the claim
holds: the function returns NOT_SENT when group_id = 0 and when the first
valid and allowed server group is group_id; otherwise, with some valid and
allowed server group and room in the writer, it returns SENT after appending
the extension type and, under the two length prefixes, exactly the valid and
allowed server groups in server order, and the sub-packets of the caller stay
open. -/
theorem C39_supported_groups_unguarded_close :
    tls_construct_stoc_supported_groups demo_env_no_valid_group demo_conn_sg demo_writer_ee
      = (EXT_RETURN.EXT_RETURN_SENT, demo_conn_sg, ⟨[⟨0, [8, 0, 0, 2, 0, 0]⟩], 20000⟩)
    ∧ sendable_groups demo_env_no_valid_group demo_conn_sg = []
    ∧ (∀ (env : Env) (s : SSL_CONNECTION) (pkt p6 p7 : WPACKET),
        s.s3.group_id ≠ 0 → s.ext.supportedgroups ≠ [] → sendable_groups env s = [] →
        WPACKET_close pkt = some p6 → WPACKET_close p6 = some p7 →
        tls_construct_stoc_supported_groups env s pkt = (EXT_RETURN.EXT_RETURN_SENT, s, p7))
    ∧ (∀ (env : Env) (s : SSL_CONNECTION) (pkt : WPACKET),
        s.s3.group_id = 0 →
        tls_construct_stoc_supported_groups env s pkt = (EXT_RETURN.EXT_RETURN_NOT_SENT, s, pkt))
    ∧ (∀ (env : Env) (s : SSL_CONNECTION) (pkt : WPACKET) (rest : List Nat),
        s.s3.group_id ≠ 0 → sendable_groups env s = s.s3.group_id :: rest →
        tls_construct_stoc_supported_groups env s pkt = (EXT_RETURN.EXT_RETURN_NOT_SENT, s, pkt))
    ∧ (∀ (env : Env) (s : SSL_CONNECTION) (sub : WPACKET_SUB) (ps : List WPACKET_SUB)
        (M g : Nat) (rest : List Nat),
        s.s3.group_id ≠ 0 → sendable_groups env s = g :: rest → g ≠ s.s3.group_id →
        (∀ x ∈ sendable_groups env s, x < 65536) →
        WPACKET.written ⟨sub :: ps, M⟩ + 6 + 2 * (sendable_groups env s).length ≤ M →
        2 + 2 * (sendable_groups env s).length < 65536 →
        tls_construct_stoc_supported_groups env s ⟨sub :: ps, M⟩
          = (EXT_RETURN.EXT_RETURN_SENT, s,
              ⟨{ sub with body := sub.body
                            ++ extension_wire TLSEXT_TYPE_supported_groups
                                (supported_groups_body (sendable_groups env s)) } :: ps,
                M⟩)) := by
  refine ⟨by decide, by decide, ?_, ?_, ?_, ?_⟩
  · intro env s pkt p6 p7 hgid hne hnone h6 h7
    exact tls_construct_stoc_supported_groups_none env s pkt p6 p7 hgid hne hnone h6 h7
  · intro env s pkt hgid
    unfold tls_construct_stoc_supported_groups
    rw [if_pos hgid]
  · intro env s pkt rest hgid hsend
    exact tls_construct_stoc_supported_groups_preferred env s pkt rest hgid hsend
  · intro env s sub ps M g rest hgid hsend hg hfit hroom hlen
    exact tls_construct_stoc_supported_groups_sent env s sub ps M g rest hgid hsend hg hfit
      hroom hlen

/-- Claim C40, tick_identity fits the wire field. Let tls_parse_ctos_psk
succeed on an extension body of at most 65535 bytes. Either the identity loop
has selected no identity and tick_identity is what it was, or it has stopped
at an index i, tick_identity is i, i is at most 10921 (each identity before
and including the selected one takes at least six bytes of the identities
block) and so below 2^16, reading back the u16 encoding of i gives i, and
tls_construct_stoc_psk on the resumed connection appends the extension with
exactly these two bytes. -/
theorem C40_tick_identity_fits (env : PskEnv) (s s1 : SSL_CONNECTION) (pkt : PACKET)
    (pkt_offset : Nat) (hlen : pkt.length ≤ 65535)
    (h : tls_parse_ctos_psk env s pkt pkt_offset = some (1, s1)) :
    (psk_selected_index env s pkt = none ∧ s1.ext.tick_identity = s.ext.tick_identity)
      ∨ ∃ i, psk_selected_index env s pkt = some i
          ∧ s1.ext.tick_identity = i
          ∧ i ≤ 10921 ∧ i < 2 ^ 16
          ∧ PACKET_get_net_2 (put_value i 2) = some (i, [])
          ∧ ∀ sub ps M, WPACKET.written ⟨sub :: ps, M⟩ + 6 ≤ M →
              tls_construct_stoc_psk { s1 with hit := true } ⟨sub :: ps, M⟩
                = (EXT_RETURN.EXT_RETURN_SENT, { s1 with hit := true },
                    ⟨{ sub with body := sub.body
                          ++ extension_wire TLSEXT_TYPE_psk (put_value i 2) } :: ps, M⟩) := by
  rcases tls_parse_ctos_psk_success_inv env s s1 pkt pkt_offset h with
    ⟨hmode, hs⟩ | ⟨hmode, identities, pkt1, hp, hloop | ⟨id, s2, ext, sess, md, hloop, hs⟩⟩
  · left
    refine ⟨?_, by rw [hs]⟩
    unfold psk_selected_index
    rw [if_pos hmode]
  · left
    refine ⟨?_, (psk_loop_frame env _ _ _ _ _ _ hloop).2⟩
    unfold psk_selected_index
    rw [if_neg hmode, hp]
    simp only []
    rw [hloop]
  · right
    have hb := (psk_loop_index_bound env _ _ _ _ _ _ _ _ _ _ hloop).2
    have hl := PACKET_get_length_prefixed_2_length pkt identities pkt1 hp
    have hid : id ≤ 10921 := by omega
    have hid2 : id < 65536 := by omega
    have hti : ({ s1 with hit := true } : SSL_CONNECTION).ext.tick_identity = id := by rw [hs]
    refine ⟨id, ?_, by rw [hs], hid, by omega, ?_, fun sub ps M hroom => ?_⟩
    · unfold psk_selected_index
      rw [if_neg hmode, hp]
      simp only []
      rw [hloop]
    · have := PACKET_get_net_2_put_value id [] hid2
      simpa using this
    · rw [tls_construct_stoc_psk_sent { s1 with hit := true } sub ps M rfl
        (by rw [hti]; exact hid2) hroom, hti]

/-- Witness for C40: of two tickets the second is selected; tick_identity is 1
and the ServerHello extension carries 00 01. -/
theorem C40_witness :
    demo_psk_body.length ≤ 65535
      ∧ tls_parse_ctos_psk demo_psk_env demo_conn_psk demo_psk_body 200
          = some (1, demo_conn_psk_resumed)
      ∧ psk_selected_index demo_psk_env demo_conn_psk demo_psk_body = some 1
      ∧ demo_conn_psk_resumed.ext.tick_identity = 1
      ∧ PACKET_get_net_2 (put_value 1 2) = some (1, []) := by
  have hl : demo_psk_body.length ≤ 65535 := by decide
  have h : tls_parse_ctos_psk demo_psk_env demo_conn_psk demo_psk_body 200
      = some (1, demo_conn_psk_resumed) := by decide
  rcases C40_tick_identity_fits demo_psk_env demo_conn_psk demo_conn_psk_resumed
    demo_psk_body 200 hl h with ⟨_, hti⟩ | ⟨i, hsel, hti, _, _, hnet, _⟩
  · exact absurd hti (by decide)
  · have hi : i = 1 := by rw [← hti]; rfl
    subst hi
    exact ⟨hl, h, hsel, rfl, hnet⟩
